import Mathlib

/-!
# BaikalDB region core: a shallow embedding of `src/store/region.cpp`

The region state machine is embedded as pure functions on an explicit `Region`
record.  Collaborators that the region core only calls (the plan executor, the
KV transaction handle, the consensus node, the meta writer) are represented by
oracles collected in `Env`; every call that leaves the region is also appended
to the `effects` journal of the region, so that statements of the form
"nothing is executed" or "nothing is proposed" can be read off the journal.

Row counters and log indexes are `int64_t` in the source; they are embedded as
mathematical integers (no wrap-around is modelled for them).
-/

namespace BaikalDB

/-- Byte strings used as region range keys (`std::string` compared bytewise). -/
abbrev Key := List Nat

/-- Operation kinds of `pb::OpType` that the region core dispatches on. -/
inductive OpType
  | OP_SELECT | OP_INSERT | OP_DELETE | OP_UPDATE | OP_KILL | OP_BEGIN
  | OP_PREPARE | OP_PREPARE_V2 | OP_COMMIT | OP_ROLLBACK | OP_TRUNCATE_TABLE
  | OP_NONE | OP_KV_BATCH | OP_KV_BATCH_SPLIT | OP_START_SPLIT
  | OP_START_SPLIT_FOR_TAIL | OP_VALIDATE_AND_ADD_VERSION
  | OP_ADD_VERSION_FOR_SPLIT_REGION | OP_ADJUSTKEY_AND_ADD_VERSION | OP_ADD_PEER
  | OP_PUT_KV | OP_DELETE_KV
  deriving DecidableEq, Repr, Inhabited

/-- Wire error codes of `pb::ErrCode`; `SUCCESS` is the protobuf default. -/
inductive ErrCode
  | SUCCESS | NOT_LEADER | VERSION_OLD | TXN_FOLLOW_UP | DISABLE_WRITE_TIMEOUT
  | SPLIT_TIMEOUT | EXEC_FAIL | PARSE_FROM_PB_FAIL | PARSE_TO_PB_FAIL
  | INPUT_PARAM_ERROR | INTERNAL_ERROR | UNSUPPORT_REQ_TYPE | DDL_UNIQUE_KEY_FAIL
  deriving DecidableEq, Repr, Inhabited

/-- Region status gate of `pb::RegionStatus`. -/
inductive RegionStatus
  | IDLE | DOING
  deriving DecidableEq, Repr, Inhabited

/-- Index kinds of `pb::IndexType` consulted while replaying split KV batches. -/
inductive IndexType
  | I_NONE | I_PRIMARY | I_UNIQ | I_KEY | I_FULLTEXT | I_RECOMMEND
  deriving DecidableEq, Repr, Inhabited

/-- The region descriptor `pb::RegionInfo` (fields read or written by the region core). -/
structure RegionInfo where
  region_id : Int := 0
  table_id : Int := 0
  version : Int := 0
  conf_version : Int := 0
  start_key : Key := []
  end_key : Key := []
  peers : List String := []
  leader : String := ""
  status : RegionStatus := RegionStatus.IDLE
  used_size : Int := 0
  log_index : Int := 0
  can_add_peer : Option Bool := none
  parent : Int := 0
  num_table_lines : Int := 0
  deriving DecidableEq, Repr, Inhabited

/-- An opaque physical plan (`pb::Plan`): only the number of nodes is inspected. -/
structure Plan where
  nodes : List Nat := []
  deriving DecidableEq, Repr, Inhabited

/-- Number of plan nodes, `plan.nodes_size()`. -/
def Plan.nodes_size (p : Plan) : Nat := p.nodes.length

/-- One cached command of a transaction (`pb::CachePlan`). -/
structure CachePlan where
  op_type : OpType := OpType.OP_SELECT
  seq_id : Int := 0
  plan : Plan := {}
  tuples : List Nat := []
  deriving DecidableEq, Repr, Inhabited

/-- Transaction header of a request (`pb::TransactionInfo`). -/
structure TransactionInfo where
  txn_id : Nat := 0
  seq_id : Int := 0
  start_seq_id : Int := 0
  optimize_1pc : Bool := false
  autocommit : Bool := false
  need_rollback_seq : List Int := []
  cache_plans : List CachePlan := []
  num_rows : Int := 0
  deriving DecidableEq, Repr, Inhabited

/-- One raw KV mutation of a KV batch (`pb::KvOp`). -/
structure KvOp where
  op_type : OpType := OpType.OP_PUT_KV
  key : Key := []
  value : Key := []
  deriving DecidableEq, Repr, Inhabited

/-- The store request `pb::StoreReq`. -/
structure StoreReq where
  op_type : OpType := OpType.OP_SELECT
  region_id : Int := 0
  region_version : Int := 0
  plan : Plan := {}
  tuples : List Nat := []
  txn_infos : List TransactionInfo := []
  select_without_leader : Bool := false
  start_key : Option Key := none
  end_key : Key := []
  new_region_info : Option RegionInfo := none
  split_term : Int := 0
  split_end_index : Int := 0
  reduce_num_lines : Int := 0
  kv_ops : List KvOp := []
  num_increase_rows : Int := 0
  db_conn_id : Nat := 0
  deriving DecidableEq, Repr, Inhabited

/-- The store response `pb::StoreRes`; `none` is an unset optional field. -/
structure StoreRes where
  errcode : Option ErrCode := none
  errmsg : Option String := none
  mysql_errcode : Option Int := none
  leader : Option String := none
  affected_rows : Option Int := none
  row_values : List (List String) := []
  tuple_ids : List Nat := []
  regions : List RegionInfo := []
  is_merge : Option Bool := none
  last_seq_id : Option Int := none
  txn_infos : List TransactionInfo := []
  records : List (Int × List Key) := []
  deriving DecidableEq, Repr, Inhabited

/-- The value a cleared or fresh response has (`response->Clear()`). -/
def StoreRes.Clear : StoreRes := {}

/-- Reading the `errcode` field: an unset field reads as the enum default `SUCCESS`. -/
def StoreRes.get_errcode (res : StoreRes) : ErrCode := res.errcode.getD ErrCode.SUCCESS

/-- A live transaction handle of the pool (`Transaction`), as far as the region
core reads or writes it. -/
structure Transaction where
  seq_id : Int := 0
  rolledback : Bool := false
  num_increase_rows : Int := 0
  dml_num_affected_rows : Int := 0
  err_code : ErrCode := ErrCode.SUCCESS
  cache_plan_map : List CachePlan := []
  prepare_apply : Bool := false
  deriving DecidableEq, Repr, Inhabited

/-- Modelled from the spec: the transaction pool (`TransactionPool`, not part of
the sources at hand) "indexes live txns by txn_id within the region and
additionally tracks recently-finished txn ids and their affected-row counts". -/
structure TransactionPool where
  txns : List (Nat × Transaction) := []
  finished : List (Nat × Int) := []
  deriving DecidableEq, Repr, Inhabited

/-- Modelled from the spec: `TransactionPool::get_txn`, the live transaction
registered under `txn_id`, `none` standing for `nullptr`. -/
def TransactionPool.get_txn (pool : TransactionPool) (txn_id : Nat) : Option Transaction :=
  pool.txns.lookup txn_id

/-- Modelled from the spec: `TransactionPool::get_finished_txn_affected_rows`,
the affected-row count recorded for a finished transaction, `-1` when none is
recorded (the sentinel the caller tests for). -/
def TransactionPool.get_finished_txn_affected_rows (pool : TransactionPool) (txn_id : Nat) : Int :=
  (pool.finished.lookup txn_id).getD (-1)

/-- Writing through a `SmartTransaction` pointer: the object registered under
`txn_id` is updated in place; a pointer whose object has left the pool writes
to a detached object that nobody reads again. -/
def TransactionPool.modify (pool : TransactionPool) (txn_id : Nat)
    (f : Transaction → Transaction) : TransactionPool :=
  { pool with txns := pool.txns.map (fun kv => if kv.1 = txn_id then (kv.1, f kv.2) else kv) }

/-- Calls that leave the region core, in the order they are made. -/
inductive Effect
  | rollback_to_point (txn_id : Nat) (seq : Int)
  | set_save_point (txn_id : Nat)
  | open_plan (op : OpType) (seq_id : Int) (plan : Plan)
  | raft_apply (req : StoreReq)
  | write_pre_commit (txn_id : Nat) (num_table_lines : Int) (applied_index : Int)
  | write_meta_after_commit (num_table_lines : Int) (applied_index : Int) (txn_id : Nat)
  | write_meta_before_prepared (applied_index : Int) (txn_id : Nat)
  | update_apply_index (applied_index : Int)
  | meta_put_applied_index (applied_index : Int)
  | meta_put_region_info (info : RegionInfo)
  | meta_put_num_table_lines (n : Int)
  | txn_put_meta_info (applied_index : Int) (num_table_lines : Int)
  | txn_commit
  | txn_rollback
  | remove_txn (txn_id : Nat)
  | kv_get_for_update (key : Key)
  | kv_put (key : Key) (value : Key)
  | kv_delete (key : Key)
  | compact_data_in_queue
  | start_thread_to_remove_region (region_id : Int)
  | get_snapshot
  | kv_apply_raft
  | sleep
  | set_failed
  | send_request_for_leader (addr : String) (req : StoreReq)
  | disable_write_increase
  | reset_allow_write
  | rocksdb_put (key : Key) (value : Key)
  | node_snapshot
  deriving DecidableEq, Repr

/-- What running one opaque plan tree against a fresh `RuntimeState` yields:
the return codes of `RuntimeState::init`, `ExecNode::create_tree` and
`root->open`, the state fields read back afterwards, and the transaction pool
as the plan leaves it (a BEGIN plan registers a transaction, a COMMIT or
ROLLBACK plan removes it). -/
structure RunResult where
  init_ret : Int := 0
  create_tree_ret : Int := 0
  open_ret : Int := 0
  error_code : Int := 0
  num_increase_rows : Int := 0
  encode_ret : Int := 0
  return_records : List (Int × List Key) := []
  get_next_ret : Int := 0
  rows : List (List String) := []
  tuple_ids : List Nat := []
  pool : TransactionPool := {}
  deriving Repr, Inhabited

/-- Split bookkeeping of the parent region (`_split_param`). -/
structure SplitParam where
  split_start_index : Int := 0
  split_end_index : Int := 0
  split_term : Int := 0
  split_key : Key := []
  new_region_id : Int := 0
  split_slow_down : Bool := false
  prepared_txn : List TransactionInfo := []
  deriving DecidableEq, Repr, Inhabited

/-- The completion closure attached to a log entry on the leader: the response
of a `DMLClosure`, the `ret` of a `SplitClosure`, and for a `Dml1pcClosure`
whether it carries the leader's transaction and its `is_fail` flag. -/
structure Closure where
  response : StoreRes := {}
  ret : Int := 0
  has_txn : Bool := false
  is_fail : Bool := false
  deriving DecidableEq, Repr, Inhabited

/-- The in-memory state of one region replica (`class Region`). -/
structure Region where
  region_id : Int := 0
  region_info : RegionInfo := {}
  applied_index : Int := 0
  applied_index_lastcycle : Int := 0
  snapshot_index : Int := 0
  snapshot_num_table_lines : Int := 0
  snapshot_time_cost : Int := 0
  average_cost : Int := 0
  num_table_lines : Int := 0
  num_delete_lines : Int := 0
  new_region_infos : List RegionInfo := []
  merge_region_info : RegionInfo := {}
  is_leader : Bool := false
  shutdown : Bool := false
  init_success : Bool := true
  leader_addr : String := ""
  address : String := ""
  report_peer_info : Bool := false
  is_global_index : Bool := false
  storage_compute_separate : Bool := false
  legal_region : Bool := true
  status : RegionStatus := RegionStatus.IDLE
  txn_pool : TransactionPool := {}
  split_param : SplitParam := {}
  effects : List Effect := []
  deriving DecidableEq, Repr, Inhabited

/-- Collaborators of the region core that are not part of the sources at hand;
each field is the observable result of one kind of call. -/
structure Env where
  /-- Plan executor (`state.init`, `ExecNode::create_tree`, `root->open`), given
  the region as it stands at the call, the request, the operation, the plan and
  the sequence id handed to the runtime state. -/
  run : Region → StoreReq → OpType → Plan → Int → RunResult
  /-- The constant `ER_ERROR_FIRST`, the value of an unset `state.error_code`. -/
  er_error_first : Int
  /-- Effect of `Transaction::rollback_to_point(seq)` on the transaction object. -/
  rollback_to_point : Int → Transaction → Transaction
  /-- Effect of `Transaction::set_save_point()` on the transaction object. -/
  set_save_point : Transaction → Transaction
  /-- Effect of `TransactionPool::remove_txn(txn_id)`. -/
  remove_txn : Nat → TransactionPool → TransactionPool
  /-- Effect of `TransactionPool::on_leader_stop_rollback(txn_id)`. -/
  on_leader_stop_rollback : Nat → TransactionPool → TransactionPool
  /-- Effect of `TransactionPool::update_txn_num_rows_after_split`. -/
  update_txn_num_rows_after_split : TransactionInfo → TransactionPool → TransactionPool
  /-- Result of `TransactionPool::get_prepared_txn_info`. -/
  get_prepared_txn_info : TransactionPool → List TransactionInfo
  /-- Return code of `_disable_write_cond.timed_wait`. -/
  disable_write_wait_ret : Int
  /-- Whether `SerializeToZeroCopyStream` succeeds on a request. -/
  serialize_ok : StoreReq → Bool
  /-- Whether the KV transaction commit of the current call succeeds. -/
  commit_ok : Region → Bool
  /-- Return code of `Transaction::get_for_update` on a key. -/
  get_for_update_rc : Region → Key → Int
  /-- Return code of `Transaction::put_kv` on a key. -/
  put_kv_rc : Region → Key → Int
  /-- Return code of `Transaction::delete_kv` on a key. -/
  delete_kv_rc : Region → Key → Int
  /-- Return code of `MetaWriter::write_meta_before_prepared`. -/
  write_meta_before_prepared_ret : Int
  /-- Return code of `MetaWriter::write_batch`. -/
  write_batch_ret : Int
  /-- Index kind registered in the schema factory for an index id. -/
  get_index_type : Int → IndexType
  /-- Result of `Transaction::fits_region_range` for a secondary-index entry. -/
  fits_region_range : Key → Key → Key → Key → Int → Bool
  /-- Key under the iterator after `SeekForPrev`, `none` when it is not valid. -/
  seek_for_prev : Region → Key → Option Key
  /-- The eight bytes `MutTableKey::append_i64` writes for a value. -/
  encode_i64 : Int → Key
  /-- The value `TableKey::extract_i64` reads at a byte offset of a key. -/
  extract_i64 : Key → Nat → Int
  /-- The index id `KeyEncoder::decode_i64` reads from bytes 8 to 15 of a key. -/
  decode_index_id : Key → Int
  /-- The key after `MutTableKey::replace_i64(region_id, 0)`. -/
  replace_region_id : Int → Key → Key
  /-- Whether `GetSnapshot` returned a snapshot. -/
  snapshot_ok : Bool
  /-- The `is_fail` flag of the runtime state once the KV batch went through raft. -/
  kv_raft_fail : Region → Bool
  /-- Return code of `_real_writing_cond.timed_wait` while a merge starts. -/
  real_writing_wait_ret : Region → Int
  /-- Return code and response of `StoreInteract::send_request_for_leader` for a
  request sent to an instance, given the region as it stands at the call. -/
  send_request_for_leader : Region → String → StoreReq → Int × StoreRes
  /-- Whether `RocksWrapper::put` of a key outside any transaction succeeds. -/
  rocksdb_put_ok : Region → Key → Bool

/-- Appending one outgoing call to the journal. -/
@[simps]
def Region.emit (r : Region) (e : Effect) : Region := { r with effects := r.effects ++ [e] }

/-- Replacing the transaction pool of the region. -/
@[simps]
def Region.set_pool (r : Region) (pool : TransactionPool) : Region := { r with txn_pool := pool }

/-- Writing through a transaction handle held by the region core. -/
@[simps]
def Region.modify_txn (r : Region) (txn_id : Nat) (f : Transaction → Transaction) : Region :=
  { r with txn_pool := r.txn_pool.modify txn_id f }

/-- Assignment to `_num_table_lines`. -/
@[simps]
def Region.set_num_table_lines (r : Region) (n : Int) : Region := { r with num_table_lines := n }

/-- Assignment to `_num_delete_lines`. -/
@[simps]
def Region.set_num_delete_lines (r : Region) (n : Int) : Region := { r with num_delete_lines := n }

/-- `Region::compact_data_in_queue` (region.cpp 2776-2779): the count of deleted
lines is put back to 0 and the compaction of the region is queued. -/
@[simps]
def Region.compact_data_in_queue (r : Region) : Region :=
  { r with num_delete_lines := 0, effects := r.effects ++ [Effect.compact_data_in_queue] }

/-- Assignment to `_applied_index`. -/
@[simps]
def Region.set_applied_index (r : Region) (i : Int) : Region := { r with applied_index := i }

/-- Assignment to `_split_param`. -/
@[simps]
def Region.set_split_param (r : Region) (p : SplitParam) : Region := { r with split_param := p }

/-- Assignment to the status held by `_region_control`. -/
@[simps]
def Region.set_status (r : Region) (st : RegionStatus) : Region := { r with status := st }

/-- Assignment to `_merge_region_info`. -/
@[simps]
def Region.set_merge_region_info (r : Region) (info : RegionInfo) : Region :=
  { r with merge_region_info := info }

/-- `_new_region_infos.push_back(info)`. -/
@[simps]
def Region.push_new_region_info (r : Region) (info : RegionInfo) : Region :=
  { r with new_region_infos := r.new_region_infos ++ [info] }

/-- Assignment to `_report_peer_info`. -/
@[simps]
def Region.set_report_peer_info (r : Region) (b : Bool) : Region := { r with report_peer_info := b }

/-- Modelled from the spec: `Region::copy_region` (declared in `region.h`, not
part of the sources at hand) copies the region descriptor held by the region. -/
def Region.copy_region (r : Region) : RegionInfo := r.region_info

/-- Modelled from the spec: `Region::set_region` (declared in `region.h`)
replaces the region descriptor held by the region. -/
@[simps]
def Region.set_region (r : Region) (info : RegionInfo) : Region := { r with region_info := info }

/-- Modelled from the spec: `Region::set_region_with_update_range` (declared in
`region.h`) replaces the region descriptor and republishes the key range. -/
@[simps]
def Region.set_region_with_update_range (r : Region) (info : RegionInfo) : Region :=
  { r with region_info := info }

/-- The protobuf setter `set_version` of a region descriptor. -/
def RegionInfo.set_version (info : RegionInfo) (v : Int) : RegionInfo := { info with version := v }

/-- The protobuf setter `set_start_key` of a region descriptor. -/
def RegionInfo.set_start_key (info : RegionInfo) (k : Key) : RegionInfo :=
  { info with start_key := k }

/-- The protobuf setter `set_end_key` of a region descriptor. -/
def RegionInfo.set_end_key (info : RegionInfo) (k : Key) : RegionInfo := { info with end_key := k }

/-- The protobuf setter `set_leader` of a region descriptor. -/
def RegionInfo.set_leader (info : RegionInfo) (l : String) : RegionInfo := { info with leader := l }

/-- The protobuf setter `set_log_index` of a region descriptor. -/
def RegionInfo.set_log_index (info : RegionInfo) (i : Int) : RegionInfo :=
  { info with log_index := i }

/-- The protobuf setter `set_status` of a region descriptor. -/
def RegionInfo.set_status (info : RegionInfo) (st : RegionStatus) : RegionInfo :=
  { info with status := st }

/-- Replacing the peer list of a region descriptor (`clear_peers` then `add_peers`). -/
def RegionInfo.set_peers (info : RegionInfo) (ps : List String) : RegionInfo :=
  { info with peers := ps }

/-- The protobuf setter `set_errcode` of a response. -/
@[simps]
def StoreRes.set_errcode (res : StoreRes) (e : ErrCode) : StoreRes := { res with errcode := some e }

/-- The protobuf setter `set_errmsg` of a response. -/
@[simps]
def StoreRes.set_errmsg (res : StoreRes) (m : String) : StoreRes := { res with errmsg := some m }

/-- The protobuf setter `set_mysql_errcode` of a response. -/
@[simps]
def StoreRes.set_mysql_errcode (res : StoreRes) (c : Int) : StoreRes :=
  { res with mysql_errcode := some c }

/-- The protobuf setter `set_leader` of a response. -/
@[simps]
def StoreRes.set_leader (res : StoreRes) (l : String) : StoreRes := { res with leader := some l }

/-- The protobuf setter `set_affected_rows` of a response. -/
@[simps]
def StoreRes.set_affected_rows (res : StoreRes) (n : Int) : StoreRes :=
  { res with affected_rows := some n }

/-- The protobuf setter `set_is_merge` of a response. -/
@[simps]
def StoreRes.set_is_merge (res : StoreRes) (b : Bool) : StoreRes := { res with is_merge := some b }

/-- The protobuf setter `set_last_seq_id` of a response. -/
@[simps]
def StoreRes.set_last_seq_id (res : StoreRes) (n : Int) : StoreRes :=
  { res with last_seq_id := some n }

/-- Appending region descriptors, `response->add_regions()`. -/
@[simps]
def StoreRes.add_regions (res : StoreRes) (infos : List RegionInfo) : StoreRes :=
  { res with regions := res.regions ++ infos }

/-- Appending encoded records, `response.add_records()`. -/
@[simps]
def StoreRes.add_records (res : StoreRes) (recs : List (Int × List Key)) : StoreRes :=
  { res with records := res.records ++ recs }

/-- Appending tuple ids, `response.add_tuple_ids()`. -/
@[simps]
def StoreRes.add_tuple_ids (res : StoreRes) (ids : List Nat) : StoreRes :=
  { res with tuple_ids := res.tuple_ids ++ ids }

/-- Appending row values, `response.add_row_values()`. -/
@[simps]
def StoreRes.add_row_values (res : StoreRes) (rows : List (List String)) : StoreRes :=
  { res with row_values := res.row_values ++ rows }

/-- Replacing the transaction headers of a response (`clear_txn_infos` then `add_txn_infos`). -/
@[simps]
def StoreRes.set_txn_infos (res : StoreRes) (infos : List TransactionInfo) : StoreRes :=
  { res with txn_infos := infos }

/-- The setter `Transaction::set_seq_id`. -/
def Transaction.set_seq_id (seq_id : Int) (t : Transaction) : Transaction :=
  { t with seq_id := seq_id }

/-- Assignment to `txn->err_code`. -/
def Transaction.set_err_code (e : ErrCode) (t : Transaction) : Transaction :=
  { t with err_code := e }

/-- Assignment to `txn->dml_num_affected_rows`. -/
def Transaction.set_dml_num_affected_rows (n : Int) (t : Transaction) : Transaction :=
  { t with dml_num_affected_rows := n }

/-- The update `txn->num_increase_rows += n`. -/
def Transaction.add_num_increase_rows (n : Int) (t : Transaction) : Transaction :=
  { t with num_increase_rows := t.num_increase_rows + n }

/-- The setter `Transaction::set_prepare_apply`. -/
def Transaction.set_prepare_apply (t : Transaction) : Transaction := { t with prepare_apply := true }

/-- Writing a `StoreRes` into the response of a closure, when there is one. -/
def Closure.set_response (done : Option Closure) (f : StoreRes → StoreRes) : Option Closure :=
  done.map (fun c => { c with response := f c.response })

/-- Assignment to `((SplitClosure*)done)->ret`, when there is a closure. -/
def Closure.set_ret (done : Option Closure) (ret : Int) : Option Closure :=
  done.map (fun c => { c with ret := ret })

open OpType ErrCode in
/-- The response `Region::validate_version` builds for an outdated request
(region.cpp 279-313): VERSION_OLD, the descriptor of the region with the
current leader address, then the merge sibling of a merged-away region or the
split children recorded so far. -/
def Region.version_old_response (r : Region) : StoreRes :=
  let leader_str := r.leader_addr
  let res1 : StoreRes :=
    ((StoreRes.Clear.set_errcode VERSION_OLD).set_errmsg "region version too old").set_leader
      leader_str
  let res2 : StoreRes := res1.add_regions [r.copy_region.set_leader leader_str]
  if r.region_info.start_key ≠ [] ∧ r.region_info.start_key = r.region_info.end_key then
    if r.merge_region_info.start_key ≠ r.region_info.start_key then res2.set_is_merge true
    else (res2.set_is_merge true).add_regions [r.merge_region_info]
  else
    (res2.set_is_merge false).add_regions
      (r.new_region_infos.filter (fun x => decide (x.region_id ≠ 0 ∧ x.version ≠ 0)))

open OpType ErrCode in
/-- `Region::validate_version` (region.cpp 277-326).  The result is the returned
flag, the region (the transaction pool may have been told to roll a transaction
back) and the response.  `none` stands for the undefined read of
`request->txn_infos(0)` on a PREPARE request without a transaction header. -/
def Region.validate_version (env : Env) (r : Region) (request : StoreReq) (response : StoreRes) :
    Option (Bool × Region × StoreRes) :=
  if request.region_version < r.region_info.version then
    if request.op_type = OP_PREPARE ∨ request.op_type = OP_PREPARE_V2 then
      match request.txn_infos with
      | [] => none
      | txn_info :: _ =>
        some (false,
              r.set_pool (env.on_leader_stop_rollback txn_info.txn_id r.txn_pool),
              r.version_old_response.set_last_seq_id 0)
    else some (false, r, r.version_old_response)
  else some (true, r, response)

/-- `Region::on_configuration_committed(conf, index)` (region.cpp 2473-2495);
`peers` are the addresses listed by the committed configuration. -/
def Region.on_configuration_committed (r : Region) (peers : List String) (index : Int) : Region :=
  let r1 : Region := if r.applied_index < index then r.set_applied_index index else r
  let r2 : Region :=
    if peers.any (fun p => p == r1.address) then r1.set_report_peer_info true else r1
  r2.set_region ((r2.copy_region.set_peers peers).set_leader r2.leader_addr)

/-- Insertion into a `std::set<int>`, kept as its ascending list of distinct elements. -/
def set_insert (x : Int) : List Int → List Int
  | [] => [x]
  | y :: ys => if x < y then x :: y :: ys else if x = y then y :: ys else y :: set_insert x ys

/-- The `std::set<int> need_rollback_seq` filled from the request, in ascending order. -/
def need_rollback_set (l : List Int) : List Int := l.foldl (fun s x => set_insert x s) []

/-- One iteration of the savepoint loop of `dml_2pc`: `txn->rollback_to_point(seq)`. -/
def Region.rollback_to_point (env : Env) (txn_id : Nat) (r : Region) (seq : Int) : Region :=
  (r.modify_txn txn_id (env.rollback_to_point seq)).emit (Effect.rollback_to_point txn_id seq)

/-- The savepoint loop of `dml_2pc` (region.cpp 1051-1061): the set is walked from
`rbegin()` to `rend()`. -/
def Region.rollback_loop (env : Env) (txn_id : Nat) (r : Region) (need_rollback_seq : List Int) :
    Region :=
  need_rollback_seq.reverse.foldl (Region.rollback_to_point env txn_id) r

/-- Insertion into the `std::map<int, CachePlan>` of a transaction (ascending `seq_id`);
the caller has checked that the key is absent. -/
def cache_plan_insert (item : CachePlan) : List CachePlan → List CachePlan
  | [] => [item]
  | c :: cs => if item.seq_id < c.seq_id then item :: c :: cs else c :: cache_plan_insert item cs

/-- Caching a command in the plan map of the transaction unless its `seq_id` is
already a key (region.cpp 1200-1209). -/
def Transaction.cache_plan (item : CachePlan) (t : Transaction) : Transaction :=
  if t.cache_plan_map.any (fun c => c.seq_id = item.seq_id) then t
  else { t with cache_plan_map := cache_plan_insert item t.cache_plan_map }

/-- Whether `op_type` is one of INSERT, UPDATE, DELETE. -/
def OpType.is_dml (op : OpType) : Bool :=
  op = OpType.OP_INSERT || op = OpType.OP_UPDATE || op = OpType.OP_DELETE

/-- Whether `op_type` is COMMIT or ROLLBACK. -/
def OpType.is_commit_or_rollback (op : OpType) : Bool :=
  op = OpType.OP_COMMIT || op = OpType.OP_ROLLBACK

/-- Whether `op_type` is PREPARE or PREPARE_V2. -/
def OpType.is_prepare (op : OpType) : Bool :=
  op = OpType.OP_PREPARE || op = OpType.OP_PREPARE_V2

/-- The response written when `root->open` fails (region.cpp 1145-1154, 1362-1368). -/
def open_fail_response (env : Env) (run : RunResult) (response : StoreRes) (errmsg : String) :
    StoreRes :=
  if run.error_code ≠ env.er_error_first then
    ((response.set_errcode ErrCode.EXEC_FAIL).set_mysql_errcode run.error_code).set_errmsg
      "state.error_msg"
  else (response.set_errcode ErrCode.EXEC_FAIL).set_errmsg errmsg

/-- The answer "not leader, maybe transfer leader" of the DML paths. -/
def Region.maybe_transfer_leader (r : Region) (response : StoreRes) : StoreRes :=
  ((response.set_errcode ErrCode.NOT_LEADER).set_leader r.leader_addr).set_errmsg
    "not leader, maybe transfer leader"

open OpType ErrCode in
/-- The tail of `Region::dml_2pc` once the plan has run and its records are
encoded (region.cpp 1221-1256): affected rows, the row counters, and the meta
write that ends a COMMIT or ROLLBACK. -/
def Region.dml_2pc_finish (r : Region) (op_type : OpType) (response : StoreRes)
    (applied_index : Int) (txn_id : Nat) (affected_rows : Int) (state_num_increase_rows : Int)
    (txn_num_increase_rows : Int) : Region × StoreRes :=
  let r1 : Region :=
    if op_type.is_dml then
      r.modify_txn txn_id (Transaction.set_dml_num_affected_rows affected_rows)
    else r
  let response1 : StoreRes := (response.set_affected_rows affected_rows).set_errcode SUCCESS
  let r2 : Region :=
    if op_type = OP_TRUNCATE_TABLE then
      (r1.set_num_table_lines 0).compact_data_in_queue
    else if !op_type.is_commit_or_rollback then
      r1.modify_txn txn_id (Transaction.add_num_increase_rows state_num_increase_rows)
    else if op_type = OP_COMMIT then
      let q := r1.set_num_table_lines (r1.num_table_lines + txn_num_increase_rows)
      if txn_num_increase_rows < 0 then
        q.set_num_delete_lines (q.num_delete_lines - txn_num_increase_rows)
      else q
    else r1
  let r3 : Region :=
    if op_type.is_commit_or_rollback then
      r2.emit (Effect.write_meta_after_commit r2.num_table_lines applied_index txn_id)
    else r2
  (r3, response1)

open OpType in
/-- The pre-commit sentinel written before a COMMIT or ROLLBACK plan runs
(region.cpp 1088-1098). -/
def Region.dml_2pc_pre_commit (r : Region) (op_type : OpType) (applied_index : Int) (txn_id : Nat)
    (txn_num_increase_rows : Int) : Region :=
  if op_type.is_commit_or_rollback then
    r.emit (Effect.write_pre_commit txn_id
      (if op_type = OP_COMMIT then r.num_table_lines + txn_num_increase_rows
       else r.num_table_lines)
      applied_index)
  else r

/-- The assignment `txn->err_code = e` guarded by `txn != nullptr`, through the
handle fetched when `dml_2pc` was entered. -/
def Region.set_txn_err_code (r : Region) (had_txn : Bool) (txn_id : Nat) (e : ErrCode) : Region :=
  if had_txn then r.modify_txn txn_id (Transaction.set_err_code e) else r

open OpType in
/-- The update of the transaction once its command has run (region.cpp
1196-1210): the sequence id is advanced and the command is cached unless it is
a COMMIT or ROLLBACK or its `seq_id` is cached already. -/
def Transaction.after_cmd (op_type : OpType) (seq_id : Int) (plan : Plan) (tuples : List Nat)
    (t : Transaction) : Transaction :=
  if !op_type.is_commit_or_rollback then
    Transaction.cache_plan { op_type := op_type, seq_id := seq_id, plan := plan, tuples := tuples }
      (t.set_seq_id seq_id)
  else t.set_seq_id seq_id

open OpType ErrCode in
/-- The part of `Region::dml_2pc` after the savepoint prologue (region.cpp
1083-1220): the pre-commit sentinel, the plan run, and the cache of the command.
`had_txn` says whether the handle fetched at entry was non-null, and
`txn_num_increase_rows` is the row delta saved before a COMMIT. -/
def Region.dml_2pc_body (env : Env) (r : Region) (request : StoreReq) (op_type : OpType)
    (plan : Plan) (tuples : List Nat) (response : StoreRes) (applied_index : Int) (seq_id : Int)
    (txn_id : Nat) (had_txn : Bool) (txn_num_increase_rows : Int) : Region × StoreRes :=
  let r1 := r.dml_2pc_pre_commit op_type applied_index txn_id txn_num_increase_rows
  let run := env.run r1 request op_type plan seq_id
  if run.init_ret < 0 then
    (r1, (response.set_errcode EXEC_FAIL).set_errmsg "RuntimeState init fail")
  else if run.create_tree_ret < 0 then
    (r1, (response.set_errcode EXEC_FAIL).set_errmsg "create plan fail")
  else
    let r2 : Region := (r1.emit (Effect.open_plan op_type seq_id plan)).set_pool run.pool
    if run.open_ret < 0 then
      (r2.set_txn_err_code had_txn txn_id EXEC_FAIL,
       open_fail_response env run response "plan open failed")
    else if run.encode_ret < 0 then
      (r2.set_txn_err_code had_txn txn_id EXEC_FAIL,
       ((response.add_records run.return_records).set_errcode EXEC_FAIL).set_errmsg
         "decode record failed")
    else
      let r3 := r2.set_txn_err_code had_txn txn_id SUCCESS
      match r3.txn_pool.get_txn txn_id with
      | some _ =>
        (r3.modify_txn txn_id (Transaction.after_cmd op_type seq_id plan tuples)).dml_2pc_finish
          op_type (response.add_records run.return_records) applied_index txn_id run.open_ret
          run.num_increase_rows txn_num_increase_rows
      | none =>
        if !op_type.is_commit_or_rollback then
          (r3, r3.maybe_transfer_leader (response.add_records run.return_records))
        else
          r3.dml_2pc_finish op_type (response.add_records run.return_records) applied_index
            txn_id run.open_ret run.num_increase_rows txn_num_increase_rows

open OpType ErrCode in
/-- The savepoint prologue of `Region::dml_2pc` for a live transaction and a
command other than BEGIN whose `seq_id` is not to be rolled back (region.cpp
1069-1081): the sequence id is advanced, a savepoint is set for a DML command,
and the row delta is saved for a COMMIT. -/
def Region.dml_2pc_prepare_cmd (env : Env) (r : Region) (op_type : OpType) (seq_id : Int)
    (txn_id : Nat) : Region × Int :=
  let r2 : Region := r.modify_txn txn_id (Transaction.set_seq_id seq_id)
  let r3 : Region :=
    if op_type ≠ OP_PREPARE ∧ op_type ≠ OP_PREPARE_V2
        ∧ op_type ≠ OP_COMMIT ∧ op_type ≠ OP_ROLLBACK then
      (r2.modify_txn txn_id env.set_save_point).emit (Effect.set_save_point txn_id)
    else r2
  let txn_num_increase_rows : Int :=
    if op_type = OP_COMMIT then
      match r3.txn_pool.get_txn txn_id with
      | some t => t.num_increase_rows
      | none => 0
    else 0
  (r3, txn_num_increase_rows)

open OpType ErrCode in
/-- `Region::dml_2pc` (region.cpp 1002-1274). -/
def Region.dml_2pc (env : Env) (r : Region) (request : StoreReq) (op_type : OpType) (plan : Plan)
    (tuples : List Nat) (response : StoreRes) (applied_index : Int) (_term : Int) (seq_id : Int) :
    Region × StoreRes :=
  match request.txn_infos with
  | [] => (r, (response.set_errcode EXEC_FAIL).set_errmsg "request txn_info is empty")
  | txn_info :: _ =>
    let need_rollback_seq := need_rollback_set txn_info.need_rollback_seq
    let txn_id := txn_info.txn_id
    match r.txn_pool.get_txn txn_id with
    | none =>
      if op_type ≠ OP_BEGIN then (r, r.maybe_transfer_leader response)
      else r.dml_2pc_body env request op_type plan tuples response applied_index seq_id txn_id false 0
    | some txn =>
      if op_type ≠ OP_BEGIN then
        if txn.rolledback then (r, r.maybe_transfer_leader response)
        else
          let r1 := r.rollback_loop env txn_id need_rollback_seq
          if seq_id ∈ need_rollback_seq then
            (r1.modify_txn txn_id (Transaction.set_seq_id seq_id), response)
          else
            let cmd := r1.dml_2pc_prepare_cmd env op_type seq_id txn_id
            cmd.1.dml_2pc_body env request op_type plan tuples response applied_index seq_id txn_id
              true cmd.2
      else
        r.dml_2pc_body env request op_type plan tuples response applied_index seq_id txn_id true 0

open OpType ErrCode in
/-- The scope guard `auto_rollback` of `Region::dml_1pc` (region.cpp 1326-1339). -/
def Region.dml_1pc_auto_rollback (env : Env) (r : Region) (has_txn is_new_txn commit_succ : Bool)
    (txn_id : Nat) : Region :=
  if !has_txn then r
  else
    let r1 : Region := if !commit_succ then r.emit Effect.txn_rollback else r
    if !is_new_txn then
      (r1.set_pool (env.remove_txn txn_id r1.txn_pool)).emit (Effect.remove_txn txn_id)
    else r1

open OpType ErrCode in
/-- The part of `Region::dml_1pc` after the plan has run without error
(region.cpp 1385-1459): the row delta of the transaction, the meta record or
the pre-commit sentinel, the KV commit and the row counters.  `pooled` is the
handle the pool held at entry and `ret0` the value of `ret` so far. -/
def Region.dml_1pc_commit (env : Env) (r0 r1 : Region) (op_type : OpType) (response : StoreRes)
    (applied_index : Int) (state_txn_id : Nat) (pooled : Option Transaction) (ret0 : Int)
    (state_num_increase_rows : Int) : Region × StoreRes × Bool :=
  let handle_rows : Int :=
    match pooled with
    | none => 0
    | some t0 =>
      match r1.txn_pool.get_txn state_txn_id with
      | some t => t.num_increase_rows
      | none => t0.num_increase_rows
  let txn_num_increase_rows : Int :=
    if op_type ≠ OP_TRUNCATE_TABLE then handle_rows + state_num_increase_rows else handle_rows
  let r2 : Region :=
    if op_type ≠ OP_TRUNCATE_TABLE then
      if pooled.isSome then
        r1.modify_txn state_txn_id (Transaction.add_num_increase_rows state_num_increase_rows)
      else r1
    else r1.compact_data_in_queue
  let ret : Int :=
    if op_type ≠ OP_TRUNCATE_TABLE then ret0
    else if r0.is_global_index then 0 else r0.num_table_lines
  let tmp_num_table_lines : Int :=
    (if op_type ≠ OP_TRUNCATE_TABLE then r0.num_table_lines else 0) + txn_num_increase_rows
  let r3 : Region :=
    if state_txn_id = 0 then r2.emit (Effect.txn_put_meta_info applied_index tmp_num_table_lines)
    else r2.emit (Effect.write_pre_commit state_txn_id tmp_num_table_lines applied_index)
  let commit_succ : Bool := env.commit_ok r3
  let r4 : Region := r3.emit Effect.txn_commit
  let r5 : Region :=
    if commit_succ then
      (if txn_num_increase_rows < 0 then
          r4.set_num_delete_lines (r4.num_delete_lines - txn_num_increase_rows)
        else r4).set_num_table_lines tmp_num_table_lines
    else r4
  let response1 : StoreRes :=
    if commit_succ then (response.set_affected_rows ret).set_errcode SUCCESS
    else (response.set_errcode EXEC_FAIL).set_errmsg "txn commit failed."
  let r6 : Region :=
    if state_txn_id ≠ 0 then
      r5.emit (Effect.write_meta_after_commit r5.num_table_lines applied_index state_txn_id)
    else r5
  (r6, response1, commit_succ)

/-- The flag `is_new_txn` of `Region::dml_1pc` (region.cpp 1320-1321); `none`
stands for the undefined read of `request.txn_infos(0)` on a PREPARE request
without a transaction header. -/
def dml_1pc_is_new_txn (request : StoreReq) : Option Bool :=
  if request.op_type.is_prepare then
    match request.txn_infos with
    | [] => none
    | txn_info :: _ => some (!txn_info.optimize_1pc)
  else some true

/-- The transaction id a `RuntimeState` takes from the request it is initialised
with: that of the first transaction header, 0 without one. -/
def StoreReq.state_txn_id (request : StoreReq) : Nat :=
  match request.txn_infos with
  | [] => 0
  | txn_info :: _ => txn_info.txn_id

/-- Opening the plan of `Region::dml_1pc` when it has nodes (region.cpp
1342-1358): the call is journalled and the pool is as the plan leaves it. -/
def Region.dml_1pc_open (r : Region) (op_type : OpType) (plan : Plan) (run : RunResult) : Region :=
  if plan.nodes_size > 0 then (r.emit (Effect.open_plan op_type 0 plan)).set_pool run.pool else r

open OpType ErrCode in
/-- `Region::dml_1pc` (region.cpp 1276-1478).  The runtime state takes its
transaction id from the first transaction header of the request (0 without
one) and its handle from the pool; `create_txn_if_null` supplies a private
handle when the pool has none.  A handle whose transaction the plan removed
from the pool keeps the row delta it had.  `none` stands for the two undefined
reads of the source: `request.txn_infos(0)` on a PREPARE request without a
header, and `txn->num_increase_rows` through a null handle. -/
def Region.dml_1pc (env : Env) (r : Region) (request : StoreReq) (op_type : OpType) (plan : Plan)
    (_tuples : List Nat) (response : StoreRes) (applied_index : Int) (_term : Int) :
    Option (Region × StoreRes) :=
  let run := env.run r request op_type plan 0
  if run.init_ret < 0 then
    some (r, (response.set_errcode EXEC_FAIL).set_errmsg "RuntimeState init fail")
  else
    match dml_1pc_is_new_txn request with
    | none => none
    | some is_new_txn =>
      let state_txn_id := request.state_txn_id
      let pooled : Option Transaction := r.txn_pool.get_txn state_txn_id
      let has_txn : Bool := pooled.isSome || is_new_txn
      if plan.nodes_size > 0 ∧ run.create_tree_ret < 0 then
        some (r.dml_1pc_auto_rollback env has_txn is_new_txn false state_txn_id,
              (response.set_errcode EXEC_FAIL).set_errmsg "create plan fail")
      else if plan.nodes_size > 0 ∧ run.open_ret < 0 then
        some ((r.dml_1pc_open op_type plan run).dml_1pc_auto_rollback env has_txn is_new_txn false
                state_txn_id,
              open_fail_response env run response "plan open fail")
      else if !has_txn then none
      else
        let committed := Region.dml_1pc_commit env r (r.dml_1pc_open op_type plan run) op_type
          response applied_index state_txn_id pooled
          (if plan.nodes_size > 0 then run.open_ret else run.init_ret) run.num_increase_rows
        some (committed.1.dml_1pc_auto_rollback env has_txn is_new_txn committed.2.2 state_txn_id,
              committed.2.1)

/-- `Region::dml` (region.cpp 984-1000). -/
def Region.dml (env : Env) (r : Region) (request : StoreReq) (response : StoreRes)
    (applied_index : Int) (term : Int) : Option (Region × StoreRes) :=
  let optimize_1pc : Bool :=
    match request.txn_infos with
    | [] => false
    | txn_info :: _ => txn_info.optimize_1pc
  let seq_id : Int :=
    match request.txn_infos with
    | [] => 0
    | txn_info :: _ => txn_info.seq_id
  if request.op_type.is_prepare && optimize_1pc then
    r.dml_1pc env request request.op_type request.plan request.tuples response applied_index term
  else
    some (r.dml_2pc env request request.op_type request.plan request.tuples response
      applied_index term seq_id)

/-- What `Region::execute_cached_cmd` leaves behind: its return code, the region,
the response, and whether the handle `txn` passed by reference is non-null. -/
structure CachedOut where
  ret : Int
  region : Region
  response : StoreRes
  txn_nonnull : Bool

/-- The copy of a failed `res` into the response made by `execute_cached_cmd`
(region.cpp 368-373). -/
def copy_cached_failure (res : StoreRes) (response : StoreRes) : StoreRes :=
  let response1 := (response.set_errcode res.get_errcode).set_errmsg (res.errmsg.getD "")
  match res.mysql_errcode with
  | some c => response1.set_mysql_errcode c
  | none => response1

open OpType ErrCode in
/-- The loop of `Region::execute_cached_cmd` over the cached plans (region.cpp
340-389). -/
def Region.execute_cached_loop (env : Env) (request : StoreReq) (txn_id : Nat) (last_seq : Int)
    (applied_index term : Int) : List CachePlan → Region → StoreRes → Bool → CachedOut
  | [], r, response, txn_nonnull => ⟨0, r, response, txn_nonnull⟩
  | cache_item :: rest, r, response, txn_nonnull =>
    let op_type := cache_item.op_type
    if op_type ≠ OP_BEGIN ∧ op_type ≠ OP_INSERT ∧ op_type ≠ OP_DELETE ∧ op_type ≠ OP_UPDATE then
      ⟨-1, r,
       (response.set_errcode UNSUPPORT_REQ_TYPE).set_errmsg "unexpected cache plan op_type",
       txn_nonnull⟩
    else
      let seq_id := cache_item.seq_id
      if seq_id ≤ last_seq then
        Region.execute_cached_loop env request txn_id last_seq applied_index term
          rest r response txn_nonnull
      else
        let out := r.dml_2pc env request op_type cache_item.plan cache_item.tuples StoreRes.Clear
          applied_index term seq_id
        let res := out.2
        if res.errcode.isSome ∧ res.get_errcode ≠ SUCCESS then
          ⟨-1, out.1, copy_cached_failure res response, txn_nonnull⟩
        else if op_type = OP_BEGIN then
          if (out.1.txn_pool.get_txn txn_id).isNone then
            ⟨-1, out.1,
             (response.set_errcode EXEC_FAIL).set_errmsg
               "TransactionError: get txn failed after begin",
             false⟩
          else
            Region.execute_cached_loop env request txn_id last_seq applied_index term
              rest out.1 response true
        else
          Region.execute_cached_loop env request txn_id last_seq applied_index term
            rest out.1 response txn_nonnull

/-- `Region::execute_cached_cmd` (region.cpp 328-392); `txn` is the handle the
caller fetched from the pool. -/
def Region.execute_cached_cmd (env : Env) (r : Region) (request : StoreReq) (response : StoreRes)
    (txn_id : Nat) (txn : Option Transaction) (applied_index term : Int) : CachedOut :=
  if request.op_type = OpType.OP_ROLLBACK then ⟨0, r, response, txn.isSome⟩
  else
    match request.txn_infos with
    | [] => ⟨0, r, response, txn.isSome⟩
    | txn_info :: _ =>
      let last_seq : Int :=
        match txn with
        | none => 0
        | some t => t.seq_id
      Region.execute_cached_loop env request txn_id last_seq applied_index term
        txn_info.cache_plans r response txn.isSome

/-- The copy of `res` into the closure response made by `on_apply` and
`apply_txn_request` (region.cpp 1792-1806, 2157-2171): `errcode` always, the
other fields when `res` has them. -/
def copy_result (res : StoreRes) (with_affected_rows : Bool) (target : StoreRes) : StoreRes :=
  let t1 := target.set_errcode res.get_errcode
  let t2 := match res.errmsg with
    | some m => t1.set_errmsg m
    | none => t1
  let t3 := match res.mysql_errcode with
    | some c => t2.set_mysql_errcode c
    | none => t2
  let t4 := match res.leader with
    | some l => t3.set_leader l
    | none => t3
  match res.affected_rows with
  | some n => if with_affected_rows then t4.set_affected_rows n else t4
  | none => t4

open OpType in
/-- The KV loop of `Region::apply_kv_out_txn` (region.cpp 1904-1930); the flag
is false when a KV operation failed and the function returned. -/
def Region.kv_out_loop (env : Env) : List KvOp → Region → Region × Bool
  | [], r => (r, true)
  | kv_op :: rest, r =>
    if kv_op.op_type = OP_PUT_KV then
      if env.put_kv_rc r kv_op.key < 0 then (r.emit (Effect.kv_put kv_op.key kv_op.value), false)
      else Region.kv_out_loop env rest (r.emit (Effect.kv_put kv_op.key kv_op.value))
    else if kv_op.op_type = OP_DELETE_KV then
      if env.delete_kv_rc r kv_op.key < 0 then (r.emit (Effect.kv_delete kv_op.key), false)
      else Region.kv_out_loop env rest (r.emit (Effect.kv_delete kv_op.key))
    else Region.kv_out_loop env rest r

/-- The scope guard `auto_rollback` of `Region::apply_kv_out_txn` on the closure
(region.cpp 1893-1902). -/
def Closure.mark_commit_fail (done : Option Closure) : Option Closure :=
  done.map (fun c => if c.has_txn then { c with is_fail := true } else c)

/-- `Region::apply_kv_out_txn` (region.cpp 1872-1963). -/
def Region.apply_kv_out_txn (env : Env) (r : Region) (request : StoreReq) (done : Option Closure)
    (index : Int) (_term : Int) : Region × Option Closure :=
  let looped := Region.kv_out_loop env request.kv_ops r
  if !looped.2 then (looped.1.emit Effect.txn_rollback, Closure.mark_commit_fail done)
  else
    let r1 := looped.1
    let num_increase_rows := request.num_increase_rows
    let num_table_lines := r1.num_table_lines + num_increase_rows
    let r2 := r1.emit (Effect.txn_put_meta_info index num_table_lines)
    let r3 := r2.emit Effect.txn_commit
    if env.commit_ok r2 then
      ((if num_increase_rows < 0 then
          r3.set_num_delete_lines (r3.num_delete_lines - num_increase_rows)
        else r3).set_num_table_lines num_table_lines,
       done)
    else (r3.emit Effect.txn_rollback, Closure.mark_commit_fail done)

/-- `Region::apply_kv_in_txn` (region.cpp 1867-1870): an empty body. -/
def Region.apply_kv_in_txn (r : Region) (_request : StoreReq) (done : Option Closure)
    (_index _term : Int) : Region × Option Closure :=
  (r, done)

open IndexType in
/-- The range test of `Region::apply_kv_split` on one KV operation (region.cpp
2000-2022): whether the operation is skipped. -/
def Region.kv_split_skip (env : Env) (r : Region) (kv_op : KvOp) : Bool :=
  let key_slice : Key := kv_op.key.drop 16
  let index_id := env.decode_index_id kv_op.key
  let index_type := env.get_index_type index_id
  if index_type = I_PRIMARY ∨ r.is_global_index then
    decide (key_slice < r.region_info.start_key)
      || (!r.region_info.end_key.isEmpty && !decide (key_slice < r.region_info.end_key))
  else if index_type = I_UNIQ ∨ index_type = I_KEY then
    !env.fits_region_range key_slice kv_op.value r.region_info.start_key
      r.region_info.end_key index_id
  else false

open OpType IndexType in
/-- The KV loop of `Region::apply_kv_split` (region.cpp 1992-2066).  The result
is the region and the number of written lines, the latter `none` when a KV
operation failed and the function returned. -/
def Region.kv_split_loop (env : Env) : List KvOp → Region → Int → Region × Option Int
  | [], r, num_write_lines => (r, some num_write_lines)
  | kv_op :: rest, r, num_write_lines =>
    if r.kv_split_skip env kv_op then Region.kv_split_loop env rest r num_write_lines
    else
      let routing : Bool :=
        env.get_index_type (env.decode_index_id kv_op.key) = I_PRIMARY || r.is_global_index
      let key := env.replace_region_id r.region_id kv_op.key
      let rc0 := env.get_for_update_rc r key
      let r1 := r.emit (Effect.kv_get_for_update key)
      let is_key_exist : Bool := rc0 = 0
      if rc0 = -1 then (r1, none)
      else
        let r2 : Region :=
          if kv_op.op_type = OP_PUT_KV then r1.emit (Effect.kv_put key kv_op.value)
          else if kv_op.op_type = OP_DELETE_KV then r1.emit (Effect.kv_delete key)
          else r1
        let rc : Int :=
          if kv_op.op_type = OP_PUT_KV then env.put_kv_rc r1 key
          else if kv_op.op_type = OP_DELETE_KV then env.delete_kv_rc r1 key
          else rc0
        let scope_write_lines : Int :=
          if kv_op.op_type = OP_PUT_KV then (if is_key_exist then 0 else 1)
          else if kv_op.op_type = OP_DELETE_KV then (if is_key_exist then -1 else 0)
          else 0
        if rc < 0 then (r2, none)
        else
          Region.kv_split_loop env rest r2
            (if routing then num_write_lines + scope_write_lines else num_write_lines)

open ErrCode in
/-- `Region::apply_kv_split` (region.cpp 1965-2095).  A KV failure or a failed
commit rolls the KV transaction back and answers INTERNAL_ERROR. -/
def Region.apply_kv_split (env : Env) (r : Region) (request : StoreReq) (done : Option Closure)
    (index : Int) (_term : Int) : Region × Option Closure :=
  let looped := Region.kv_split_loop env request.kv_ops r 0
  match looped.2 with
  | none =>
    (looped.1.emit Effect.txn_rollback,
     Closure.set_response done (fun res =>
       (res.set_errcode INTERNAL_ERROR).set_errmsg "commit failed"))
  | some num_write_lines =>
    let r1 := looped.1
    let num_table_lines := r1.num_table_lines + num_write_lines
    let r2 := r1.emit (Effect.txn_put_meta_info index num_table_lines)
    let r3 := r2.emit Effect.txn_commit
    if env.commit_ok r2 then
      (r3.set_num_table_lines num_table_lines,
       Closure.set_response done (fun res => (res.set_errcode SUCCESS).set_errmsg "success"))
    else
      (r3.emit Effect.txn_rollback,
       Closure.set_response done (fun res =>
         (res.set_errcode INTERNAL_ERROR).set_errmsg "commit failed"))

/-- The cached-command replay of `Region::apply_txn_request` for a PREPARE
(region.cpp 2110-2119): a tail-split child first takes the start key carried by
the request. -/
def Region.apply_txn_cached (env : Env) (r : Region) (request : StoreReq) (txn_id : Nat)
    (index term : Int) : CachedOut :=
  let txn := r.txn_pool.get_txn txn_id
  if request.op_type.is_prepare then
    if (request.start_key.getD []) ≠ [] then
      (r.set_region (r.copy_region.set_start_key (request.start_key.getD []))).execute_cached_cmd
        env request StoreRes.Clear txn_id txn index term
    else r.execute_cached_cmd env request StoreRes.Clear txn_id txn index term
  else ⟨0, r, StoreRes.Clear, txn.isSome⟩

open OpType ErrCode in
/-- The command of `Region::apply_txn_request` itself, once the cached commands
are replayed (region.cpp 2138-2171). -/
def Region.apply_txn_cmd (env : Env) (r : Region) (request : StoreReq) (done : Option Closure)
    (res : StoreRes) (txn_id : Nat) (txn_nonnull : Bool) (index term : Int) :
    Option (Region × Option Closure) :=
  if request.op_type ≠ OP_ROLLBACK ∨ txn_nonnull then
    if request.op_type.is_prepare then
      if env.write_meta_before_prepared_ret < 0 then
        some (r.emit (Effect.write_meta_before_prepared index txn_id), done)
      else
        match (r.emit (Effect.write_meta_before_prepared index txn_id)).dml env request res
            index term with
        | none => none
        | some out => some (out.1, Closure.set_response done (copy_result out.2 true))
    else
      match r.dml env request res index term with
      | none => none
      | some out => some (out.1, Closure.set_response done (copy_result out.2 true))
  else some (r, Closure.set_response done (copy_result res true))

open OpType ErrCode in
/-- `Region::apply_txn_request` (region.cpp 2097-2172).  `none` stands for the
undefined reads inherited from `dml_1pc`. -/
def Region.apply_txn_request (env : Env) (r : Region) (request : StoreReq)
    (done : Option Closure) (index : Int) (term : Int) : Option (Region × Option Closure) :=
  let txn_id := request.state_txn_id
  if txn_id = 0 then
    some (r, Closure.set_response done (fun res =>
      (res.set_errcode INPUT_PARAM_ERROR).set_errmsg "txn control cmd out-of-txn"))
  else
    let cached := r.apply_txn_cached env request txn_id index term
    if cached.ret ≠ 0 then
      some (cached.region, Closure.set_response done (copy_result cached.response false))
    else
      cached.region.apply_txn_cmd env request done cached.response txn_id cached.txn_nonnull
        index term

/-- `Region::start_split` (region.cpp 2173-2191). -/
def Region.start_split (env : Env) (r : Region) (done : Option Closure) (applied_index : Int)
    (term : Int) : Region × Option Closure :=
  let r1 := r.emit (Effect.update_apply_index applied_index)
  match done with
  | none => (r1, none)
  | some c =>
    ((r1.emit Effect.get_snapshot).set_split_param
        { r1.split_param with
          split_start_index := applied_index + 1
          split_term := term
          prepared_txn := env.get_prepared_txn_info r1.txn_pool },
     some { c with ret := if env.snapshot_ok then 0 else -1 })

/-- `Region::start_split_for_tail` (region.cpp 2193-2245). -/
def Region.start_split_for_tail (env : Env) (r : Region) (done : Option Closure)
    (applied_index : Int) (term : Int) : Region × Option Closure :=
  let r1 := r.emit (Effect.update_apply_index applied_index)
  match done with
  | none => (r1, none)
  | some c =>
    let r2 : Region :=
      r1.set_split_param
        { r1.split_param with split_end_index := applied_index, split_term := term }
    let tableid := r2.region_info.table_id
    if tableid < 0 then (r2, some { c with ret := -1 })
    else
      let r3 : Region :=
        r2.set_split_param
          { r2.split_param with prepared_txn := env.get_prepared_txn_info r2.txn_pool }
      let key : Key :=
        env.encode_i64 r3.region_id ++ env.encode_i64 tableid ++ List.replicate 8 255
      match env.seek_for_prev r3 key with
      | none => (r3, some { c with ret := -1 })
      | some found =>
        if found.length ≤ 16 ∨ ¬ (key.take 16).isPrefixOf found then
          (r3, some { c with ret := -1 })
        else if tableid ≠ env.extract_i64 found 8 ∨ r3.region_id ≠ env.extract_i64 found 0 then
          (r3, some { c with ret := -1 })
        else
          (r3.set_split_param { r3.split_param with split_key := found.drop 16 ++ [255] }, some c)

/-- `Region::adjustkey_and_add_version` (region.cpp 2295-2331); the meta batch is
written when the function is left. -/
def Region.adjustkey_and_add_version (r : Region) (request : StoreReq) (done : Option Closure)
    (applied_index : Int) (_term : Int) : Region × Option Closure :=
  let region_info_mem : RegionInfo :=
    ((r.copy_region.set_version request.region_version).set_start_key
      (request.start_key.getD [])).set_end_key request.end_key
  let r1 : Region :=
    match request.new_region_info with
    | some info => r.set_merge_region_info info
    | none => r
  let r2 := r1.set_region_with_update_range region_info_mem
  ((r2.emit (Effect.meta_put_applied_index applied_index)).emit
      (Effect.meta_put_region_info region_info_mem),
   done)

/-- `Region::validate_and_add_version` (region.cpp 2333-2384); the meta batch is
written when the function is left. -/
def Region.validate_and_add_version (env : Env) (r : Region) (request : StoreReq)
    (done : Option Closure) (applied_index : Int) (term : Int) : Region × Option Closure :=
  if request.split_term ≠ term ∨ request.split_end_index + 1 ≠ applied_index then
    ((if done.isSome then
        r.emit (Effect.start_thread_to_remove_region r.split_param.new_region_id)
      else r).emit (Effect.meta_put_applied_index applied_index),
     Closure.set_ret done (-1))
  else
    let region_info_mem : RegionInfo :=
      (r.copy_region.set_version request.region_version).set_end_key request.end_key
    let r1 : Region := r.push_new_region_info (request.new_region_info.getD {})
    let r2 := r1.set_region_with_update_range region_info_mem
    let r3 : Region := r2.set_num_table_lines (r2.num_table_lines - request.reduce_num_lines)
    let r4 : Region :=
      r3.set_pool
        (request.txn_infos.foldl (fun pool ti => env.update_txn_num_rows_after_split ti pool)
          r3.txn_pool)
    let r5 := r4.compact_data_in_queue
    ((((r5.emit (Effect.meta_put_applied_index applied_index)).emit
        (Effect.meta_put_region_info region_info_mem)).emit
        (Effect.meta_put_num_table_lines r3.num_table_lines)),
     Closure.set_ret done 0)

/-- Modelled from the spec: `Region::compare_and_set_legal_for_split` (declared in
`region.h`, not part of the sources at hand).  A split child that the split
timeout has not marked illegal takes version 1 and reports success; the caller
resets the version to 0 when the meta write fails. -/
def Region.compare_and_set_legal_for_split (r : Region) : Bool × Region :=
  if r.legal_region then (true, r.set_region (r.region_info.set_version 1)) else (false, r)

open ErrCode in
/-- `Region::add_version_for_split_region` (region.cpp 2386-2434). -/
def Region.add_version_for_split_region (env : Env) (r : Region) (request : StoreReq)
    (done : Option Closure) (applied_index : Int) (_term : Int) : Region × Option Closure :=
  let legal := r.compare_and_set_legal_for_split
  if !legal.1 then
    (legal.2.emit (Effect.meta_put_applied_index applied_index),
     Closure.set_response done (fun res =>
       (res.set_errcode SPLIT_TIMEOUT).set_errmsg "split timeout"))
  else
    let r1 := legal.2
    let region_info_mem : RegionInfo :=
      ((r1.copy_region.set_version 1).set_status RegionStatus.IDLE).set_start_key
        (request.start_key.getD [])
    let r2 := (r1.emit (Effect.meta_put_applied_index applied_index)).emit
      (Effect.meta_put_region_info region_info_mem)
    if env.write_batch_ret ≠ 0 then
      (r2.set_region (r2.region_info.set_version 0),
       Closure.set_response done (fun res =>
         (res.set_errcode INTERNAL_ERROR).set_errmsg "write region to rocksdb fail"))
    else
      let r4 := (r2.set_status RegionStatus.IDLE).set_region_with_update_range region_info_mem
      (r4,
       Closure.set_response done (fun res =>
         (((res.set_errcode SUCCESS).set_errmsg "success").set_affected_rows
           r4.num_table_lines).set_txn_infos (env.get_prepared_txn_info r4.txn_pool)))

/-- One committed consensus log entry as `on_apply` sees it: its index and term,
the request it carries (`none` when the payload does not parse) and the
closure attached on the leader. -/
structure LogEntry where
  index : Int
  term : Int
  data : Option StoreReq
  done : Option Closure := none
  deriving DecidableEq, Repr

open OpType ErrCode in
/-- The dispatch of `Region::on_apply` on the operation type of an entry that is
applied (region.cpp 1760-1860); `r` already carries the new applied index. -/
def Region.on_apply_dispatch (env : Env) (r : Region) (request : StoreReq)
    (done : Option Closure) (index term : Int) : Option (Region × Option Closure) :=
  match request.op_type with
  | OP_KV_BATCH =>
    if request.state_txn_id = 0 then
      some (r.apply_kv_out_txn env request done r.applied_index term)
    else some (r.apply_kv_in_txn request done r.applied_index term)
  | OP_KV_BATCH_SPLIT => some (r.apply_kv_split env request done r.applied_index term)
  | OP_PREPARE_V2 | OP_PREPARE | OP_COMMIT | OP_ROLLBACK =>
    r.apply_txn_request env request done r.applied_index term
  | OP_KILL | OP_INSERT | OP_DELETE | OP_UPDATE | OP_TRUNCATE_TABLE =>
    match r.dml_1pc env request request.op_type request.plan request.tuples StoreRes.Clear
        index term with
    | none => none
    | some out => some (out.1, Closure.set_response done (copy_result out.2 true))
  | OP_NONE =>
    some (r.emit (Effect.update_apply_index r.applied_index),
          Closure.set_response done (fun res => res.set_errcode SUCCESS))
  | OP_START_SPLIT => some (r.start_split env done r.applied_index term)
  | OP_START_SPLIT_FOR_TAIL => some (r.start_split_for_tail env done r.applied_index term)
  | OP_ADJUSTKEY_AND_ADD_VERSION =>
    some (r.adjustkey_and_add_version request done r.applied_index term)
  | OP_VALIDATE_AND_ADD_VERSION =>
    some (r.validate_and_add_version env request done r.applied_index term)
  | OP_ADD_VERSION_FOR_SPLIT_REGION =>
    some (r.add_version_for_split_region env request done r.applied_index term)
  | _ =>
    some (r.emit (Effect.update_apply_index r.applied_index),
          Closure.set_response done (fun res =>
            (res.set_errcode UNSUPPORT_REQ_TYPE).set_errmsg "unsupport request type"))

open OpType ErrCode in
/-- One iteration of the loop of `Region::on_apply` (region.cpp 1735-1864).  The
result is the region after the entry and the closure that is run; `none`
stands for the undefined reads inherited from `dml_1pc`. -/
def Region.on_apply_entry (env : Env) (r : Region) (e : LogEntry) :
    Option (Region × Option Closure) :=
  match e.data with
  | none =>
    some (r, Closure.set_response e.done (fun res =>
      (res.set_errcode PARSE_FROM_PB_FAIL).set_errmsg "parse from protobuf fail"))
  | some request =>
    let r1 : Region := r.set_region (r.region_info.set_log_index e.index)
    if e.index ≤ r1.applied_index then some (r1, e.done)
    else (r1.set_applied_index e.index).on_apply_dispatch env request e.done e.index e.term

/-- `Region::on_apply` (region.cpp 1734-1865): the entries of the iterator are
applied in order; the closures they ran are collected. -/
def Region.on_apply (env : Env) : Region → List LogEntry → Option (Region × List (Option Closure))
  | r, [] => some (r, [])
  | r, e :: es =>
    match r.on_apply_entry env e with
    | none => none
    | some out =>
      match Region.on_apply env out.1 es with
      | none => none
      | some rest => some (rest.1, out.2 :: rest.2)

open OpType ErrCode in
/-- The part of `Region::select` after the version check (region.cpp
1544-1648). -/
def Region.select_run (env : Env) (r : Region) (request : StoreReq) (plan : Plan)
    (response : StoreRes) (run : RunResult) (txn_info : TransactionInfo) : Region × StoreRes :=
  let txn := r.txn_pool.get_txn txn_info.txn_id
  let rolledback : Bool :=
    match txn with
    | none => true
    | some t => t.rolledback
  if txn_info.txn_id ≠ 0 ∧ rolledback then (r, r.maybe_transfer_leader response)
  else
    let is_new_txn : Bool := txn.isNone
    let r2 : Region :=
      if is_new_txn then r
      else r.rollback_loop env txn_info.txn_id (need_rollback_set txn_info.need_rollback_seq)
    if run.create_tree_ret < 0 then
      (if is_new_txn then r2.emit Effect.txn_rollback else r2,
       (response.set_errcode EXEC_FAIL).set_errmsg "create plan fail")
    else
      let r3 : Region := (r2.emit (Effect.open_plan request.op_type 0 plan)).set_pool run.pool
      if run.open_ret < 0 then
        (if is_new_txn then r3.emit Effect.txn_rollback else r3,
         open_fail_response env run response "plan open fail")
      else
        let response2 : StoreRes := response.add_tuple_ids run.tuple_ids
        if run.get_next_ret < 0 then
          (if is_new_txn then r3.emit Effect.txn_rollback else r3,
           (response2.set_errcode EXEC_FAIL).set_errmsg "plan get_next fail")
        else
          (if is_new_txn then r3.emit Effect.txn_commit else r3,
           (response2.add_row_values run.rows).set_errcode SUCCESS)

open OpType ErrCode in
/-- `Region::select` (region.cpp 1509-1648).  `none` stands for the undefined
reads of `request.txn_infos(0)` on a request without a transaction header. -/
def Region.select (env : Env) (r : Region) (request : StoreReq) (plan : Plan)
    (response : StoreRes) : Option (Region × StoreRes) :=
  let run := env.run r request request.op_type plan 0
  if run.init_ret < 0 then
    some (r, (response.set_errcode EXEC_FAIL).set_errmsg "RuntimeState init fail")
  else
    match r.validate_version env request response with
    | none => none
    | some (false, r1, response1) => some (r1, response1)
    | some (true, r1, response1) =>
      match request.txn_infos with
      | [] => none
      | txn_info :: _ => some (r1.select_run env request plan response1 run txn_info)

open OpType ErrCode in
/-- `Region::exec_dml_out_txn_query` (region.cpp 750-862). -/
def Region.exec_dml_out_txn_query (env : Env) (r : Region) (request : StoreReq)
    (response : StoreRes) : Region × StoreRes :=
  let run := env.run r request request.op_type request.plan 0
  if run.init_ret < 0 then
    (r, (response.set_errcode EXEC_FAIL).set_errmsg "RuntimeState init fail")
  else if request.plan.nodes_size ≤ 0 then (r, response)
  else if run.create_tree_ret < 0 then
    (r, (response.set_errcode EXEC_FAIL).set_errmsg "create plan fail")
  else
    let r1 : Region :=
      (r.emit (Effect.open_plan request.op_type 0 request.plan)).set_pool run.pool
    if run.open_ret < 0 then (r1, open_fail_response env run response "plan open fail")
    else
      let r2 := r1.emit Effect.kv_apply_raft
      if env.kv_raft_fail r2 then
        (r2, (response.set_errcode EXEC_FAIL).set_errmsg "raft_error_msg")
      else (r2, (response.set_affected_rows run.open_ret).set_errcode SUCCESS)

/-- The answer of a replica that finds itself not to be the leader
(region.cpp 879-881 and the second check of the write paths). -/
def Region.not_leader_response (r : Region) (response : StoreRes) : StoreRes :=
  ((response.set_errcode ErrCode.NOT_LEADER).set_leader r.leader_addr).set_errmsg "not leader"

/-- The answer of a write path whose wait on the disable-write gate timed out. -/
def disable_write_timeout_response (response : StoreRes) : StoreRes :=
  (response.set_errcode ErrCode.DISABLE_WRITE_TIMEOUT).set_errmsg "_diable_write_cond wait timeout"

/-- Serialising a request and handing it to the consensus node
(`_node.apply(task)`); a request that does not serialise fails the RPC. -/
def Region.propose (env : Env) (r : Region) (request : StoreReq) : Region :=
  if env.serialize_ok request then r.emit (Effect.raft_apply request)
  else r.emit Effect.set_failed

open OpType ErrCode in
/-- The write branch of `Region::exec_out_txn_query` (region.cpp 671-739). -/
def Region.exec_out_txn_write (env : Env) (r : Region) (request : StoreReq)
    (response : StoreRes) : Option (Region × StoreRes) :=
  let r1 : Region := if r.split_param.split_slow_down then r.emit Effect.sleep else r
  if env.disable_write_wait_ret ≠ 0 then some (r1, disable_write_timeout_response response)
  else if !r1.is_leader then some (r1, r1.not_leader_response response)
  else
    match r1.validate_version env request response with
    | none => none
    | some (false, r2, response2) => some (r2, response2)
    | some (true, r2, response2) =>
      if request.op_type.is_dml && r2.storage_compute_separate then
        some (r2.exec_dml_out_txn_query env request response2)
      else some (r2.propose env request, response2)

open OpType ErrCode in
/-- `Region::exec_out_txn_query` (region.cpp 645-748). -/
def Region.exec_out_txn_query (env : Env) (r : Region) (request : StoreReq)
    (response : StoreRes) : Option (Region × StoreRes) :=
  match request.op_type with
  | OP_SELECT => r.select env request request.plan response
  | OP_KILL | OP_INSERT | OP_DELETE | OP_UPDATE | OP_TRUNCATE_TABLE =>
    r.exec_out_txn_write env request response
  | _ =>
    some (r, (response.set_errcode UNSUPPORT_REQ_TYPE).set_errmsg "unsupported out_txn_query type")

open OpType ErrCode in
/-- The request `Region::exec_in_txn_query` proposes for a PREPARE (region.cpp
587-608): the cached commands of the transaction starting from BEGIN, then the
commands of the request with a larger `seq_id`. -/
def pack_prepare_request (request : StoreReq) (txn_info : TransactionInfo)
    (own_plans : List CachePlan) : StoreReq :=
  let cur_seq_id : Int :=
    match own_plans.getLast? with
    | some c => c.seq_id
    | none => 0
  let prepare_txn : TransactionInfo :=
    { txn_info with
      start_seq_id := 1
      cache_plans :=
        own_plans ++ txn_info.cache_plans.filter (fun c => decide (¬ c.seq_id ≤ cur_seq_id)) }
  { request with txn_infos := prepare_txn :: request.txn_infos.tail }

open OpType ErrCode in
/-- The PREPARE branch of `Region::exec_in_txn_query` (region.cpp 549-634): the
gates of the write path, then the request is repacked with every cached
command of the transaction and proposed.  `txn_nonnull` says whether the
handle `txn` is non-null. -/
def Region.exec_in_txn_prepare (env : Env) (r : Region) (request : StoreReq)
    (response : StoreRes) (txn_info : TransactionInfo) (txn_nonnull : Bool) :
    Option (Region × StoreRes) :=
  let r1 : Region := if r.split_param.split_slow_down then r.emit Effect.sleep else r
  if env.disable_write_wait_ret ≠ 0 then some (r1, disable_write_timeout_response response)
  else if !r1.is_leader then some (r1, r1.not_leader_response response)
  else
    match r1.validate_version env request response with
    | none => none
    | some (false, r2, response2) => some (r2, response2)
    | some (true, r2, response2) =>
      let own_plans : List CachePlan :=
        if txn_nonnull then
          match r2.txn_pool.get_txn txn_info.txn_id with
          | some t => t.cache_plan_map
          | none => []
        else []
      let prepare_req := pack_prepare_request request txn_info own_plans
      if env.serialize_ok prepare_req then
        some ((if txn_nonnull then r2.modify_txn txn_info.txn_id Transaction.set_prepare_apply
               else r2).emit (Effect.raft_apply prepare_req),
              response2)
      else some (r2.emit Effect.set_failed, response2)

open OpType ErrCode in
/-- The COMMIT and ROLLBACK branch of `Region::exec_in_txn_query` (region.cpp
439-496); `txn` is the handle fetched from the pool. -/
def Region.exec_in_txn_finish (env : Env) (r : Region) (request : StoreReq)
    (response : StoreRes) (txn : Option Transaction) : Option (Region × StoreRes) :=
  if txn.isNone then some (r, (response.set_affected_rows 0).set_errcode SUCCESS)
  else if env.disable_write_wait_ret ≠ 0 then some (r, disable_write_timeout_response response)
  else if !r.is_leader then some (r, r.not_leader_response response)
  else
    match r.validate_version env request response with
    | none => none
    | some (false, r1, response1) => some (r1, response1)
    | some (true, r1, response1) => some (r1.propose env request, response1)

open OpType ErrCode in
/-- The part of `Region::exec_in_txn_query` that runs a command other than COMMIT
and ROLLBACK once no follow-up is asked for (region.cpp 508-642). -/
def Region.exec_in_txn_cmd (env : Env) (r : Region) (request : StoreReq) (response : StoreRes)
    (txn_info : TransactionInfo) (txn : Option Transaction) (last_seq : Int) :
    Option (Region × StoreRes) :=
  let txn_id := txn_info.txn_id
  let seq_id := txn_info.seq_id
  let r1 : Region :=
    if (request.start_key.getD []) ≠ [] then
      r.set_region_with_update_range (r.copy_region.set_start_key (request.start_key.getD []))
    else r
  let cached : CachedOut :=
    if last_seq < seq_id - 1 then r1.execute_cached_cmd env request response txn_id txn 0 0
    else ⟨0, r1, response, txn.isSome⟩
  if cached.ret ≠ 0 then some (cached.region, cached.response)
  else
    match request.op_type with
    | OP_SELECT =>
      match cached.region.select env request request.plan cached.response with
      | none => none
      | some out =>
        some (if cached.txn_nonnull then out.1.modify_txn txn_id (Transaction.set_seq_id seq_id)
              else out.1,
              out.2)
    | OP_INSERT | OP_DELETE | OP_UPDATE => cached.region.dml env request cached.response 0 0
    | OP_PREPARE_V2 | OP_PREPARE =>
      cached.region.exec_in_txn_prepare env request cached.response txn_info cached.txn_nonnull
    | _ =>
      some (cached.region,
            (cached.response.set_errcode UNSUPPORT_REQ_TYPE).set_errmsg
              "unsupported in_txn_query type")

open OpType ErrCode in
/-- The two idempotence shortcuts at the head of `Region::exec_in_txn_query`
(region.cpp 415-436): the answer given without running anything, if any. -/
def Region.exec_in_txn_replayed (r : Region) (response : StoreRes) (txn_info : TransactionInfo) :
    Option StoreRes :=
  match r.txn_pool.get_txn txn_info.txn_id with
  | none =>
    let finish_affected_rows := r.txn_pool.get_finished_txn_affected_rows txn_info.txn_id
    if finish_affected_rows ≠ -1 then
      some ((response.set_affected_rows finish_affected_rows).set_errcode SUCCESS)
    else none
  | some t =>
    if t.seq_id ≥ txn_info.seq_id then
      some ((response.set_affected_rows t.dml_num_affected_rows).set_errcode t.err_code)
    else none

open OpType ErrCode in
/-- `Region::exec_in_txn_query` (region.cpp 395-643).  `none` stands for the
undefined read of `request->txn_infos(0)` on a request without a transaction
header, and for the undefined reads inherited from the callees. -/
def Region.exec_in_txn_query (env : Env) (r : Region) (request : StoreReq)
    (response : StoreRes) : Option (Region × StoreRes) :=
  match request.txn_infos with
  | [] => none
  | txn_info :: _ =>
    let txn := r.txn_pool.get_txn txn_info.txn_id
    let last_seq : Int :=
      match txn with
      | none => 0
      | some t => t.seq_id
    match r.exec_in_txn_replayed response txn_info with
    | some answered => some (r, answered)
    | none =>
      if request.op_type = OP_ROLLBACK ∨ request.op_type = OP_COMMIT then
        r.exec_in_txn_finish env request response txn
      else if last_seq = 0 ∧ txn_info.start_seq_id > last_seq + 1 then
        some (r,
              ((response.set_errcode TXN_FOLLOW_UP).set_last_seq_id last_seq).set_errmsg
                "txn_last_seq, request_start_seq")
      else r.exec_in_txn_cmd env request response txn_info txn last_seq

open OpType ErrCode in
/-- `Region::adjustkey_and_add_version_query` (region.cpp 2247-2293). -/
def Region.adjustkey_and_add_version_query (env : Env) (r : Region) (request : StoreReq)
    (response : StoreRes) : Option (Region × StoreRes) :=
  if r.status ≠ RegionStatus.IDLE then
    some (r, (response.set_errcode EXEC_FAIL).set_errmsg "region status is not idle")
  else
    match (r.set_status RegionStatus.DOING).validate_version env request response with
    | none => none
    | some (false, r2, response2) => some (r2.set_status RegionStatus.IDLE, response2)
    | some (true, r2, response2) =>
      some (r2.propose env
              { op_type := OP_ADJUSTKEY_AND_ADD_VERSION
                region_id := r2.region_id
                start_key := some (request.start_key.getD [])
                end_key := r2.region_info.end_key
                region_version := r2.region_info.version + 1 },
            response2)

open OpType ErrCode in
/-- The dispatch of `Region::query` on the operation type once the leader and
version gates are passed (region.cpp 920-980). -/
def Region.query_dispatch (env : Env) (r : Region) (request : StoreReq) (response : StoreRes) :
    Option (Region × StoreRes) :=
  match request.op_type with
  | OP_KILL => r.exec_out_txn_query env request response
  | OP_SELECT | OP_INSERT | OP_DELETE | OP_UPDATE | OP_PREPARE_V2 | OP_PREPARE
  | OP_COMMIT | OP_ROLLBACK | OP_TRUNCATE_TABLE =>
    if request.state_txn_id = 0 ∨ request.op_type = OP_TRUNCATE_TABLE then
      r.exec_out_txn_query env request response
    else r.exec_in_txn_query env request response
  | OP_ADD_VERSION_FOR_SPLIT_REGION | OP_KV_BATCH_SPLIT | OP_NONE =>
    some (r.propose env request, response)
  | OP_ADJUSTKEY_AND_ADD_VERSION => r.adjustkey_and_add_version_query env request response
  | _ => some (r, (response.set_errcode UNSUPPORT_REQ_TYPE).set_errmsg "unsupport request type")

open OpType ErrCode in
/-- `Region::query` (region.cpp 864-982), the RPC entry point of a replica. -/
def Region.query (env : Env) (r : Region) (request : StoreReq) (response : StoreRes) :
    Option (Region × StoreRes) :=
  if !r.is_leader && (!request.select_without_leader || r.shutdown || !r.init_success) then
    some (r, r.not_leader_response response)
  else
    match r.validate_version env request (response.set_leader r.leader_addr) with
    | none => none
    | some (false, r1, response2) =>
      if request.op_type = OP_ADD_VERSION_FOR_SPLIT_REGION then
        some (r1,
              (response2.set_affected_rows r1.num_table_lines).set_txn_infos
                (env.get_prepared_txn_info r1.txn_pool))
      else some (r1, response2)
    | some (true, r1, response2) =>
      if request.op_type = OP_SELECT ∧ request.region_version > r1.region_info.version then
        some (r1, r1.not_leader_response response2)
      else r1.query_dispatch env request response2

/-- A collaborator set under which every call succeeds and every plan is a
no-op that affects no row; concrete scenarios override single fields. -/
def Env.nominal : Env where
  run := fun r _ _ _ _ => { pool := r.txn_pool, error_code := 1000 }
  er_error_first := 1000
  rollback_to_point := fun _ t => t
  set_save_point := fun t => t
  remove_txn := fun txn_id pool => { pool with txns := pool.txns.filter (fun kv => kv.1 ≠ txn_id) }
  on_leader_stop_rollback := fun txn_id pool =>
    { pool with txns := pool.txns.filter (fun kv => kv.1 ≠ txn_id) }
  update_txn_num_rows_after_split := fun _ pool => pool
  get_prepared_txn_info := fun _ => []
  disable_write_wait_ret := 0
  serialize_ok := fun _ => true
  commit_ok := fun _ => true
  get_for_update_rc := fun _ _ => -2
  put_kv_rc := fun _ _ => 0
  delete_kv_rc := fun _ _ => 0
  write_meta_before_prepared_ret := 0
  write_batch_ret := 0
  get_index_type := fun _ => IndexType.I_PRIMARY
  fits_region_range := fun _ _ _ _ _ => true
  seek_for_prev := fun _ _ => none
  encode_i64 := fun _ => List.replicate 8 0
  extract_i64 := fun _ _ => 0
  decode_index_id := fun _ => 0
  replace_region_id := fun _ k => k
  snapshot_ok := true
  kv_raft_fail := fun _ => false
  real_writing_wait_ret := fun _ => 0
  send_request_for_leader := fun _ _ _ => (0, {})
  rocksdb_put_ok := fun _ _ => true

/-- Whether a log entry carries a PREPARE that is to be committed in one phase
(`optimize_1pc`), the only kind of entry `on_apply` hands to `dml_1pc` with a
transaction fetched from the pool. -/
def LogEntry.one_phase_prepare (e : LogEntry) : Bool :=
  match e.data with
  | none => false
  | some request =>
    request.op_type.is_prepare &&
      (match request.txn_infos with
       | [] => false
       | txn_info :: _ => txn_info.optimize_1pc)

/-- Scenario: a replica that has applied the log up to index 10. -/
def Scenario.applied_region : Region :=
  { applied_index := 10, num_table_lines := 3, region_info := { version := 1, log_index := 10 } }

/-- Scenario: the entry of index 5, an autocommit INSERT, delivered again. -/
def Scenario.replayed_entry : LogEntry :=
  { index := 5, term := 1, data := some { op_type := OpType.OP_INSERT, plan := { nodes := [1] } } }

/-- Scenario: the entry of index 11, an autocommit INSERT, with its closure. -/
def Scenario.next_entry : LogEntry :=
  { index := 11, term := 1
    data := some { op_type := OpType.OP_INSERT, plan := { nodes := [1] } }
    done := some {} }

/-- Whether the region is merged away: its key range is the empty range at a
non-empty key (`start_key == end_key`, region.cpp 288-289). -/
def Region.merged_away (r : Region) : Bool :=
  decide (r.region_info.start_key ≠ [] ∧ r.region_info.start_key = r.region_info.end_key)

/-- The split children `validate_version` reports: the recorded children whose
region id and version are both non-zero (region.cpp 304-312). -/
def Region.reported_children (r : Region) : List RegionInfo :=
  r.new_region_infos.filter (fun x => decide (x.region_id ≠ 0 ∧ x.version ≠ 0))

/-- Scenario S4: a parent region at version 1 with key range `[10, 50)`, about
to complete a split at key 30 whose log entry has term 2 and index 8. -/
def Scenario.split_parent : Region :=
  { region_id := 1, applied_index := 8, leader_addr := "10.0.0.1:8110", is_leader := true
    status := RegionStatus.DOING
    region_info := { region_id := 1, version := 1, start_key := [10], end_key := [50] } }

/-- Scenario S4: the descriptor of the split child, acknowledged at version 1. -/
def Scenario.split_child : RegionInfo :=
  { region_id := 2, version := 1, start_key := [30], end_key := [50], parent := 1 }

/-- Scenario S4: the validate-and-add-version request that completes the split. -/
def Scenario.split_request : StoreReq :=
  { op_type := OpType.OP_VALIDATE_AND_ADD_VERSION, region_id := 1, region_version := 2
    end_key := [30], split_term := 2, split_end_index := 7
    new_region_info := some Scenario.split_child }

/-- Scenario S4: a SELECT that still carries version 1. -/
def Scenario.stale_select : StoreReq :=
  { op_type := OpType.OP_SELECT, region_id := 1, region_version := 1
    txn_infos := [{}] }

/-- Scenario: a region of version 3 that has been merged into its right
neighbour (region 2), which the merge entry recorded as its sibling. -/
def Scenario.merged_region : Region :=
  { region_id := 1, applied_index := 20, leader_addr := "10.0.0.1:8110", is_leader := true
    region_info := { region_id := 1, version := 3, start_key := [10], end_key := [10] }
    merge_region_info := { region_id := 2, version := 5, start_key := [10], end_key := [50] } }

/-- Scenario: the same merged-away region after a restart; the sibling record
lives in memory only and is empty again. -/
def Scenario.merged_region_restarted : Region :=
  { Scenario.merged_region with merge_region_info := {} }

/-- Scenario: a SELECT that carries the current version 3 of the merged region. -/
def Scenario.current_select : StoreReq :=
  { op_type := OpType.OP_SELECT, region_id := 1, region_version := 3, txn_infos := [{}] }

/-- Whether `op_type` is one of the write operations a client can send:
INSERT, DELETE, UPDATE, TRUNCATE_TABLE, PREPARE, PREPARE_V2, COMMIT, ROLLBACK. -/
def OpType.is_write (op : OpType) : Bool :=
  op.is_dml || op = OpType.OP_TRUNCATE_TABLE || op.is_prepare || op.is_commit_or_rollback

/-- Scenario: a follower replica of version 2, initialised and running. -/
def Scenario.follower : Region :=
  { region_id := 1, applied_index := 20, leader_addr := "10.0.0.1:8110", is_leader := false
    region_info := { region_id := 1, version := 2, start_key := [10], end_key := [50] } }

/-- Scenario: an autocommit INSERT that carries the current version 2. -/
def Scenario.plain_insert : StoreReq :=
  { op_type := OpType.OP_INSERT, region_id := 1, region_version := 2, plan := { nodes := [1] } }

/-- Scenario: an autocommit INSERT with the follower-read flag set that still
carries version 1. -/
def Scenario.stale_flagged_insert : StoreReq :=
  { op_type := OpType.OP_INSERT, region_id := 1, region_version := 1, plan := { nodes := [1] }
    select_without_leader := true }

/-- Scenario: an autocommit INSERT with the follower-read flag set that carries
the current version 2. -/
def Scenario.flagged_insert : StoreReq :=
  { Scenario.stale_flagged_insert with region_version := 2 }

/-- The sequence id the region has reached for a transaction (`last_seq` of
`exec_in_txn_query`): that of the live transaction, 0 when it is unknown. -/
def Region.last_seq (r : Region) (txn_id : Nat) : Int :=
  match r.txn_pool.get_txn txn_id with
  | none => 0
  | some t => t.seq_id

/-- Scenario: a leader of version 2 with one live transaction (id 42, at
sequence id 2) and one finished transaction (id 7, three affected rows). -/
def Scenario.txn_region : Region :=
  { region_id := 1, applied_index := 20, leader_addr := "10.0.0.1:8110", is_leader := true
    region_info := { region_id := 1, version := 2, start_key := [10], end_key := [50] }
    txn_pool := { txns := [(42, { seq_id := 2 })], finished := [(7, 3)] } }

/-- Scenario: a COMMIT of the finished transaction 7, sent again. -/
def Scenario.duplicate_commit : StoreReq :=
  { op_type := OpType.OP_COMMIT, region_id := 1, region_version := 2
    txn_infos := [{ txn_id := 7, seq_id := 4, start_seq_id := 1 }] }

/-- Scenario: an INSERT of transaction 42 at sequence id 5 whose cached plans
start at sequence id 4, two beyond what the region has executed. -/
def Scenario.late_insert : StoreReq :=
  { op_type := OpType.OP_INSERT, region_id := 1, region_version := 2, plan := { nodes := [1] }
    txn_infos := [{ txn_id := 42, seq_id := 5, start_seq_id := 4 }] }

/-- Scenario: an INSERT of the finished transaction 7 whose cached plans start
at sequence id 5. -/
def Scenario.late_insert_finished : StoreReq :=
  { op_type := OpType.OP_INSERT, region_id := 1, region_version := 2, plan := { nodes := [1] }
    txn_infos := [{ txn_id := 7, seq_id := 9, start_seq_id := 5 }] }

/-- Scenario: an INSERT of the unknown transaction 99 whose cached plans start
at sequence id 3. -/
def Scenario.late_insert_unknown : StoreReq :=
  { op_type := OpType.OP_INSERT, region_id := 1, region_version := 2, plan := { nodes := [1] }
    txn_infos := [{ txn_id := 99, seq_id := 4, start_seq_id := 3 }] }

/-- Whether a journalled call is a `Transaction::rollback_to_point`. -/
def Effect.is_rollback_to_point : Effect → Bool
  | Effect.rollback_to_point _ _ => true
  | _ => false

/-- Whether a journalled call opens a plan (`root->open`). -/
def Effect.is_open_plan : Effect → Bool
  | Effect.open_plan _ _ _ => true
  | _ => false

/-- Scenario S2: transaction 42 after BEGIN (sequence id 1) and two INSERTs
(sequence ids 2 and 3), each having added one row. -/
def Scenario.savepoint_txn : Transaction :=
  { seq_id := 3, num_increase_rows := 2
    cache_plan_map :=
      [{ op_type := OpType.OP_BEGIN, seq_id := 1 },
       { op_type := OpType.OP_INSERT, seq_id := 2, plan := { nodes := [5] } },
       { op_type := OpType.OP_INSERT, seq_id := 3, plan := { nodes := [6] } }] }

/-- Scenario S2: a leader holding transaction 42 in its pool. -/
def Scenario.savepoint_region : Region :=
  { region_id := 1, applied_index := 20, leader_addr := "10.0.0.1:8110", is_leader := true
    num_table_lines := 10
    region_info := { region_id := 1, version := 2 }
    txn_pool := { txns := [(42, Scenario.savepoint_txn)] } }

/-- Scenario S2: the header of a command at sequence id 4 that asks for the
commands at sequence ids 3 and 2 to be rolled back (3 is listed twice). -/
def Scenario.savepoint_header : TransactionInfo :=
  { txn_id := 42, seq_id := 4, start_seq_id := 1, need_rollback_seq := [3, 2, 3] }

/-- Scenario S2: an UPDATE carrying that header. -/
def Scenario.savepoint_update : StoreReq :=
  { op_type := OpType.OP_UPDATE, region_id := 1, region_version := 2, plan := { nodes := [7] }
    txn_infos := [Scenario.savepoint_header] }

/-- The journal of `r'` is the journal of `r` followed by calls none of which is
a `rollback_to_point`. -/
def Region.grows_without_rollback (r r' : Region) : Prop :=
  ∃ tail, r'.effects = r.effects ++ tail ∧ ∀ x ∈ tail, x.is_rollback_to_point = false

/-- Scenario S1: collaborators under which opening a plan fails with the SQL
error 1062 (duplicate entry). -/
def Env.duplicate_key : Env :=
  { Env.nominal with
    run := fun r _ _ _ _ => { pool := r.txn_pool, open_ret := -1, error_code := 1062 } }

/-- One call of `Region::dml_2pc` with its arguments. -/
structure Dml2pcCall where
  request : StoreReq := {}
  op_type : OpType := OpType.OP_COMMIT
  plan : Plan := {}
  tuples : List Nat := []
  response : StoreRes := {}
  applied_index : Int := 0
  term : Int := 0
  seq_id : Int := 0

/-- Running `Region::dml_2pc` on the arguments of a call. -/
def Region.dml_2pc_call (env : Env) (r : Region) (c : Dml2pcCall) : Region × StoreRes :=
  r.dml_2pc env c.request c.op_type c.plan c.tuples c.response c.applied_index c.term c.seq_id

/-- The value `txn_num_increase_rows` that `Region::dml_2pc` saves from
`txn->num_increase_rows` when it is called with OP_COMMIT (region.cpp
1077-1080), after the savepoint loop has run. -/
def Region.commit_delta (env : Env) (r : Region) (request : StoreReq) (seq_id : Int) : Int :=
  match request.txn_infos with
  | [] => 0
  | txn_info :: _ =>
    ((r.rollback_loop env txn_info.txn_id
        (need_rollback_set txn_info.need_rollback_seq)).dml_2pc_prepare_cmd env OpType.OP_COMMIT
      seq_id txn_info.txn_id).2

/-- Whether a call of `dml_2pc` is an OP_COMMIT that ends with errcode SUCCESS. -/
def Region.dml_2pc_committed (env : Env) (r : Region) (c : Dml2pcCall) : Bool :=
  decide (c.op_type = OpType.OP_COMMIT ∧ (r.dml_2pc_call env c).2.errcode = some ErrCode.SUCCESS)

/-- The region after a sequence of `dml_2pc` calls. -/
def Region.dml_2pc_run (env : Env) : Region → List Dml2pcCall → Region
  | r, [] => r
  | r, c :: cs => Region.dml_2pc_run env (r.dml_2pc_call env c).1 cs

/-- The sum of the saved row deltas over the calls of a sequence that are
successful commits. -/
def Region.committed_rows (env : Env) : Region → List Dml2pcCall → Int
  | _, [] => 0
  | r, c :: cs =>
    (if r.dml_2pc_committed env c then r.commit_delta env c.request c.seq_id else 0)
      + Region.committed_rows env (r.dml_2pc_call env c).1 cs

/-- Scenario: a leader with 10 rows holding three open transactions whose
accumulated row deltas are 2, -3 and 5. -/
def Scenario.bookkeeping_region : Region :=
  { region_id := 1, applied_index := 20, leader_addr := "10.0.0.1:8110", is_leader := true
    num_table_lines := 10
    region_info := { region_id := 1, version := 2 }
    txn_pool := { txns := [(42, { seq_id := 3, num_increase_rows := 2 }),
                           (43, { seq_id := 2, num_increase_rows := -3 }),
                           (44, { seq_id := 2, num_increase_rows := 5 })] } }

/-- Scenario: the command ending transaction `txn_id` with `op_type`. -/
def Scenario.finish_call (op_type : OpType) (txn_id : Nat) (seq_id : Int) : Dml2pcCall :=
  { request := { op_type := op_type, region_id := 1, region_version := 2
                 txn_infos := [{ txn_id := txn_id, seq_id := seq_id }] }
    op_type := op_type, seq_id := seq_id }

/-- Scenario: transaction 42 commits, 44 rolls back, 43 commits. -/
def Scenario.bookkeeping_calls : List Dml2pcCall :=
  [Scenario.finish_call OpType.OP_COMMIT 42 4, Scenario.finish_call OpType.OP_ROLLBACK 44 3,
   Scenario.finish_call OpType.OP_COMMIT 43 3]

/-- The descriptor of the child region that the first split step builds
(region.cpp 3060-3078): a copy of the parent descriptor with the new region id,
version 0, the split key as start key, the new instance as only peer and
leader, and status DOING. -/
def Region.split_init_region_info (r : Region) (new_instance : String) : RegionInfo :=
  { r.copy_region with
    region_id := r.split_param.new_region_id
    version := 0
    conf_version := 1
    start_key := r.split_param.split_key
    peers := [new_instance]
    leader := new_instance
    used_size := 0
    log_index := 0
    status := RegionStatus.DOING
    parent := r.region_id
    can_add_peer := some false }

/-- The OP_VALIDATE_AND_ADD_VERSION request the split coordinator builds once
the child has acknowledged its own add-version (region.cpp 3792-3807);
`response` is the answer of the child and `new_region_info` the member
`_new_region_info`. -/
def Region.split_add_version_request (r : Region) (response : StoreRes)
    (new_region_info : RegionInfo) : StoreReq :=
  { op_type := OpType.OP_VALIDATE_AND_ADD_VERSION
    region_id := r.region_id
    end_key := r.split_param.split_key
    split_term := r.split_param.split_term
    split_end_index := r.split_param.split_end_index
    region_version := r.region_info.version + 1
    reduce_num_lines := response.affected_rows.getD 0
    txn_infos := response.txn_infos
    new_region_info := some ((new_region_info.set_version 1).set_start_key r.split_param.split_key) }

/-- Scenario S4: the parent of a split at key 30 whose log was caught up at
index 7 of term 2, holding 100 rows. -/
def Scenario.splitting_parent : Region :=
  { region_id := 1, applied_index := 8, leader_addr := "10.0.0.1:8110", is_leader := true
    status := RegionStatus.DOING, num_table_lines := 100
    region_info := { region_id := 1, version := 1, start_key := [10], end_key := [50] }
    split_param := { split_key := [30], split_term := 2, split_end_index := 7, new_region_id := 2 } }

/-- Scenario S4: the same parent on a replica whose status gate is IDLE. -/
def Scenario.splitting_parent_idle : Region :=
  Scenario.splitting_parent.set_status RegionStatus.IDLE

/-- Scenario S4: the answer of the child, which took over 40 rows. -/
def Scenario.child_ack : StoreRes :=
  { errcode := some ErrCode.SUCCESS, affected_rows := some 40 }

/-- Scenario S4: the request that completes the split. -/
def Scenario.complete_split_request : StoreReq :=
  Scenario.splitting_parent.split_add_version_request Scenario.child_ack
    (Scenario.splitting_parent.split_init_region_info "10.0.0.2:8110")

/-- Whether a journal entry is a call on the KV transaction that locks, writes
or deletes a key. -/
def Effect.is_kv : Effect → Bool
  | Effect.kv_get_for_update _ => true
  | Effect.kv_put _ _ => true
  | Effect.kv_delete _ => true
  | _ => false

/-- Whether a KV operation addresses the routing index of the region: the index
it names is the primary index, or the region holds a global index. -/
def Region.is_routing_op (env : Env) (r : Region) (kv_op : KvOp) : Bool :=
  env.get_index_type (env.decode_index_id kv_op.key) = IndexType.I_PRIMARY || r.is_global_index

/-- The calls `Region::apply_kv_split` makes on the KV transaction for one
operation it does not skip (region.cpp 2023-2050): all of them are on the key
of the operation after `replace_i64(_region_id, 0)`. -/
def Region.kv_split_call (env : Env) (r : Region) (kv_op : KvOp) (x : Effect) : Prop :=
  x = Effect.kv_get_for_update (env.replace_region_id r.region_id kv_op.key) ∨
    (kv_op.op_type = OpType.OP_PUT_KV ∧
      x = Effect.kv_put (env.replace_region_id r.region_id kv_op.key) kv_op.value) ∨
    (kv_op.op_type = OpType.OP_DELETE_KV ∧
      x = Effect.kv_delete (env.replace_region_id r.region_id kv_op.key))

/-- The key a KV call of the journal is made on. -/
def Effect.kv_key : Effect → Option Key
  | Effect.kv_get_for_update k => some k
  | Effect.kv_put k _ => some k
  | Effect.kv_delete k => some k
  | _ => none

/-- Modelled from the spec: an 8-byte big-endian field of a key ("region_id(8B,
big-endian) || index_id(8B, big-endian) || encoded_index_tuple"). -/
def be_bytes (v : Int) : Key :=
  (List.range 8).map (fun j => (v.toNat / 256 ^ (7 - j)) % 256)

/-- Modelled from the spec: the value of the 8-byte big-endian field at `pos`. -/
def be_value (k : Key) (pos : Nat) : Int :=
  (((k.drop pos).take 8).foldl (fun acc b => acc * 256 + b) 0 : Nat)

/-- Modelled from the spec: `MutTableKey::replace_i64(v, pos)` overwrites the
8-byte field at `pos`. -/
def replace_i64 (v : Int) (pos : Nat) (k : Key) : Key :=
  k.take pos ++ be_bytes v ++ k.drop (pos + 8)

/-- Scenario: the nominal collaborators with the key fields read and written
byte by byte. -/
def Env.byte_keys : Env :=
  { Env.nominal with
    encode_i64 := be_bytes
    extract_i64 := be_value
    decode_index_id := fun k => be_value k 8
    replace_region_id := fun id k => replace_i64 id 0 k }

/-- Scenario S4: the child region 2 of a split, holding the range from key 30
to key 50. -/
def Scenario.kv_child : Region :=
  { region_id := 2, applied_index := 3, num_table_lines := 5
    region_info := { region_id := 2, version := 0, start_key := [30], end_key := [50] } }

/-- Scenario S4: a key of the parent region 1 under index 9 with the given suffix. -/
def Scenario.parent_key (suffix : Key) : Key := be_bytes 1 ++ be_bytes 9 ++ suffix

/-- Scenario S4: a batch with one row inside the range of the child, one below
it and one at its end key. -/
def Scenario.kv_batch : StoreReq :=
  { op_type := OpType.OP_KV_BATCH_SPLIT, region_id := 2
    kv_ops := [{ op_type := OpType.OP_PUT_KV, key := Scenario.parent_key [20], value := [1] },
               { op_type := OpType.OP_PUT_KV, key := Scenario.parent_key [35], value := [2] },
               { op_type := OpType.OP_PUT_KV, key := Scenario.parent_key [50], value := [3] }] }

open OpType in
/-- The region once the `switch` of the KV loop of `apply_kv_split` has issued
the write of one operation on the re-keyed key (region.cpp 2032-2052). -/
def Region.kv_split_write (r : Region) (kv_op : KvOp) (key : Key) : Region :=
  if kv_op.op_type = OP_PUT_KV then
    (r.emit (Effect.kv_get_for_update key)).emit (Effect.kv_put key kv_op.value)
  else if kv_op.op_type = OP_DELETE_KV then
    (r.emit (Effect.kv_get_for_update key)).emit (Effect.kv_delete key)
  else r.emit (Effect.kv_get_for_update key)

open OpType in
/-- The return code `rc` after that `switch`. -/
def Region.kv_split_rc (env : Env) (r : Region) (kv_op : KvOp) (key : Key) : Int :=
  if kv_op.op_type = OP_PUT_KV then env.put_kv_rc (r.emit (Effect.kv_get_for_update key)) key
  else if kv_op.op_type = OP_DELETE_KV then
    env.delete_kv_rc (r.emit (Effect.kv_get_for_update key)) key
  else env.get_for_update_rc r key

open OpType IndexType in
/-- The running count `num_write_lines` once one operation has been written
(region.cpp 2032-2064). -/
def Region.kv_split_lines (env : Env) (r : Region) (kv_op : KvOp) (key : Key)
    (num_write_lines : Int) : Int :=
  if (env.get_index_type (env.decode_index_id kv_op.key) = I_PRIMARY || r.is_global_index) then
    num_write_lines +
      (if kv_op.op_type = OP_PUT_KV then
        (if decide (env.get_for_update_rc r key = 0) then 0 else 1)
      else if kv_op.op_type = OP_DELETE_KV then
        (if decide (env.get_for_update_rc r key = 0) then -1 else 0)
      else 0)
  else num_write_lines

/-- The answer of the meta service that starts a merge
(`pb::RegionMergeResponse`): the destination region as the meta service
knows it. -/
structure RegionMergeResponse where
  dst_instance : String := ""
  dst_start_key : Key := []
  dst_end_key : Key := []
  dst_region_id : Int := 0
  version : Int := 0
  deriving DecidableEq, Repr, Inhabited

/-- Modelled from the spec: `end_key_compare` (declared outside the sources at
hand) orders two end keys with "an empty `end_key` denotes +∞": 0 for equal
keys, positive when the first is the larger one. -/
def end_key_compare (key1 key2 : Key) : Int :=
  if key1 = key2 then 0
  else if key1 = [] then 1
  else if key2 = [] then -1
  else if key1 < key2 then -1
  else 1

/-- The test "can`t merge" of `Region::start_process_merge` (region.cpp
2880-2884 and 2935-2939) on the range of a destination. -/
def Region.cannot_merge (r : Region) (dst_start_key dst_end_key : Key) : Bool :=
  decide (r.region_info.start_key = r.region_info.end_key)
    || decide (dst_start_key = dst_end_key)
    || decide (r.region_info.end_key < dst_start_key)
    || decide (dst_start_key < r.region_info.start_key)
    || decide (end_key_compare r.region_info.end_key dst_end_key > 0)

/-- The destructor of `ScopeMergeStatus` (region.cpp 68-73): the status gate is
reset and writes are allowed again. -/
def Region.merge_abort (r : Region) : Region :=
  (r.set_status RegionStatus.IDLE).emit Effect.reset_allow_write

open ErrCode in
/-- The retry loop of `Region::start_process_merge` (region.cpp 2898-2950):
the request is sent to the destination; on VERSION_OLD the descriptor of the
destination is taken from the response, tested again, and the request is
rebuilt, at most three times.  The result is `none` when the function
returns from inside the loop and the last response when the loop is left.
The first argument bounds the number of rounds and is not reached when the
loop starts with `4` and `retry_times = 0`. -/
def Region.merge_send_loop (env : Env) (mr : RegionMergeResponse) :
    Nat → Nat → StoreReq → Region → Region × Option StoreRes
  | 0, _, _, r => (r, none)
  | fuel + 1, retry_times, request, r =>
    let out := env.send_request_for_leader r mr.dst_instance request
    let r1 := r.emit (Effect.send_request_for_leader mr.dst_instance request)
    if out.1 = 0 then (r1, some out.2)
    else if out.2.get_errcode = VERSION_OLD then
      if retry_times + 1 > 3 then (r1, none)
      else
        match out.2.regions.find? (fun g => decide (g.region_id = mr.dst_region_id)) with
        | none => (r1, none)
        | some store_region =>
          if r1.cannot_merge store_region.start_key store_region.end_key then (r1, none)
          else if r1.region_info.start_key = store_region.start_key then (r1, some out.2)
          else
            Region.merge_send_loop env mr fuel (retry_times + 1)
              { request with
                region_version := store_region.version
                start_key := some r1.region_info.start_key
                end_key := store_region.end_key }
              r1
    else (r1, none)

/-- The request `Region::start_process_merge` first sends to the destination
(region.cpp 2892-2897). -/
def Region.merge_request (r : Region) (mr : RegionMergeResponse) : StoreReq :=
  { op_type := OpType.OP_ADJUSTKEY_AND_ADD_VERSION
    start_key := some r.region_info.start_key
    end_key := mr.dst_end_key
    region_id := mr.dst_region_id
    region_version := mr.version }

/-- The OP_ADJUSTKEY_AND_ADD_VERSION entry the source of a merge proposes for
itself (region.cpp 2993-2999). -/
def Region.merge_add_version_request (r : Region) (dst_region_info : RegionInfo) : StoreReq :=
  { op_type := OpType.OP_ADJUSTKEY_AND_ADD_VERSION
    region_id := r.region_id
    start_key := some r.region_info.start_key
    end_key := r.region_info.start_key
    region_version := r.region_info.version + 1
    new_region_info := some dst_region_info }

/-- The end of `Region::start_process_merge` once the retry loop is left with a
response (region.cpp 2955-3015): the descriptor of the destination is looked
up in the response and the source proposes its own entry. -/
def Region.merge_finish (env : Env) (r : Region) (mr : RegionMergeResponse)
    (response : StoreRes) : Region :=
  match response.regions.find? (fun g => decide (g.region_id = mr.dst_region_id)) with
  | none => r.merge_abort
  | some dst_region_info =>
    if dst_region_info.start_key = r.region_info.start_key then
      if env.serialize_ok (r.merge_add_version_request dst_region_info) then
        r.emit (Effect.raft_apply (r.merge_add_version_request dst_region_info))
      else r.merge_abort
    else r.merge_abort

/-- `Region::start_process_merge` (region.cpp 2839-3016). -/
def Region.start_process_merge (env : Env) (r : Region) (mr : RegionMergeResponse) : Region :=
  if r.shutdown then r
  else if !r.is_leader then r
  else if r.status ≠ RegionStatus.IDLE then r
  else
    let r1 := (r.set_status RegionStatus.DOING).emit Effect.disable_write_increase
    if env.real_writing_wait_ret r1 ≠ 0 then r1.merge_abort
    else if r1.applied_index ≠ r1.applied_index_lastcycle then r1.merge_abort
    else if r1.cannot_merge mr.dst_start_key mr.dst_end_key then r1.merge_abort
    else
      let sent := Region.merge_send_loop env mr 4 0 (r1.merge_request mr) r1
      match sent.2 with
      | none => sent.1.merge_abort
      | some response => sent.1.merge_finish env mr response

/-- Whether a key lies in the range from `start_key` to `end_key`, an empty
`end_key` standing for no upper bound. -/
def in_range (start_key end_key k : Key) : Prop :=
  start_key ≤ k ∧ (end_key = [] ∨ k < end_key)

/-- Whether a journal entry is a request sent to another instance. -/
def Effect.is_send : Effect → Bool
  | Effect.send_request_for_leader _ _ => true
  | _ => false

/-- Whether a journal entry is a proposal to the consensus log. -/
def Effect.is_raft_apply : Effect → Bool
  | Effect.raft_apply _ => true
  | _ => false

/-- Scenario S5: the source of a merge, a quiesced leader holding keys 10 to 30. -/
def Scenario.merge_source : Region :=
  { region_id := 1, applied_index := 20, applied_index_lastcycle := 20, is_leader := true
    leader_addr := "10.0.0.1:8110"
    region_info := { region_id := 1, version := 3, start_key := [10], end_key := [30] } }

/-- Scenario S5: the destination of the merge, holding keys 30 to 50. -/
def Scenario.merge_destination : Region :=
  { region_id := 2, applied_index := 7, is_leader := true, leader_addr := "10.0.0.2:8110"
    region_info := { region_id := 2, version := 5, start_key := [30], end_key := [50] } }

/-- Scenario S5: the meta service names region 2 as the neighbour to merge into. -/
def Scenario.merge_response : RegionMergeResponse :=
  { dst_instance := "10.0.0.2:8110", dst_start_key := [30], dst_end_key := [50]
    dst_region_id := 2, version := 5 }

/-- Scenario: a destination whose range, keys 20 to 50, overlaps the source. -/
def Scenario.overlapping_response : RegionMergeResponse :=
  { dst_instance := "10.0.0.2:8110", dst_start_key := [20], dst_end_key := [50]
    dst_region_id := 2, version := 5 }

/-- Scenario: a destination that starts after a gap, at key 40. -/
def Scenario.gap_response : RegionMergeResponse :=
  { dst_instance := "10.0.0.2:8110", dst_start_key := [40], dst_end_key := [50]
    dst_region_id := 2, version := 5 }

/-- Scenario S5: collaborators under which the destination answers with its
descriptor after the merge. -/
def Env.merging : Env :=
  { Env.nominal with
    send_request_for_leader := fun _ _ req =>
      (0, { errcode := some ErrCode.SUCCESS
            regions := [{ region_id := 2, version := 6, start_key := req.start_key.getD []
                          end_key := [50] }] }) }

/-- The offset of the first byte at which two keys differ
(`rocksdb::Slice::difference_offset`), at most the length of the shorter one. -/
def difference_offset : Key → Key → Nat
  | a :: as, b :: bs => if a = b then difference_offset as bs + 1 else 0
  | _, _ => 0

/-- The loop state of `Region::get_split_key`. -/
structure SplitKeyScan where
  cur_idx : Int := 0
  prev_key : Key := []
  min_diff_key : Key := []
  min_diff : Nat := 4294967295
  deriving DecidableEq, Repr, Inhabited

/-- The scan of `Region::get_split_key` (region.cpp 4012-4052) over the keys the
iterator yields from `Seek(key)` on, `key` being the region and table
prefix. -/
def Region.get_split_key_scan (r : Region) (key : Key) (lower_bound upper_bound : Int) :
    List Key → SplitKeyScan → SplitKeyScan
  | [], st => st
  | k :: rest, st =>
    if !key.isPrefixOf k then st
    else if !decide (k.drop 16 < r.region_info.end_key) then st
    else
      let st1 : SplitKeyScan := { st with cur_idx := st.cur_idx + 1 }
      if st1.cur_idx < lower_bound then
        Region.get_split_key_scan r key lower_bound upper_bound rest st1
      else if st1.cur_idx > upper_bound then
        (if st1.min_diff_key.isEmpty then { st1 with min_diff_key := k } else st1)
      else if st1.prev_key.isEmpty then
        Region.get_split_key_scan r key lower_bound upper_bound rest { st1 with prev_key := k }
      else
        let diff := difference_offset st1.prev_key k
        let st2 : SplitKeyScan :=
          if diff < st1.min_diff then { st1 with min_diff := diff, min_diff_key := k } else st1
        if st2.min_diff = 16 then st2
        else
          Region.get_split_key_scan r key lower_bound upper_bound rest { st2 with prev_key := k }

/-- `Region::get_split_key` (region.cpp 3975-4065): the return code, the split
key handed back and the region with `_split_param.split_key` set.  `skew` is
the flag `FLAGS_skew`, `rand` the value of `butil::fast_rand()` and `keys` what
the iterator yields from the region and table prefix on. -/
def Region.get_split_key (env : Env) (r : Region) (skew : Int) (rand : Nat) (keys : List Key) :
    Int × Key × Region :=
  let tableid := r.region_info.table_id
  if tableid < 0 then (-1, [], r)
  else
    let key : Key := env.encode_i64 r.region_id ++ env.encode_i64 tableid
    let pk_cnt := r.num_table_lines
    let skew_lines := Int.tdiv (pk_cnt * skew) 100
    let random_skew_lines : Int := if skew_lines > 0 then (rand : Int) % skew_lines else 1
    let lower_bound := Int.tdiv pk_cnt 2 - random_skew_lines
    let upper_bound := Int.tdiv pk_cnt 2 + random_skew_lines
    let st := r.get_split_key_scan key lower_bound upper_bound keys {}
    if st.min_diff_key.length < 16 then (-1, [], r)
    else
      (0, st.min_diff_key.drop 16,
       r.set_split_param { r.split_param with split_key := st.min_diff_key.drop 16 })

open IndexType in
/-- The copy loop `read_and_write` of `Region::write_local_rocksdb_for_split`
for one index (region.cpp 3274-3311) over the rows the iterator yields from
the table prefix (followed by the split key for the routing index) on.  The
result is the region with the puts journalled and `num_write_lines`, `none`
when the copy failed and `_split_param.err_code` was set. `count` is the
number of rows seen so far. -/
def Region.read_and_write (env : Env) (index_id : Int) :
    List (Key × Key) → Region → Nat → Int → Region × Option Int
  | [], r, _, num_write_lines => (r, some num_write_lines)
  | (k, v) :: rest, r, count, num_write_lines =>
    if (count + 1) % 100 = 0 ∧ (r.is_leader = false ∨ r.shutdown = true) then (r, none)
    else if (env.get_index_type index_id = I_PRIMARY ∨ r.is_global_index = true)
        ∧ ¬ k.drop 16 < r.region_info.end_key then
      (r, some num_write_lines)
    else if ¬ (env.get_index_type index_id = I_PRIMARY ∨ r.is_global_index = true)
        ∧ (env.get_index_type index_id = I_UNIQ ∨ env.get_index_type index_id = I_KEY)
        ∧ env.fits_region_range (k.drop 16) v r.split_param.split_key r.region_info.end_key
            index_id = false then
      Region.read_and_write env index_id rest r (count + 1) num_write_lines
    else
      let key := env.replace_region_id r.split_param.new_region_id k
      if env.rocksdb_put_ok r key then
        Region.read_and_write env index_id rest (r.emit (Effect.rocksdb_put key v)) (count + 1)
          (num_write_lines + 1)
      else (r.emit (Effect.rocksdb_put key v), none)

/-- Scenario: a region without an end key that holds four rows of table 9. -/
def Scenario.tail_region : Region :=
  { region_id := 1, is_leader := true, num_table_lines := 4
    region_info := { region_id := 1, table_id := 9, start_key := [10], end_key := [] }
    split_param := { split_key := [30], new_region_id := 2 } }

/-- Scenario: the same region and rows with an end key beyond all rows. -/
def Scenario.bounded_region : Region :=
  Scenario.tail_region.set_region { Scenario.tail_region.region_info with end_key := [200] }

/-- Scenario: the four row keys, with suffixes 20, 30, 40 and 50. -/
def Scenario.row_keys : List Key :=
  [Scenario.parent_key [20], Scenario.parent_key [30], Scenario.parent_key [40],
   Scenario.parent_key [50]]

/-- Scenario: the rows from the split key 30 on, with their values. -/
def Scenario.rows_from_split_key : List (Key × Key) :=
  [(Scenario.parent_key [30], [1]), (Scenario.parent_key [40], [2]),
   (Scenario.parent_key [50], [3])]

/-- Index states of `pb::IndexState`, the steps of an online index build or drop. -/
inductive IndexState
  | IS_NONE | IS_DELETE_LOCAL | IS_DELETE_ONLY | IS_WRITE_ONLY | IS_WRITE_LOCAL | IS_PUBLIC
  deriving DecidableEq, Repr, Inhabited

/-- What `select_index` reads of an `IndexInfo`: its kind, its state and the ids
of its fields in order. -/
structure IndexInfo where
  id : Int := 0
  type : IndexType := IndexType.I_KEY
  state : IndexState := IndexState.IS_PUBLIC
  fields : List Int := []
  deriving DecidableEq, Repr, Inhabited

/-- One range of a candidate (`pb::PossibleIndex::Range`); `none` is an unset
optional field. -/
structure PossibleRange where
  left_field_cnt : Option Int := none
  right_field_cnt : Option Int := none
  left_pb_record : List Nat := []
  right_pb_record : List Nat := []
  left_open : Bool := false
  right_open : Bool := false
  like_prefix : Bool := false
  deriving DecidableEq, Repr, Inhabited

/-- One candidate index of a scan node (`pb::PossibleIndex`). -/
structure PossibleIndex where
  index_id : Int := 0
  ranges : List PossibleRange := []
  has_sort_index : Bool := false
  deriving DecidableEq, Repr, Inhabited

/-- The number of leading index fields the ranges of a candidate constrain
(rocksdb_scan_node.cpp 48-56). -/
def field_count (pos_index : PossibleIndex) : Int :=
  pos_index.ranges.foldl
    (fun fc range =>
      let fc1 : Int :=
        match range.left_field_cnt with
        | some c => if c > 0 then max fc c else fc
        | none => fc
      match range.right_field_cnt with
      | some c => if c > 0 then max fc1 c else fc1
      | none => fc1)
    0

open IndexType in
/-- The `uint16_t index_priority` of a candidate (rocksdb_scan_node.cpp 59-71). -/
def index_priority (info : IndexInfo) (field_count : Int) : Nat :=
  if info.type = I_PRIMARY then 300
  else if info.type = I_UNIQ then 200
  else if info.type = I_KEY then ((100 + field_count) % 65536).toNat
  else 0

/-- The `uint32_t prefix_ratio_index_score` of a candidate (rocksdb_scan_node.cpp
84); `prefix_ratio_round` is the `uint16_t` obtained from the `float` ratio. -/
def prefix_ratio_index_score (prefix_ratio_round index_priority : Nat) : Nat :=
  ((prefix_ratio_round <<< 16) ||| index_priority) % 4294967296

/-- The ids `info.fields[j].id` for `j < field_count`, `none` when the index
runs past the end of the vector. -/
def leading_field_ids (info : IndexInfo) (field_count : Int) : Option (List Int) :=
  if field_count.toNat ≤ info.fields.length then some (info.fields.take field_count.toNat)
  else none

/-- The loop that decides `contain_by_primary` (rocksdb_scan_node.cpp 74-80):
it stops at the first leading field the primary candidates seen so far do not
constrain; `none` when it reads past the end of the vector. -/
def contain_by_primary (primary_fields : List Int) : List Int → Nat → Option Bool
  | _, 0 => some true
  | [], _ + 1 => none
  | f :: fs, n + 1 =>
    if f ∈ primary_fields then contain_by_primary primary_fields fs n else some false

/-- `std::multimap::insert`: the pair goes after the pairs whose key is not
larger. -/
def multimap_insert (kv : Nat × Nat) : List (Nat × Nat) → List (Nat × Nat)
  | [] => [kv]
  | x :: xs => if kv.1 < x.1 then kv :: x :: xs else x :: multimap_insert kv xs

/-- The variables of the loop of `select_index`. -/
structure SelectState where
  sort_index : Int := -1
  prefix_ratio_id_mapping : List (Nat × Nat) := []
  primary_fields : List Int := []
  multi_reverse_index : List Nat := []
  deriving DecidableEq, Repr, Inhabited

/-- What one round of the loop of `select_index` does. -/
inductive SelectStep
  | skip
  | undefined
  | found (i : Nat)
  | next (st : SelectState)
  deriving DecidableEq, Repr

open IndexType in
/-- One round of the loop of `RocksdbScanNode::select_index` on candidate `i`
(rocksdb_scan_node.cpp 32-101).  `schema` is `SchemaFactory::get_index_info_ptr`
and `prefix_ratio_round` the `uint16_t` that the `float` computation
`(field_count + 0.0) / info.fields.size() * 10` yields. -/
def select_index_step (schema : Int → Option IndexInfo) (prefix_ratio_round : Int → Nat → Nat)
    (i : Nat) (pos_index : PossibleIndex) (st : SelectState) : SelectStep :=
  match schema pos_index.index_id with
  | none => SelectStep.skip
  | some info =>
    if info.state ≠ IndexState.IS_PUBLIC then SelectStep.skip
    else
      let fc := field_count pos_index
      let primary : Option (List Int) :=
        if info.type = I_PRIMARY then
          (leading_field_ids info fc).map (fun ids => st.primary_fields ++ ids)
        else some st.primary_fields
      match primary with
      | none => SelectStep.undefined
      | some primary_fields =>
        let contained : Option Bool :=
          if info.type = I_UNIQ ∨ info.type = I_KEY then
            contain_by_primary primary_fields info.fields fc.toNat
          else some false
        match contained with
        | none => SelectStep.undefined
        | some true => SelectStep.skip
        | some false =>
          let score :=
            prefix_ratio_index_score (prefix_ratio_round fc info.fields.length)
              (index_priority info fc)
          if info.type = I_RECOMMEND then SelectStep.found i
          else
            SelectStep.next
              { sort_index := if pos_index.has_sort_index ∧ fc > 0 then i else st.sort_index
                prefix_ratio_id_mapping := multimap_insert (score, i) st.prefix_ratio_id_mapping
                primary_fields := primary_fields
                multi_reverse_index :=
                  if info.type = I_FULLTEXT then st.multi_reverse_index ++ [i]
                  else st.multi_reverse_index }

/-- The loop of `select_index` from candidate `i` on: the position returned from
inside the loop (`some`) or the variables when the loop ends, together with
`multi_reverse_index`; `none` when a read is undefined. -/
def select_index_loop (schema : Int → Option IndexInfo) (prefix_ratio_round : Int → Nat → Nat) :
    List PossibleIndex → Nat → SelectState → Option (Option Nat × SelectState)
  | [], _, st => some (none, st)
  | pos_index :: rest, i, st =>
    match select_index_step schema prefix_ratio_round i pos_index st with
    | SelectStep.skip => select_index_loop schema prefix_ratio_round rest (i + 1) st
    | SelectStep.undefined => none
    | SelectStep.found j => some (some j, st)
    | SelectStep.next st1 => select_index_loop schema prefix_ratio_round rest (i + 1) st1

/-- `RocksdbScanNode::select_index` (rocksdb_scan_node.cpp 26-113): the position
returned and `multi_reverse_index`. -/
def select_index (schema : Int → Option IndexInfo) (prefix_ratio_round : Int → Nat → Nat)
    (indexes : List PossibleIndex) : Option (Nat × List Nat) :=
  match select_index_loop schema prefix_ratio_round indexes 0 {} with
  | none => none
  | some (some i, st) => some (i, st.multi_reverse_index)
  | some (none, st) =>
    if st.sort_index ≠ -1 then some (st.sort_index.toNat, st.multi_reverse_index)
    else
      match st.prefix_ratio_id_mapping.getLast? with
      | some kv => some (kv.2, st.multi_reverse_index)
      | none => some (0, st.multi_reverse_index)

/-- The start of `RocksdbScanNode::choose_index` (rocksdb_scan_node.cpp 103-124):
the position of the candidate it installs, `none` when it returns -1; the outer
`none` stands for an undefined read. -/
def choose_index (schema : Int → Option IndexInfo) (prefix_ratio_round : Int → Nat → Nat)
    (indexes : List PossibleIndex) : Option (Option Nat) :=
  if indexes.length = 0 then some none
  else
    match select_index schema prefix_ratio_round indexes with
    | none => none
    | some (idx0, multi_reverse_index) =>
      let idx : Nat :=
        match multi_reverse_index with
        | m :: _ => m
        | [] => idx0
      match indexes.get? idx with
      | none => none
      | some pos_index =>
        match schema pos_index.index_id with
        | none => some none
        | some info => if info.id = -1 then some none else some (some idx)

/-- The integer part of ten times the prefix ratio, what the `float` computation
of `select_index` yields when it is exact. -/
def ratio_floor (field_count : Int) (total_fields : Nat) : Nat :=
  (10 * field_count.toNat) / total_fields

/-- Scenario: a table with the primary index 1 on fields 1, 2, 3, the key index
2 on field 4 and the index 3, on field 5, that is still being built. -/
def Scenario.schema (index_id : Int) : Option IndexInfo :=
  if index_id = 1 then
    some { id := 1, type := IndexType.I_PRIMARY, fields := [1, 2, 3] }
  else if index_id = 2 then
    some { id := 2, type := IndexType.I_KEY, fields := [4, 6, 7] }
  else if index_id = 3 then
    some { id := 3, type := IndexType.I_KEY, state := IndexState.IS_WRITE_ONLY, fields := [5] }
  else none

/-- Scenario: the only candidate is the index that is still being built. -/
def Scenario.building_candidates : List PossibleIndex :=
  [{ index_id := 3, ranges := [{ left_field_cnt := some 1 }] }]

/-- Value kinds of `pb::PrimitiveType` that `ExprValue` distinguishes. -/
inductive PrimitiveType
  | NULL_TYPE | BOOL | INT8 | INT16 | INT32 | INT64 | UINT8 | UINT16 | UINT32 | UINT64
  | FLOAT | DOUBLE | STRING | DATETIME | TIMESTAMP | DATE | TIME | HLL | PLACE_HOLDER
  deriving DecidableEq, Repr, Inhabited

/-- An expression value (`struct ExprValue`): its kind, the eight bytes of the
union `_u` read as one number below `2^64` (a narrower member occupies the
low-order bits), and the string payload as bytes. -/
structure ExprValue where
  type : PrimitiveType := PrimitiveType.NULL_TYPE
  u : Nat := 0
  str_val : List Nat := []
  deriving DecidableEq, Repr, Inhabited

/-- Library and helper functions `ExprValue` calls that are outside the sources
at hand: floating-point conversion, order and sum on bit patterns, the C
string conversions, `std::string::compare`, and the date and time helpers of
`datetime.h`. -/
structure ValueEnv where
  float_to_int : Nat → Int
  double_to_int : Nat → Int
  float_nonzero : Nat → Bool
  double_nonzero : Nat → Bool
  int_to_float : Int → Nat
  int_to_double : Int → Nat
  float_to_double : Nat → Nat
  double_to_float : Nat → Nat
  float_gt : Nat → Nat → Bool
  double_gt : Nat → Nat → Bool
  float_add : Nat → Nat → Nat
  double_add : Nat → Nat → Nat
  strtoull : List Nat → Nat
  strtod : List Nat → Nat
  string_compare : List Nat → List Nat → Int
  int_to_string : Int → List Nat
  float_to_string : Nat → List Nat
  double_to_string : Nat → List Nat
  datetime_to_str : Nat → List Nat
  time_to_str : Int → List Nat
  timestamp_to_str : Nat → List Nat
  date_to_str : Nat → List Nat
  str_to_datetime : List Nat → Nat
  timestamp_to_datetime : Nat → Nat
  date_to_datetime : Nat → Nat
  time_to_datetime : Int → Nat
  datetime_to_timestamp : Nat → Nat
  datetime_to_date : Nat → Nat
  datetime_to_time : Nat → Int
  str_to_time : List Nat → Int

/-- The value of a signed member of `w` bits stored in the low-order bits. -/
def to_signed (w : Nat) (n : Nat) : Int :=
  if n % 2 ^ w < 2 ^ (w - 1) then ((n % 2 ^ w : Nat) : Int)
  else ((n % 2 ^ w : Nat) : Int) - ((2 ^ w : Nat) : Int)

/-- The bit pattern of an integer converted to a type of `w` bits. -/
def wrap (w : Nat) (i : Int) : Nat := (i % ((2 ^ w : Nat) : Int)).toNat

/-- Assignment to a member of `w` bits: the other bytes of the union stay. -/
def set_low (w : Nat) (u x : Nat) : Nat := (u / 2 ^ w) * 2 ^ w + x % 2 ^ w

/-- The member `_u.bool_val` promoted to `int`. -/
def ExprValue.bool_val (v : ExprValue) : Int := if v.u % 256 = 0 then 0 else 1

/-- The member `_u.int8_val`. -/
def ExprValue.int8_val (v : ExprValue) : Int := to_signed 8 v.u

/-- The member `_u.int16_val`. -/
def ExprValue.int16_val (v : ExprValue) : Int := to_signed 16 v.u

/-- The member `_u.int32_val`. -/
def ExprValue.int32_val (v : ExprValue) : Int := to_signed 32 v.u

/-- The member `_u.int64_val`. -/
def ExprValue.int64_val (v : ExprValue) : Int := to_signed 64 v.u

/-- The member `_u.uint8_val`. -/
def ExprValue.uint8_val (v : ExprValue) : Nat := v.u % 2 ^ 8

/-- The member `_u.uint16_val`. -/
def ExprValue.uint16_val (v : ExprValue) : Nat := v.u % 2 ^ 16

/-- The member `_u.uint32_val`. -/
def ExprValue.uint32_val (v : ExprValue) : Nat := v.u % 2 ^ 32

/-- The member `_u.uint64_val`. -/
def ExprValue.uint64_val (v : ExprValue) : Nat := v.u % 2 ^ 64

/-- The bits of the member `_u.float_val`. -/
def ExprValue.float_val (v : ExprValue) : Nat := v.u % 2 ^ 32

/-- The bits of the member `_u.double_val`. -/
def ExprValue.double_val (v : ExprValue) : Nat := v.u % 2 ^ 64

open PrimitiveType in
/-- Modelled from the spec: `is_int` of `type_utils.h`, true of the variants
"INT8/16/32/64, UINT8/16/32/64". -/
def PrimitiveType.is_int (t : PrimitiveType) : Bool :=
  t = INT8 || t = INT16 || t = INT32 || t = INT64 ||
    t = UINT8 || t = UINT16 || t = UINT32 || t = UINT64

open PrimitiveType in
/-- Modelled from the spec: `is_uint` of `type_utils.h`, true of the unsigned
variants "UINT8/16/32/64". -/
def PrimitiveType.is_uint (t : PrimitiveType) : Bool :=
  t = UINT8 || t = UINT16 || t = UINT32 || t = UINT64

open PrimitiveType in
/-- Modelled from the spec: `is_double` of `type_utils.h`, true of the variants
"FLOAT, DOUBLE". -/
def PrimitiveType.is_double (t : PrimitiveType) : Bool := t = FLOAT || t = DOUBLE

/-- `ExprValue::is_null`. -/
def ExprValue.is_null (v : ExprValue) : Bool := v.type = PrimitiveType.NULL_TYPE

/-- `ExprValue::is_numberic`. -/
def ExprValue.is_numberic (v : ExprValue) : Bool :=
  v.type.is_int || v.type = PrimitiveType.BOOL || v.type.is_double

/-- The value an arm of `get_numberic<T>` returns, before its conversion to `T`. -/
inductive Numeric
  | int (i : Int)
  | float (bits : Nat)
  | double (bits : Nat)
  deriving DecidableEq, Repr

/-- The C++ arithmetic types `T` that `get_numberic<T>` is instantiated with. -/
inductive CType
  | bool | int8 | int16 | int32 | int64 | uint8 | uint16 | uint32 | uint64 | float | double
  deriving DecidableEq, Repr

/-- `std::is_integral<T>::value`. -/
def CType.is_integral (t : CType) : Bool := t ≠ CType.float && t ≠ CType.double

/-- The number of value bits of an integral `T` other than `bool`. -/
def CType.width : CType → Nat
  | CType.int8 => 8 | CType.uint8 => 8
  | CType.int16 => 16 | CType.uint16 => 16
  | CType.int32 => 32 | CType.uint32 => 32 | CType.float => 32
  | CType.int64 => 64 | CType.uint64 => 64 | CType.double => 64
  | CType.bool => 8

open PrimitiveType in
/-- The `switch` of `ExprValue::get_numberic<T>` (expr_value.h 47-95): the
member it returns. -/
def ExprValue.get_numberic_member (env : ValueEnv) (v : ExprValue) (t : CType) : Numeric :=
  match v.type with
  | BOOL => Numeric.int v.bool_val
  | INT8 => Numeric.int v.int8_val
  | INT16 => Numeric.int v.int16_val
  | INT32 => Numeric.int v.int32_val
  | INT64 => Numeric.int v.int64_val
  | UINT8 => Numeric.int v.uint8_val
  | UINT16 => Numeric.int v.uint16_val
  | UINT32 => Numeric.int v.uint32_val
  | UINT64 => Numeric.int v.uint64_val
  | FLOAT => Numeric.float v.float_val
  | DOUBLE => Numeric.double v.double_val
  | STRING =>
    if t.is_integral then Numeric.int (env.strtoull v.str_val)
    else Numeric.double (env.strtod v.str_val)
  | DATETIME => Numeric.int v.uint64_val
  | TIME => Numeric.int v.int32_val
  | TIMESTAMP => Numeric.int v.uint32_val
  | DATE => Numeric.int v.uint32_val
  | _ => Numeric.int 0

/-- The conversion of the returned member to `T`, as the bits of a `T`: an
integral `T` keeps the value modulo `2^width`, `bool` keeps whether it is
non-zero. -/
def Numeric.convert (env : ValueEnv) (t : CType) : Numeric → Nat
  | Numeric.int i =>
    match t with
    | CType.bool => if i = 0 then 0 else 1
    | CType.float => env.int_to_float i
    | CType.double => env.int_to_double i
    | _ => wrap t.width i
  | Numeric.float b =>
    match t with
    | CType.bool => if env.float_nonzero b then 1 else 0
    | CType.float => b
    | CType.double => env.float_to_double b
    | _ => wrap t.width (env.float_to_int b)
  | Numeric.double b =>
    match t with
    | CType.bool => if env.double_nonzero b then 1 else 0
    | CType.float => env.double_to_float b
    | CType.double => b
    | _ => wrap t.width (env.double_to_int b)

/-- `ExprValue::get_numberic<T>` (expr_value.h 47-95), as the bits of the `T`
it returns. -/
def ExprValue.get_numberic (env : ValueEnv) (v : ExprValue) (t : CType) : Nat :=
  (v.get_numberic_member env t).convert env t

open PrimitiveType in
/-- `ExprValue::get_string` (expr_value.h 222-258). -/
def ExprValue.get_string (env : ValueEnv) (v : ExprValue) : List Nat :=
  match v.type with
  | BOOL => env.int_to_string v.bool_val
  | INT8 => env.int_to_string v.int8_val
  | INT16 => env.int_to_string v.int16_val
  | INT32 => env.int_to_string v.int32_val
  | INT64 => env.int_to_string v.int64_val
  | UINT8 => env.int_to_string v.uint8_val
  | UINT16 => env.int_to_string v.uint16_val
  | UINT32 => env.int_to_string v.uint32_val
  | UINT64 => env.int_to_string v.uint64_val
  | FLOAT => env.float_to_string v.float_val
  | DOUBLE => env.double_to_string v.double_val
  | STRING => v.str_val
  | HLL => v.str_val
  | DATETIME => env.datetime_to_str v.uint64_val
  | TIME => env.time_to_str v.int32_val
  | TIMESTAMP => env.timestamp_to_str v.uint32_val
  | DATE => env.date_to_str v.uint32_val
  | _ => []

/-- Assignment to a member of `w` bits of the union of a value. -/
def ExprValue.set_member (v : ExprValue) (w : Nat) (x : Nat) : ExprValue :=
  { v with u := set_low w v.u x }

open PrimitiveType in
/-- The arm `case pb::DATETIME` of `ExprValue::cast_to` (expr_value.h 129-142). -/
def ExprValue.cast_to_datetime (env : ValueEnv) (v : ExprValue) : ExprValue :=
  let v1 : ExprValue :=
    if v.type = STRING then
      { (v.set_member 64 (env.str_to_datetime v.str_val)) with str_val := [] }
    else if v.type = TIMESTAMP then v.set_member 64 (env.timestamp_to_datetime v.uint32_val)
    else if v.type = DATE then v.set_member 64 (env.date_to_datetime v.uint32_val)
    else if v.type = TIME then v.set_member 64 (env.time_to_datetime v.int32_val)
    else v.set_member 64 (v.get_numberic env CType.uint64)
  { v1 with type := DATETIME }

open PrimitiveType in
/-- The nested call `cast_to(pb::DATETIME)` inside `cast_to`, with its guard. -/
def ExprValue.to_datetime (env : ValueEnv) (v : ExprValue) : ExprValue :=
  if v.is_null || v.type = DATETIME then v else v.cast_to_datetime env

open PrimitiveType in
/-- `ExprValue::cast_to` (expr_value.h 97-186). -/
def ExprValue.cast_to (env : ValueEnv) (v : ExprValue) (type_ : PrimitiveType) : ExprValue :=
  if v.is_null || v.type = type_ then v
  else
    match type_ with
    | BOOL => { (v.set_member 8 (v.get_numberic env CType.bool)) with type := type_ }
    | INT8 => { (v.set_member 8 (v.get_numberic env CType.int8)) with type := type_ }
    | INT16 => { (v.set_member 16 (v.get_numberic env CType.int16)) with type := type_ }
    | INT32 => { (v.set_member 32 (v.get_numberic env CType.int32)) with type := type_ }
    | INT64 => { (v.set_member 64 (v.get_numberic env CType.int64)) with type := type_ }
    | UINT8 => { (v.set_member 8 (v.get_numberic env CType.uint8)) with type := type_ }
    | UINT16 => { (v.set_member 16 (v.get_numberic env CType.uint16)) with type := type_ }
    | UINT32 => { (v.set_member 32 (v.get_numberic env CType.uint32)) with type := type_ }
    | UINT64 => { (v.set_member 64 (v.get_numberic env CType.uint64)) with type := type_ }
    | DATETIME => v.cast_to_datetime env
    | TIMESTAMP =>
      if !v.is_numberic then
        { ((v.to_datetime env).set_member 32
            (env.datetime_to_timestamp (v.to_datetime env).uint64_val)) with type := type_ }
      else { (v.set_member 32 (v.get_numberic env CType.uint32)) with type := type_ }
    | DATE =>
      if !v.is_numberic then
        { ((v.to_datetime env).set_member 32
            (env.datetime_to_date (v.to_datetime env).uint64_val)) with type := type_ }
      else { (v.set_member 32 (v.get_numberic env CType.uint32)) with type := type_ }
    | TIME =>
      if v.is_numberic then
        { (v.set_member 32 (v.get_numberic env CType.int32)) with type := type_ }
      else if v.type = STRING then
        { (v.set_member 32 (wrap 32 (env.str_to_time v.str_val))) with type := type_ }
      else
        { ((v.to_datetime env).set_member 32
            (wrap 32 (env.datetime_to_time (v.to_datetime env).uint64_val))) with
          type := type_ }
    | FLOAT => { (v.set_member 32 (v.get_numberic env CType.float)) with type := type_ }
    | DOUBLE => { (v.set_member 64 (v.get_numberic env CType.double)) with type := type_ }
    | STRING => { v with str_val := v.get_string env, type := type_ }
    | _ => { v with type := type_ }

open PrimitiveType in
/-- `ExprValue::compare` (expr_value.h 303-342). -/
def ExprValue.compare (env : ValueEnv) (v other : ExprValue) : Int :=
  match v.type with
  | BOOL => v.bool_val - other.bool_val
  | INT8 => v.int8_val - other.int8_val
  | INT16 => v.int16_val - other.int16_val
  | INT32 => v.int32_val - other.int32_val
  | TIME => v.int32_val - other.int32_val
  | INT64 =>
    if v.int64_val > other.int64_val then 1 else if v.int64_val < other.int64_val then -1 else 0
  | UINT8 => (v.uint8_val : Int) - (other.uint8_val : Int)
  | UINT16 => (v.uint16_val : Int) - (other.uint16_val : Int)
  | UINT32 => (v.uint32_val : Int) - (other.uint32_val : Int)
  | TIMESTAMP => (v.uint32_val : Int) - (other.uint32_val : Int)
  | DATE => (v.uint32_val : Int) - (other.uint32_val : Int)
  | UINT64 =>
    if v.uint64_val > other.uint64_val then 1
    else if v.uint64_val < other.uint64_val then -1 else 0
  | DATETIME =>
    if v.uint64_val > other.uint64_val then 1
    else if v.uint64_val < other.uint64_val then -1 else 0
  | FLOAT =>
    if env.float_gt v.float_val other.float_val then 1
    else if env.float_gt other.float_val v.float_val then -1 else 0
  | DOUBLE =>
    if env.double_gt v.double_val other.double_val then 1
    else if env.double_gt other.double_val v.double_val then -1 else 0
  | STRING => env.string_compare v.str_val other.str_val
  | NULL_TYPE => -1
  | _ => 0

open PrimitiveType in
/-- The common type `ExprValue::compare_diff_type` casts both operands to
(expr_value.h 348-376). -/
def ExprValue.common_type (v other : ExprValue) : PrimitiveType :=
  if v.type.is_int && other.type.is_int then
    if v.type.is_uint || other.type.is_uint then UINT64 else INT64
  else if v.type = DATETIME || other.type = DATETIME then DATETIME
  else if v.type = TIMESTAMP || other.type = TIMESTAMP then TIMESTAMP
  else if v.type = DATE || other.type = DATE then DATE
  else if v.type = TIME || other.type = TIME then TIME
  else if v.type.is_double || other.type.is_double then DOUBLE
  else if v.type.is_int || other.type.is_int then DOUBLE
  else STRING

/-- `ExprValue::compare_diff_type` (expr_value.h 344-379): the result and the
two operands, both of which it may have cast in place. -/
def ExprValue.compare_diff_type (env : ValueEnv) (v other : ExprValue) :
    Int × ExprValue × ExprValue :=
  if v.type = other.type then (v.compare env other, v, other)
  else
    let t := v.common_type other
    ((v.cast_to env t).compare env (other.cast_to env t), v.cast_to env t, other.cast_to env t)

/-- `ExprValue::Null()`, also what the constructor builds by default. -/
def ExprValue.Null : ExprValue := { type := PrimitiveType.NULL_TYPE, u := 0 }

/-- The sign of a byte-wise comparison of two strings, one admissible value of
`std::string::compare`. -/
def lexicographic_sign (a b : List Nat) : Int := if a < b then -1 else if b < a then 1 else 0

/-- Scenario: a stand-in for the library functions in which integers convert
to floating point as themselves, strings convert to 0, and strings compare by
the sign of their byte order. -/
def ValueEnv.simple : ValueEnv where
  float_to_int := fun b => b
  double_to_int := fun b => b
  float_nonzero := fun b => b ≠ 0
  double_nonzero := fun b => b ≠ 0
  int_to_float := fun i => i.toNat
  int_to_double := fun i => i.toNat
  float_to_double := fun b => b
  double_to_float := fun b => b
  float_gt := fun a b => decide (a > b)
  double_gt := fun a b => decide (a > b)
  float_add := fun a b => a + b
  double_add := fun a b => a + b
  strtoull := fun _ => 0
  strtod := fun _ => 0
  string_compare := lexicographic_sign
  int_to_string := fun _ => []
  float_to_string := fun _ => []
  double_to_string := fun _ => []
  datetime_to_str := fun _ => []
  time_to_str := fun _ => []
  timestamp_to_str := fun _ => []
  date_to_str := fun _ => []
  str_to_datetime := fun _ => 0
  timestamp_to_datetime := fun t => t
  date_to_datetime := fun d => d
  time_to_datetime := fun t => t.toNat
  datetime_to_timestamp := fun d => d
  datetime_to_date := fun d => d
  datetime_to_time := fun d => d
  str_to_time := fun _ => 0

/-- Scenario: the INT32 value with the given bits. -/
def Scenario.int32_value (i : Int) : ExprValue :=
  { type := PrimitiveType.INT32, u := wrap 32 i }

open PrimitiveType in
/-- The kinds whose `compare` arm orders two stored integers: the integer
widths, BOOL and the date and time kinds. -/
def PrimitiveType.compares_by_value (t : PrimitiveType) : Bool :=
  t.is_int || t = BOOL || t = DATE || t = TIME || t = TIMESTAMP || t = DATETIME

open PrimitiveType in
/-- The integer an integer-typed value stores. -/
def ExprValue.integer_value (v : ExprValue) : Int :=
  match v.type with
  | INT8 => v.int8_val
  | INT16 => v.int16_val
  | INT32 => v.int32_val
  | INT64 => v.int64_val
  | UINT8 => v.uint8_val
  | UINT16 => v.uint16_val
  | UINT32 => v.uint32_val
  | UINT64 => v.uint64_val
  | _ => 0

/-- Scenario: a TIME value of minus five seconds. -/
def Scenario.negative_time : ExprValue := { type := PrimitiveType.TIME, u := wrap 32 (-5) }

/-- The C++ type of the union member an integer-typed value is stored in. -/
def PrimitiveType.ctype : PrimitiveType → CType
  | PrimitiveType.BOOL => CType.bool
  | PrimitiveType.INT8 => CType.int8
  | PrimitiveType.INT16 => CType.int16
  | PrimitiveType.INT32 => CType.int32
  | PrimitiveType.INT64 => CType.int64
  | PrimitiveType.UINT8 => CType.uint8
  | PrimitiveType.UINT16 => CType.uint16
  | PrimitiveType.UINT32 => CType.uint32
  | PrimitiveType.FLOAT => CType.float
  | PrimitiveType.DOUBLE => CType.double
  | _ => CType.uint64

/-- Whether an integral `T` is signed. -/
def CType.is_signed (t : CType) : Bool :=
  t = CType.int8 || t = CType.int16 || t = CType.int32 || t = CType.int64

/-- The integer the bits of an integral `T` stand for. -/
def CType.value (t : CType) (bits : Nat) : Int :=
  if t.is_signed then to_signed t.width bits else ((bits % 2 ^ t.width : Nat) : Int)

open PrimitiveType in
/-- `ExprValue::add` (expr_value.h 260-301): the receiver and the argument once
it has run.  The sum of two signed members is kept modulo `2^width`. -/
def ExprValue.add (env : ValueEnv) (a value : ExprValue) : ExprValue × ExprValue :=
  match a.type with
  | BOOL =>
    (a, value.set_member 8
      (if value.bool_val + ((value.get_numberic env CType.bool : Nat) : Int) = 0 then 0 else 1))
  | INT8 =>
    (a.set_member 8 (wrap 8 (a.int8_val + to_signed 8 (value.get_numberic env CType.int8))),
     value)
  | INT16 =>
    (a.set_member 16 (wrap 16 (a.int16_val + to_signed 16 (value.get_numberic env CType.int16))),
     value)
  | INT32 =>
    (a.set_member 32 (wrap 32 (a.int32_val + to_signed 32 (value.get_numberic env CType.int32))),
     value)
  | INT64 =>
    (a.set_member 64 (wrap 64 (a.int64_val + to_signed 64 (value.get_numberic env CType.int64))),
     value)
  | UINT8 =>
    (a.set_member 8
      (wrap 8 ((a.uint8_val : Int) + ((value.get_numberic env CType.uint8 % 2 ^ 8 : Nat) : Int))),
     value)
  | UINT16 =>
    (a.set_member 16
      (wrap 16
        ((a.uint16_val : Int) + ((value.get_numberic env CType.uint16 % 2 ^ 16 : Nat) : Int))),
     value)
  | UINT32 =>
    (a.set_member 32
      (wrap 32
        ((a.uint32_val : Int) + ((value.get_numberic env CType.uint32 % 2 ^ 32 : Nat) : Int))),
     value)
  | UINT64 =>
    (a.set_member 64
      (wrap 64
        ((a.uint64_val : Int) + ((value.get_numberic env CType.uint64 % 2 ^ 64 : Nat) : Int))),
     value)
  | FLOAT =>
    (a.set_member 32 (env.float_add a.float_val (value.get_numberic env CType.float)), value)
  | DOUBLE =>
    (a.set_member 64 (env.double_add a.double_val (value.get_numberic env CType.double)), value)
  | NULL_TYPE => (value, value)
  | _ => (a, value)

/-- Operation kinds of `pb::OpType` the DDL part of the meta service uses. -/
inductive MetaOp
  | OP_NONE | OP_ADD_INDEX | OP_DROP_INDEX | OP_UPDATE_INDEX_STATUS | OP_DELETE_DDLWORK
  deriving DecidableEq, Repr, Inhabited

/-- A field of a table schema (`pb::FieldInfo`). -/
structure PbFieldInfo where
  field_name : String := ""
  auto_increment : Bool := false
  deriving DecidableEq, Repr, Inhabited

/-- An index of a table schema (`pb::IndexInfo`). -/
structure PbIndexInfo where
  index_name : String := ""
  index_type : IndexType := IndexType.I_NONE
  field_names : List String := []
  field_ids : List Int := []
  index_id : Int := 0
  state : IndexState := IndexState.IS_NONE
  deriving DecidableEq, Repr, Inhabited

/-- A table schema (`pb::SchemaInfo`). -/
structure SchemaInfo where
  table_id : Int := 0
  table_name : String := ""
  version : Int := 0
  partition_num : Int := 1
  fields : List PbFieldInfo := []
  indexs : List PbIndexInfo := []
  deriving DecidableEq, Repr, Inhabited

/-- The description of a DDL job (`pb::DdlWorkInfo`). -/
structure DdlWorkInfo where
  table_id : Int := 0
  op_type : MetaOp := MetaOp.OP_NONE
  index_id : Int := 0
  job_state : IndexState := IndexState.IS_NONE
  deleted : Option Bool := none
  rollback : Bool := false
  errcode : Option ErrCode := none
  begin_timestamp : Int := 0
  deriving DecidableEq, Repr, Inhabited

/-- What the meta service tracks of one region for a DDL job (`DdlRegionMem`). -/
structure DdlRegionMem where
  workstate : IndexState := IndexState.IS_NONE
  deriving DecidableEq, Repr, Inhabited

/-- A DDL job in the memory of the meta service (`DdlWorkMem`). -/
structure DdlWorkMem where
  table_id : Int := 0
  work_info : DdlWorkInfo := {}
  region_ddl_infos : List (Int × DdlRegionMem) := []
  deriving DecidableEq, Repr, Inhabited

/-- The part of `TableManager` the DDL functions touch: the schema of each
table and, as a journal, the requests `update_ddlwork_info` hands on. -/
structure TableManager where
  table_info_map : List (Int × SchemaInfo) := []
  ddlwork_requests : List (MetaOp × DdlWorkInfo) := []
  deriving DecidableEq, Repr, Inhabited

/-- The loop of the callback of `TableManager::update_index_status(request, ...)`
(table_manager.cpp 2737-2754): the first index with the id of the job is
erased when the job is deleted, and takes the job state otherwise. -/
def update_index_list (request_index_info : DdlWorkInfo) : List PbIndexInfo → List PbIndexInfo
  | [] => []
  | index :: rest =>
    if request_index_info.index_id = index.index_id then
      if request_index_info.deleted = some true then rest
      else { index with state := request_index_info.job_state } :: rest
    else index :: update_index_list request_index_info rest

/-- The callback of `TableManager::update_index_status(request, ...)`
(table_manager.cpp 2735-2756). -/
def SchemaInfo.update_index_status (request_index_info : DdlWorkInfo)
    (mem_schema_pb : SchemaInfo) : SchemaInfo :=
  { mem_schema_pb with
    indexs := update_index_list request_index_info mem_schema_pb.indexs
    version := mem_schema_pb.version + 1 }

/-- `TableManager::set_table_pb` on the map of schemas. -/
def set_table_pb (table_id : Int) (schema : SchemaInfo) :
    List (Int × SchemaInfo) → List (Int × SchemaInfo)
  | [] => []
  | kv :: rest =>
    if kv.1 = table_id then (kv.1, schema) :: rest else kv :: set_table_pb table_id schema rest

/-- `TableManager::update_index_status(ddl_work)` (table_manager.cpp 32-45) followed
by `update_index_status(request, ...)` through `update_table_internal`
(257-277).  Modelled from the spec: `SchemaManager::process_schema_info` hands
the OP_UPDATE_INDEX_STATUS request on and the change is applied before the call
returns; `schema_write_ok` is whether `update_schema_for_rocksdb` succeeds. -/
def TableManager.update_index_status (schema_write_ok : Bool) (tm : TableManager)
    (ddl_work : DdlWorkInfo) : TableManager :=
  match tm.table_info_map.lookup ddl_work.table_id with
  | none => tm
  | some schema_pb =>
    if schema_write_ok then
      { tm with
        table_info_map :=
          set_table_pb ddl_work.table_id (schema_pb.update_index_status ddl_work)
            tm.table_info_map }
    else tm

/-- Modelled from the spec: `TableManager::get_index_state` (declared in
`table_manager.h`) reads the state of an index from the schema of its table;
`none` stands for the non-zero return when the table or the index is unknown. -/
def TableManager.get_index_state (tm : TableManager) (table_id index_id : Int) :
    Option IndexState :=
  match tm.table_info_map.lookup table_id with
  | none => none
  | some schema_pb =>
    (schema_pb.indexs.find? (fun index => decide (index.index_id = index_id))).map
      (fun index => index.state)

/-- `TableManager::update_ddlwork_info` (table_manager.cpp 71-79): the request
handed to the schema manager. -/
def TableManager.update_ddlwork_info (tm : TableManager) (ddl_work : DdlWorkInfo)
    (update_op : MetaOp) : TableManager :=
  { tm with
    ddlwork_requests :=
      tm.ddlwork_requests ++ [(update_op, { table_id := ddl_work.table_id,
                                            job_state := ddl_work.job_state })] }

/-- What a DDL function of the meta service leaves behind: the table manager,
the job and the job infos added to the heartbeat response. -/
structure DdlOut where
  tm : TableManager
  meta_work : DdlWorkMem
  response : List DdlWorkInfo
  deriving DecidableEq, Repr

/-- `TableManager::process_ddl_update_job_index` (table_manager.cpp 96-135): the
returned flag and what is left behind.  `ddlwork_is_finish` is
`DdlHelper::ddlwork_is_finish`. -/
def TableManager.process_ddl_update_job_index (schema_write_ok : Bool)
    (ddlwork_is_finish : MetaOp → IndexState → Bool) (tm : TableManager)
    (meta_work_info : DdlWorkMem) (expected_state state : IndexState)
    (response : List DdlWorkInfo) : Bool × DdlOut :=
  let all_region_done : Bool :=
    meta_work_info.region_ddl_infos.all (fun r => decide (r.2.workstate = expected_state))
  let work1 : DdlWorkMem :=
    if all_region_done then
      { meta_work_info with work_info := { meta_work_info.work_info with job_state := state } }
    else meta_work_info
  let tm1 : TableManager :=
    if all_region_done then tm.update_index_status schema_write_ok work1.work_info else tm
  if ddlwork_is_finish work1.work_info.op_type state && all_region_done then
    (all_region_done, { tm := tm1, meta_work := work1, response := response })
  else
    match tm1.get_index_state work1.table_id work1.work_info.index_id with
    | none => (false, { tm := tm1, meta_work := work1, response := response })
    | some current_state =>
      (all_region_done,
       { tm := tm1, meta_work := work1
         response := response ++
           [{ table_id := work1.work_info.table_id
              op_type := work1.work_info.op_type
              job_state := current_state
              index_id := work1.work_info.index_id
              rollback := work1.work_info.rollback
              begin_timestamp := work1.work_info.begin_timestamp }] })

/-- Setting the job state of a job. -/
def DdlWorkMem.set_job_state (meta_work : DdlWorkMem) (state : IndexState) : DdlWorkMem :=
  { meta_work with work_info := { meta_work.work_info with job_state := state } }

/-- Marking a job as deleted. -/
def DdlWorkMem.set_deleted (meta_work : DdlWorkMem) : DdlWorkMem :=
  { meta_work with work_info := { meta_work.work_info with deleted := some true } }

open IndexState in
/-- `TableManager::process_ddl_add_index_process` (table_manager.cpp 137-175). -/
def TableManager.process_ddl_add_index_process (schema_write_ok : Bool)
    (ddlwork_is_finish : MetaOp → IndexState → Bool) (tm : TableManager)
    (response : List DdlWorkInfo) (meta_work : DdlWorkMem) : DdlOut :=
  match tm.get_index_state meta_work.table_id meta_work.work_info.index_id with
  | none => { tm := tm, meta_work := meta_work, response := response }
  | some current_state =>
    let work1 := meta_work.set_job_state current_state
    match current_state with
    | IS_NONE =>
      (tm.process_ddl_update_job_index schema_write_ok ddlwork_is_finish work1 IS_NONE
        IS_DELETE_ONLY response).2
    | IS_DELETE_LOCAL =>
      (tm.process_ddl_update_job_index schema_write_ok ddlwork_is_finish work1 IS_DELETE_LOCAL
        IS_WRITE_ONLY response).2
    | IS_DELETE_ONLY =>
      (tm.process_ddl_update_job_index schema_write_ok ddlwork_is_finish work1 IS_DELETE_ONLY
        IS_WRITE_ONLY response).2
    | IS_WRITE_ONLY =>
      (tm.process_ddl_update_job_index schema_write_ok ddlwork_is_finish work1 IS_WRITE_ONLY
        IS_WRITE_LOCAL response).2
    | IS_WRITE_LOCAL =>
      let out := tm.process_ddl_update_job_index schema_write_ok ddlwork_is_finish work1
        IS_PUBLIC IS_PUBLIC response
      if out.1 then
        { out.2 with
          tm := (out.2.tm.update_ddlwork_info out.2.meta_work.work_info
                  MetaOp.OP_DELETE_DDLWORK) }
      else out.2
    | IS_PUBLIC => { tm := tm, meta_work := work1, response := response }

open IndexState in
/-- `TableManager::process_ddl_del_index_process` (table_manager.cpp 177-221). -/
def TableManager.process_ddl_del_index_process (schema_write_ok : Bool)
    (ddlwork_is_finish : MetaOp → IndexState → Bool) (tm : TableManager)
    (response : List DdlWorkInfo) (meta_work : DdlWorkMem) : DdlOut :=
  match tm.get_index_state meta_work.table_id meta_work.work_info.index_id with
  | none => { tm := tm, meta_work := meta_work, response := response }
  | some current_state =>
    let work1 := meta_work.set_job_state current_state
    match current_state with
    | IS_PUBLIC =>
      (tm.process_ddl_update_job_index schema_write_ok ddlwork_is_finish work1 IS_PUBLIC
        IS_WRITE_ONLY response).2
    | IS_WRITE_LOCAL =>
      (tm.process_ddl_update_job_index schema_write_ok ddlwork_is_finish work1 IS_WRITE_LOCAL
        IS_WRITE_ONLY response).2
    | IS_WRITE_ONLY =>
      (tm.process_ddl_update_job_index schema_write_ok ddlwork_is_finish work1 IS_WRITE_ONLY
        IS_DELETE_ONLY response).2
    | IS_DELETE_ONLY =>
      (tm.process_ddl_update_job_index schema_write_ok ddlwork_is_finish work1 IS_DELETE_ONLY
        IS_DELETE_LOCAL response).2
    | IS_DELETE_LOCAL =>
      let out := tm.process_ddl_update_job_index schema_write_ok ddlwork_is_finish work1
        IS_NONE IS_NONE response
      if out.1 then
        let work2 := out.2.meta_work.set_deleted
        { out.2 with
          meta_work := work2
          tm := (out.2.tm.update_ddlwork_info work2.work_info
                  MetaOp.OP_DELETE_DDLWORK).update_index_status schema_write_ok
                  work2.work_info }
      else out.2
    | IS_NONE =>
      let work2 := work1.set_deleted
      { tm := (tm.update_ddlwork_info work2.work_info
                MetaOp.OP_DELETE_DDLWORK).update_index_status schema_write_ok work2.work_info
        meta_work := work2, response := response }

open IndexState in
/-- The line of an ADD job: the state that follows a state on it. -/
def IndexState.add_successor : IndexState → Option IndexState
  | IS_NONE => some IS_DELETE_ONLY
  | IS_DELETE_ONLY => some IS_WRITE_ONLY
  | IS_WRITE_ONLY => some IS_WRITE_LOCAL
  | IS_WRITE_LOCAL => some IS_PUBLIC
  | _ => none

open IndexState in
/-- The line of a DROP job: the state that follows a state on it. -/
def IndexState.del_successor : IndexState → Option IndexState
  | IS_PUBLIC => some IS_WRITE_ONLY
  | IS_WRITE_ONLY => some IS_DELETE_ONLY
  | IS_DELETE_ONLY => some IS_DELETE_LOCAL
  | IS_DELETE_LOCAL => some IS_NONE
  | _ => none

/-- Modelled from the spec: `DdlHelper::ddlwork_is_finish`, an ADD job is
finished at PUBLIC and a DROP job at NONE. -/
def ddlwork_is_finish (op_type : MetaOp) (state : IndexState) : Bool :=
  (op_type = MetaOp.OP_ADD_INDEX && state = IndexState.IS_PUBLIC) ||
    (op_type = MetaOp.OP_DROP_INDEX && state = IndexState.IS_NONE)

/-- Scenario S3: the meta service knows table 5 with its primary index 5 and
the key index 9 in the given state. -/
def Scenario.meta_with_index (state : IndexState) : TableManager :=
  { table_info_map :=
      [(5, { table_id := 5, table_name := "t", version := 1
             indexs := [{ index_name := "primary", index_type := IndexType.I_PRIMARY
                          index_id := 5, state := IndexState.IS_PUBLIC },
                        { index_name := "k", index_type := IndexType.I_KEY
                          index_id := 9, state := state }] })] }

/-- Scenario S3: a job of the given kind on index 9 of table 5 whose two
regions both report the given state. -/
def Scenario.ddl_job (op_type : MetaOp) (workstate : IndexState) : DdlWorkMem :=
  { table_id := 5
    work_info := { table_id := 5, op_type := op_type, index_id := 9 }
    region_ddl_infos := [(1, { workstate := workstate }), (2, { workstate := workstate })] }

/-- Scenario S3: the same job with the second region lagging at another state. -/
def Scenario.ddl_job_lagging (op_type : MetaOp) (workstate lagging : IndexState) : DdlWorkMem :=
  { table_id := 5
    work_info := { table_id := 5, op_type := op_type, index_id := 9 }
    region_ddl_infos := [(1, { workstate := workstate }), (2, { workstate := lagging })] }


/-- Scenario S3: every tracked region of a job reports the given state. -/
def Scenario.report (workstate : IndexState) (meta_work : DdlWorkMem) : DdlWorkMem :=
  { meta_work with
    region_ddl_infos := meta_work.region_ddl_infos.map (fun r => (r.1, { workstate := workstate })) }

/-- Scenario S3: one round of an ADD job, the regions report a state and the
meta service processes the job. -/
def Scenario.add_round (st : TableManager × DdlWorkMem) (workstate : IndexState) :
    TableManager × DdlWorkMem :=
  ((st.1.process_ddl_add_index_process true ddlwork_is_finish [] (Scenario.report workstate st.2)).tm,
   (st.1.process_ddl_add_index_process true ddlwork_is_finish [] (Scenario.report workstate st.2)).meta_work)

/-- Scenario S3: one round of a DROP job. -/
def Scenario.del_round (st : TableManager × DdlWorkMem) (workstate : IndexState) :
    TableManager × DdlWorkMem :=
  ((st.1.process_ddl_del_index_process true ddlwork_is_finish [] (Scenario.report workstate st.2)).tm,
   (st.1.process_ddl_del_index_process true ddlwork_is_finish [] (Scenario.report workstate st.2)).meta_work)

/-- Scenario S3: the state of index 9 of table 5 after the rounds of an ADD job
that starts at NONE. -/
def Scenario.add_run (reports : List IndexState) : Option IndexState :=
  (reports.foldl Scenario.add_round
    (Scenario.meta_with_index IndexState.IS_NONE,
     Scenario.ddl_job MetaOp.OP_ADD_INDEX IndexState.IS_NONE)).1.get_index_state 5 9

/-- Scenario S3: the job state and the state of index 9 of table 5 after the
rounds of a DROP job that starts at PUBLIC. -/
def Scenario.del_run (reports : List IndexState) : IndexState × Option IndexState :=
  ((reports.foldl Scenario.del_round
    (Scenario.meta_with_index IndexState.IS_PUBLIC,
     Scenario.ddl_job MetaOp.OP_DROP_INDEX IndexState.IS_PUBLIC)).2.work_info.job_state,
   (reports.foldl Scenario.del_round
    (Scenario.meta_with_index IndexState.IS_PUBLIC,
     Scenario.ddl_job MetaOp.OP_DROP_INDEX IndexState.IS_PUBLIC)).1.get_index_state 5 9)

open IndexState in
/-- The state the regions have to report for an ADD job to leave a state. -/
def IndexState.add_expected : IndexState → IndexState
  | IS_WRITE_LOCAL => IS_PUBLIC
  | s => s

open IndexState in
/-- The state the regions have to report for a DROP job to leave a state. -/
def IndexState.del_expected : IndexState → IndexState
  | IS_DELETE_LOCAL => IS_NONE
  | s => s

/-- Whether every region tracked for a job reports the given state. -/
def DdlWorkMem.all_regions_report (meta_work : DdlWorkMem) (expected : IndexState) : Bool :=
  meta_work.region_ddl_infos.all (fun r => decide (r.2.workstate = expected))

/-- The gflags `Region::snapshot` reads (region.cpp 44-48): `snapshot_interval_s`
is defined with `DEFINE_int32`, the three others with `DEFINE_int64`. -/
structure SnapshotFlags where
  snapshot_interval_s : Int := 600
  snapshot_diff_lines : Int := 10000
  snapshot_diff_logs : Int := 2000
  snapshot_log_exec_time_s : Int := 60
  deriving DecidableEq, Repr, Inhabited

/-- The product of two signed integers of `w` bits, kept at `w` bits. -/
def int_mul (w : Nat) (a b : Int) : Int := to_signed w (wrap w (a * b))

/-- The difference of two signed integers of `w` bits, kept at `w` bits. -/
def int_sub (w : Nat) (a b : Int) : Int := to_signed w (wrap w (a - b))

/-- The absolute value of a signed integer of `w` bits, kept at `w` bits. -/
def int_abs (w : Nat) (a : Int) : Int := to_signed w (wrap w (Int.natAbs a : Int))

/-- The interval test of `Region::snapshot` (region.cpp 2523): the threshold
`FLAGS_snapshot_interval_s * 1000 * 1000` is computed in `int`, the flag being
an `int32`, and then compared with the elapsed microseconds. -/
def Region.snapshot_interval_threshold (flags : SnapshotFlags) : Int :=
  int_mul 32 (int_mul 32 flags.snapshot_interval_s 1000) 1000

/-- The flag `need_snapshot` of `Region::snapshot` (region.cpp 2526-2534). -/
def Region.need_snapshot (flags : SnapshotFlags) (r : Region) : Bool :=
  if int_sub 64 r.applied_index r.snapshot_index > flags.snapshot_diff_logs then true
  else if int_abs 64 (int_sub 64 r.snapshot_num_table_lines r.num_table_lines)
      > flags.snapshot_diff_lines then true
  else if int_mul 64 (int_sub 64 r.applied_index r.snapshot_index) r.average_cost
      > int_mul 64 (int_mul 64 flags.snapshot_log_exec_time_s 1000) 1000 then true
  else false

/-- `Region::snapshot` (region.cpp 2512-2543); `snapshot_time_cost` holds the
microseconds `_snapshot_time_cost.get_time()` returns, and a triggered
snapshot is the journal entry `node_snapshot`. -/
def Region.snapshot (flags : SnapshotFlags) (r : Region) : Region :=
  if r.shutdown then r
  else if r.status ≠ RegionStatus.IDLE then r
  else if r.snapshot_time_cost < Region.snapshot_interval_threshold flags then r
  else if !r.need_snapshot flags then r
  else r.emit Effect.node_snapshot

/-- Whether a call of `Region::snapshot` triggers a consensus snapshot. -/
def Region.snapshot_triggered (flags : SnapshotFlags) (r : Region) : Bool :=
  decide ((r.snapshot flags).effects = r.effects ++ [Effect.node_snapshot])

/-- Scenario: an idle region one second after its last snapshot, 5000 log
entries ahead of it. -/
def Scenario.fresh_snapshot_region : Region :=
  { region_id := 1, applied_index := 6000, snapshot_index := 1000,
    snapshot_time_cost := 1000000 }

/-- Scenario: the same region 700 seconds after its last snapshot. -/
def Scenario.due_snapshot_region : Region :=
  { region_id := 1, applied_index := 6000, snapshot_index := 1000,
    snapshot_time_cost := 700000000 }

/-- Scenario: a snapshot interval of 3000 seconds. -/
def Scenario.long_interval_flags : SnapshotFlags := { snapshot_interval_s := 3000 }

/-- One entry of the raft log column family as the iterator of
`Region::get_log_entry_for_split` yields it: the index in its key, the term and
the entry type of its head, and its payload parsed as a request (`none` when
`ParseFromArray` fails). -/
structure RaftLogEntry where
  log_index : Int
  term : Int
  is_data : Bool := true
  store_req : Option StoreReq := none
  deriving DecidableEq, Repr

open OpType in
/-- The operation types `Region::get_log_entry_for_split` accepts in a data
entry (region.cpp 3948-3955). -/
def OpType.is_split_log_op (op_type : OpType) : Bool :=
  !(op_type ≠ OP_INSERT && op_type ≠ OP_DELETE && op_type ≠ OP_UPDATE && op_type ≠ OP_PREPARE
    && op_type ≠ OP_PREPARE_V2 && op_type ≠ OP_ROLLBACK && op_type ≠ OP_COMMIT
    && op_type ≠ OP_KV_BATCH)

open OpType in
/-- The request pushed for a data entry (region.cpp 3960-3965). -/
def Region.split_log_request (r : Region) (store_req : StoreReq) : StoreReq :=
  { (if store_req.op_type = OP_KV_BATCH then { store_req with op_type := OP_KV_BATCH_SPLIT }
     else store_req) with
    region_id := r.split_param.new_region_id
    region_version := 0 }

/-- What the loop of `Region::get_log_entry_for_split` leaves behind: whether it
returned -1, the requests and the local `start_index`. -/
structure SplitLogOut where
  failed : Bool
  requests : List StoreReq
  start_index : Int
  deriving DecidableEq, Repr

/-- The loop of `Region::get_log_entry_for_split` over the entries the iterator
yields from the seek position (region.cpp 3923-3967). -/
def Region.get_log_entry_loop (r : Region) (expected_term : Int) :
    List RaftLogEntry → Int → List StoreReq → SplitLogOut
  | [], start_index, requests => ⟨false, requests, start_index⟩
  | entry :: rest, start_index, requests =>
    if entry.log_index ≠ start_index then ⟨true, requests, start_index⟩
    else if entry.term ≠ expected_term then ⟨true, requests, start_index⟩
    else if !entry.is_data then r.get_log_entry_loop expected_term rest start_index requests
    else
      match entry.store_req with
      | none => ⟨true, requests, start_index⟩
      | some store_req =>
        if !store_req.op_type.is_split_log_op then ⟨true, requests, start_index⟩
        else
          r.get_log_entry_loop expected_term rest (start_index + 1)
            (requests ++ [r.split_log_request store_req])

/-- `Region::get_log_entry_for_split` (region.cpp 3910-3973): the return code,
the vector `requests` and `split_end_index`, both passed by reference.  `log`
holds the entries of the region with an index from `split_start_index` on, in
key order. -/
def Region.get_log_entry_for_split (r : Region) (log : List RaftLogEntry)
    (split_start_index expected_term : Int) (requests : List StoreReq) (split_end_index : Int) :
    Int × List StoreReq × Int :=
  let out := r.get_log_entry_loop expected_term log split_start_index requests
  if out.failed then (-1, out.requests, split_end_index)
  else (0, out.requests, out.start_index - 1)

/-- A run of data entries with consecutive indexes from `start_index` on that
carry the expected term and a request of an accepted operation type. -/
def data_run (expected_term : Int) : Int → List RaftLogEntry → Bool
  | _, [] => true
  | start_index, entry :: rest =>
    decide (entry.log_index = start_index) && decide (entry.term = expected_term) &&
      entry.is_data &&
      (match entry.store_req with
       | some store_req => store_req.op_type.is_split_log_op
       | none => false) &&
      data_run expected_term (start_index + 1) rest

/-- The requests of the data entries of a log, in log order. -/
def data_requests (log : List RaftLogEntry) : List StoreReq :=
  log.filterMap (fun entry => if entry.is_data then entry.store_req else none)

/-- Scenario: a parent region that splits into region 2. -/
def Scenario.catch_up_parent : Region :=
  { region_id := 1, split_param := { new_region_id := 2 } }

/-- Scenario: a log from index 10 on, all of term 3: an INSERT, a
configuration entry and a KV batch. -/
def Scenario.log_with_configuration : List RaftLogEntry :=
  [{ log_index := 10, term := 3
     store_req := some { op_type := OpType.OP_INSERT, region_id := 1, region_version := 4 } },
   { log_index := 11, term := 3, is_data := false },
   { log_index := 12, term := 3
     store_req := some { op_type := OpType.OP_KV_BATCH, region_id := 1, region_version := 4 } }]

/-- Scenario: the same log without the configuration entry. -/
def Scenario.log_of_data : List RaftLogEntry :=
  [{ log_index := 10, term := 3
     store_req := some { op_type := OpType.OP_INSERT, region_id := 1, region_version := 4 } },
   { log_index := 11, term := 3
     store_req := some { op_type := OpType.OP_KV_BATCH, region_id := 1, region_version := 4 } }]

/-- What `txn->commit()` returns to `Region::write_local_rocksdb_for_ddl`. -/
inductive CommitStatus
  | ok | expired | other
  deriving DecidableEq, Repr, Inhabited

/-- One row of the snapshot `Region::write_local_rocksdb_for_ddl` iterates over:
its primary key and what each call made for the row returns. -/
structure BackfillRow where
  pk : Key := []
  decode_key_ret : Int := 0
  get_update_primary_ret : Int := 0
  get_update_secondary_ret : Int := -2
  exist_pk_val : Key := []
  put_secondary_ret : Int := 0
  encode_key_ret : Int := 0
  field_is_null : Bool := false
  get_reverse_word_ret : Int := 0
  insert_reverse_ret : Int := 0
  commit_status : CommitStatus := CommitStatus.ok
  deriving DecidableEq, Repr, Inhabited

/-- The member `_ddl_param` of a region as far as the backfill reads it. -/
structure DdlParam where
  index_id : Int := 0
  begin_timestamp : Int := 0
  is_start : Bool := false
  is_doing : Bool := false
  is_waiting : Bool := false
  deriving DecidableEq, Repr, Inhabited

/-- Calls the index backfill makes on its KV transactions, on the reverse index
and on the meta writer, and its calls of `ddlwork_rollback`. -/
inductive DdlEffect
  | txn_begin (pk : Key)
  | txn_rollback (pk : Key)
  | txn_commit (pk : Key)
  | put_secondary (pk : Key)
  | insert_reverse (pk : Key)
  | ddlwork_rollback (errcode : ErrCode)
  | update_region_ddl_info (ddlwork_infos : List DdlWorkInfo)
  deriving DecidableEq, Repr

/-- The DDL members of a region: `_region_ddl_info.ddlwork_infos`, `_ddl_param`
and, as a journal, the calls made. -/
structure RegionDdl where
  ddlwork_infos : List DdlWorkInfo := []
  ddl_param : DdlParam := {}
  journal : List DdlEffect := []
  deriving DecidableEq, Repr, Inhabited

/-- Appending a call to the journal. -/
def RegionDdl.emit (ddl : RegionDdl) (e : DdlEffect) : RegionDdl :=
  { ddl with journal := ddl.journal ++ [e] }

/-- Modelled from the spec: `Region::ddlwork_rollback` (declared in `region.h`),
"the region rolls back, reports the error to the meta service": the first job
info is flagged `rollback` with the error code, which the heartbeat hands to
the meta service (region.cpp 1707-1715); the caller's `is_success` becomes
false. -/
def RegionDdl.ddlwork_rollback (ddl : RegionDdl) (errcode : ErrCode) : RegionDdl :=
  { ddl with
    ddlwork_infos :=
      (match ddl.ddlwork_infos with
       | [] => []
       | info :: rest => { info with rollback := true, errcode := some errcode } :: rest)
    journal := ddl.journal ++ [DdlEffect.ddlwork_rollback errcode] }

/-- The locals and members the row loop of `write_local_rocksdb_for_ddl`
carries. -/
structure BackfillState where
  ddl : RegionDdl
  is_success : Bool := true
  success_num : Int := 0
  all_num : Int := 0
  deriving DecidableEq, Repr

/-- A call `ddlwork_rollback(errcode, is_success)`. -/
def BackfillState.fail (st : BackfillState) (errcode : ErrCode) : BackfillState :=
  { st with ddl := st.ddl.ddlwork_rollback errcode, is_success := false }

/-- A call on the KV transaction of the row. -/
def BackfillState.emit (st : BackfillState) (e : DdlEffect) : BackfillState :=
  { st with ddl := st.ddl.emit e }

open IndexType ErrCode in
/-- The `switch (index_info_to_modify.type)` of the row loop (region.cpp
4334-4428); every `break` in it leaves the switch only. -/
def backfill_switch (index_type : IndexType) (row : BackfillRow) (st : BackfillState) :
    BackfillState :=
  match index_type with
  | I_UNIQ =>
    let ret := row.get_update_secondary_ret
    if ret = 0 ∧ row.pk ≠ row.exist_pk_val then st.fail DDL_UNIQUE_KEY_FAIL
    else if ret ≠ 0 ∧ ¬ (ret = -2 ∨ ret = -3) then st.fail INTERNAL_ERROR
    else
      let st1 := st.emit (DdlEffect.put_secondary row.pk)
      if row.put_secondary_ret ≠ 0 then
        (st1.emit (DdlEffect.txn_rollback row.pk)).fail INTERNAL_ERROR
      else st1
  | I_KEY =>
    let st1 := st.emit (DdlEffect.put_secondary row.pk)
    if row.put_secondary_ret ≠ 0 then
      (st1.emit (DdlEffect.txn_rollback row.pk)).fail INTERNAL_ERROR
    else st1
  | I_FULLTEXT =>
    if row.encode_key_ret < 0 then (st.emit (DdlEffect.txn_rollback row.pk)).fail INTERNAL_ERROR
    else if row.field_is_null then (st.emit (DdlEffect.txn_rollback row.pk)).fail INTERNAL_ERROR
    else if row.get_reverse_word_ret < 0 then
      (st.emit (DdlEffect.txn_rollback row.pk)).fail INTERNAL_ERROR
    else
      let st1 := st.emit (DdlEffect.insert_reverse row.pk)
      if row.insert_reverse_ret < 0 then
        (st1.emit (DdlEffect.txn_rollback row.pk)).fail INTERNAL_ERROR
      else st1
  | _ => st

/-- Whether the rollback check at the head of the row loop ends the backfill
(region.cpp 4299-4300). -/
def RegionDdl.job_replaced (ddl : RegionDdl) : Bool :=
  match ddl.ddlwork_infos with
  | [] => true
  | info :: _ => decide (ddl.ddl_param.begin_timestamp ≠ info.begin_timestamp)

open ErrCode in
/-- The row loop of `Region::write_local_rocksdb_for_ddl` (region.cpp
4295-4450). -/
def backfill_loop (index_type : IndexType) : List BackfillRow → BackfillState → BackfillState
  | [], st => st
  | row :: rest, st =>
    if st.ddl.job_replaced then { st with is_success := false }
    else
      let st1 := { st with all_num := st.all_num + 1 }.emit (DdlEffect.txn_begin row.pk)
      if row.decode_key_ret ≠ 0 then
        (st1.emit (DdlEffect.txn_rollback row.pk)).fail INTERNAL_ERROR
      else if row.get_update_primary_ret = -3 ∨ row.get_update_primary_ret = -2 then
        backfill_loop index_type rest (st1.emit (DdlEffect.txn_rollback row.pk))
      else if row.get_update_primary_ret ≠ 0 then
        (st1.emit (DdlEffect.txn_rollback row.pk)).fail INTERNAL_ERROR
      else
        let st2 := (backfill_switch index_type row st1).emit (DdlEffect.txn_commit row.pk)
        if row.commit_status = CommitStatus.ok then
          backfill_loop index_type rest { st2 with success_num := st2.success_num + 1 }
        else (st2.fail INTERNAL_ERROR).emit (DdlEffect.txn_rollback row.pk)

/-- The scope guard that ends `Region::write_local_rocksdb_for_ddl` (region.cpp
4265-4283).  Modelled from the spec: `_ddl_param.reset()` (declared in
`region.h`) puts the parameters of the job back to their initial values. -/
def Region.write_local_rocksdb_for_ddl_exit (r : Region) (st : BackfillState) :
    Region × RegionDdl :=
  let ddl1 : RegionDdl :=
    match st.ddl.ddlwork_infos with
    | [] => st.ddl
    | info :: rest =>
      if st.is_success then
        ({ st.ddl with
           ddlwork_infos := { info with job_state := IndexState.IS_PUBLIC } :: rest }).emit
          (DdlEffect.update_region_ddl_info
            ({ info with job_state := IndexState.IS_PUBLIC } :: rest))
      else st.ddl
  (r.set_status RegionStatus.IDLE, { ddl1 with ddl_param := {} })

open ErrCode in
/-- `Region::write_local_rocksdb_for_ddl` (region.cpp 4222-4451).  `index_type`
is the type of the index being built, `reverse_index_present` whether it is
in `_reverse_index_map`, and `rows` what the iterator over the snapshot
yields for the primary index of the region. -/
def Region.write_local_rocksdb_for_ddl (r : Region) (ddl : RegionDdl) (index_type : IndexType)
    (reverse_index_present : Bool) (rows : List BackfillRow) : Region × RegionDdl :=
  if r.shutdown then (r, ddl)
  else if index_type = IndexType.I_FULLTEXT ∧ reverse_index_present = false then
    r.write_local_rocksdb_for_ddl_exit (BackfillState.fail { ddl := ddl } INTERNAL_ERROR)
  else r.write_local_rocksdb_for_ddl_exit (backfill_loop index_type rows { ddl := ddl })

/-- Whether a row has an entry in the UNIQUE index being built that points to
another primary key. -/
def BackfillRow.unique_violation (row : BackfillRow) : Bool :=
  decide (row.decode_key_ret = 0) && decide (row.get_update_primary_ret = 0) &&
    decide (row.get_update_secondary_ret = 0) && decide (row.pk ≠ row.exist_pk_val)

/-- Scenario: a region at WRITE_LOCAL of the job that began at time 77 and
builds the UNIQUE index 9. -/
def Scenario.backfill_ddl : RegionDdl :=
  { ddlwork_infos := [{ table_id := 5, op_type := MetaOp.OP_ADD_INDEX, index_id := 9,
                        job_state := IndexState.IS_WRITE_LOCAL, begin_timestamp := 77 }]
    ddl_param := { index_id := 9, begin_timestamp := 77, is_start := true, is_doing := true } }

/-- Scenario: two rows of the snapshot, the first with an entry of the UNIQUE
index that points to the primary key `[2]`, the second without an entry. -/
def Scenario.violating_rows : List BackfillRow :=
  [{ pk := [1], get_update_secondary_ret := 0, exist_pk_val := [2] },
   { pk := [3] }]

/-- Scenario: two rows without an entry in the UNIQUE index. -/
def Scenario.clean_rows : List BackfillRow :=
  [{ pk := [1] }, { pk := [3] }]

/-- What the range loop of `RocksdbScanNode::choose_index` accumulates
(rocksdb_scan_node.cpp 173-203): the locals `is_eq` and `like_prefix` and the
member vectors it fills. -/
structure RangeScan where
  is_eq : Bool := true
  like_prefix : Bool := true
  left_field_cnts : List Int := []
  right_field_cnts : List Int := []
  left_opens : List Bool := []
  right_opens : List Bool := []
  like_prefixs : List Bool := []
  deriving DecidableEq, Repr, Inhabited

/-- One round of the range loop of `choose_index` (rocksdb_scan_node.cpp
175-203); an unset count reads as 0. -/
def range_scan_step (st : RangeScan) (range : PossibleRange) : RangeScan :=
  let left_field_cnt := range.left_field_cnt.getD 0
  let right_field_cnt := range.right_field_cnt.getD 0
  let is_eq1 := if range.left_pb_record ≠ range.right_pb_record then false else st.is_eq
  let is_eq2 := if left_field_cnt ≠ right_field_cnt then false else is_eq1
  let is_eq3 := if range.left_open || range.right_open then false else is_eq2
  { is_eq := is_eq3
    like_prefix := PossibleRange.like_prefix range
    left_field_cnts := st.left_field_cnts ++ [left_field_cnt]
    right_field_cnts := st.right_field_cnts ++ [right_field_cnt]
    left_opens := st.left_opens ++ [range.left_open]
    right_opens := st.right_opens ++ [range.right_open]
    like_prefixs := st.like_prefixs ++ [ PossibleRange.like_prefix range] }

/-- The part of `RocksdbScanNode::choose_index` that decides on the point GET
(rocksdb_scan_node.cpp 166-209): the value of `_use_get` for the installed
index and its candidate, `_use_get` being false before.  `idx` is the member
`_idx`; `none` stands for the undefined read `_left_field_cnts[_idx]` past the
end of the vector. -/
def choose_index_use_get (index_info : IndexInfo) (pos_index : PossibleIndex) (idx : Nat) :
    Option Bool :=
  if pos_index.ranges.length = 0 then some false
  else
    let st := pos_index.ranges.foldl range_scan_step {}
    if index_info.type = IndexType.I_PRIMARY ∨ index_info.type = IndexType.I_UNIQ then
      match st.left_field_cnts.get? idx with
      | none => none
      | some left_field_cnt =>
        if left_field_cnt = (index_info.fields.length : Int) ∧ st.is_eq = true ∧
            RangeScan.like_prefix st = false then some true
        else some false
    else some false

/-- A range that is a single full-key match of an index with `n` fields: equal
left and right records, both counts `n`, no open bound and no like-prefix. -/
def PossibleRange.full_key_match (range : PossibleRange) (n : Nat) : Bool :=
  decide (range.left_pb_record = range.right_pb_record) &&
    decide (range.left_field_cnt.getD 0 = (n : Int)) &&
    decide (range.right_field_cnt.getD 0 = (n : Int)) &&
    !range.left_open && !range.right_open && ! PossibleRange.like_prefix range

/-- A range with equal records, equal counts and no open bound. -/
def PossibleRange.closed_equal (range : PossibleRange) : Bool :=
  decide (range.left_pb_record = range.right_pb_record) &&
    decide (range.left_field_cnt.getD 0 = range.right_field_cnt.getD 0) &&
    !range.left_open && !range.right_open

/-- Scenario: the primary index 1 over two fields. -/
def Scenario.two_field_primary : IndexInfo :=
  { id := 1, type := IndexType.I_PRIMARY, fields := [1, 2] }

/-- Scenario: a candidate with a full-key range and, after it, a range on the
first field only. -/
def Scenario.full_then_partial : PossibleIndex :=
  { index_id := 1
    ranges := [{ left_field_cnt := some 2, right_field_cnt := some 2
                 left_pb_record := [7, 8], right_pb_record := [7, 8] },
               { left_field_cnt := some 1, right_field_cnt := some 1
                 left_pb_record := [9], right_pb_record := [9] }] }

/-- Scenario: a candidate with a like-prefix range and, after it, a full-key
range. -/
def Scenario.like_then_full : PossibleIndex :=
  { index_id := 1
    ranges := [{ left_field_cnt := some 2, right_field_cnt := some 2
                 left_pb_record := [7, 8], right_pb_record := [7, 8], like_prefix := true },
               { left_field_cnt := some 2, right_field_cnt := some 2
                 left_pb_record := [9, 9], right_pb_record := [9, 9] }] }

/-- Scenario: a candidate with one full-key range. -/
def Scenario.single_full_key : PossibleIndex :=
  { index_id := 1
    ranges := [{ left_field_cnt := some 2, right_field_cnt := some 2
                 left_pb_record := [7, 8], right_pb_record := [7, 8] }] }

/-- The part of `TableMem` that `TableManager::alloc_index_id` reads and
writes. -/
structure TableMem where
  whether_level_table : Bool := false
  field_id_map : List (String × Int) := []
  index_id_map : List (String × Int) := []
  deriving DecidableEq, Repr, Inhabited

/-- The assignment `map[key] = value` of a `std::map`. -/
def map_assign (key : String) (value : Int) (m : List (String × Int)) : List (String × Int) :=
  (key, value) :: m.filter (fun kv => kv.1 ≠ key)

/-- The inner loop of `alloc_index_id` over the field names of an index
(table_manager.cpp 1467-1477): whether every name was found, and the field ids
of the index as the loop leaves them. -/
def add_field_ids (field_id_map : List (String × Int)) :
    List String → List Int → Bool × List Int
  | [], field_ids => (true, field_ids)
  | field_name :: rest, field_ids =>
    match field_id_map.lookup field_name with
    | none => (false, field_ids)
    | some field_id => add_field_ids field_id_map rest (field_ids ++ [field_id])

/-- What the loop of `alloc_index_id` carries: the indexes it is done with, the
map of index ids, `max_table_id_tmp` and `has_primary_key`. -/
structure AllocState where
  indexs : List PbIndexInfo := []
  index_id_map : List (String × Int) := []
  max_table_id_tmp : Int := 0
  has_primary_key : Bool := false
  deriving DecidableEq, Repr, Inhabited

/-- The return of -1 from inside the loop: the index at hand and the ones not
looked at yet stay in the table as they are. -/
def AllocState.give_up (st : AllocState) (index : PbIndexInfo) (rest : List PbIndexInfo) :
    Option (Int × AllocState) :=
  some (-1, { st with indexs := st.indexs ++ index :: rest })

open IndexType in
/-- The loop of `TableManager::alloc_index_id` over the indexes of the table
(table_manager.cpp 1465-1514); `none` stands for the undefined read
`field_names(0)` of an index without field names. -/
def alloc_index_loop (table_info : SchemaInfo) (table_mem : TableMem) :
    List PbIndexInfo → AllocState → Option (Int × AllocState)
  | [], st => some (if !st.has_primary_key then -1 else 0, st)
  | index :: rest, st =>
    let added := add_field_ids table_mem.field_id_map index.field_names index.field_ids
    let index1 : PbIndexInfo := { index with field_ids := added.2 }
    if !added.1 then st.give_up index1 rest
    else if index1.index_type = I_NONE then st.give_up index1 rest
    else
      let index2 : PbIndexInfo := { index1 with state := IndexState.IS_PUBLIC }
      if index2.index_type ≠ I_PRIMARY then
        alloc_index_loop table_info table_mem rest
          { st with
            indexs := st.indexs ++ [{ index2 with index_id := st.max_table_id_tmp + 1 }]
            index_id_map := map_assign index.index_name (st.max_table_id_tmp + 1) st.index_id_map
            max_table_id_tmp := st.max_table_id_tmp + 1 }
      else if st.has_primary_key then st.give_up index2 rest
      else
        let index3 : PbIndexInfo := { index2 with index_id := table_info.table_id }
        let st1 : AllocState := { st with has_primary_key := true }
        let st2 : AllocState :=
          { st1 with
            indexs := st.indexs ++ [index3]
            index_id_map := map_assign index.index_name table_info.table_id st.index_id_map }
        if !table_mem.whether_level_table ∧ table_info.partition_num ≠ 1 then
          if index3.field_names.length > 1 then st1.give_up index3 rest
          else
            match index3.field_names with
            | [] => none
            | primary_field :: _ =>
              if table_info.fields.any
                  (fun field => field.field_name = primary_field && field.auto_increment = false)
              then st1.give_up index3 rest
              else alloc_index_loop table_info table_mem rest st2
        else alloc_index_loop table_info table_mem rest st2

/-- What `TableManager::alloc_index_id` leaves behind: its return code and the
three arguments passed by reference. -/
structure AllocOut where
  ret : Int
  table_info : SchemaInfo
  table_mem : TableMem
  max_table_id_tmp : Int
  deriving DecidableEq, Repr

/-- `TableManager::alloc_index_id` (table_manager.cpp 1461-1519). -/
def alloc_index_id (table_info : SchemaInfo) (table_mem : TableMem) (max_table_id_tmp : Int) :
    Option AllocOut :=
  (alloc_index_loop table_info table_mem table_info.indexs
      { index_id_map := table_mem.index_id_map, max_table_id_tmp := max_table_id_tmp }).map
    (fun out =>
      { ret := out.1
        table_info := { table_info with indexs := out.2.indexs }
        table_mem := { table_mem with index_id_map := out.2.index_id_map }
        max_table_id_tmp := out.2.max_table_id_tmp })

/-- The indexes of a table that are not PRIMARY. -/
def non_primary (indexs : List PbIndexInfo) : List PbIndexInfo :=
  indexs.filter (fun index => decide (index.index_type ≠ IndexType.I_PRIMARY))

/-- The PRIMARY indexes of a table. -/
def primary (indexs : List PbIndexInfo) : List PbIndexInfo :=
  indexs.filter (fun index => decide (index.index_type = IndexType.I_PRIMARY))

/-- The ids `first`, `first + 1`, ... of `n` indexes. -/
def consecutive_ids (first : Int) : Nat → List Int
  | 0 => []
  | n + 1 => first :: consecutive_ids (first + 1) n

/-- Whether `alloc_index_id` reads `field_names(0)` of a PRIMARY index that has
no field names: the table is not a level table and has a partition number
other than 1. -/
def reads_missing_field_name (table_info : SchemaInfo) (table_mem : TableMem) : Bool :=
  !table_mem.whether_level_table && decide (table_info.partition_num ≠ 1) &&
    table_info.indexs.any
      (fun index => decide (index.index_type = IndexType.I_PRIMARY) &&
        decide (index.field_names = []))

/-- Scenario: table 7 with fields `id` and `name`, a key on `name`, the
primary key on `id` and a unique key on both. -/
def Scenario.new_table : SchemaInfo :=
  { table_id := 7, table_name := "t"
    fields := [{ field_name := "id" }, { field_name := "name" }]
    indexs := [{ index_name := "k", index_type := IndexType.I_KEY, field_names := ["name"] },
               { index_name := "primary", index_type := IndexType.I_PRIMARY
                 field_names := ["id"] },
               { index_name := "u", index_type := IndexType.I_UNIQ
                 field_names := ["name", "id"] }] }

/-- Scenario: the field ids `alloc_field_id` gave the fields of table 7. -/
def Scenario.new_table_mem : TableMem :=
  { field_id_map := [("id", 1), ("name", 2)] }

/-- The index `alloc_index_id` leaves for an index it accepts: the field ids
found for its field names added, the state PUBLIC and the id given. -/
def PbIndexInfo.allocated (index : PbIndexInfo) (field_id_map : List (String × Int))
    (index_id : Int) : PbIndexInfo :=
  { index with
    field_ids := (add_field_ids field_id_map index.field_names index.field_ids).2
    state := IndexState.IS_PUBLIC
    index_id := index_id }

/-- One round of the loop of `alloc_index_id` that goes on to the next index:
the index has known field names and a type other than I_NONE, and is either
not PRIMARY and takes the next id, or the first PRIMARY index and takes the id
of the table. -/
def alloc_step (table_info : SchemaInfo) (table_mem : TableMem) (index : PbIndexInfo)
    (st st1 : AllocState) : Prop :=
  (add_field_ids table_mem.field_id_map index.field_names index.field_ids).1 = true ∧
    index.index_type ≠ IndexType.I_NONE ∧
    ((index.index_type ≠ IndexType.I_PRIMARY ∧
        st1 = { st with
                indexs := st.indexs ++
                  [index.allocated table_mem.field_id_map (st.max_table_id_tmp + 1)]
                index_id_map :=
                  map_assign index.index_name (st.max_table_id_tmp + 1) st.index_id_map
                max_table_id_tmp := st.max_table_id_tmp + 1 }) ∨
      (index.index_type = IndexType.I_PRIMARY ∧ st.has_primary_key = false ∧
        st1 = { st with
                has_primary_key := true
                indexs := st.indexs ++
                  [index.allocated table_mem.field_id_map table_info.table_id]
                index_id_map :=
                  map_assign index.index_name table_info.table_id st.index_id_map }))

/-- Scenario: a PREPARE of transaction 7 that carries the cached plans of
sequence 1 (BEGIN) and 2 (INSERT). -/
def Scenario.prepare_with_cache : StoreReq :=
  { op_type := OpType.OP_PREPARE
    txn_infos := [{ txn_id := 7, seq_id := 3
                    cache_plans := [{ op_type := OpType.OP_BEGIN, seq_id := 1 },
                                    { op_type := OpType.OP_INSERT, seq_id := 2 }] }] }

open OpType ErrCode

theorem rollback_loop_applied_index (env : Env) (txn_id : Nat) (l : List Int) (r : Region) :
    (r.rollback_loop env txn_id l).applied_index = r.applied_index := by
  unfold Region.rollback_loop
  generalize l.reverse = l'
  induction l' generalizing r with
  | nil => rfl
  | cons a t ih => simp [List.foldl, ih, Region.rollback_to_point]

theorem dml_2pc_finish_applied_index (r : Region) (op : OpType) (res : StoreRes) (i : Int)
    (t : Nat) (a b c : Int) :
    (r.dml_2pc_finish op res i t a b c).1.applied_index = r.applied_index := by
  unfold Region.dml_2pc_finish
  simp only []
  split_ifs <;> simp

theorem dml_2pc_pre_commit_applied_index (r : Region) (op : OpType) (i : Int) (t : Nat) (d : Int) :
    (r.dml_2pc_pre_commit op i t d).applied_index = r.applied_index := by
  unfold Region.dml_2pc_pre_commit
  split_ifs <;> simp

theorem set_txn_err_code_applied_index (r : Region) (had : Bool) (t : Nat) (e : ErrCode) :
    (r.set_txn_err_code had t e).applied_index = r.applied_index := by
  unfold Region.set_txn_err_code
  split_ifs <;> simp

theorem dml_2pc_body_applied_index (env : Env) (r : Region) (req : StoreReq) (op : OpType)
    (plan : Plan) (tuples : List Nat) (res : StoreRes) (i s : Int) (t : Nat) (had : Bool) (d : Int) :
    (r.dml_2pc_body env req op plan tuples res i s t had d).1.applied_index = r.applied_index := by
  unfold Region.dml_2pc_body
  simp only []
  split_ifs <;> (try split) <;>
    simp [dml_2pc_finish_applied_index, dml_2pc_pre_commit_applied_index,
      set_txn_err_code_applied_index]

theorem dml_2pc_prepare_cmd_applied_index (env : Env) (r : Region) (op : OpType) (s : Int)
    (t : Nat) : (r.dml_2pc_prepare_cmd env op s t).1.applied_index = r.applied_index := by
  unfold Region.dml_2pc_prepare_cmd
  simp only []
  split_ifs <;> simp

theorem dml_2pc_applied_index (env : Env) (r : Region) (req : StoreReq) (op : OpType)
    (plan : Plan) (tuples : List Nat) (res : StoreRes) (i tm s : Int) :
    (r.dml_2pc env req op plan tuples res i tm s).1.applied_index = r.applied_index := by
  unfold Region.dml_2pc
  simp only []
  split
  · rfl
  · split <;> split_ifs <;>
      simp [dml_2pc_body_applied_index, dml_2pc_prepare_cmd_applied_index,
        rollback_loop_applied_index]

theorem dml_1pc_auto_rollback_applied_index (env : Env) (r : Region) (a b c : Bool) (t : Nat) :
    (r.dml_1pc_auto_rollback env a b c t).applied_index = r.applied_index := by
  unfold Region.dml_1pc_auto_rollback
  simp only []
  split_ifs <;> simp

theorem dml_1pc_commit_applied_index (env : Env) (r0 r1 : Region) (op : OpType) (res : StoreRes)
    (i : Int) (t : Nat) (p : Option Transaction) (a b : Int) :
    (Region.dml_1pc_commit env r0 r1 op res i t p a b).1.applied_index = r1.applied_index := by
  unfold Region.dml_1pc_commit
  simp only []
  split_ifs <;> simp

theorem dml_1pc_open_applied_index (r : Region) (op : OpType) (plan : Plan) (run : RunResult) :
    (r.dml_1pc_open op plan run).applied_index = r.applied_index := by
  unfold Region.dml_1pc_open
  split_ifs <;> simp

theorem dml_1pc_applied_index (env : Env) (r : Region) (req : StoreReq) (op : OpType)
    (plan : Plan) (tuples : List Nat) (res : StoreRes) (i tm : Int) (out : Region × StoreRes)
    (h : r.dml_1pc env req op plan tuples res i tm = some out) :
    out.1.applied_index = r.applied_index := by
  unfold Region.dml_1pc at h
  simp only [] at h
  repeat' (split at h)
  all_goals first
    | (cases h; done)
    | (cases h
       simp [dml_1pc_auto_rollback_applied_index, dml_1pc_commit_applied_index,
         dml_1pc_open_applied_index])

theorem dml_applied_index (env : Env) (r : Region) (req : StoreReq) (res : StoreRes)
    (i tm : Int) (out : Region × StoreRes) (h : r.dml env req res i tm = some out) :
    out.1.applied_index = r.applied_index := by
  unfold Region.dml at h
  simp only [] at h
  split at h
  · exact dml_1pc_applied_index _ _ _ _ _ _ _ _ _ _ h
  · cases h; exact dml_2pc_applied_index _ _ _ _ _ _ _ _ _ _

theorem execute_cached_loop_applied_index (env : Env) (req : StoreReq) (t : Nat) (ls i tm : Int)
    (l : List CachePlan) (r : Region) (res : StoreRes) (b : Bool) :
    (Region.execute_cached_loop env req t ls i tm l r res b).region.applied_index
      = r.applied_index := by
  induction l generalizing r res b with
  | nil => rfl
  | cons c rest ih =>
    unfold Region.execute_cached_loop
    simp only []
    split_ifs <;> simp [ih, dml_2pc_applied_index]

theorem execute_cached_cmd_applied_index (env : Env) (r : Region) (req : StoreReq)
    (res : StoreRes) (t : Nat) (txn : Option Transaction) (i tm : Int) :
    (r.execute_cached_cmd env req res t txn i tm).region.applied_index = r.applied_index := by
  unfold Region.execute_cached_cmd
  split_ifs
  · rfl
  · split
    · rfl
    · exact execute_cached_loop_applied_index _ _ _ _ _ _ _ _ _ _

theorem apply_txn_cached_applied_index (env : Env) (r : Region) (req : StoreReq) (t : Nat)
    (i tm : Int) : (r.apply_txn_cached env req t i tm).region.applied_index = r.applied_index := by
  unfold Region.apply_txn_cached
  simp only []
  split_ifs <;> simp [execute_cached_cmd_applied_index]

theorem apply_txn_cmd_applied_index (env : Env) (r : Region) (req : StoreReq)
    (done : Option Closure) (res : StoreRes) (t : Nat) (b : Bool) (i tm : Int)
    (out : Region × Option Closure) (h : r.apply_txn_cmd env req done res t b i tm = some out) :
    out.1.applied_index = r.applied_index := by
  unfold Region.apply_txn_cmd at h
  repeat' (split at h)
  all_goals first
    | (cases h; done)
    | (cases h; rfl)
    | (rename_i hd; cases h; simpa using dml_applied_index _ _ _ _ _ _ _ hd)

theorem apply_txn_request_applied_index (env : Env) (r : Region) (req : StoreReq)
    (done : Option Closure) (i tm : Int) (out : Region × Option Closure)
    (h : r.apply_txn_request env req done i tm = some out) :
    out.1.applied_index = r.applied_index := by
  unfold Region.apply_txn_request at h
  simp only [] at h
  split_ifs at h
  · cases h; rfl
  · cases h; exact apply_txn_cached_applied_index _ _ _ _ _ _
  · rw [apply_txn_cmd_applied_index _ _ _ _ _ _ _ _ _ _ h]
    exact apply_txn_cached_applied_index _ _ _ _ _ _

theorem kv_out_loop_applied_index (env : Env) (l : List KvOp) (r : Region) :
    (Region.kv_out_loop env l r).1.applied_index = r.applied_index := by
  induction l generalizing r with
  | nil => rfl
  | cons c rest ih =>
    unfold Region.kv_out_loop
    split_ifs <;> simp [ih]

theorem apply_kv_out_txn_applied_index (env : Env) (r : Region) (req : StoreReq)
    (done : Option Closure) (i tm : Int) :
    (r.apply_kv_out_txn env req done i tm).1.applied_index = r.applied_index := by
  unfold Region.apply_kv_out_txn
  simp only []
  split_ifs <;> simp [kv_out_loop_applied_index]

theorem kv_split_loop_applied_index (env : Env) (l : List KvOp) (r : Region) (n : Int) :
    (Region.kv_split_loop env l r n).1.applied_index = r.applied_index := by
  induction l generalizing r n with
  | nil => rfl
  | cons c rest ih =>
    unfold Region.kv_split_loop
    simp only []
    split_ifs <;> simp [ih]

theorem apply_kv_split_applied_index (env : Env) (r : Region) (req : StoreReq)
    (done : Option Closure) (i tm : Int) :
    (r.apply_kv_split env req done i tm).1.applied_index = r.applied_index := by
  unfold Region.apply_kv_split
  simp only []
  split
  · simp [kv_split_loop_applied_index]
  · split_ifs <;> simp [kv_split_loop_applied_index]

theorem start_split_applied_index (env : Env) (r : Region) (done : Option Closure) (i tm : Int) :
    (r.start_split env done i tm).1.applied_index = r.applied_index := by
  unfold Region.start_split
  simp only []
  split <;> simp

theorem start_split_for_tail_applied_index (env : Env) (r : Region) (done : Option Closure)
    (i tm : Int) : (r.start_split_for_tail env done i tm).1.applied_index = r.applied_index := by
  unfold Region.start_split_for_tail
  simp only []
  split
  · simp
  · split_ifs
    · simp
    · split
      · simp
      · split_ifs <;> simp

theorem adjustkey_and_add_version_applied_index (r : Region) (req : StoreReq)
    (done : Option Closure) (i tm : Int) :
    (r.adjustkey_and_add_version req done i tm).1.applied_index = r.applied_index := by
  unfold Region.adjustkey_and_add_version
  simp only []
  split <;> simp

theorem validate_and_add_version_applied_index (env : Env) (r : Region) (req : StoreReq)
    (done : Option Closure) (i tm : Int) :
    (r.validate_and_add_version env req done i tm).1.applied_index = r.applied_index := by
  unfold Region.validate_and_add_version
  simp only []
  split_ifs <;> simp

theorem add_version_for_split_region_applied_index (env : Env) (r : Region) (req : StoreReq)
    (done : Option Closure) (i tm : Int) :
    (r.add_version_for_split_region env req done i tm).1.applied_index = r.applied_index := by
  unfold Region.add_version_for_split_region Region.compare_and_set_legal_for_split
  simp only []
  split_ifs <;> simp_all

theorem on_apply_dispatch_applied_index (env : Env) (r : Region) (req : StoreReq)
    (done : Option Closure) (i tm : Int) (out : Region × Option Closure)
    (h : r.on_apply_dispatch env req done i tm = some out) :
    out.1.applied_index = r.applied_index := by
  unfold Region.on_apply_dispatch at h
  split at h
  all_goals first
    | exact apply_txn_request_applied_index _ _ _ _ _ _ _ h
    | (split at h
       · cases h
       · cases h; rename_i hd; exact dml_1pc_applied_index _ _ _ _ _ _ _ _ _ _ hd)
    | (split_ifs at h <;> cases h <;> simp [apply_kv_out_txn_applied_index, Region.apply_kv_in_txn])
    | (cases h
       simp [apply_kv_split_applied_index, start_split_applied_index,
         start_split_for_tail_applied_index, adjustkey_and_add_version_applied_index,
         validate_and_add_version_applied_index, add_version_for_split_region_applied_index])

theorem dml_1pc_defined (env : Env) (r : Region) (req : StoreReq) (op : OpType)
    (plan : Plan) (tuples : List Nat) (res : StoreRes) (i tm : Int)
    (h : req.op_type.is_prepare = false) :
    (r.dml_1pc env req op plan tuples res i tm).isSome = true := by
  unfold Region.dml_1pc dml_1pc_is_new_txn
  simp only [h]
  split_ifs <;> simp_all

theorem dml_defined (env : Env) (r : Region) (req : StoreReq) (res : StoreRes) (i tm : Int)
    (h : (req.op_type.is_prepare &&
      (match req.txn_infos with
       | [] => false
       | txn_info :: _ => txn_info.optimize_1pc)) = false) :
    (r.dml env req res i tm).isSome = true := by
  unfold Region.dml
  simp only [h]
  simp

theorem apply_txn_request_defined (env : Env) (r : Region) (req : StoreReq)
    (done : Option Closure) (i tm : Int)
    (h : (req.op_type.is_prepare &&
      (match req.txn_infos with
       | [] => false
       | txn_info :: _ => txn_info.optimize_1pc)) = false) :
    (r.apply_txn_request env req done i tm).isSome = true := by
  unfold Region.apply_txn_request Region.apply_txn_cmd
  simp only []
  have hd := fun q res => dml_defined env q req res i tm h
  split_ifs
  all_goals first
    | rfl
    | (split
       · rename_i hn
         have h2 := congrArg Option.isSome hn
         rw [hd] at h2
         cases h2
       · rfl)

theorem on_apply_dispatch_defined (env : Env) (r : Region) (req : StoreReq)
    (done : Option Closure) (i tm : Int)
    (h : (req.op_type.is_prepare &&
      (match req.txn_infos with
       | [] => false
       | txn_info :: _ => txn_info.optimize_1pc)) = false) :
    (r.on_apply_dispatch env req done i tm).isSome = true := by
  unfold Region.on_apply_dispatch
  split
  all_goals first
    | exact apply_txn_request_defined _ _ _ _ _ _ h
    | (have hp : req.op_type.is_prepare = false := by simp_all [OpType.is_prepare]
       split
       · rename_i hn
         have h2 := congrArg Option.isSome hn
         rw [dml_1pc_defined _ _ _ _ _ _ _ _ _ hp] at h2
         cases h2
       · rfl)
    | (split_ifs <;> rfl)
    | rfl

/-- C1 (amended): replaying an already-applied log entry executes nothing and
leaves the region as it was except for the `log_index` of its descriptor: for
every region state and every log entry whose index is at most `applied_index`,
`on_apply` returns, and the region afterwards is the region before with the
`log_index` of the descriptor set to the index of the entry when the entry
parses (and unchanged when it does not).  In particular `applied_index`,
`num_table_lines`, the version and the key range are as before and the journal
of outgoing calls has not grown. -/
theorem on_apply_replay_keeps_all_but_log_index (env : Env) (r : Region) (e : LogEntry)
    (h : e.index ≤ r.applied_index) :
    ∃ out, r.on_apply_entry env e = some out ∧
      out.1 = r.set_region
        (r.region_info.set_log_index
          (if e.data.isSome then e.index else r.region_info.log_index)) := by
  unfold Region.on_apply_entry
  split
  · rename_i hd
    exact ⟨_, rfl, by simp [hd, Region.set_region, RegionInfo.set_log_index]⟩
  · rename_i req hd
    refine ⟨(r.set_region (r.region_info.set_log_index e.index), e.done), ?_, ?_⟩
    · simp only []
      rw [if_pos (by simpa using h)]
    · simp [hd]

theorem on_apply_replay_keeps_all_but_log_index_witness :
    Scenario.replayed_entry.index ≤ Scenario.applied_region.applied_index ∧
      ∃ out, Scenario.applied_region.on_apply_entry Env.nominal Scenario.replayed_entry = some out ∧
        out.1 = Scenario.applied_region.set_region
          (Scenario.applied_region.region_info.set_log_index
            (if Scenario.replayed_entry.data.isSome then Scenario.replayed_entry.index
             else Scenario.applied_region.region_info.log_index)) :=
  ⟨by decide,
   on_apply_replay_keeps_all_but_log_index Env.nominal Scenario.applied_region
     Scenario.replayed_entry (by decide)⟩

/-- C1 (counterexample): on a replica with `applied_index = 10` whose descriptor
has `log_index = 10`, replaying the entry of index 5 leaves the descriptor with
`log_index = 5`: the region descriptor is not exactly as it was. -/
theorem on_apply_replay_overwrites_log_index :
    Scenario.replayed_entry.index ≤ Scenario.applied_region.applied_index ∧
      Scenario.applied_region.region_info.log_index = 10 ∧
      (Scenario.applied_region.on_apply_entry Env.nominal Scenario.replayed_entry).map
          (fun out => out.1.region_info.log_index) = some 5 := by
  decide

/-- C2: `applied_index` never decreases.  Every step of `on_apply` that yields a
state leaves `applied_index` at least as large as before, and equal to the
index of the entry when the entry parses and its index exceeds the previous
`applied_index`, whatever the operation type and the outcome of the operation;
`on_configuration_committed` leaves `applied_index` at least as large as
before; and `on_apply` yields a state for every entry other than a one-phase
PREPARE (the one entry kind on which the source can read through a null
transaction handle). -/
theorem applied_index_never_decreases (env : Env) (r : Region) (e : LogEntry)
    (peers : List String) (index : Int) :
    (∀ out, r.on_apply_entry env e = some out →
        r.applied_index ≤ out.1.applied_index ∧
          (e.data.isSome = true → r.applied_index < e.index → out.1.applied_index = e.index)) ∧
      r.applied_index ≤ (r.on_configuration_committed peers index).applied_index ∧
      (e.one_phase_prepare = false → (r.on_apply_entry env e).isSome = true) := by
  refine ⟨?_, ?_, ?_⟩
  · intro out hout
    unfold Region.on_apply_entry at hout
    split at hout
    · cases hout
      rename_i hd
      simp [hd]
    · simp only [] at hout
      split_ifs at hout with hle
      · cases hout
        simp only [Region.set_region_applied_index] at hle ⊢
        exact ⟨le_refl _, fun _ hlt => absurd hlt (not_lt.mpr hle)⟩
      · have := on_apply_dispatch_applied_index _ _ _ _ _ _ _ hout
        simp only [Region.set_applied_index_applied_index, Region.set_region_applied_index]
          at this hle
        rw [this]
        exact ⟨le_of_lt (not_le.mp hle), fun _ _ => rfl⟩
  · unfold Region.on_configuration_committed
    simp only []
    split_ifs <;> simp <;> omega
  · intro h1
    unfold Region.on_apply_entry
    split
    · rfl
    · rename_i req hd
      simp only []
      split_ifs
      · rfl
      · apply on_apply_dispatch_defined
        simpa [LogEntry.one_phase_prepare, hd] using h1

theorem applied_index_never_decreases_witness :
    Scenario.next_entry.one_phase_prepare = false ∧
      Scenario.next_entry.data.isSome = true ∧
      Scenario.applied_region.applied_index < Scenario.next_entry.index ∧
      (Scenario.applied_region.on_apply_entry Env.nominal Scenario.next_entry).isSome = true ∧
      (∀ out, Scenario.applied_region.on_apply_entry Env.nominal Scenario.next_entry = some out →
        out.1.applied_index = Scenario.next_entry.index) :=
  ⟨by decide, by decide, by decide,
   (applied_index_never_decreases Env.nominal Scenario.applied_region Scenario.next_entry
      [] 0).2.2 (by decide),
   fun out hout =>
     ((applied_index_never_decreases Env.nominal Scenario.applied_region Scenario.next_entry
        [] 0).1 out hout).2 (by decide) (by decide)⟩

theorem validate_and_add_version_success (env : Env) (r : Region) (req : StoreReq)
    (done : Option Closure) (i tm : Int) (h1 : req.split_term = tm)
    (h2 : req.split_end_index + 1 = i) :
    (r.validate_and_add_version env req done i tm).1.region_info
        = (r.region_info.set_version req.region_version).set_end_key req.end_key
      ∧ (r.validate_and_add_version env req done i tm).1.new_region_infos
        = r.new_region_infos ++ [req.new_region_info.getD {}]
      ∧ (r.validate_and_add_version env req done i tm).1.leader_addr = r.leader_addr := by
  unfold Region.validate_and_add_version
  rw [if_neg (by simp [h1, h2])]
  simp [Region.copy_region]

theorem version_old_response_errcode (r : Region) :
    r.version_old_response.errcode = some VERSION_OLD
      ∧ r.version_old_response.row_values = []
      ∧ r.version_old_response.regions.head? = some (r.region_info.set_leader r.leader_addr) := by
  unfold Region.version_old_response
  simp only []
  split_ifs <;> simp [StoreRes.Clear, Region.copy_region]

theorem version_old_response_regions (r : Region) (h : r.merged_away = false) :
    r.version_old_response.regions
      = r.region_info.set_leader r.leader_addr :: r.reported_children := by
  unfold Region.version_old_response
  simp only []
  have h' : ¬ (r.region_info.start_key ≠ [] ∧ r.region_info.start_key = r.region_info.end_key) := by
    simpa [Region.merged_away] using h
  rw [if_neg h']
  simp [StoreRes.Clear, Region.copy_region, Region.reported_children]

/-- C3: `validate_version` rejects a request exactly when `request.region_version
< region.version`.  For every request that carries a transaction header when it
is a PREPARE (the header the source reads), the check returns, its flag is
false if and only if the request version is smaller than the region version,
and a rejection answers VERSION_OLD with no row values and with the descriptor
of the region (its leader field set to the current leader address) first; when
the region is not merged away that descriptor is followed by the recorded split
children that have a region id and a version.  So once one split has been
completed by `validate_and_add_version` on a region with no child recorded
before, an outdated request is answered with exactly two descriptors, the
parent and then the child. -/
theorem validate_version_rejects_iff_outdated (env : Env) (r : Region) (req : StoreReq)
    (res : StoreRes) (split_req : StoreReq) (done : Option Closure) (child : RegionInfo)
    (hwf : req.op_type.is_prepare = true → req.txn_infos ≠ []) :
    (∃ out, r.validate_version env req res = some out ∧
        (out.1 = false ↔ req.region_version < r.region_info.version) ∧
        (out.1 = false →
          out.2.2.errcode = some VERSION_OLD ∧ out.2.2.row_values = [] ∧
          out.2.2.regions.head? = some (r.region_info.set_leader r.leader_addr) ∧
          (r.merged_away = false →
            out.2.2.regions = r.region_info.set_leader r.leader_addr :: r.reported_children))) ∧
      (r.new_region_infos = [] → split_req.new_region_info = some child →
        child.region_id ≠ 0 → child.version ≠ 0 →
        (r.validate_and_add_version env split_req done (split_req.split_end_index + 1)
            split_req.split_term).1.merged_away = false →
        req.region_version < split_req.region_version →
        ∃ out,
          (r.validate_and_add_version env split_req done (split_req.split_end_index + 1)
            split_req.split_term).1.validate_version env req res = some out ∧
          out.1 = false ∧
          out.2.2.regions =
            [((r.region_info.set_version split_req.region_version).set_end_key
                split_req.end_key).set_leader r.leader_addr, child]) := by
  have key : ∀ q : Region, ∃ out, q.validate_version env req res = some out ∧
      (out.1 = false ↔ req.region_version < q.region_info.version) ∧
      (out.1 = false → out.2.2.errcode = some VERSION_OLD ∧ out.2.2.row_values = [] ∧
          out.2.2.regions.head? = some (q.region_info.set_leader q.leader_addr) ∧
          (q.merged_away = false →
            out.2.2.regions = q.region_info.set_leader q.leader_addr :: q.reported_children)) := by
    intro q
    unfold Region.validate_version
    by_cases hv : req.region_version < q.region_info.version
    · rw [if_pos hv]
      have h3 := version_old_response_errcode q
      by_cases hp : req.op_type = OP_PREPARE ∨ req.op_type = OP_PREPARE_V2
      · rw [if_pos hp]
        have hne : req.txn_infos ≠ [] := hwf (by rcases hp with h | h <;> simp [h, OpType.is_prepare])
        cases hti : req.txn_infos with
        | nil => exact absurd hti hne
        | cons ti rest =>
          refine ⟨_, rfl, by simp [hv], fun _ => ?_⟩
          simp only [StoreRes.set_last_seq_id_errcode, StoreRes.set_last_seq_id_row_values,
            StoreRes.set_last_seq_id_regions]
          exact ⟨h3.1, h3.2.1, h3.2.2, fun hm => version_old_response_regions q hm⟩
      · rw [if_neg hp]
        exact ⟨_, rfl, by simp [hv],
          fun _ => ⟨h3.1, h3.2.1, h3.2.2, fun hm => version_old_response_regions q hm⟩⟩
    · rw [if_neg hv]
      exact ⟨_, rfl, by simp [hv], fun h => by simp at h⟩
  refine ⟨key r, ?_⟩
  intro hnil hchild hid hver hmerged hold
  have hs := validate_and_add_version_success env r split_req done
    (split_req.split_end_index + 1) split_req.split_term rfl rfl
  obtain ⟨out, hout, hiff, hrej⟩ := key
    (r.validate_and_add_version env split_req done (split_req.split_end_index + 1)
      split_req.split_term).1
  have hfalse : out.1 = false := hiff.mpr (by rw [hs.1]; simpa [RegionInfo.set_version, RegionInfo.set_end_key] using hold)
  refine ⟨out, hout, hfalse, ?_⟩
  rw [(hrej hfalse).2.2.2 hmerged, hs.1, hs.2.2]
  simp [Region.reported_children, hs.2.1, hnil, hchild, hid, hver]

theorem validate_version_rejects_iff_outdated_witness :
    ∃ out,
      (Scenario.split_parent.validate_and_add_version Env.nominal Scenario.split_request none
          (Scenario.split_request.split_end_index + 1)
          Scenario.split_request.split_term).1.validate_version Env.nominal Scenario.stale_select
          {} = some out ∧
        out.1 = false ∧
        out.2.2.regions =
          [((Scenario.split_parent.region_info.set_version
                Scenario.split_request.region_version).set_end_key
              Scenario.split_request.end_key).set_leader Scenario.split_parent.leader_addr,
            Scenario.split_child] :=
  (validate_version_rejects_iff_outdated Env.nominal Scenario.split_parent Scenario.stale_select
      {} Scenario.split_request none Scenario.split_child (by decide)).2
    (by decide) (by decide) (by decide) (by decide) (by decide) (by decide)

theorem version_old_response_merged (r : Region) (h : r.merged_away = true) :
    r.version_old_response.is_merge = some true ∧
      (r.merge_region_info.start_key = r.region_info.start_key →
        r.version_old_response.regions
          = [r.region_info.set_leader r.leader_addr, r.merge_region_info]) ∧
      (r.merge_region_info.start_key ≠ r.region_info.start_key →
        r.version_old_response.regions = [r.region_info.set_leader r.leader_addr]) := by
  unfold Region.version_old_response
  simp only []
  have h' : r.region_info.start_key ≠ [] ∧ r.region_info.start_key = r.region_info.end_key := by
    simpa [Region.merged_away] using h
  rw [if_pos h']
  split_ifs with hs
  · exact ⟨rfl, fun h2 => absurd h2 hs, fun _ => by simp [StoreRes.Clear, Region.copy_region]⟩
  · exact ⟨rfl, fun _ => by simp [StoreRes.Clear, Region.copy_region],
      fun h2 => absurd h2 hs⟩

/-- C4 (amended): a merged-away region redirects every outdated request.  For
every request whose `region_version` is smaller than the version of a region
with `start_key == end_key` non-empty (and that carries a transaction header
when it is a PREPARE), the version check rejects it with VERSION_OLD and
`is_merge` set; the response carries the descriptor of the region itself,
followed by the descriptor of the merge sibling when the recorded sibling
starts at the start key of the region, and by nothing otherwise. -/
theorem merged_region_redirects_outdated (env : Env) (r : Region) (req : StoreReq)
    (res : StoreRes) (hm : r.merged_away = true)
    (hold : req.region_version < r.region_info.version)
    (hwf : req.op_type.is_prepare = true → req.txn_infos ≠ []) :
    ∃ out, r.validate_version env req res = some out ∧ out.1 = false ∧
      out.2.2.errcode = some VERSION_OLD ∧ out.2.2.is_merge = some true ∧
      (r.merge_region_info.start_key = r.region_info.start_key →
        out.2.2.regions = [r.region_info.set_leader r.leader_addr, r.merge_region_info]) ∧
      (r.merge_region_info.start_key ≠ r.region_info.start_key →
        out.2.2.regions = [r.region_info.set_leader r.leader_addr]) := by
  have h1 := version_old_response_errcode r
  have h2 := version_old_response_merged r hm
  unfold Region.validate_version
  rw [if_pos hold]
  by_cases hp : req.op_type = OP_PREPARE ∨ req.op_type = OP_PREPARE_V2
  · rw [if_pos hp]
    have hne : req.txn_infos ≠ [] :=
      hwf (by rcases hp with h | h <;> simp [h, OpType.is_prepare])
    cases hti : req.txn_infos with
    | nil => exact absurd hti hne
    | cons ti rest =>
      refine ⟨_, rfl, rfl, ?_⟩
      simp only [StoreRes.set_last_seq_id_errcode, StoreRes.set_last_seq_id_is_merge,
        StoreRes.set_last_seq_id_regions]
      exact ⟨h1.1, h2⟩
  · rw [if_neg hp]
    exact ⟨_, rfl, rfl, h1.1, h2⟩

theorem merged_region_redirects_outdated_witness :
    ∃ out, Scenario.merged_region.validate_version Env.nominal Scenario.stale_select {}
        = some out ∧ out.1 = false ∧
      out.2.2.errcode = some VERSION_OLD ∧ out.2.2.is_merge = some true ∧
      (Scenario.merged_region.merge_region_info.start_key
          = Scenario.merged_region.region_info.start_key →
        out.2.2.regions =
          [Scenario.merged_region.region_info.set_leader Scenario.merged_region.leader_addr,
            Scenario.merged_region.merge_region_info]) ∧
      (Scenario.merged_region.merge_region_info.start_key
          ≠ Scenario.merged_region.region_info.start_key →
        out.2.2.regions =
          [Scenario.merged_region.region_info.set_leader Scenario.merged_region.leader_addr]) :=
  merged_region_redirects_outdated Env.nominal Scenario.merged_region Scenario.stale_select {}
    (by decide) (by decide) (by decide)

/-- C4 (counterexample): a request that carries the current version of a
merged-away region passes the version check and is not answered VERSION_OLD;
and an outdated request that reaches a merged-away region whose sibling record
is empty gets VERSION_OLD with the descriptor of the region alone. -/
theorem merged_region_does_not_always_redirect :
    Scenario.merged_region.merged_away = true ∧
      Scenario.merged_region.validate_version Env.nominal Scenario.current_select {}
        = some (true, Scenario.merged_region, {}) ∧
      Scenario.merged_region_restarted.merged_away = true ∧
      (Scenario.merged_region_restarted.validate_version Env.nominal Scenario.stale_select {}).map
          (fun out => (out.1, out.2.2.errcode, out.2.2.regions.length))
        = some (false, some VERSION_OLD, 1) := by
  decide

theorem validate_version_not_prepare (env : Env) (r : Region) (req : StoreReq) (res : StoreRes)
    (h : req.op_type.is_prepare = false) :
    r.validate_version env req res
      = if req.region_version < r.region_info.version then some (false, r, r.version_old_response)
        else some (true, r, res) := by
  unfold Region.validate_version
  have hp : ¬ (req.op_type = OP_PREPARE ∨ req.op_type = OP_PREPARE_V2) := by
    intro hc
    rcases hc with hc | hc <;> simp [hc, OpType.is_prepare] at h
  simp only [if_neg hp]

theorem exec_out_txn_write_on_follower (env : Env) (r : Region) (req : StoreReq)
    (res : StoreRes) (hfol : r.is_leader = false) :
    ∃ out, r.exec_out_txn_write env req res = some out ∧
      (out.1 = r ∨ out.1 = r.emit Effect.sleep) ∧
      (out.2.errcode = some DISABLE_WRITE_TIMEOUT ∨
        (out.2.errcode = some NOT_LEADER ∧ out.2.leader = some r.leader_addr)) := by
  unfold Region.exec_out_txn_write
  simp only []
  have hl : ∀ c : Bool, (if c = true then r.emit Effect.sleep else r).is_leader = false := by
    intro c; split_ifs <;> simpa using hfol
  have ha : ∀ c : Bool, (if c = true then r.emit Effect.sleep else r).leader_addr
      = r.leader_addr := by
    intro c; split_ifs <;> rfl
  have hr : ∀ c : Bool, (if c = true then r.emit Effect.sleep else r) = r ∨
      (if c = true then r.emit Effect.sleep else r) = r.emit Effect.sleep := by
    intro c; split_ifs <;> simp
  by_cases hw : env.disable_write_wait_ret ≠ 0
  · rw [if_pos hw]
    exact ⟨_, rfl, hr _, Or.inl (by simp [disable_write_timeout_response])⟩
  · rw [if_neg hw, if_pos (by simp [hl])]
    exact ⟨_, rfl, hr _, Or.inr (by simp [Region.not_leader_response, ha])⟩

/-- C5 (amended): a follower that is not opted into follower reads accepts no
write.  For every write request (INSERT, DELETE, UPDATE, TRUNCATE_TABLE,
PREPARE, PREPARE_V2, COMMIT or ROLLBACK) received by `Region::query` on a
replica that is not the leader, with or without a transaction id: when
`select_without_leader` is not set (or the replica is shut down or not
initialised) the answer is NOT_LEADER with the leader address and the region is
exactly as before, so nothing is executed and nothing is proposed; when the
flag lets the request through, an outdated request that is not a PREPARE is
answered VERSION_OLD instead, and an up-to-date INSERT, DELETE, UPDATE or
TRUNCATE_TABLE outside a transaction is answered DISABLE_WRITE_TIMEOUT or
NOT_LEADER with the leader address, the journal of outgoing calls having grown
by at most the slow-down sleep of a splitting region. -/
theorem follower_rejects_writes (env : Env) (r : Region) (req : StoreReq) (res : StoreRes)
    (hop : req.op_type.is_write = true) (hfol : r.is_leader = false) :
    ((req.select_without_leader = false ∨ r.shutdown = true ∨ r.init_success = false) →
        r.query env req res = some (r, r.not_leader_response res) ∧
          (r.not_leader_response res).errcode = some NOT_LEADER ∧
          (r.not_leader_response res).leader = some r.leader_addr) ∧
      ((req.select_without_leader = true ∧ r.shutdown = false ∧ r.init_success = true) →
        (req.op_type.is_prepare = false → req.region_version < r.region_info.version →
          ∃ out, r.query env req res = some out ∧ out.1 = r ∧
            out.2.errcode = some VERSION_OLD) ∧
        ((req.op_type.is_dml = true ∧ req.state_txn_id = 0) ∨ req.op_type = OP_TRUNCATE_TABLE →
          ¬ req.region_version < r.region_info.version →
          ∃ out, r.query env req res = some out ∧
            (out.1 = r ∨ out.1 = r.emit Effect.sleep) ∧
            (out.2.errcode = some DISABLE_WRITE_TIMEOUT ∨
              (out.2.errcode = some NOT_LEADER ∧ out.2.leader = some r.leader_addr)))) := by
  refine ⟨?_, ?_⟩
  · intro hgate
    refine ⟨?_, by simp [Region.not_leader_response], by simp [Region.not_leader_response]⟩
    unfold Region.query
    rw [if_pos]
    rcases hgate with h | h | h <;> simp [hfol, h]
  · rintro ⟨hs, hsh, hin⟩
    have hgate : ¬ ((!r.is_leader && (!req.select_without_leader || r.shutdown ||
        !r.init_success)) = true) := by simp [hs, hsh, hin]
    refine ⟨?_, ?_⟩
    · intro hnp hold
      unfold Region.query
      rw [if_neg hgate, validate_version_not_prepare _ _ _ _ hnp, if_pos hold]
      have hne : req.op_type ≠ OP_ADD_VERSION_FOR_SPLIT_REGION := by
        intro hc; simp [hc, OpType.is_write, OpType.is_dml, OpType.is_prepare,
          OpType.is_commit_or_rollback] at hop
      simp only [if_neg hne]
      exact ⟨_, rfl, rfl, (version_old_response_errcode r).1⟩
    · intro hkind hcur
      have hnp : req.op_type.is_prepare = false := by
        rcases hkind with ⟨hd, _⟩ | ht
        · revert hd; cases req.op_type <;> simp [OpType.is_dml, OpType.is_prepare]
        · simp [ht, OpType.is_prepare]
      have hsel : ¬ (req.op_type = OP_SELECT ∧ req.region_version > r.region_info.version) := by
        rintro ⟨hc, _⟩
        simp [hc, OpType.is_write, OpType.is_dml, OpType.is_prepare,
          OpType.is_commit_or_rollback] at hop
      obtain ⟨out, hout, h1, h2⟩ := exec_out_txn_write_on_follower env r req
        (res.set_leader r.leader_addr) hfol
      refine ⟨out, ?_, h1, h2⟩
      unfold Region.query
      rw [if_neg hgate, validate_version_not_prepare _ _ _ _ hnp, if_neg hcur]
      simp only [if_neg hsel]
      rw [← hout]
      unfold Region.query_dispatch Region.exec_out_txn_query
      rcases hkind with ⟨hd, htx⟩ | ht
      · revert hd
        cases hq : req.op_type <;> simp [OpType.is_dml, htx]
      · simp [ht]

theorem follower_rejects_writes_witness :
    Scenario.follower.query Env.nominal Scenario.plain_insert {}
        = some (Scenario.follower, Scenario.follower.not_leader_response {}) ∧
      (∃ out, Scenario.follower.query Env.nominal Scenario.stale_flagged_insert {} = some out ∧
        out.1 = Scenario.follower ∧ out.2.errcode = some VERSION_OLD) ∧
      (∃ out, Scenario.follower.query Env.nominal Scenario.flagged_insert {} = some out ∧
        (out.1 = Scenario.follower ∨ out.1 = Scenario.follower.emit Effect.sleep) ∧
        (out.2.errcode = some DISABLE_WRITE_TIMEOUT ∨
          (out.2.errcode = some NOT_LEADER ∧
            out.2.leader = some Scenario.follower.leader_addr))) :=
  ⟨((follower_rejects_writes Env.nominal Scenario.follower Scenario.plain_insert {}
      (by decide) (by decide)).1 (Or.inl (by decide))).1,
   ((follower_rejects_writes Env.nominal Scenario.follower Scenario.stale_flagged_insert {}
      (by decide) (by decide)).2 (by decide)).1 (by decide) (by decide),
   ((follower_rejects_writes Env.nominal Scenario.follower Scenario.flagged_insert {}
      (by decide) (by decide)).2 (by decide)).2 (Or.inl (by decide)) (by decide)⟩

/-- C5 (counterexample): on a follower, an INSERT that sets
`select_without_leader` and carries an outdated version is answered VERSION_OLD,
not NOT_LEADER. -/
theorem follower_write_not_always_not_leader :
    Scenario.follower.is_leader = false ∧
      Scenario.stale_flagged_insert.op_type.is_write = true ∧
      (Scenario.follower.query Env.nominal Scenario.stale_flagged_insert {}).map
          (fun out => out.2.errcode) = some (some VERSION_OLD) := by
  decide

/-- C6: a duplicate commit or rollback is idempotent.  When the transaction of
an in-transaction request is no longer in the pool and a finished affected-row
count `n` (any value but the sentinel -1) is recorded for it,
`exec_in_txn_query` answers SUCCESS with `affected_rows = n` and leaves the
region exactly as it was: no plan is run, nothing is proposed, and the same
request sent again gets the same answer. -/
theorem duplicate_finish_is_idempotent (env : Env) (r : Region) (req : StoreReq)
    (res : StoreRes) (ti : TransactionInfo) (rest : List TransactionInfo)
    (hti : req.txn_infos = ti :: rest) (hnone : r.txn_pool.get_txn ti.txn_id = none)
    (hfin : r.txn_pool.get_finished_txn_affected_rows ti.txn_id ≠ -1) :
    r.exec_in_txn_query env req res
        = some (r, (res.set_affected_rows
            (r.txn_pool.get_finished_txn_affected_rows ti.txn_id)).set_errcode SUCCESS) ∧
      (∀ out, r.exec_in_txn_query env req res = some out →
        out.1 = r ∧ out.1.effects = r.effects ∧ out.2.errcode = some SUCCESS ∧
          out.2.affected_rows = some (r.txn_pool.get_finished_txn_affected_rows ti.txn_id) ∧
          out.1.exec_in_txn_query env req res = some out) := by
  have h : r.exec_in_txn_query env req res
      = some (r, (res.set_affected_rows
          (r.txn_pool.get_finished_txn_affected_rows ti.txn_id)).set_errcode SUCCESS) := by
    unfold Region.exec_in_txn_query
    rw [hti]
    simp only [Region.exec_in_txn_replayed, hnone, if_pos hfin]
  refine ⟨h, fun out hout => ?_⟩
  rw [h] at hout
  cases hout
  exact ⟨rfl, rfl, rfl, rfl, h⟩

theorem duplicate_finish_is_idempotent_witness :
    Scenario.txn_region.exec_in_txn_query Env.nominal Scenario.duplicate_commit {}
      = some (Scenario.txn_region, (StoreRes.set_affected_rows {} 3).set_errcode SUCCESS) :=
  (duplicate_finish_is_idempotent Env.nominal Scenario.txn_region Scenario.duplicate_commit {}
    { txn_id := 7, seq_id := 4, start_seq_id := 1 } [] rfl (by decide) (by decide)).1

/-- C7 (amended): for every in-transaction request other than COMMIT and
ROLLBACK that the idempotence shortcuts do not answer (the transaction is
unknown with no finished count recorded, or it is live with a sequence id
below that of the request), when the region has executed nothing of the
transaction (`last_seq = 0`) and `start_seq_id > 1`, `exec_in_txn_query`
answers TXN_FOLLOW_UP with `last_seq_id = 0` and leaves the region exactly as
it was: none of the cached plans and not the command itself is run. -/
theorem follow_up_when_nothing_executed (env : Env) (r : Region) (req : StoreReq)
    (res : StoreRes) (ti : TransactionInfo) (rest : List TransactionInfo)
    (hti : req.txn_infos = ti :: rest)
    (hop : req.op_type ≠ OP_COMMIT ∧ req.op_type ≠ OP_ROLLBACK)
    (hstate : (r.txn_pool.get_txn ti.txn_id = none ∧
        r.txn_pool.get_finished_txn_affected_rows ti.txn_id = -1) ∨
      (∃ t, r.txn_pool.get_txn ti.txn_id = some t ∧ t.seq_id = 0 ∧ 0 < ti.seq_id))
    (hstart : ti.start_seq_id > 1) :
    r.last_seq ti.txn_id = 0 ∧
      ∃ out, r.exec_in_txn_query env req res = some out ∧ out.1 = r ∧
        out.2.errcode = some TXN_FOLLOW_UP ∧ out.2.last_seq_id = some (r.last_seq ti.txn_id) := by
  have hcr : ¬ (req.op_type = OP_ROLLBACK ∨ req.op_type = OP_COMMIT) := by
    rintro (h | h)
    · exact hop.2 h
    · exact hop.1 h
  rcases hstate with ⟨hn, hf⟩ | ⟨t, ht, hs, hlt⟩
  · refine ⟨by simp [Region.last_seq, hn], ?_⟩
    unfold Region.exec_in_txn_query
    rw [hti]
    simp only [Region.exec_in_txn_replayed, hn, hf, if_neg hcr]
    simp [hstart, Region.last_seq, hn]
  · refine ⟨by simp [Region.last_seq, ht, hs], ?_⟩
    unfold Region.exec_in_txn_query
    rw [hti]
    have hge : ¬ ti.seq_id ≤ 0 := by omega
    simp only [Region.exec_in_txn_replayed, ht, if_neg hcr, hs, ge_iff_le, if_neg hge]
    simp [hstart, Region.last_seq, ht, hs]

theorem follow_up_when_nothing_executed_witness :
    Scenario.txn_region.last_seq 99 = 0 ∧
      ∃ out, Scenario.txn_region.exec_in_txn_query Env.nominal Scenario.late_insert_unknown {}
          = some out ∧ out.1 = Scenario.txn_region ∧
        out.2.errcode = some TXN_FOLLOW_UP ∧
        out.2.last_seq_id = some (Scenario.txn_region.last_seq 99) :=
  follow_up_when_nothing_executed Env.nominal Scenario.txn_region Scenario.late_insert_unknown {}
    { txn_id := 99, seq_id := 4, start_seq_id := 3 } [] rfl (by decide)
    (Or.inl (by decide)) (by decide)

/-- C7 (counterexample): with transaction 42 live at sequence id 2, an INSERT
at sequence id 5 whose `start_seq_id` is 4 (greater than `last_seq + 1 = 3`) is
not answered TXN_FOLLOW_UP: its plan is opened and the answer is SUCCESS; and
an INSERT with `start_seq_id = 5` for the unknown but finished transaction 7
(`last_seq = 0`) is answered SUCCESS with the recorded row count. -/
theorem follow_up_not_sent_after_first_command :
    Scenario.txn_region.last_seq 42 = 2 ∧
      (Scenario.txn_region.exec_in_txn_query Env.nominal Scenario.late_insert {}).map
          (fun out => (out.2.errcode, out.2.last_seq_id,
            decide (Effect.open_plan OP_INSERT 5 { nodes := [1] } ∈ out.1.effects)))
        = some (some SUCCESS, none, true) ∧
      Scenario.txn_region.last_seq 7 = 0 ∧
      (Scenario.txn_region.exec_in_txn_query Env.nominal Scenario.late_insert_finished {}).map
          (fun out => (out.2.errcode, out.2.affected_rows)) = some (some SUCCESS, some 3) := by
  decide

theorem mem_set_insert (x y : Int) (l : List Int) : y ∈ set_insert x l ↔ y = x ∨ y ∈ l := by
  induction l with
  | nil => simp [set_insert]
  | cons a t ih =>
    unfold set_insert
    split_ifs with h1 h2
    · simp
    · subst h2; simp
    · simp only [List.mem_cons, ih]; tauto

theorem sorted_set_insert (x : Int) (l : List Int) (h : l.Pairwise (· < ·)) :
    (set_insert x l).Pairwise (· < ·) := by
  induction l with
  | nil => simp [set_insert]
  | cons a t ih =>
    unfold set_insert
    rw [List.pairwise_cons] at h
    split_ifs with h1 h2
    · refine List.pairwise_cons.mpr ⟨?_, List.pairwise_cons.mpr h⟩
      intro b hb
      rcases List.mem_cons.mp hb with hb | hb
      · rw [hb]; exact h1
      · exact lt_trans h1 (h.1 b hb)
    · exact List.pairwise_cons.mpr h
    · refine List.pairwise_cons.mpr ⟨?_, ih h.2⟩
      intro b hb
      rcases (mem_set_insert x b t).mp hb with hb | hb
      · rw [hb]; omega
      · exact h.1 b hb

theorem need_rollback_set_spec (l : List Int) :
    (need_rollback_set l).Pairwise (· < ·) ∧ ∀ s, s ∈ need_rollback_set l ↔ s ∈ l := by
  unfold need_rollback_set
  have key : ∀ (l acc : List Int), acc.Pairwise (· < ·) →
      (l.foldl (fun s x => set_insert x s) acc).Pairwise (· < ·) ∧
        ∀ s, s ∈ l.foldl (fun s x => set_insert x s) acc ↔ s ∈ acc ∨ s ∈ l := by
    intro l
    induction l with
    | nil => intro acc h; simp [h]
    | cons a t ih =>
      intro acc h
      simp only [List.foldl_cons]
      obtain ⟨h1, h2⟩ := ih (set_insert a acc) (sorted_set_insert a acc h)
      refine ⟨h1, fun s => ?_⟩
      rw [h2, mem_set_insert, List.mem_cons]
      tauto
  obtain ⟨h1, h2⟩ := key l [] List.Pairwise.nil
  exact ⟨h1, fun s => by simp [h2]⟩

theorem lookup_map_modify (l : List (Nat × Transaction)) (k : Nat)
    (f : Transaction → Transaction) :
    List.lookup k (l.map (fun kv => if kv.1 = k then (kv.1, f kv.2) else kv))
      = (List.lookup k l).map f := by
  induction l with
  | nil => rfl
  | cons a t ih =>
    obtain ⟨a1, a2⟩ := a
    by_cases h : a1 = k
    · show List.lookup k ((if a1 = k then (a1, f a2) else (a1, a2)) :: _) = _
      rw [if_pos h]
      subst h
      simp [List.lookup_cons]
    · show List.lookup k ((if a1 = k then (a1, f a2) else (a1, a2)) :: _) = _
      rw [if_neg h]
      have h' : (k == a1) = false := by simpa using fun hc => h hc.symm
      simp [List.lookup_cons, h', ih]

theorem lookup_modify (pool : TransactionPool) (k : Nat) (f : Transaction → Transaction) :
    (pool.modify k f).get_txn k = (pool.get_txn k).map f :=
  lookup_map_modify pool.txns k f

theorem rollback_loop_spec (env : Env) (txn_id : Nat) (l : List Int) (r : Region) :
    (r.rollback_loop env txn_id l).effects
        = r.effects ++ l.reverse.map (Effect.rollback_to_point txn_id) ∧
      (r.rollback_loop env txn_id l).txn_pool.get_txn txn_id
        = (r.txn_pool.get_txn txn_id).map
            (fun t => l.reverse.foldl (fun t s => env.rollback_to_point s t) t) := by
  unfold Region.rollback_loop
  generalize l.reverse = l'
  induction l' generalizing r with
  | nil => simp
  | cons a t ih =>
    simp only [List.foldl_cons, List.map_cons]
    obtain ⟨h1, h2⟩ := ih (Region.rollback_to_point env txn_id r a)
    rw [h1, h2]
    constructor
    · simp [Region.rollback_to_point]
    · simp only [Region.rollback_to_point, Region.emit_txn_pool, Region.modify_txn_txn_pool,
        lookup_modify, Option.map_map]
      rfl

theorem grows_refl (r r' : Region) (h : r'.effects = r.effects) : r.grows_without_rollback r' :=
  ⟨[], by simp [h], by simp⟩

theorem grows_self (r : Region) : r.grows_without_rollback r := ⟨[], by simp, by simp⟩

theorem grows_emit (r r' : Region) (x : Effect) (h : r.grows_without_rollback r')
    (hx : x.is_rollback_to_point = false) : r.grows_without_rollback (r'.emit x) := by
  obtain ⟨tail, h1, h2⟩ := h
  refine ⟨tail ++ [x], by simp [h1], ?_⟩
  intro y hy
  rcases List.mem_append.mp hy with hy | hy
  · exact h2 y hy
  · simp at hy; rw [hy]; exact hx

theorem grows_of_effects_eq (r r' r'' : Region) (h : r.grows_without_rollback r')
    (he : r''.effects = r'.effects) : r.grows_without_rollback r'' := by
  obtain ⟨tail, h1, h2⟩ := h
  exact ⟨tail, by rw [he, h1], h2⟩

theorem grows_trans (r r' r'' : Region) (h : r.grows_without_rollback r')
    (h' : r'.grows_without_rollback r'') : r.grows_without_rollback r'' := by
  obtain ⟨t1, h1, h2⟩ := h
  obtain ⟨t2, h3, h4⟩ := h'
  refine ⟨t1 ++ t2, by simp [h3, h1], ?_⟩
  intro y hy
  rcases List.mem_append.mp hy with hy | hy
  · exact h2 y hy
  · exact h4 y hy

theorem dml_2pc_finish_grows (r : Region) (op : OpType) (res : StoreRes) (i : Int)
    (t : Nat) (a b c : Int) : r.grows_without_rollback (r.dml_2pc_finish op res i t a b c).1 := by
  unfold Region.dml_2pc_finish
  simp only []
  split_ifs <;>
    first
    | (apply grows_refl; simp; done)
    | (refine grows_emit _ _ _ ?_ rfl; apply grows_refl; simp; done)
    | (refine grows_emit _ _ _ (grows_emit _ _ _ ?_ rfl) rfl; apply grows_refl; simp; done)

theorem dml_2pc_pre_commit_grows (r : Region) (op : OpType) (i : Int) (t : Nat) (d : Int) :
    r.grows_without_rollback (r.dml_2pc_pre_commit op i t d) := by
  unfold Region.dml_2pc_pre_commit
  split
  · exact grows_emit r r _ (grows_self r) rfl
  · exact grows_self r

theorem set_txn_err_code_effects (r : Region) (had : Bool) (t : Nat) (e : ErrCode) :
    (r.set_txn_err_code had t e).effects = r.effects := by
  unfold Region.set_txn_err_code
  split_ifs <;> simp

theorem dml_2pc_body_grows (env : Env) (r : Region) (req : StoreReq) (op : OpType)
    (plan : Plan) (tuples : List Nat) (res : StoreRes) (i s : Int) (t : Nat) (had : Bool) (d : Int) :
    r.grows_without_rollback (r.dml_2pc_body env req op plan tuples res i s t had d).1 := by
  unfold Region.dml_2pc_body
  simp only []
  have h0 := dml_2pc_pre_commit_grows r op i t d
  have h1 : r.grows_without_rollback
      (((r.dml_2pc_pre_commit op i t d).emit (Effect.open_plan op s plan)).set_pool
        (env.run (r.dml_2pc_pre_commit op i t d) req op plan s).pool) :=
    grows_of_effects_eq _ _ _ (grows_emit _ _ (Effect.open_plan op s plan) h0 rfl) (by simp)
  have h2 : ∀ e, r.grows_without_rollback
      ((((r.dml_2pc_pre_commit op i t d).emit (Effect.open_plan op s plan)).set_pool
        (env.run (r.dml_2pc_pre_commit op i t d) req op plan s).pool).set_txn_err_code had t e) :=
    fun e => grows_of_effects_eq _ _ _ h1 (set_txn_err_code_effects _ _ _ _)
  split
  · exact h0
  split
  · exact h0
  split
  · exact h2 _
  split
  · exact h2 _
  split
  · exact grows_trans _ _ _ (grows_of_effects_eq _ _ _ (h2 SUCCESS) (by simp))
      (dml_2pc_finish_grows _ _ _ _ _ _ _ _)
  · split
    · exact h2 _
    · exact grows_trans _ _ _ (h2 SUCCESS) (dml_2pc_finish_grows _ _ _ _ _ _ _ _)

theorem dml_2pc_prepare_cmd_grows (env : Env) (r : Region) (op : OpType) (s : Int) (t : Nat) :
    r.grows_without_rollback (r.dml_2pc_prepare_cmd env op s t).1 := by
  unfold Region.dml_2pc_prepare_cmd
  simp only []
  split
  · exact grows_emit r _ (Effect.set_save_point t) (grows_refl _ _ (by simp)) rfl
  · exact grows_refl _ _ (by simp)

/-- C8: savepoint rollback precedes execution.  For every command other than
BEGIN that `dml_2pc` runs on a live transaction, the set built from
`need_rollback_seq` holds exactly the listed sequence ids, and walking it
backwards visits them in strictly descending order (hence each once); the
journal after the call is the journal before, then one `rollback_to_point` per
distinct listed id in that order, then a tail that holds no further
`rollback_to_point` (so every plan opened by the call comes after the
rollbacks).  When the sequence id of the command is itself listed, the tail is
empty (no plan is opened), the response is untouched, and the transaction is
the rolled-back transaction with only its `seq_id` advanced to that of the
command: nothing is added to its cache plan map. -/
theorem savepoint_rollback_precedes_execution (env : Env) (r : Region) (req : StoreReq)
    (op : OpType) (plan : Plan) (tuples : List Nat) (res : StoreRes) (i tm seq_id : Int)
    (ti : TransactionInfo) (rest : List TransactionInfo) (txn : Transaction)
    (hti : req.txn_infos = ti :: rest) (hop : op ≠ OP_BEGIN)
    (htxn : r.txn_pool.get_txn ti.txn_id = some txn) (hlive : txn.rolledback = false) :
    (need_rollback_set ti.need_rollback_seq).reverse.Pairwise (· > ·) ∧
      (∀ s, s ∈ need_rollback_set ti.need_rollback_seq ↔ s ∈ ti.need_rollback_seq) ∧
      (∃ tail,
        (r.dml_2pc env req op plan tuples res i tm seq_id).1.effects
            = r.effects ++
                (need_rollback_set ti.need_rollback_seq).reverse.map
                  (Effect.rollback_to_point ti.txn_id) ++ tail ∧
          (∀ x ∈ tail, x.is_rollback_to_point = false) ∧
          (seq_id ∈ ti.need_rollback_seq → tail = [])) ∧
      (seq_id ∈ ti.need_rollback_seq →
        (r.dml_2pc env req op plan tuples res i tm seq_id).2 = res ∧
          (r.dml_2pc env req op plan tuples res i tm seq_id).1.txn_pool.get_txn ti.txn_id
            = some (Transaction.set_seq_id seq_id
                ((need_rollback_set ti.need_rollback_seq).reverse.foldl
                  (fun t s => env.rollback_to_point s t) txn))) := by
  obtain ⟨hsorted, hmem⟩ := need_rollback_set_spec ti.need_rollback_seq
  obtain ⟨heff, hpool⟩ := rollback_loop_spec env ti.txn_id
    (need_rollback_set ti.need_rollback_seq) r
  have hlive' : ¬ txn.rolledback = true := by simp [hlive]
  have hdef : r.dml_2pc env req op plan tuples res i tm seq_id
      = if seq_id ∈ need_rollback_set ti.need_rollback_seq then
          ((r.rollback_loop env ti.txn_id (need_rollback_set ti.need_rollback_seq)).modify_txn
            ti.txn_id (Transaction.set_seq_id seq_id), res)
        else
          ((r.rollback_loop env ti.txn_id (need_rollback_set ti.need_rollback_seq)).dml_2pc_prepare_cmd
              env op seq_id ti.txn_id).1.dml_2pc_body env req op plan tuples res i seq_id ti.txn_id
            true
            ((r.rollback_loop env ti.txn_id
              (need_rollback_set ti.need_rollback_seq)).dml_2pc_prepare_cmd env op seq_id
                ti.txn_id).2 := by
    unfold Region.dml_2pc
    rw [hti]
    simp only [htxn, if_pos hop, if_neg hlive']
  refine ⟨?_, hmem, ?_, ?_⟩
  · rw [List.pairwise_reverse]
    exact hsorted.imp (fun h => h)
  · rw [hdef]
    split_ifs with hin
    · exact ⟨[], by simp [heff], by simp, fun _ => rfl⟩
    · obtain ⟨tail, h1, h2⟩ := grows_trans _ _ _
        (dml_2pc_prepare_cmd_grows env
          (r.rollback_loop env ti.txn_id (need_rollback_set ti.need_rollback_seq)) op seq_id
          ti.txn_id)
        (dml_2pc_body_grows env _ req op plan tuples res i seq_id ti.txn_id true _)
      exact ⟨tail, by rw [h1, heff], h2, fun hc => absurd ((hmem seq_id).mpr hc) hin⟩
  · intro hin
    rw [hdef, if_pos ((hmem seq_id).mpr hin)]
    refine ⟨rfl, ?_⟩
    simp only [Region.modify_txn_txn_pool, lookup_modify, hpool, htxn, Option.map_some']

theorem savepoint_rollback_precedes_execution_witness :
    (∃ tail,
        (Scenario.savepoint_region.dml_2pc Env.nominal Scenario.savepoint_update OP_UPDATE
            { nodes := [7] } [] {} 0 0 4).1.effects
            = Scenario.savepoint_region.effects ++
                (need_rollback_set Scenario.savepoint_header.need_rollback_seq).reverse.map
                  (Effect.rollback_to_point Scenario.savepoint_header.txn_id) ++ tail ∧
          (∀ x ∈ tail, x.is_rollback_to_point = false) ∧
          (4 ∈ Scenario.savepoint_header.need_rollback_seq → tail = [])) ∧
      (need_rollback_set Scenario.savepoint_header.need_rollback_seq).reverse = [3, 2] :=
  ⟨(savepoint_rollback_precedes_execution Env.nominal Scenario.savepoint_region
      Scenario.savepoint_update OP_UPDATE { nodes := [7] } [] {} 0 0 4
      Scenario.savepoint_header [] Scenario.savepoint_txn
      rfl (by decide) (by decide) (by decide)).2.2.1,
   by decide⟩

theorem open_fail_response_spec (env : Env) (run : RunResult) (res : StoreRes) (m : String) :
    (open_fail_response env run res m).errcode = some EXEC_FAIL ∧
      (run.error_code ≠ env.er_error_first →
        (open_fail_response env run res m).mysql_errcode = some run.error_code) := by
  unfold open_fail_response
  split_ifs with h
  · exact ⟨rfl, fun _ => rfl⟩
  · exact ⟨rfl, fun hc => absurd hc h⟩

theorem copy_result_spec (res target : StoreRes) (b : Bool) (e : ErrCode) (he : res.errcode = some e) :
    (copy_result res b target).errcode = some e ∧
      (∀ c, res.mysql_errcode = some c → (copy_result res b target).mysql_errcode = some c) := by
  unfold copy_result
  simp only [StoreRes.get_errcode, he, Option.getD_some]
  refine ⟨?_, ?_⟩
  · repeat' split
    all_goals simp
  · intro c hc
    rw [hc]
    repeat' split
    all_goals simp_all

theorem dml_1pc_auto_rollback_lines (env : Env) (r : Region) (a b c : Bool) (t : Nat) :
    (r.dml_1pc_auto_rollback env a b c t).num_table_lines = r.num_table_lines ∧
      (r.dml_1pc_auto_rollback env a b c t).num_delete_lines = r.num_delete_lines := by
  unfold Region.dml_1pc_auto_rollback
  simp only []
  split_ifs <;> simp

theorem dml_1pc_open_lines (r : Region) (op : OpType) (plan : Plan) (run : RunResult) :
    (r.dml_1pc_open op plan run).num_table_lines = r.num_table_lines ∧
      (r.dml_1pc_open op plan run).num_delete_lines = r.num_delete_lines := by
  unfold Region.dml_1pc_open
  split_ifs <;> simp

theorem dml_1pc_open_failure (env : Env) (r : Region) (req : StoreReq) (res : StoreRes)
    (i tm : Int) (hop : req.op_type.is_dml = true)
    (hinit : ¬ (env.run r req req.op_type req.plan 0).init_ret < 0)
    (hnodes : req.plan.nodes_size > 0)
    (hcreate : ¬ (env.run r req req.op_type req.plan 0).create_tree_ret < 0)
    (hopen : (env.run r req req.op_type req.plan 0).open_ret < 0) :
    ∃ out, r.dml_1pc env req req.op_type req.plan req.tuples res i tm = some out ∧
      out.2 = open_fail_response env (env.run r req req.op_type req.plan 0) res "plan open fail" ∧
      out.1.num_table_lines = r.num_table_lines ∧
      out.1.num_delete_lines = r.num_delete_lines ∧
      out.1.applied_index = r.applied_index := by
  have hnp : req.op_type.is_prepare = false := by
    revert hop; cases req.op_type <;> simp [OpType.is_dml, OpType.is_prepare]
  unfold Region.dml_1pc
  simp only [if_neg hinit, dml_1pc_is_new_txn, hnp]
  have h1 : ¬ (req.plan.nodes_size > 0 ∧
      (env.run r req req.op_type req.plan 0).create_tree_ret < 0) := fun h => hcreate h.2
  simp only [Bool.false_eq_true, if_false, if_neg h1, if_pos (And.intro hnodes hopen)]
  refine ⟨_, rfl, rfl, ?_, ?_, ?_⟩
  · rw [(dml_1pc_auto_rollback_lines _ _ _ _ _ _).1, (dml_1pc_open_lines _ _ _ _).1]
  · rw [(dml_1pc_auto_rollback_lines _ _ _ _ _ _).2, (dml_1pc_open_lines _ _ _ _).2]
  · rw [dml_1pc_auto_rollback_applied_index, dml_1pc_open_applied_index]

/-- C9: a logical execution error in an autocommit DML does not change the row
count but does advance the applied index.  When `on_apply` applies an INSERT,
DELETE or UPDATE entry of index `i > applied_index` that carries a closure and
whose plan fails to open in `dml_1pc` (the runtime state initialised, the plan
has nodes and its tree was built), the response of the closure has errcode
EXEC_FAIL, its `mysql_errcode` is the error code of the execution state
whenever that code was set (differs from `ER_ERROR_FIRST`), `num_table_lines`
and `num_delete_lines` are as before the entry, and `applied_index` is `i`. -/
theorem failed_autocommit_dml_keeps_row_count (env : Env) (r : Region) (e : LogEntry)
    (req : StoreReq) (c : Closure)
    (hdata : e.data = some req) (hdone : e.done = some c) (hop : req.op_type.is_dml = true)
    (hidx : r.applied_index < e.index)
    (hinit : ¬ (env.run ((r.set_region (r.region_info.set_log_index e.index)).set_applied_index
      e.index) req req.op_type req.plan 0).init_ret < 0)
    (hnodes : req.plan.nodes_size > 0)
    (hcreate : ¬ (env.run ((r.set_region (r.region_info.set_log_index e.index)).set_applied_index
      e.index) req req.op_type req.plan 0).create_tree_ret < 0)
    (hopen : (env.run ((r.set_region (r.region_info.set_log_index e.index)).set_applied_index
      e.index) req req.op_type req.plan 0).open_ret < 0) :
    ∃ out c', r.on_apply_entry env e = some out ∧ out.2 = some c' ∧
      c'.response.errcode = some EXEC_FAIL ∧
      ((env.run ((r.set_region (r.region_info.set_log_index e.index)).set_applied_index
          e.index) req req.op_type req.plan 0).error_code ≠ env.er_error_first →
        c'.response.mysql_errcode =
          some (env.run ((r.set_region (r.region_info.set_log_index e.index)).set_applied_index
            e.index) req req.op_type req.plan 0).error_code) ∧
      out.1.num_table_lines = r.num_table_lines ∧
      out.1.num_delete_lines = r.num_delete_lines ∧
      out.1.applied_index = e.index := by
  obtain ⟨o, ho, hres, hl, hd, ha⟩ := dml_1pc_open_failure env
    ((r.set_region (r.region_info.set_log_index e.index)).set_applied_index e.index) req
    StoreRes.Clear e.index e.term hop hinit hnodes hcreate hopen
  have hspec := open_fail_response_spec env
    (env.run ((r.set_region (r.region_info.set_log_index e.index)).set_applied_index
      e.index) req req.op_type req.plan 0) StoreRes.Clear "plan open fail"
  have hentry : r.on_apply_entry env e
      = some (o.1, Closure.set_response (some c) (copy_result o.2 true)) := by
    unfold Region.on_apply_entry
    rw [hdata]
    simp only []
    rw [if_neg (by simpa using hidx), hdone]
    unfold Region.on_apply_dispatch
    revert ho hop
    cases req.op_type <;> simp [OpType.is_dml] <;> intro ho <;> rw [ho]
  have hcopy := copy_result_spec o.2 c.response true EXEC_FAIL (by rw [hres]; exact hspec.1)
  refine ⟨_, { c with response := copy_result o.2 true c.response }, hentry, rfl, hcopy.1, ?_,
    by simpa using hl, by simpa using hd, by simpa using ha⟩
  intro hcode
  exact hcopy.2 _ (by rw [hres]; exact hspec.2 hcode)

theorem failed_autocommit_dml_keeps_row_count_witness :
    ∃ out c', Scenario.applied_region.on_apply_entry Env.duplicate_key Scenario.next_entry
        = some out ∧ out.2 = some c' ∧
      c'.response.errcode = some EXEC_FAIL ∧
      c'.response.mysql_errcode = some 1062 ∧
      out.1.num_table_lines = Scenario.applied_region.num_table_lines ∧
      out.1.num_delete_lines = Scenario.applied_region.num_delete_lines ∧
      out.1.applied_index = Scenario.next_entry.index := by
  obtain ⟨out, c', h1, h2, h3, h4, h5, h6, h7⟩ :=
    failed_autocommit_dml_keeps_row_count Env.duplicate_key Scenario.applied_region
      Scenario.next_entry { op_type := OP_INSERT, plan := { nodes := [1] } } {} rfl rfl
      (by decide) (by decide) (by decide) (by decide) (by decide) (by decide)
  exact ⟨out, c', h1, h2, h3, h4 (by decide), h5, h6, h7⟩

theorem rollback_loop_lines (env : Env) (txn_id : Nat) (l : List Int) (r : Region) :
    (r.rollback_loop env txn_id l).num_table_lines = r.num_table_lines ∧
      (r.rollback_loop env txn_id l).num_delete_lines = r.num_delete_lines := by
  unfold Region.rollback_loop
  generalize l.reverse = l'
  induction l' generalizing r with
  | nil => exact ⟨rfl, rfl⟩
  | cons a t ih => simp [List.foldl, ih, Region.rollback_to_point]

theorem dml_2pc_finish_lines (r : Region) (op : OpType) (res : StoreRes) (i : Int)
    (t : Nat) (a b d : Int) (hop : op ≠ OP_TRUNCATE_TABLE) :
    (r.dml_2pc_finish op res i t a b d).1.num_table_lines
        = r.num_table_lines + (if op = OP_COMMIT then d else 0) ∧
      (r.dml_2pc_finish op res i t a b d).1.num_delete_lines
        = r.num_delete_lines + (if op = OP_COMMIT ∧ d < 0 then -d else 0) ∧
      (r.dml_2pc_finish op res i t a b d).2.errcode = some SUCCESS := by
  unfold Region.dml_2pc_finish
  simp only []
  split_ifs <;> simp_all [sub_eq_add_neg, OpType.is_commit_or_rollback, OpType.is_dml]

theorem dml_2pc_pre_commit_lines (r : Region) (op : OpType) (i : Int) (t : Nat) (d : Int) :
    (r.dml_2pc_pre_commit op i t d).num_table_lines = r.num_table_lines ∧
      (r.dml_2pc_pre_commit op i t d).num_delete_lines = r.num_delete_lines := by
  unfold Region.dml_2pc_pre_commit
  split_ifs <;> simp

theorem set_txn_err_code_lines (r : Region) (had : Bool) (t : Nat) (e : ErrCode) :
    (r.set_txn_err_code had t e).num_table_lines = r.num_table_lines ∧
      (r.set_txn_err_code had t e).num_delete_lines = r.num_delete_lines := by
  unfold Region.set_txn_err_code
  split_ifs <;> simp

theorem dml_2pc_prepare_cmd_lines (env : Env) (r : Region) (op : OpType) (s : Int) (t : Nat) :
    (r.dml_2pc_prepare_cmd env op s t).1.num_table_lines = r.num_table_lines ∧
      (r.dml_2pc_prepare_cmd env op s t).1.num_delete_lines = r.num_delete_lines := by
  unfold Region.dml_2pc_prepare_cmd
  simp only []
  split_ifs <;> simp

theorem dml_2pc_prepare_cmd_delta (env : Env) (r : Region) (op : OpType) (s : Int) (t : Nat)
    (hop : op ≠ OP_COMMIT) : (r.dml_2pc_prepare_cmd env op s t).2 = 0 := by
  unfold Region.dml_2pc_prepare_cmd
  simp only [if_neg hop]

theorem dml_2pc_body_lines (env : Env) (r : Region) (req : StoreReq) (op : OpType)
    (plan : Plan) (tuples : List Nat) (res : StoreRes) (i s : Int) (t : Nat) (had : Bool) (d : Int)
    (hop : op ≠ OP_TRUNCATE_TABLE) :
    (r.dml_2pc_body env req op plan tuples res i s t had d).1.num_table_lines
        = r.num_table_lines
          + (if op = OP_COMMIT ∧
                (r.dml_2pc_body env req op plan tuples res i s t had d).2.errcode = some SUCCESS
             then d else 0) ∧
      (r.dml_2pc_body env req op plan tuples res i s t had d).1.num_delete_lines
        = r.num_delete_lines
          + (if (op = OP_COMMIT ∧
                (r.dml_2pc_body env req op plan tuples res i s t had d).2.errcode = some SUCCESS)
                ∧ d < 0
             then -d else 0) := by
  have hsp := fun m => (open_fail_response_spec env
    (env.run (r.dml_2pc_pre_commit op i t d) req op plan s) res m).1
  unfold Region.dml_2pc_body
  simp only []
  split
  · simp [dml_2pc_pre_commit_lines]
  · split
    · simp [dml_2pc_pre_commit_lines]
    · split
      · simp [dml_2pc_pre_commit_lines, set_txn_err_code_lines, hsp]
      · split
        · simp [dml_2pc_pre_commit_lines, set_txn_err_code_lines]
        · split
          · obtain ⟨h1, h2, h3⟩ := dml_2pc_finish_lines
              (((((r.dml_2pc_pre_commit op i t d).emit (Effect.open_plan op s plan)).set_pool
                (env.run (r.dml_2pc_pre_commit op i t d) req op plan s).pool).set_txn_err_code
                had t SUCCESS).modify_txn t (Transaction.after_cmd op s plan tuples))
              op (res.add_records (env.run (r.dml_2pc_pre_commit op i t d) req op plan
                s).return_records) i t
              (env.run (r.dml_2pc_pre_commit op i t d) req op plan s).open_ret
              (env.run (r.dml_2pc_pre_commit op i t d) req op plan s).num_increase_rows d hop
            rw [h1, h2, h3]
            simp [dml_2pc_pre_commit_lines, set_txn_err_code_lines]
          · split
            · simp [dml_2pc_pre_commit_lines, set_txn_err_code_lines,
                Region.maybe_transfer_leader]
            · obtain ⟨h1, h2, h3⟩ := dml_2pc_finish_lines
                ((((r.dml_2pc_pre_commit op i t d).emit (Effect.open_plan op s plan)).set_pool
                  (env.run (r.dml_2pc_pre_commit op i t d) req op plan s).pool).set_txn_err_code
                  had t SUCCESS)
                op (res.add_records (env.run (r.dml_2pc_pre_commit op i t d) req op plan
                  s).return_records) i t
                (env.run (r.dml_2pc_pre_commit op i t d) req op plan s).open_ret
                (env.run (r.dml_2pc_pre_commit op i t d) req op plan s).num_increase_rows d hop
              rw [h1, h2, h3]
              simp [dml_2pc_pre_commit_lines, set_txn_err_code_lines]

theorem dml_2pc_lines (env : Env) (r : Region) (req : StoreReq) (op : OpType)
    (plan : Plan) (tuples : List Nat) (res : StoreRes) (i tm s : Int)
    (hop : op ≠ OP_TRUNCATE_TABLE) (hres : res.errcode ≠ some SUCCESS) :
    (r.dml_2pc env req op plan tuples res i tm s).1.num_table_lines
        = r.num_table_lines
          + (if op = OP_COMMIT ∧
                (r.dml_2pc env req op plan tuples res i tm s).2.errcode = some SUCCESS
             then r.commit_delta env req s else 0) ∧
      (r.dml_2pc env req op plan tuples res i tm s).1.num_delete_lines
        = r.num_delete_lines
          + (if (op = OP_COMMIT ∧
                (r.dml_2pc env req op plan tuples res i tm s).2.errcode = some SUCCESS)
                ∧ r.commit_delta env req s < 0
             then -(r.commit_delta env req s) else 0) := by
  unfold Region.dml_2pc Region.commit_delta
  cases hreq : req.txn_infos with
  | nil => simp
  | cons ti rest =>
    simp only []
    cases htx : r.txn_pool.get_txn ti.txn_id with
    | none =>
      simp only []
      split
      · simp [Region.maybe_transfer_leader]
      · rename_i hb
        have hb2 : op = OP_BEGIN := not_not.mp hb
        obtain ⟨h1, h2⟩ := dml_2pc_body_lines env r req op plan tuples res i s ti.txn_id false 0
          hop
        rw [h1, h2]
        simp [hb2]
    | some txn =>
      simp only []
      split
      · split
        · simp [Region.maybe_transfer_leader]
        · split
          · simp [hres, rollback_loop_lines]
          · by_cases hc : op = OP_COMMIT
            · subst hc
              obtain ⟨h1, h2⟩ := dml_2pc_body_lines env
                ((r.rollback_loop env ti.txn_id
                  (need_rollback_set ti.need_rollback_seq)).dml_2pc_prepare_cmd env OP_COMMIT s
                  ti.txn_id).1 req OP_COMMIT plan tuples res i s ti.txn_id true
                ((r.rollback_loop env ti.txn_id
                  (need_rollback_set ti.need_rollback_seq)).dml_2pc_prepare_cmd env OP_COMMIT s
                  ti.txn_id).2 hop
              rw [h1, h2]
              simp [dml_2pc_prepare_cmd_lines, rollback_loop_lines]
            · obtain ⟨h1, h2⟩ := dml_2pc_body_lines env
                ((r.rollback_loop env ti.txn_id
                  (need_rollback_set ti.need_rollback_seq)).dml_2pc_prepare_cmd env op s
                  ti.txn_id).1 req op plan tuples res i s ti.txn_id true
                ((r.rollback_loop env ti.txn_id
                  (need_rollback_set ti.need_rollback_seq)).dml_2pc_prepare_cmd env op s
                  ti.txn_id).2 hop
              rw [h1, h2]
              simp [dml_2pc_prepare_cmd_lines, rollback_loop_lines, hc]
      · rename_i hb
        have hb2 : op = OP_BEGIN := not_not.mp hb
        obtain ⟨h1, h2⟩ := dml_2pc_body_lines env r req op plan tuples res i s ti.txn_id true 0
          hop
        rw [h1, h2]
        simp [hb2]

theorem dml_2pc_call_lines (env : Env) (r : Region) (c : Dml2pcCall)
    (hop : c.op_type ≠ OP_TRUNCATE_TABLE) (hres : c.response.errcode ≠ some SUCCESS) :
    (r.dml_2pc_call env c).1.num_table_lines
        = r.num_table_lines
          + (if r.dml_2pc_committed env c then r.commit_delta env c.request c.seq_id else 0) ∧
      (r.dml_2pc_call env c).1.num_delete_lines
        = r.num_delete_lines
          + (if r.dml_2pc_committed env c = true ∧ r.commit_delta env c.request c.seq_id < 0
             then -(r.commit_delta env c.request c.seq_id) else 0) := by
  have h := dml_2pc_lines env r c.request c.op_type c.plan c.tuples c.response c.applied_index
    c.term c.seq_id hop hres
  unfold Region.dml_2pc_committed Region.dml_2pc_call
  simpa using h

theorem dml_2pc_run_lines (env : Env) (calls : List Dml2pcCall) (r : Region)
    (h : ∀ x ∈ calls, x.response.errcode ≠ some SUCCESS ∧ x.op_type ≠ OP_TRUNCATE_TABLE) :
    (r.dml_2pc_run env calls).num_table_lines
      = r.num_table_lines + r.committed_rows env calls := by
  induction calls generalizing r with
  | nil => simp [Region.dml_2pc_run, Region.committed_rows]
  | cons c cs ih =>
    have hc := h c (List.mem_cons_self _ _)
    rw [Region.dml_2pc_run, Region.committed_rows,
      ih _ (fun x hx => h x (List.mem_cons_of_mem _ hx)),
      (dml_2pc_call_lines env r c hc.2 hc.1).1]
    ring

theorem commit_delta_without_savepoints (env : Env) (r : Region) (req : StoreReq) (s : Int)
    (ti : TransactionInfo) (rest : List TransactionInfo) (txn : Transaction)
    (hreq : req.txn_infos = ti :: rest) (htx : r.txn_pool.get_txn ti.txn_id = some txn)
    (hnone : ti.need_rollback_seq = []) :
    r.commit_delta env req s = txn.num_increase_rows := by
  unfold Region.commit_delta Region.dml_2pc_prepare_cmd
  rw [hreq]
  simp [hnone, need_rollback_set, Region.rollback_loop, lookup_modify, htx,
    Transaction.set_seq_id]

/-- C10: row-count bookkeeping at transaction end.  When `Region::dml_2pc` is
called with OP_COMMIT and ends with errcode SUCCESS, for a transaction whose
accumulated `num_increase_rows` saved at the commit is `d`, `num_table_lines`
afterwards is its previous value plus `d` and `num_delete_lines` grows by `-d`
when `d < 0`; `d` is the `num_increase_rows` of the pooled transaction when
the request asks for no savepoint rollback; when it is called with
OP_ROLLBACK both counters are unchanged; so after any sequence of `dml_2pc`
calls with a fresh response, none of them a TRUNCATE, `num_table_lines` is its
initial value plus the sum of `d` over the successful commits. -/
theorem commit_adds_accumulated_rows (env : Env) (r : Region) (c : Dml2pcCall)
    (calls : List Dml2pcCall) (hc : c.response.errcode ≠ some SUCCESS)
    (hcalls : ∀ x ∈ calls, x.response.errcode ≠ some SUCCESS ∧ x.op_type ≠ OP_TRUNCATE_TABLE) :
    (c.op_type = OP_COMMIT → (r.dml_2pc_call env c).2.errcode = some SUCCESS →
      (r.dml_2pc_call env c).1.num_table_lines
          = r.num_table_lines + r.commit_delta env c.request c.seq_id ∧
        (r.dml_2pc_call env c).1.num_delete_lines
          = r.num_delete_lines
            + (if r.commit_delta env c.request c.seq_id < 0
               then -(r.commit_delta env c.request c.seq_id) else 0)) ∧
      (∀ ti rest txn, c.request.txn_infos = ti :: rest →
        r.txn_pool.get_txn ti.txn_id = some txn → ti.need_rollback_seq = [] →
        r.commit_delta env c.request c.seq_id = txn.num_increase_rows) ∧
      (c.op_type = OP_ROLLBACK →
        (r.dml_2pc_call env c).1.num_table_lines = r.num_table_lines ∧
          (r.dml_2pc_call env c).1.num_delete_lines = r.num_delete_lines) ∧
      (r.dml_2pc_run env calls).num_table_lines
        = r.num_table_lines + r.committed_rows env calls := by
  refine ⟨?_, ?_, ?_, dml_2pc_run_lines env calls r hcalls⟩
  · intro hop hs
    have h := dml_2pc_call_lines env r c (by rw [hop]; decide) hc
    have hcm : r.dml_2pc_committed env c = true := by
      unfold Region.dml_2pc_committed
      exact decide_eq_true ⟨hop, hs⟩
    rw [h.1, h.2]
    simp [hcm]
  · intro ti rest txn hreq htx hnone
    exact commit_delta_without_savepoints env r c.request c.seq_id ti rest txn hreq htx hnone
  · intro hop
    have h := dml_2pc_call_lines env r c (by rw [hop]; decide) hc
    have hcm : r.dml_2pc_committed env c = false := by
      unfold Region.dml_2pc_committed
      exact decide_eq_false (fun hh => by rw [hop] at hh; exact absurd hh.1 (by decide))
    rw [h.1, h.2]
    simp [hcm]

theorem commit_adds_accumulated_rows_witness :
    ((Scenario.bookkeeping_region.dml_2pc_call Env.nominal
        (Scenario.finish_call OP_COMMIT 43 3)).2.errcode = some SUCCESS ∧
      Scenario.bookkeeping_region.commit_delta Env.nominal
        (Scenario.finish_call OP_COMMIT 43 3).request 3 = -3 ∧
      Scenario.bookkeeping_region.committed_rows Env.nominal Scenario.bookkeeping_calls = -1) ∧
    ((Scenario.bookkeeping_region.dml_2pc_call Env.nominal
        (Scenario.finish_call OP_COMMIT 43 3)).1.num_table_lines
          = Scenario.bookkeeping_region.num_table_lines
            + Scenario.bookkeeping_region.commit_delta Env.nominal
                (Scenario.finish_call OP_COMMIT 43 3).request
                (Scenario.finish_call OP_COMMIT 43 3).seq_id ∧
      (Scenario.bookkeeping_region.dml_2pc_call Env.nominal
        (Scenario.finish_call OP_COMMIT 43 3)).1.num_delete_lines
          = Scenario.bookkeeping_region.num_delete_lines
            + (if Scenario.bookkeeping_region.commit_delta Env.nominal
                (Scenario.finish_call OP_COMMIT 43 3).request
                (Scenario.finish_call OP_COMMIT 43 3).seq_id < 0
               then -(Scenario.bookkeeping_region.commit_delta Env.nominal
                (Scenario.finish_call OP_COMMIT 43 3).request
                (Scenario.finish_call OP_COMMIT 43 3).seq_id) else 0)) ∧
    (Scenario.bookkeeping_region.dml_2pc_run Env.nominal
        Scenario.bookkeeping_calls).num_table_lines
      = Scenario.bookkeeping_region.num_table_lines
        + Scenario.bookkeeping_region.committed_rows Env.nominal Scenario.bookkeeping_calls :=
  ⟨⟨by decide, by decide, by decide⟩,
    (commit_adds_accumulated_rows Env.nominal Scenario.bookkeeping_region
      (Scenario.finish_call OP_COMMIT 43 3) Scenario.bookkeeping_calls (by decide)
      (by decide)).1 rfl (by decide),
    (commit_adds_accumulated_rows Env.nominal Scenario.bookkeeping_region
      (Scenario.finish_call OP_COMMIT 43 3) Scenario.bookkeeping_calls (by decide)
      (by decide)).2.2.2⟩

theorem validate_and_add_version_lines (env : Env) (r : Region) (req : StoreReq)
    (done : Option Closure) (i tm : Int) (h1 : req.split_term = tm)
    (h2 : req.split_end_index + 1 = i) :
    (r.validate_and_add_version env req done i tm).1.num_table_lines
        = r.num_table_lines - req.reduce_num_lines ∧
      (r.validate_and_add_version env req done i tm).2 = Closure.set_ret done 0 := by
  unfold Region.validate_and_add_version
  rw [if_neg (by simp [h1, h2])]
  simp

/-- C11: effect of a successful parent validate-and-add-version.  When
`Region::validate_and_add_version` is applied with `split_term == term` and
`split_end_index + 1 == index`, the end key of the region becomes
`request.end_key`, its version `request.region_version`, its start key is
unchanged, `num_table_lines` decreases by exactly `request.reduce_num_lines`
and `request.new_region_info` is appended to the recorded children; with the
request the split coordinator builds, the new end key of the parent is the
start key of the recorded child, the parent version is the old one plus 1 and
the child version 1 exceeds the version 0 it was created with. -/
theorem split_parent_add_version (env : Env) (r : Region) (req : StoreReq)
    (done : Option Closure) (i tm : Int) (h1 : req.split_term = tm)
    (h2 : req.split_end_index + 1 = i) :
    ((r.validate_and_add_version env req done i tm).1.region_info.end_key = req.end_key ∧
      (r.validate_and_add_version env req done i tm).1.region_info.version
        = req.region_version ∧
      (r.validate_and_add_version env req done i tm).1.region_info.start_key
        = r.region_info.start_key ∧
      (r.validate_and_add_version env req done i tm).1.num_table_lines
        = r.num_table_lines - req.reduce_num_lines ∧
      (r.validate_and_add_version env req done i tm).1.new_region_infos
        = r.new_region_infos ++ [req.new_region_info.getD {}]) ∧
    (∀ (r0 : Region) (new_instance : String) (response : StoreRes),
      req = r.split_add_version_request response (r0.split_init_region_info new_instance) →
      ∃ child, req.new_region_info = some child ∧
        (r.validate_and_add_version env req done i tm).1.new_region_infos
          = r.new_region_infos ++ [child] ∧
        (r.validate_and_add_version env req done i tm).1.region_info.end_key
          = child.start_key ∧
        child.start_key = r.split_param.split_key ∧
        (r.validate_and_add_version env req done i tm).1.region_info.version
          = r.region_info.version + 1 ∧
        r.region_info.version
          < (r.validate_and_add_version env req done i tm).1.region_info.version ∧
        child.version = 1 ∧
        (r0.split_init_region_info new_instance).version < child.version) := by
  obtain ⟨ha, hb, _⟩ := validate_and_add_version_success env r req done i tm h1 h2
  have hl := (validate_and_add_version_lines env r req done i tm h1 h2).1
  refine ⟨⟨by rw [ha]; rfl, by rw [ha]; rfl, by rw [ha]; rfl, hl, hb⟩, ?_⟩
  intro r0 new_instance response hreq
  refine ⟨((r0.split_init_region_info new_instance).set_version 1).set_start_key
    r.split_param.split_key, by rw [hreq]; rfl, ?_, ?_, rfl, ?_, ?_, rfl, ?_⟩
  · rw [hb, hreq]; rfl
  · rw [ha, hreq]; rfl
  · rw [ha, hreq]; rfl
  · rw [ha, hreq]
    show r.region_info.version < r.region_info.version + 1
    omega
  · show (0 : Int) < 1
    decide

theorem split_parent_add_version_witness :
    ∃ child, Scenario.complete_split_request.new_region_info = some child ∧
      (Scenario.splitting_parent.validate_and_add_version Env.nominal
          Scenario.complete_split_request none 8 2).1.new_region_infos
        = Scenario.splitting_parent.new_region_infos ++ [child] ∧
      (Scenario.splitting_parent.validate_and_add_version Env.nominal
          Scenario.complete_split_request none 8 2).1.region_info.end_key = child.start_key ∧
      child.start_key = Scenario.splitting_parent.split_param.split_key ∧
      (Scenario.splitting_parent.validate_and_add_version Env.nominal
          Scenario.complete_split_request none 8 2).1.region_info.version
        = Scenario.splitting_parent.region_info.version + 1 ∧
      Scenario.splitting_parent.region_info.version
        < (Scenario.splitting_parent.validate_and_add_version Env.nominal
            Scenario.complete_split_request none 8 2).1.region_info.version ∧
      child.version = 1 ∧
      (Scenario.splitting_parent.split_init_region_info "10.0.0.2:8110").version
        < child.version :=
  (split_parent_add_version Env.nominal Scenario.splitting_parent
    Scenario.complete_split_request none 8 2 (by decide) (by decide)).2
    Scenario.splitting_parent "10.0.0.2:8110" Scenario.child_ack rfl

theorem validate_and_add_version_mismatch (env : Env) (r : Region) (req : StoreReq)
    (done : Option Closure) (i tm : Int)
    (h : req.split_term ≠ tm ∨ req.split_end_index + 1 ≠ i) :
    r.validate_and_add_version env req done i tm
      = ((if done.isSome then
            r.emit (Effect.start_thread_to_remove_region r.split_param.new_region_id)
          else r).emit (Effect.meta_put_applied_index i),
         Closure.set_ret done (-1)) := by
  unfold Region.validate_and_add_version
  rw [if_pos h]

/-- C12 (amended): `Region::validate_and_add_version` changes the region exactly
when the split term and index still match, whatever the status of the region.
When `split_term` differs from the term of the entry or `split_end_index + 1`
from its index, the descriptor (key range, version), `num_table_lines`, the
recorded children and the status are left as they were, the only meta write is
that of the applied index, and a closure attached on the leader gets
`ret = -1` after the removal of the child region has been started; when both
match, the descriptor takes the version and the end key of the request. -/
theorem stale_split_leaves_region_unchanged (env : Env) (r : Region) (req : StoreReq)
    (done : Option Closure) (i tm : Int) :
    ((req.split_term ≠ tm ∨ req.split_end_index + 1 ≠ i) →
      (r.validate_and_add_version env req done i tm).1.region_info = r.region_info ∧
      (r.validate_and_add_version env req done i tm).1.num_table_lines = r.num_table_lines ∧
      (r.validate_and_add_version env req done i tm).1.new_region_infos
        = r.new_region_infos ∧
      (r.validate_and_add_version env req done i tm).1.status = r.status ∧
      (r.validate_and_add_version env req done i tm).1.effects
        = r.effects
          ++ (if done.isSome then
                [Effect.start_thread_to_remove_region r.split_param.new_region_id]
              else [])
          ++ [Effect.meta_put_applied_index i] ∧
      (∀ c, done = some c →
        (r.validate_and_add_version env req done i tm).2 = some { c with ret := -1 })) ∧
    ((req.split_term = tm ∧ req.split_end_index + 1 = i) →
      (r.validate_and_add_version env req done i tm).1.region_info
        = (r.region_info.set_version req.region_version).set_end_key req.end_key) := by
  refine ⟨fun h => ?_, fun h => (validate_and_add_version_success env r req done i tm h.1 h.2).1⟩
  rw [validate_and_add_version_mismatch env r req done i tm h]
  cases done with
  | none => simp [Closure.set_ret]
  | some c => simp [Closure.set_ret]

theorem stale_split_leaves_region_unchanged_witness :
    (Scenario.splitting_parent.validate_and_add_version Env.nominal
        Scenario.complete_split_request (some {}) 9 2).1.region_info
      = Scenario.splitting_parent.region_info ∧
    (Scenario.splitting_parent.validate_and_add_version Env.nominal
        Scenario.complete_split_request (some {}) 9 2).1.num_table_lines = 100 ∧
    (Scenario.splitting_parent.validate_and_add_version Env.nominal
        Scenario.complete_split_request (some {}) 9 2).2 = some { ret := -1 } :=
  have h := (stale_split_leaves_region_unchanged Env.nominal Scenario.splitting_parent
    Scenario.complete_split_request (some {}) 9 2).1 (Or.inr (by decide))
  ⟨h.1, h.2.1, h.2.2.2.2.2 {} rfl⟩

/-- C12 (counterexample): on a replica whose status is IDLE, not DOING, an entry
whose split term and index match still truncates the key range, bumps the
version and reduces the row count. -/
theorem split_applied_when_status_not_doing :
    Scenario.splitting_parent_idle.status = RegionStatus.IDLE ∧
      ((Scenario.splitting_parent_idle.validate_and_add_version Env.nominal
          Scenario.complete_split_request none 8 2).1.region_info.end_key,
       (Scenario.splitting_parent_idle.validate_and_add_version Env.nominal
          Scenario.complete_split_request none 8 2).1.region_info.version,
       (Scenario.splitting_parent_idle.validate_and_add_version Env.nominal
          Scenario.complete_split_request none 8 2).1.num_table_lines,
       (Scenario.splitting_parent_idle.validate_and_add_version Env.nominal
          Scenario.complete_split_request none 8 2).1.new_region_infos.length)
        = ([30], 2, 60, 1) ∧
      (Scenario.splitting_parent_idle.region_info.end_key,
       Scenario.splitting_parent_idle.region_info.version,
       Scenario.splitting_parent_idle.num_table_lines,
       Scenario.splitting_parent_idle.new_region_infos.length) = ([50], 1, 100, 0) := by
  decide

theorem kv_split_skip_emit (env : Env) (r : Region) (x : Effect) (op : KvOp) :
    (r.emit x).kv_split_skip env op = r.kv_split_skip env op := by
  unfold Region.kv_split_skip
  simp

theorem kv_split_skip_routing (env : Env) (r : Region) (op : KvOp)
    (h : r.is_routing_op env op = true) :
    r.kv_split_skip env op = false ↔
      (r.region_info.start_key ≤ op.key.drop 16 ∧
        (r.region_info.end_key = [] ∨ op.key.drop 16 < r.region_info.end_key)) := by
  unfold Region.is_routing_op at h
  have h2 : env.get_index_type (env.decode_index_id op.key) = IndexType.I_PRIMARY
      ∨ r.is_global_index = true := by simpa using h
  unfold Region.kv_split_skip
  simp only [if_pos h2]
  rw [← not_lt]
  cases hk : r.region_info.end_key <;> simp [List.isEmpty]

theorem kv_split_loop_cons (env : Env) (op : KvOp) (rest : List KvOp) (r : Region) (n : Int) :
    Region.kv_split_loop env (op :: rest) r n
      = if r.kv_split_skip env op then Region.kv_split_loop env rest r n
        else if env.get_for_update_rc r (env.replace_region_id r.region_id op.key) = -1 then
          (r.emit (Effect.kv_get_for_update (env.replace_region_id r.region_id op.key)), none)
        else if r.kv_split_rc env op (env.replace_region_id r.region_id op.key) < 0 then
          (r.kv_split_write op (env.replace_region_id r.region_id op.key), none)
        else
          Region.kv_split_loop env rest
            (r.kv_split_write op (env.replace_region_id r.region_id op.key))
            (r.kv_split_lines env op (env.replace_region_id r.region_id op.key) n) := by
  rw [Region.kv_split_loop]
  unfold Region.kv_split_write Region.kv_split_rc Region.kv_split_lines
  rfl

theorem kv_split_write_spec (env : Env) (r : Region) (op : KvOp) :
    (∀ op2, (r.kv_split_write op (env.replace_region_id r.region_id op.key)).kv_split_skip
        env op2 = r.kv_split_skip env op2) ∧
    (r.kv_split_write op (env.replace_region_id r.region_id op.key)).region_id = r.region_id ∧
    (r.kv_split_write op (env.replace_region_id r.region_id op.key)).num_table_lines
      = r.num_table_lines ∧
    ∃ tail, (r.kv_split_write op (env.replace_region_id r.region_id op.key)).effects
        = r.effects ++ tail ∧ ∀ x ∈ tail, r.kv_split_call env op x := by
  unfold Region.kv_split_write Region.kv_split_call
  split_ifs with hp hd
  · refine ⟨fun _ => by simp [kv_split_skip_emit], by simp, by simp, [_, _],
      by simp; exact ⟨rfl, rfl⟩, ?_⟩
    simp [hp]
  · refine ⟨fun _ => by simp [kv_split_skip_emit], by simp, by simp, [_, _],
      by simp; exact ⟨rfl, rfl⟩, ?_⟩
    simp [hd]
  · refine ⟨fun _ => by simp [kv_split_skip_emit], by simp, by simp, [_], by simp; rfl, ?_⟩
    simp

theorem kv_split_loop_filter (env : Env) (r0 : Region) (ops : List KvOp) (r : Region) (n : Int)
    (hs : ∀ op, r.kv_split_skip env op = r0.kv_split_skip env op) :
    Region.kv_split_loop env ops r n
      = Region.kv_split_loop env (ops.filter (fun op => !r0.kv_split_skip env op)) r n := by
  induction ops generalizing r n with
  | nil => rfl
  | cons op rest ih =>
    by_cases hskip : r0.kv_split_skip env op = true
    · have hskipr : r.kv_split_skip env op = true := by rw [hs]; exact hskip
      rw [List.filter_cons_of_neg (by simp [hskip]), kv_split_loop_cons]
      simp only [hskipr, if_true]
      exact ih r n hs
    · rw [List.filter_cons_of_pos (by simpa using hskip), kv_split_loop_cons,
        kv_split_loop_cons]
      rw [ih (r.kv_split_write op (env.replace_region_id r.region_id op.key)) _
        (fun op2 => by rw [(kv_split_write_spec env r op).1 op2]; exact hs op2)]
      have hskipr : r.kv_split_skip env op = false := by rw [hs]; simpa using hskip
      simp only [hskipr, Bool.false_eq_true, if_false]

theorem kv_split_loop_calls (env : Env) (r0 : Region) (ops : List KvOp) (r : Region) (n : Int)
    (hs : ∀ op, r.kv_split_skip env op = r0.kv_split_skip env op)
    (hid : r.region_id = r0.region_id) :
    (Region.kv_split_loop env ops r n).1.num_table_lines = r.num_table_lines ∧
    ∃ tail, (Region.kv_split_loop env ops r n).1.effects = r.effects ++ tail ∧
      ∀ x ∈ tail, ∃ op ∈ ops, r0.kv_split_skip env op = false ∧ r0.kv_split_call env op x := by
  induction ops generalizing r n with
  | nil => exact ⟨rfl, [], by simp [Region.kv_split_loop], by simp⟩
  | cons op rest ih =>
    have hcall : ∀ x, r.kv_split_call env op x → r0.kv_split_call env op x := by
      intro x hx
      unfold Region.kv_split_call at hx ⊢
      rw [← hid]; exact hx
    rw [kv_split_loop_cons]
    by_cases hskip : r0.kv_split_skip env op = true
    · have hskipr : r.kv_split_skip env op = true := by rw [hs]; exact hskip
      simp only [hskipr, if_true]
      obtain ⟨hl, tail, h1, h2⟩ := ih r n hs hid
      refine ⟨hl, tail, h1, fun x hx => ?_⟩
      obtain ⟨o, ho, hh⟩ := h2 x hx
      exact ⟨o, List.mem_cons_of_mem _ ho, hh⟩
    · have hskip2 : r0.kv_split_skip env op = false := by simpa using hskip
      have hskipr : r.kv_split_skip env op = false := by rw [hs]; exact hskip2
      simp only [hskipr, Bool.false_eq_true, if_false]
      obtain ⟨hws, hwid, hwl, t2, ht2, hc2⟩ := kv_split_write_spec env r op
      by_cases hrc0 : env.get_for_update_rc r (env.replace_region_id r.region_id op.key) = -1
      · rw [if_pos hrc0]
        refine ⟨by simp, [Effect.kv_get_for_update (env.replace_region_id r.region_id op.key)],
          by simp, fun x hx => ?_⟩
        rw [List.mem_singleton] at hx
        exact ⟨op, List.mem_cons_self _ _, hskip2, hcall x (Or.inl hx)⟩
      · rw [if_neg hrc0]
        by_cases hrc : r.kv_split_rc env op (env.replace_region_id r.region_id op.key) < 0
        · rw [if_pos hrc]
          exact ⟨hwl, t2, ht2, fun x hx =>
            ⟨op, List.mem_cons_self _ _, hskip2, hcall x (hc2 x hx)⟩⟩
        · rw [if_neg hrc]
          obtain ⟨hl, tail, h1, h2⟩ := ih
            (r.kv_split_write op (env.replace_region_id r.region_id op.key))
            (r.kv_split_lines env op (env.replace_region_id r.region_id op.key) n)
            (fun op2 => by rw [hws op2]; exact hs op2) (hwid.trans hid)
          refine ⟨hl.trans hwl, t2 ++ tail, by rw [h1, ht2, List.append_assoc],
            fun x hx => ?_⟩
          rcases List.mem_append.mp hx with hx | hx
          · exact ⟨op, List.mem_cons_self _ _, hskip2, hcall x (hc2 x hx)⟩
          · obtain ⟨o, ho, hh⟩ := h2 x hx
            exact ⟨o, List.mem_cons_of_mem _ ho, hh⟩

theorem apply_kv_split_effects (env : Env) (r : Region) (req : StoreReq) (done : Option Closure)
    (i tm : Int) :
    ∃ extra, (r.apply_kv_split env req done i tm).1.effects
        = (Region.kv_split_loop env req.kv_ops r 0).1.effects ++ extra ∧
      ∀ x ∈ extra, x.is_kv = false := by
  unfold Region.apply_kv_split
  simp only []
  split
  · exact ⟨[Effect.txn_rollback], by simp, by simp [Effect.is_kv]⟩
  · split
    · exact ⟨[_, _], by simp; exact ⟨rfl, rfl⟩, by simp [Effect.is_kv]⟩
    · exact ⟨[_, _, _], by simp; exact ⟨rfl, rfl, rfl⟩, by simp [Effect.is_kv]⟩

theorem apply_kv_split_filter (env : Env) (r : Region) (req : StoreReq) (done : Option Closure)
    (i tm : Int) :
    r.apply_kv_split env req done i tm
      = r.apply_kv_split env
          { req with kv_ops := req.kv_ops.filter (fun op => !r.kv_split_skip env op) } done i tm := by
  unfold Region.apply_kv_split
  rw [kv_split_loop_filter env r req.kv_ops r 0 (fun _ => rfl)]

theorem apply_kv_split_nothing (env : Env) (r : Region) (req : StoreReq) (done : Option Closure)
    (i tm : Int) (h : req.kv_ops = []) :
    (r.apply_kv_split env req done i tm).1.num_table_lines = r.num_table_lines := by
  unfold Region.apply_kv_split
  rw [h]
  simp only [Region.kv_split_loop]
  split_ifs <;> simp

theorem kv_split_call_key (env : Env) (r : Region) (op : KvOp) (x : Effect)
    (h : r.kv_split_call env op x) :
    x.is_kv = true ∧ x.kv_key = some (env.replace_region_id r.region_id op.key) := by
  rcases h with h | ⟨_, h⟩ | ⟨_, h⟩ <;> rw [h] <;> exact ⟨rfl, rfl⟩

/-- C13: region bounds are enforced when the child replays the writes of the
parent.  For every operation of an OP_KV_BATCH_SPLIT batch that addresses the
routing index (primary index, or any index of a global-index region),
`apply_kv_split` keeps it exactly when `start_key <= key-suffix` and the end
key is empty or `key-suffix < end_key`, the suffix being the key without its
first 16 bytes; the skipped operations have no effect at all (the call
behaves as on the batch without them, and a batch of skipped operations leaves
`num_table_lines` alone); every lock, write and delete issued on the KV
transaction belongs to a kept operation of the batch and is made on its key
after `replace_i64(_region_id, 0)`, whose leading 8-byte field therefore reads
as the id of this region. -/
theorem apply_kv_split_respects_bounds (env : Env) (r : Region) (req : StoreReq)
    (done : Option Closure) (i tm : Int) :
    (∀ op, r.is_routing_op env op = true →
      (r.kv_split_skip env op = false ↔
        (r.region_info.start_key ≤ op.key.drop 16 ∧
          (r.region_info.end_key = [] ∨ op.key.drop 16 < r.region_info.end_key)))) ∧
    r.apply_kv_split env req done i tm
      = r.apply_kv_split env
          { req with kv_ops := req.kv_ops.filter (fun op => !r.kv_split_skip env op) }
          done i tm ∧
    ((∀ op ∈ req.kv_ops, r.kv_split_skip env op = true) →
      (r.apply_kv_split env req done i tm).1.num_table_lines = r.num_table_lines) ∧
    ∃ tail, (r.apply_kv_split env req done i tm).1.effects = r.effects ++ tail ∧
      (∀ x ∈ tail, x.is_kv = true →
        ∃ op ∈ req.kv_ops, r.kv_split_call env op x ∧
          x.kv_key = some (env.replace_region_id r.region_id op.key) ∧
          r.kv_split_skip env op = false ∧
          (r.is_routing_op env op = true →
            r.region_info.start_key ≤ op.key.drop 16 ∧
              (r.region_info.end_key = [] ∨ op.key.drop 16 < r.region_info.end_key))) ∧
      ((∀ k, env.extract_i64 (env.replace_region_id r.region_id k) 0 = r.region_id) →
        ∀ x ∈ tail, ∀ key, x.is_kv = true → x.kv_key = some key →
          env.extract_i64 key 0 = r.region_id) := by
  have hcalls : ∃ tail, (r.apply_kv_split env req done i tm).1.effects = r.effects ++ tail ∧
      ∀ x ∈ tail, x.is_kv = true →
        ∃ op ∈ req.kv_ops, r.kv_split_call env op x ∧
          x.kv_key = some (env.replace_region_id r.region_id op.key) ∧
          r.kv_split_skip env op = false := by
    obtain ⟨extra, he, hx⟩ := apply_kv_split_effects env r req done i tm
    obtain ⟨_, tail, ht, hc⟩ := kv_split_loop_calls env r req.kv_ops r 0 (fun _ => rfl) rfl
    refine ⟨tail ++ extra, by rw [he, ht, List.append_assoc], fun x hmem hkv => ?_⟩
    rcases List.mem_append.mp hmem with hm | hm
    · obtain ⟨op, hop, hs, hcall⟩ := hc x hm
      exact ⟨op, hop, hcall, (kv_split_call_key env r op x hcall).2, hs⟩
    · rw [hx x hm] at hkv
      cases hkv
  refine ⟨fun op h => kv_split_skip_routing env r op h, apply_kv_split_filter env r req done i tm,
    ?_, ?_⟩
  · intro hall
    rw [apply_kv_split_filter]
    apply apply_kv_split_nothing
    show req.kv_ops.filter (fun op => !r.kv_split_skip env op) = []
    rw [List.filter_eq_nil_iff]
    intro op hop
    simp [hall op hop]
  · obtain ⟨tail, ht, hc⟩ := hcalls
    refine ⟨tail, ht, fun x hm hkv => ?_, fun hcodec x hm key hkv hkey => ?_⟩
    · obtain ⟨op, hop, hcall, hk, hs⟩ := hc x hm hkv
      exact ⟨op, hop, hcall, hk, hs, fun hr => (kv_split_skip_routing env r op hr).mp hs⟩
    · obtain ⟨op, _, _, hk, _⟩ := hc x hm hkv
      rw [hk] at hkey
      cases hkey
      exact hcodec _

theorem byte_keys_region_id (id : Int) (k : Key) (h0 : 0 ≤ id) (h1 : id < 256) :
    Env.byte_keys.extract_i64 (Env.byte_keys.replace_region_id id k) 0 = id := by
  obtain ⟨n, rfl⟩ := Int.eq_ofNat_of_zero_le h0
  have hn : n < 256 := by omega
  show be_value (replace_i64 n 0 k) 0 = n
  unfold be_value replace_i64 be_bytes
  simp [List.range_succ, List.take_append_eq_append_take]
  omega

theorem apply_kv_split_respects_bounds_witness :
    (Scenario.kv_child.apply_kv_split Env.byte_keys Scenario.kv_batch none 4 1).1.num_table_lines
        = 6 ∧
    ∃ tail, (Scenario.kv_child.apply_kv_split Env.byte_keys Scenario.kv_batch none 4 1).1.effects
        = Scenario.kv_child.effects ++ tail ∧
      Effect.kv_put (be_bytes 2 ++ be_bytes 9 ++ [35]) [2] ∈ tail ∧
      (∀ x ∈ tail, x.is_kv = true →
        ∃ op ∈ Scenario.kv_batch.kv_ops, Scenario.kv_child.kv_split_call Env.byte_keys op x ∧
          x.kv_key = some (Env.byte_keys.replace_region_id Scenario.kv_child.region_id op.key) ∧
          Scenario.kv_child.kv_split_skip Env.byte_keys op = false ∧
          (Scenario.kv_child.is_routing_op Env.byte_keys op = true →
            Scenario.kv_child.region_info.start_key ≤ op.key.drop 16 ∧
              (Scenario.kv_child.region_info.end_key = [] ∨
                op.key.drop 16 < Scenario.kv_child.region_info.end_key))) ∧
      (∀ x ∈ tail, ∀ key, x.is_kv = true → x.kv_key = some key →
        Env.byte_keys.extract_i64 key 0 = Scenario.kv_child.region_id) := by
  refine ⟨by decide, ?_⟩
  obtain ⟨tail, h1, h2, h3⟩ :=
    (apply_kv_split_respects_bounds Env.byte_keys Scenario.kv_child Scenario.kv_batch none
      4 1).2.2.2
  refine ⟨tail, h1, ?_, h2,
    h3 (fun k => byte_keys_region_id 2 k (by decide) (by decide))⟩
  have h4 : (Scenario.kv_child.apply_kv_split Env.byte_keys Scenario.kv_batch none 4 1).1.effects
      = Scenario.kv_child.effects ++
        [Effect.kv_get_for_update (be_bytes 2 ++ be_bytes 9 ++ [35]),
         Effect.kv_put (be_bytes 2 ++ be_bytes 9 ++ [35]) [2],
         Effect.txn_put_meta_info 4 6, Effect.txn_commit] := by decide
  rw [h4] at h1
  have h5 := List.append_cancel_left h1
  rw [← h5]
  simp
theorem cannot_merge_false_iff (r : Region) (s e : Key) :
    r.cannot_merge s e = false ↔
      (r.region_info.start_key ≠ r.region_info.end_key ∧ s ≠ e ∧
        r.region_info.start_key ≤ s ∧ s ≤ r.region_info.end_key ∧
        end_key_compare r.region_info.end_key e ≤ 0) := by
  unfold Region.cannot_merge
  simp only [Bool.or_eq_false_iff, decide_eq_false_iff_not, not_lt, gt_iff_lt]
  tauto

theorem merge_send_loop_effects (env : Env) (mr : RegionMergeResponse) (fuel retry : Nat)
    (req : StoreReq) (r : Region) :
    ∃ tail, (Region.merge_send_loop env mr fuel retry req r).1.effects = r.effects ++ tail ∧
      ∀ x ∈ tail, x.is_raft_apply = false := by
  induction fuel generalizing retry req r with
  | zero => exact ⟨[], by simp [Region.merge_send_loop], by simp⟩
  | succ n ih =>
    unfold Region.merge_send_loop
    simp only []
    repeat' split
    all_goals first
      | (refine ⟨[Effect.send_request_for_leader mr.dst_instance req], ?_, ?_⟩
         · simp
         · simp [Effect.is_raft_apply])
      | (obtain ⟨t, ht, hx⟩ := ih (retry + 1) _ (r.emit (Effect.send_request_for_leader
            mr.dst_instance req))
         refine ⟨Effect.send_request_for_leader mr.dst_instance req :: t, ?_, ?_⟩
         · rw [ht]; simp
         · intro x hmem
           rcases List.mem_cons.mp hmem with h | h
           · rw [h]; rfl
           · exact hx x h)

theorem merge_send_loop_sends (env : Env) (mr : RegionMergeResponse) (fuel retry : Nat)
    (req : StoreReq) (r : Region) :
    ∃ tail, (Region.merge_send_loop env mr (fuel + 1) retry req r).1.effects
        = r.effects ++ [Effect.send_request_for_leader mr.dst_instance req] ++ tail ∧
      ∀ x ∈ tail, x.is_raft_apply = false := by
  unfold Region.merge_send_loop
  simp only []
  repeat' split
  all_goals first
    | (refine ⟨[], ?_, ?_⟩
       · simp
       · simp)
    | (obtain ⟨t, ht, hx⟩ := merge_send_loop_effects env mr fuel (retry + 1) _
          (r.emit (Effect.send_request_for_leader mr.dst_instance req))
       exact ⟨t, by rw [ht]; simp, hx⟩)

theorem start_process_merge_rejects (env : Env) (r : Region) (mr : RegionMergeResponse)
    (h : r.cannot_merge mr.dst_start_key mr.dst_end_key = true) :
    r.start_process_merge env mr = r ∨
      r.start_process_merge env mr
        = (r.emit Effect.disable_write_increase).emit Effect.reset_allow_write := by
  have h2 : ((r.set_status RegionStatus.DOING).emit Effect.disable_write_increase).cannot_merge
      mr.dst_start_key mr.dst_end_key = true := h
  unfold Region.start_process_merge
  simp only [h2, if_true]
  by_cases hst : r.status = RegionStatus.IDLE
  · have habort : ((r.set_status RegionStatus.DOING).emit
        Effect.disable_write_increase).merge_abort
        = (r.emit Effect.disable_write_increase).emit Effect.reset_allow_write := by
      cases r
      simp only [Region.merge_abort, Region.set_status, Region.emit] at hst ⊢
      simp [hst]
    rw [habort]
    split_ifs <;> simp
  · split_ifs <;> simp

theorem start_process_merge_sends (env : Env) (r : Region) (mr : RegionMergeResponse)
    (hgate : r.shutdown = false ∧ r.is_leader = true ∧ r.status = RegionStatus.IDLE)
    (hwait : env.real_writing_wait_ret
      ((r.set_status RegionStatus.DOING).emit Effect.disable_write_increase) = 0)
    (hquiet : r.applied_index = r.applied_index_lastcycle)
    (h : r.cannot_merge mr.dst_start_key mr.dst_end_key = false) :
    ∃ tail, (r.start_process_merge env mr).effects
      = r.effects ++ [Effect.disable_write_increase,
          Effect.send_request_for_leader mr.dst_instance (r.merge_request mr)] ++ tail := by
  have h2 : ((r.set_status RegionStatus.DOING).emit Effect.disable_write_increase).cannot_merge
      mr.dst_start_key mr.dst_end_key = false := h
  obtain ⟨t, ht, _⟩ := merge_send_loop_sends env mr 3 0 (r.merge_request mr)
    ((r.set_status RegionStatus.DOING).emit Effect.disable_write_increase)
  have hq : ((r.set_status RegionStatus.DOING).emit Effect.disable_write_increase).applied_index
      = ((r.set_status RegionStatus.DOING).emit
          Effect.disable_write_increase).applied_index_lastcycle := hquiet
  have hreq : ((r.set_status RegionStatus.DOING).emit
      Effect.disable_write_increase).merge_request mr = r.merge_request mr := rfl
  unfold Region.start_process_merge
  simp only [hgate.1, hgate.2.1, hgate.2.2, hwait, h2, hq, hreq]
  simp only [Bool.false_eq_true, if_false, Bool.not_true, ne_eq, not_true_eq_false]
  split
  · exact ⟨t ++ [Effect.reset_allow_write], by simp [Region.merge_abort, ht]⟩
  · unfold Region.merge_finish
    repeat' split
    all_goals first
      | (refine ⟨t ++ [Effect.reset_allow_write], ?_⟩
         simp [Region.merge_abort, ht]
         done)
      | (rename_i dst _ _ _
         refine ⟨t ++ [Effect.raft_apply ((Region.merge_send_loop env mr 4 0
           (r.merge_request mr) ((r.set_status RegionStatus.DOING).emit
             Effect.disable_write_increase)).1.merge_add_version_request dst)], ?_⟩
         simp [ht])

/-- C15 (amended): `Region::start_process_merge` sends the merge request only
when the test on the two ranges passes, which asks for non-empty ranges,
`source.start_key <= destination.start_key <= source.end_key` and
`source.end_key` not after `destination.end_key` (an empty end key being
last); adjacency `source.end_key == destination.start_key` is one way to pass
it.  When the test fails (the destination starts after a gap or before the
source, or one range is empty) it aborts without sending or proposing
anything and leaves the region as it was, but for the journal of the write
gate; when it passes on a quiesced idle leader the request is sent. -/
theorem merge_sends_only_for_accepted_ranges (env : Env) (r : Region)
    (mr : RegionMergeResponse) :
    (r.cannot_merge mr.dst_start_key mr.dst_end_key = false ↔
      (r.region_info.start_key ≠ r.region_info.end_key ∧
        mr.dst_start_key ≠ mr.dst_end_key ∧
        r.region_info.start_key ≤ mr.dst_start_key ∧
        mr.dst_start_key ≤ r.region_info.end_key ∧
        end_key_compare r.region_info.end_key mr.dst_end_key ≤ 0)) ∧
    ((r.region_info.start_key < r.region_info.end_key ∧
        r.region_info.end_key = mr.dst_start_key ∧ mr.dst_start_key ≠ mr.dst_end_key ∧
        end_key_compare r.region_info.end_key mr.dst_end_key ≤ 0) →
      r.cannot_merge mr.dst_start_key mr.dst_end_key = false) ∧
    (r.cannot_merge mr.dst_start_key mr.dst_end_key = true →
      (r.start_process_merge env mr = r ∨
        r.start_process_merge env mr
          = (r.emit Effect.disable_write_increase).emit Effect.reset_allow_write) ∧
      (r.start_process_merge env mr).region_info = r.region_info ∧
      (r.start_process_merge env mr).status = r.status ∧
      ∀ x ∈ (r.start_process_merge env mr).effects,
        x ∈ r.effects ∨ (x.is_send = false ∧ x.is_raft_apply = false)) ∧
    (r.cannot_merge mr.dst_start_key mr.dst_end_key = false →
      r.shutdown = false ∧ r.is_leader = true ∧ r.status = RegionStatus.IDLE →
      env.real_writing_wait_ret
        ((r.set_status RegionStatus.DOING).emit Effect.disable_write_increase) = 0 →
      r.applied_index = r.applied_index_lastcycle →
      ∃ tail, (r.start_process_merge env mr).effects
        = r.effects ++ [Effect.disable_write_increase,
            Effect.send_request_for_leader mr.dst_instance (r.merge_request mr)] ++ tail) := by
  refine ⟨cannot_merge_false_iff r _ _, ?_, ?_, ?_⟩
  · rintro ⟨h1, h2, h3, h4⟩
    rw [cannot_merge_false_iff]
    exact ⟨ne_of_lt h1, h3, h2 ▸ le_of_lt h1, h2 ▸ le_refl _, h4⟩
  · intro h
    rcases start_process_merge_rejects env r mr h with h1 | h1
    · rw [h1]
      exact ⟨Or.inl rfl, rfl, rfl, fun x hx => Or.inl hx⟩
    · rw [h1]
      refine ⟨Or.inr rfl, rfl, rfl, fun x hx => ?_⟩
      simp only [Region.emit_effects, List.mem_append, List.mem_singleton] at hx
      rcases hx with (hx | hx) | hx
      · exact Or.inl hx
      · rw [hx]; exact Or.inr ⟨rfl, rfl⟩
      · rw [hx]; exact Or.inr ⟨rfl, rfl⟩
  · intro h hgate hwait hquiet
    exact start_process_merge_sends env r mr hgate hwait hquiet h

theorem merge_sends_only_for_accepted_ranges_witness :
    (Scenario.merge_source.cannot_merge Scenario.gap_response.dst_start_key
        Scenario.gap_response.dst_end_key = true ∧
      Scenario.merge_source.start_process_merge Env.merging Scenario.gap_response
        = (Scenario.merge_source.emit Effect.disable_write_increase).emit
            Effect.reset_allow_write) ∧
    (Scenario.merge_source.cannot_merge Scenario.merge_response.dst_start_key
        Scenario.merge_response.dst_end_key = false ∧
      ∃ tail, (Scenario.merge_source.start_process_merge Env.merging
          Scenario.merge_response).effects
        = Scenario.merge_source.effects ++ [Effect.disable_write_increase,
            Effect.send_request_for_leader Scenario.merge_response.dst_instance
              (Scenario.merge_source.merge_request Scenario.merge_response)] ++ tail) :=
  ⟨⟨by decide,
    (((merge_sends_only_for_accepted_ranges Env.merging Scenario.merge_source
      Scenario.gap_response).2.2.1 (by decide)).1).resolve_left (by decide)⟩,
   ⟨by decide,
    (merge_sends_only_for_accepted_ranges Env.merging Scenario.merge_source
      Scenario.merge_response).2.2.2 (by decide) (by decide) (by decide) (by decide)⟩⟩

/-- C15 (counterexample): for a destination whose range, keys 20 to 50, overlaps
the source range, keys 10 to 30 (`source.end_key` is not
`destination.start_key`), the merge request is sent and the source proposes
its own merge entry. -/
theorem merge_request_sent_for_overlapping_ranges :
    Scenario.merge_source.region_info.end_key ≠ Scenario.overlapping_response.dst_start_key ∧
      Scenario.overlapping_response.dst_start_key < Scenario.merge_source.region_info.end_key ∧
      (Scenario.merge_source.start_process_merge Env.merging
          Scenario.overlapping_response).effects
        = [Effect.disable_write_increase,
           Effect.send_request_for_leader "10.0.0.2:8110"
             { op_type := OP_ADJUSTKEY_AND_ADD_VERSION, start_key := some [10], end_key := [50]
               region_id := 2, region_version := 5 },
           Effect.raft_apply
             { op_type := OP_ADJUSTKEY_AND_ADD_VERSION, region_id := 1, start_key := some [10]
               end_key := [10], region_version := 4
               new_region_info := some { region_id := 2, version := 6, start_key := [10]
                                         end_key := [50] } }] := by
  decide

theorem end_key_compare_le (a b : Key) :
    end_key_compare a b ≤ 0 ↔ a = b ∨ (a ≠ [] ∧ (b = [] ∨ a < b)) := by
  unfold end_key_compare
  split_ifs with h1 h2 h3 h4
  · simp [h1]
  · simp [h1, h2]
    intro hb
    exact h1 (h2.trans hb.symm)
  · simp [h1, h2, h3]
  · simp [h1, h2, h3, h4]
  · simp [h1, h2, h3, h4]

theorem merged_range_is_union (r : Region) (s e : Key) (h : r.cannot_merge s e = false)
    (k : Key) :
    in_range r.region_info.start_key e k ↔
      (in_range r.region_info.start_key r.region_info.end_key k ∨ in_range s e k) := by
  obtain ⟨_, _, h3, h4, h5⟩ := (cannot_merge_false_iff r s e).mp h
  rw [end_key_compare_le] at h5
  unfold in_range
  constructor
  · rintro ⟨hk1, hk2⟩
    by_cases hlt : k < r.region_info.end_key
    · exact Or.inl ⟨hk1, Or.inr hlt⟩
    · exact Or.inr ⟨le_trans h4 (not_lt.mp hlt), hk2⟩
  · rintro (⟨hk1, hk2⟩ | ⟨hk1, hk2⟩)
    · refine ⟨hk1, ?_⟩
      rcases h5 with h5 | ⟨hne, h5⟩
      · rw [← h5]; exact hk2
      · rcases hk2 with hk2 | hk2
        · exact absurd hk2 hne
        · rcases h5 with h5 | h5
          · exact Or.inl h5
          · exact Or.inr (lt_trans hk2 h5)
    · exact ⟨le_trans h3 hk1, hk2⟩

theorem merge_send_loop_frame (env : Env) (mr : RegionMergeResponse) (fuel retry : Nat)
    (req : StoreReq) (r : Region) :
    (Region.merge_send_loop env mr fuel retry req r).1.region_info = r.region_info ∧
      (Region.merge_send_loop env mr fuel retry req r).1.region_id = r.region_id := by
  induction fuel generalizing retry req r with
  | zero => exact ⟨rfl, rfl⟩
  | succ n ih =>
    unfold Region.merge_send_loop
    simp only []
    repeat' split
    all_goals first
      | exact ⟨rfl, rfl⟩
      | exact ih (retry + 1) _ (r.emit (Effect.send_request_for_leader mr.dst_instance req))

theorem merge_abort_frame (r : Region) :
    r.merge_abort.region_info = r.region_info ∧ r.merge_abort.region_id = r.region_id ∧
      r.merge_abort.effects = r.effects ++ [Effect.reset_allow_write] := ⟨rfl, rfl, rfl⟩

theorem merge_finish_spec (env : Env) (r : Region) (mr : RegionMergeResponse) (res : StoreRes) :
    (r.merge_finish env mr res).region_info = r.region_info ∧
      ∃ x, (r.merge_finish env mr res).effects = r.effects ++ [x] ∧
        ∀ q, x = Effect.raft_apply q →
          ∃ dst_region_info, q = r.merge_add_version_request dst_region_info ∧
            dst_region_info.start_key = r.region_info.start_key := by
  unfold Region.merge_finish
  repeat' split
  all_goals first
    | exact ⟨rfl, Effect.reset_allow_write, rfl, fun q hq => by cases hq⟩
    | (rename_i dst _ hstart _
       exact ⟨rfl, _, rfl, fun q hq => ⟨dst, (Effect.raft_apply.inj hq).symm, hstart⟩⟩)

set_option maxHeartbeats 1600000 in
theorem start_process_merge_spec (env : Env) (r : Region) (mr : RegionMergeResponse) :
    (r.start_process_merge env mr).region_info = r.region_info ∧
      ∀ q, Effect.raft_apply q ∈ (r.start_process_merge env mr).effects →
        Effect.raft_apply q ∈ r.effects ∨
          ∃ dst_region_info, q = r.merge_add_version_request dst_region_info ∧
            dst_region_info.start_key = r.region_info.start_key := by
  obtain ⟨t, ht, hx⟩ := merge_send_loop_effects env mr 4 0
    (((r.set_status RegionStatus.DOING).emit Effect.disable_write_increase).merge_request mr)
    ((r.set_status RegionStatus.DOING).emit Effect.disable_write_increase)
  obtain ⟨hf1, hf2⟩ := merge_send_loop_frame env mr 4 0
    (((r.set_status RegionStatus.DOING).emit Effect.disable_write_increase).merge_request mr)
    ((r.set_status RegionStatus.DOING).emit Effect.disable_write_increase)
  have hsimple : ∀ q, Effect.raft_apply q ∈ ((r.set_status RegionStatus.DOING).emit
      Effect.disable_write_increase).merge_abort.effects → Effect.raft_apply q ∈ r.effects := by
    intro q hq
    simpa [Region.merge_abort] using hq
  have hloop : ∀ q, Effect.raft_apply q ∈ (Region.merge_send_loop env mr 4 0
      (((r.set_status RegionStatus.DOING).emit Effect.disable_write_increase).merge_request mr)
      ((r.set_status RegionStatus.DOING).emit Effect.disable_write_increase)).1.effects →
      Effect.raft_apply q ∈ r.effects := by
    intro q hq
    rw [ht] at hq
    simp only [Region.emit_effects, Region.set_status_effects, List.mem_append,
      List.mem_singleton] at hq
    rcases hq with (hq | hq) | hq
    · exact hq
    · cases hq
    · exact absurd (hx _ hq) (by simp [Effect.is_raft_apply])
  unfold Region.start_process_merge
  simp only []
  split
  · exact ⟨rfl, fun q hq => Or.inl hq⟩
  · split
    · exact ⟨rfl, fun q hq => Or.inl hq⟩
    · split
      · exact ⟨rfl, fun q hq => Or.inl hq⟩
      · split
        · exact ⟨rfl, fun q hq => Or.inl (hsimple q hq)⟩
        · split
          · exact ⟨rfl, fun q hq => Or.inl (hsimple q hq)⟩
          · split
            · exact ⟨rfl, fun q hq => Or.inl (hsimple q hq)⟩
            · split
              · refine ⟨((merge_abort_frame _).1.trans hf1).trans rfl, fun q hq => Or.inl ?_⟩
                have hq : Effect.raft_apply q ∈ (Region.merge_send_loop env mr 4 0
                    (((r.set_status RegionStatus.DOING).emit
                      Effect.disable_write_increase).merge_request mr)
                    ((r.set_status RegionStatus.DOING).emit
                      Effect.disable_write_increase)).1.effects
                    ++ [Effect.reset_allow_write] := hq
                rcases List.mem_append.mp hq with hq | hq
                · exact hloop q hq
                · simp at hq
              · rename_i response _
                obtain ⟨hr, x, he, hq2⟩ := merge_finish_spec env (Region.merge_send_loop env mr 4 0
                  (((r.set_status RegionStatus.DOING).emit
                    Effect.disable_write_increase).merge_request mr)
                  ((r.set_status RegionStatus.DOING).emit Effect.disable_write_increase)).1
                  mr response
                refine ⟨by rw [hr, hf1]; rfl, fun q hq => ?_⟩
                rw [he] at hq
                rcases List.mem_append.mp hq with hq | hq
                · exact Or.inl (hloop q hq)
                · rw [List.mem_singleton] at hq
                  obtain ⟨dst, hd1, hd2⟩ := hq2 q hq.symm
                  refine Or.inr ⟨dst, ?_, ?_⟩
                  · rw [hd1]
                    unfold Region.merge_add_version_request
                    rw [hf1, hf2]
                    rfl
                  · rw [hd2, hf1]; rfl

theorem adjustkey_and_add_version_region_info (r : Region) (req : StoreReq)
    (done : Option Closure) (i tm : Int) :
    (r.adjustkey_and_add_version req done i tm).1.region_info
      = ((r.region_info.set_version req.region_version).set_start_key
          (req.start_key.getD [])).set_end_key req.end_key := by
  unfold Region.adjustkey_and_add_version
  simp only []
  split <;> simp [Region.copy_region]

theorem adjustkey_query_accepts (env : Env) (d : Region) (req : StoreReq) (res : StoreRes)
    (hidle : d.status = RegionStatus.IDLE)
    (hop : req.op_type = OP_ADJUSTKEY_AND_ADD_VERSION)
    (hver : ¬ req.region_version < d.region_info.version)
    (hser : ∀ q, env.serialize_ok q = true) :
    d.adjustkey_and_add_version_query env req res
      = some (((d.set_status RegionStatus.DOING).emit (Effect.raft_apply
          { op_type := OP_ADJUSTKEY_AND_ADD_VERSION
            region_id := d.region_id
            start_key := some (req.start_key.getD [])
            end_key := d.region_info.end_key
            region_version := d.region_info.version + 1 })), res) := by
  unfold Region.adjustkey_and_add_version_query
  rw [if_neg (by simp [hidle]),
    validate_version_not_prepare _ _ _ _ (by rw [hop]; rfl)]
  rw [if_neg (by simpa using hver)]
  simp only [Region.propose, hser, if_true]
  rfl

/-- C14: merge result.  When the range test of `Region::start_process_merge`
accepts a source and a destination, the entry `adjustkey_and_add_version_query`
builds on the idle destination for the request of the source, once applied,
leaves the destination with `start_key = source.start_key`, its old end key and
its old version plus 1, so that its range is the union of the two ranges held
before; every entry `start_process_merge` proposes on the source is the one
built from a destination descriptor that starts at the start key of the source,
and applying it leaves the source with `start_key == end_key`, both its old
start key, and its old version plus 1. -/
theorem merge_result (env : Env) (r d : Region) (mr : RegionMergeResponse) (req : StoreReq)
    (res : StoreRes) (haccept : r.cannot_merge d.region_info.start_key d.region_info.end_key = false)
    (hidle : d.status = RegionStatus.IDLE)
    (hop : req.op_type = OP_ADJUSTKEY_AND_ADD_VERSION)
    (hstart : req.start_key = some r.region_info.start_key)
    (hver : ¬ req.region_version < d.region_info.version)
    (hser : ∀ q, env.serialize_ok q = true) :
    (∃ d2 entry, d.adjustkey_and_add_version_query env req res = some (d2, res) ∧
      d2.effects = d.effects ++ [Effect.raft_apply entry] ∧
      ∀ done i tm,
        (d2.adjustkey_and_add_version entry done i tm).1.region_info.start_key
          = r.region_info.start_key ∧
        (d2.adjustkey_and_add_version entry done i tm).1.region_info.end_key
          = d.region_info.end_key ∧
        (d2.adjustkey_and_add_version entry done i tm).1.region_info.version
          = d.region_info.version + 1 ∧
        ∀ k, in_range (d2.adjustkey_and_add_version entry done i tm).1.region_info.start_key
              (d2.adjustkey_and_add_version entry done i tm).1.region_info.end_key k ↔
            (in_range r.region_info.start_key r.region_info.end_key k ∨
              in_range d.region_info.start_key d.region_info.end_key k)) ∧
    (∀ q, Effect.raft_apply q ∈ (r.start_process_merge env mr).effects →
      Effect.raft_apply q ∈ r.effects ∨
        ∃ dst_region_info, q = r.merge_add_version_request dst_region_info ∧
          dst_region_info.start_key = r.region_info.start_key) ∧
    (∀ dst_region_info done i tm,
      ((r.start_process_merge env mr).adjustkey_and_add_version
          (r.merge_add_version_request dst_region_info) done i tm).1.region_info.start_key
        = r.region_info.start_key ∧
      ((r.start_process_merge env mr).adjustkey_and_add_version
          (r.merge_add_version_request dst_region_info) done i tm).1.region_info.end_key
        = r.region_info.start_key ∧
      ((r.start_process_merge env mr).adjustkey_and_add_version
          (r.merge_add_version_request dst_region_info) done i tm).1.region_info.version
        = r.region_info.version + 1 ∧
      ((r.start_process_merge env mr).adjustkey_and_add_version
          (r.merge_add_version_request dst_region_info) done i tm).1.merge_region_info
        = dst_region_info) := by
  obtain ⟨hinfo, hprop⟩ := start_process_merge_spec env r mr
  refine ⟨⟨_, _, adjustkey_query_accepts env d req res hidle hop hver hser, rfl, ?_⟩, hprop, ?_⟩
  · intro done i tm
    rw [adjustkey_and_add_version_region_info, hstart]
    refine ⟨rfl, rfl, rfl, fun k => ?_⟩
    exact merged_range_is_union r d.region_info.start_key d.region_info.end_key haccept k
  · intro dst done i tm
    rw [adjustkey_and_add_version_region_info, hinfo]
    exact ⟨rfl, rfl, rfl, rfl⟩

theorem merge_result_witness :
    (∃ d2 entry, Scenario.merge_destination.adjustkey_and_add_version_query Env.merging
        (Scenario.merge_source.merge_request Scenario.merge_response) {} = some (d2, {}) ∧
      d2.effects = Scenario.merge_destination.effects ++ [Effect.raft_apply entry] ∧
      ∀ done i tm,
        (d2.adjustkey_and_add_version entry done i tm).1.region_info.start_key
          = Scenario.merge_source.region_info.start_key ∧
        (d2.adjustkey_and_add_version entry done i tm).1.region_info.end_key
          = Scenario.merge_destination.region_info.end_key ∧
        (d2.adjustkey_and_add_version entry done i tm).1.region_info.version
          = Scenario.merge_destination.region_info.version + 1 ∧
        ∀ k, in_range (d2.adjustkey_and_add_version entry done i tm).1.region_info.start_key
              (d2.adjustkey_and_add_version entry done i tm).1.region_info.end_key k ↔
            (in_range Scenario.merge_source.region_info.start_key
                Scenario.merge_source.region_info.end_key k ∨
              in_range Scenario.merge_destination.region_info.start_key
                Scenario.merge_destination.region_info.end_key k)) ∧
    Effect.raft_apply (Scenario.merge_source.merge_add_version_request
        { region_id := 2, version := 6, start_key := [10], end_key := [50] })
      ∈ (Scenario.merge_source.start_process_merge Env.merging Scenario.merge_response).effects :=
  ⟨(merge_result Env.merging Scenario.merge_source Scenario.merge_destination
      Scenario.merge_response (Scenario.merge_source.merge_request Scenario.merge_response) {}
      (by decide) (by decide) (by decide) (by decide) (by decide) (fun _ => rfl)).1,
   by decide⟩
theorem get_split_key_scan_empty_end (r : Region) (key : Key) (lo hi : Int) (keys : List Key)
    (st : SplitKeyScan) (h : r.region_info.end_key = []) :
    r.get_split_key_scan key lo hi keys st = st := by
  cases keys with
  | nil => rfl
  | cons k rest =>
    unfold Region.get_split_key_scan
    rw [h]
    have hk : ¬ k.drop 16 < ([] : Key) := by
      cases k.drop 16 <;> simp
    simp [hk]

theorem read_and_write_empty_end (env : Env) (index_id : Int) (rows : List (Key × Key))
    (r : Region) (count : Nat) (n : Int) (h : r.region_info.end_key = [])
    (hp : env.get_index_type index_id = IndexType.I_PRIMARY ∨ r.is_global_index = true) :
    (Region.read_and_write env index_id rows r count n).1 = r ∧
      ((Region.read_and_write env index_id rows r count n).2 = some n ∨
        (Region.read_and_write env index_id rows r count n).2 = none) := by
  cases rows with
  | nil => exact ⟨rfl, Or.inl rfl⟩
  | cons kv rest =>
    obtain ⟨k, v⟩ := kv
    unfold Region.read_and_write
    have hk : ¬ k.drop 16 < r.region_info.end_key := by
      rw [h]
      cases k.drop 16 <;> simp
    split_ifs with h1 h2 h3
    · exact ⟨rfl, Or.inr rfl⟩
    · exact ⟨rfl, Or.inl rfl⟩
    · exact absurd ⟨hp, hk⟩ h2
    · exact absurd ⟨hp, hk⟩ h2

/-- C16 (amended): an empty end key means no upper bound in the range test of
`apply_kv_split`: for a region whose end key is empty a routing-index
operation is kept exactly when `start_key <= key-suffix`.  The scan of
`get_split_key` and the routing-index copy loop of
`write_local_rocksdb_for_split` compare the key suffix with the end key byte
by byte, so with an empty end key every row is at or beyond the end: the scan
stops before its first row and `get_split_key` returns -1 without a split
key, and the copy loop stops at its first row and copies nothing (a tail
region is split by the tail-split path, which sends no rows). -/
theorem empty_end_key_in_range_tests (env : Env) (r : Region)
    (h : r.region_info.end_key = []) :
    (∀ op, r.is_routing_op env op = true →
      (r.kv_split_skip env op = false ↔ r.region_info.start_key ≤ op.key.drop 16)) ∧
    (∀ key lo hi keys st, r.get_split_key_scan key lo hi keys st = st) ∧
    (∀ skew rand keys, r.get_split_key env skew rand keys = (-1, [], r)) ∧
    (∀ index_id rows count n,
      (env.get_index_type index_id = IndexType.I_PRIMARY ∨ r.is_global_index = true) →
      (Region.read_and_write env index_id rows r count n).1 = r ∧
        ((Region.read_and_write env index_id rows r count n).2 = some n ∨
          (Region.read_and_write env index_id rows r count n).2 = none)) := by
  refine ⟨fun op hop => ?_, fun key lo hi keys st =>
    get_split_key_scan_empty_end r key lo hi keys st h, fun skew rand keys => ?_,
    fun index_id rows count n hp => read_and_write_empty_end env index_id rows r count n h hp⟩
  · rw [kv_split_skip_routing env r op hop, h]
    simp
  · unfold Region.get_split_key
    simp only [get_split_key_scan_empty_end _ _ _ _ _ _ h]
    split_ifs
    · rfl
    · rfl
    · rename_i hlen
      exact absurd (by decide : ([] : Key).length < 16) hlen

theorem empty_end_key_in_range_tests_witness :
    Scenario.tail_region.get_split_key Env.byte_keys 5 7 Scenario.row_keys
        = (-1, [], Scenario.tail_region) ∧
      (Region.read_and_write Env.byte_keys 9 Scenario.rows_from_split_key Scenario.tail_region
        0 0).1 = Scenario.tail_region ∧
      (Scenario.tail_region.kv_split_skip Env.byte_keys
          { key := Scenario.parent_key [250, 7] } = false ↔
        Scenario.tail_region.region_info.start_key ≤ (Scenario.parent_key [250, 7]).drop 16) :=
  ⟨(empty_end_key_in_range_tests Env.byte_keys Scenario.tail_region rfl).2.2.1 5 7
      Scenario.row_keys,
   ((empty_end_key_in_range_tests Env.byte_keys Scenario.tail_region rfl).2.2.2 9
      Scenario.rows_from_split_key 0 0 (Or.inl rfl)).1,
   (empty_end_key_in_range_tests Env.byte_keys Scenario.tail_region rfl).1
      { key := Scenario.parent_key [250, 7] } (by decide)⟩

/-- C16 (counterexample): a region with an empty end key that holds four rows
gets no split key from `get_split_key` (return code -1, no row counted) and
its copy loop copies none of the three rows from the split key on; with the
end key 200, beyond all rows, the same rows give the split key 30 and three
copied rows. -/
theorem empty_end_key_ends_scans_at_once :
    Scenario.tail_region.region_info.end_key = [] ∧
      (Scenario.tail_region.get_split_key Env.byte_keys 5 7 Scenario.row_keys).1 = -1 ∧
      (Scenario.tail_region.get_split_key_scan (be_bytes 1 ++ be_bytes 9) 1 3 Scenario.row_keys
        {}).cur_idx = 0 ∧
      (Region.read_and_write Env.byte_keys 9 Scenario.rows_from_split_key Scenario.tail_region
        0 0) = (Scenario.tail_region, some 0) ∧
      ((Scenario.bounded_region.get_split_key Env.byte_keys 5 7 Scenario.row_keys).1,
       (Scenario.bounded_region.get_split_key Env.byte_keys 5 7 Scenario.row_keys).2.1)
        = (0, [30]) ∧
      (Region.read_and_write Env.byte_keys 9 Scenario.rows_from_split_key
        Scenario.bounded_region 0 0).2 = some 3 := by
  decide
/-- C18 (failing input): when the only candidate of a scan is an index in state
WRITE_ONLY, the loop of `select_index` skips it, the function falls back to
position 0, and `choose_index` installs that candidate: the scan uses an index
that is not PUBLIC. -/
theorem select_index_falls_back_to_unbuilt_index :
    select_index Scenario.schema ratio_floor Scenario.building_candidates = some (0, []) ∧
      choose_index Scenario.schema ratio_floor Scenario.building_candidates = some (some 0) ∧
      (Scenario.building_candidates.get? 0).bind
          (fun p => (Scenario.schema p.index_id).map (fun info => info.state))
        = some IndexState.IS_WRITE_ONLY := by
  decide
theorem cast_to_null (env : ValueEnv) (n : ExprValue) (t : PrimitiveType)
    (hn : n.type = PrimitiveType.NULL_TYPE) : n.cast_to env t = n := by
  unfold ExprValue.cast_to
  simp [ExprValue.is_null, hn]

theorem compare_null_left (env : ValueEnv) (n v : ExprValue)
    (hn : n.type = PrimitiveType.NULL_TYPE) : n.compare env v = -1 := by
  unfold ExprValue.compare
  rw [hn]

/-- C19 (amended): a NULL value on the left compares less than any value:
for every value `v`, `compare` and `compare_diff_type` called on a NULL
receiver give -1.  With a freshly built NULL on the right the receiver is
compared with a zero payload: for a signed integer, TIME or DATETIME receiver
`compare` gives the difference to zero (or its sign), which is positive
exactly for a positive receiver. -/
theorem null_on_the_left_compares_less (env : ValueEnv) (n v : ExprValue)
    (hn : n.type = PrimitiveType.NULL_TYPE) :
    n.compare env v = -1 ∧ (n.compare_diff_type env v).1 = -1 ∧
    (v.type = PrimitiveType.INT8 → v.compare env ExprValue.Null = v.int8_val) ∧
    (v.type = PrimitiveType.INT16 → v.compare env ExprValue.Null = v.int16_val) ∧
    (v.type = PrimitiveType.INT32 → v.compare env ExprValue.Null = v.int32_val) ∧
    (v.type = PrimitiveType.TIME → v.compare env ExprValue.Null = v.int32_val) ∧
    (v.type = PrimitiveType.INT64 →
      (0 < v.compare env ExprValue.Null ↔ 0 < v.int64_val)) ∧
    (v.type = PrimitiveType.TIME →
      (v.compare_diff_type env ExprValue.Null).1 = v.int32_val) := by
  have hz8 : ExprValue.Null.int8_val = 0 := by decide
  have hz16 : ExprValue.Null.int16_val = 0 := by decide
  have hz32 : ExprValue.Null.int32_val = 0 := by decide
  have hz64 : ExprValue.Null.int64_val = 0 := by decide
  refine ⟨compare_null_left env n v hn, ?_, ?_, ?_, ?_, ?_, ?_, ?_⟩
  · unfold ExprValue.compare_diff_type
    split_ifs
    · exact compare_null_left env n v hn
    · simp only [cast_to_null env n _ hn]
      exact compare_null_left env n _ hn
  · intro h; simp [ExprValue.compare, h, hz8]
  · intro h; simp [ExprValue.compare, h, hz16]
  · intro h; simp [ExprValue.compare, h, hz32]
  · intro h; simp [ExprValue.compare, h, hz32]
  · intro h
    simp only [ExprValue.compare, h, hz64]
    split_ifs with h1 h2
    · simp [h1]
    · simp; omega
    · simp; omega
  · intro h
    have hne : v.type ≠ ExprValue.Null.type := by rw [h]; decide
    have hct : v.common_type ExprValue.Null = PrimitiveType.TIME := by
      simp [ExprValue.common_type, h, ExprValue.Null, PrimitiveType.is_int,
        PrimitiveType.is_uint, PrimitiveType.is_double]
    have hcast : v.cast_to env PrimitiveType.TIME = v := by
      unfold ExprValue.cast_to
      simp [h]
    unfold ExprValue.compare_diff_type
    rw [if_neg hne]
    simp only [hct, hcast, cast_to_null env ExprValue.Null _ rfl]
    simp [ExprValue.compare, h, hz32]

theorem null_on_the_left_compares_less_witness :
    ExprValue.Null.compare ValueEnv.simple (Scenario.int32_value 7) = -1 ∧
      (ExprValue.Null.compare_diff_type ValueEnv.simple (Scenario.int32_value 7)).1 = -1 ∧
      (Scenario.int32_value 7).compare ValueEnv.simple ExprValue.Null
        = (Scenario.int32_value 7).int32_val :=
  ⟨(null_on_the_left_compares_less ValueEnv.simple ExprValue.Null (Scenario.int32_value 7)
      rfl).1,
   (null_on_the_left_compares_less ValueEnv.simple ExprValue.Null (Scenario.int32_value 7)
      rfl).2.1,
   (null_on_the_left_compares_less ValueEnv.simple ExprValue.Null (Scenario.int32_value 7)
      rfl).2.2.2.2.1 rfl⟩

/-- C19 (counterexample): the INT32 value -5 and the TIME value of minus five
seconds are not NULL, yet comparing them with a NULL value gives -5, a
negative result, through `compare` and, for the TIME value, through
`compare_diff_type`. -/
theorem value_compared_with_null_can_be_negative :
    (Scenario.int32_value (-5)).type ≠ PrimitiveType.NULL_TYPE ∧
      (Scenario.int32_value (-5)).compare ValueEnv.simple ExprValue.Null = -5 ∧
      Scenario.negative_time.type ≠ PrimitiveType.NULL_TYPE ∧
      Scenario.negative_time.compare ValueEnv.simple ExprValue.Null = -5 ∧
      (Scenario.negative_time.compare_diff_type ValueEnv.simple ExprValue.Null).1 = -5 := by
  decide

/-- C20 (amended): comparison is antisymmetric for same-typed values that are
not NULL.  For every pair of values `a` and `b` of the same integer width,
BOOL, DATE, TIME, TIMESTAMP or DATETIME kind, `a.compare(b) == -b.compare(a)`
and `a.compare(a) == 0`; the same holds for two STRING values when
`std::string::compare` is antisymmetric; for a NULL receiver `compare` is -1
whatever the argument, also for a NULL argument. -/
theorem compare_antisymmetric_for_same_type (env : ValueEnv) (a b : ExprValue)
    (htype : a.type = b.type) :
    (a.type.compares_by_value = true →
      a.compare env b = - b.compare env a ∧ a.compare env a = 0) ∧
    (a.type = PrimitiveType.STRING →
      (∀ x y, env.string_compare x y = - env.string_compare y x) →
      a.compare env b = - b.compare env a ∧ a.compare env a = 0) ∧
    (a.type = PrimitiveType.NULL_TYPE → a.compare env b = -1 ∧ b.compare env a = -1) := by
  refine ⟨fun hk => ?_, fun hs hanti => ?_, fun hn =>
    ⟨compare_null_left env a b hn, compare_null_left env b a (htype ▸ hn)⟩⟩
  · unfold ExprValue.compare
    rw [← htype]
    revert hk
    cases a.type <;>
      simp [PrimitiveType.compares_by_value, PrimitiveType.is_int] <;>
      (split_ifs <;> omega)
  · unfold ExprValue.compare
    rw [← htype, hs]
    simp only []
    refine ⟨hanti _ _, ?_⟩
    have := hanti a.str_val a.str_val
    omega

theorem compare_antisymmetric_for_same_type_witness :
    (Scenario.int32_value 3).compare ValueEnv.simple (Scenario.int32_value 8)
        = - (Scenario.int32_value 8).compare ValueEnv.simple (Scenario.int32_value 3) ∧
      (Scenario.int32_value 3).compare ValueEnv.simple (Scenario.int32_value 3) = 0 :=
  (compare_antisymmetric_for_same_type ValueEnv.simple (Scenario.int32_value 3)
    (Scenario.int32_value 8) rfl).1 rfl

/-- C20 (counterexample): two NULL values have the same type, yet
`NULL.compare(NULL)` is -1: it is neither 0 nor the negation of itself. -/
theorem null_compare_null_is_minus_one :
    ExprValue.Null.type = ExprValue.Null.type ∧
      ExprValue.Null.compare ValueEnv.simple ExprValue.Null = -1 ∧
      ExprValue.Null.compare ValueEnv.simple ExprValue.Null
        ≠ - ExprValue.Null.compare ValueEnv.simple ExprValue.Null ∧
      ExprValue.Null.compare ValueEnv.simple ExprValue.Null ≠ 0 := by
  decide

theorem wrap_lt (w : Nat) (i : Int) : wrap w i < 2 ^ w := by
  unfold wrap
  have hpos : (0 : Int) < ((2 ^ w : Nat) : Int) := by positivity
  have h1 := Int.emod_lt_of_pos i hpos
  have h2 := Int.emod_nonneg i (ne_of_gt hpos)
  omega

theorem wrap_of_nat (w n : Nat) : wrap w (n : Int) = n % 2 ^ w := by
  unfold wrap
  have h : ((n : Int) % ((2 ^ w : Nat) : Int)) = ((n % 2 ^ w : Nat) : Int) :=
    (Int.natCast_mod n (2 ^ w)).symm
  rw [h, Int.toNat_natCast]

theorem two_pow_pred (w : Nat) (hw : 0 < w) : 2 ^ w = 2 * 2 ^ (w - 1) := by
  rw [← pow_succ']
  congr 1
  omega

theorem to_signed_wrap (w : Nat) (i : Int) (hw : 0 < w)
    (hlo : -((2 ^ (w - 1) : Nat) : Int) ≤ i) (hhi : i < ((2 ^ (w - 1) : Nat) : Int)) :
    to_signed w (wrap w i) = i := by
  have hpow := two_pow_pred w hw
  have hP : 0 < 2 ^ (w - 1) := by positivity
  unfold to_signed
  rw [Nat.mod_eq_of_lt (wrap_lt w i)]
  unfold wrap
  rw [hpow]
  generalize 2 ^ (w - 1) = P at hlo hhi hP ⊢
  by_cases hneg : i < 0
  · have hmod : i % ((2 * P : Nat) : Int) = i + ((2 * P : Nat) : Int) := by
      rw [← Int.add_emod_self]
      exact Int.emod_eq_of_lt (by push_cast; omega) (by push_cast; omega)
    rw [hmod]
    have hnn : 0 ≤ i + ((2 * P : Nat) : Int) := by push_cast; omega
    split_ifs with hc
    · exfalso
      have : (i + ((2 * P : Nat) : Int)).toNat < P := hc
      omega
    · rw [Int.toNat_of_nonneg hnn]
      ring
  · have hmod : i % ((2 * P : Nat) : Int) = i :=
      Int.emod_eq_of_lt (by omega) (by push_cast; omega)
    rw [hmod]
    split_ifs with hc
    · exact Int.toNat_of_nonneg (by omega)
    · exfalso
      have : ¬ i.toNat < P := hc
      omega

theorem to_signed_range (w n : Nat) (hw : 0 < w) :
    -((2 ^ (w - 1) : Nat) : Int) ≤ to_signed w n ∧
      to_signed w n < ((2 ^ (w - 1) : Nat) : Int) := by
  have hpow := two_pow_pred w hw
  have hlt : n % 2 ^ w < 2 ^ w := Nat.mod_lt _ (by positivity)
  unfold to_signed
  rw [hpow] at hlt ⊢
  generalize 2 ^ (w - 1) = P at hlt ⊢
  generalize n % (2 * P) = m at hlt ⊢
  split_ifs with hc
  · omega
  · push_cast
    omega

theorem set_low_mod (w u x : Nat) : set_low w u x % 2 ^ w = x % 2 ^ w := by
  unfold set_low
  rw [Nat.add_comm, Nat.add_mul_mod_self_right, Nat.mod_mod]

theorem get_numberic_uint64_int (env : ValueEnv) (v : ExprValue) (h : v.type.is_int = true) :
    v.get_numberic env CType.uint64 = wrap 64 v.integer_value := by
  unfold ExprValue.get_numberic ExprValue.get_numberic_member ExprValue.integer_value
  cases ht : v.type <;> rw [ht] at h <;> first
    | (exfalso; revert h; decide)
    | rfl

theorem get_numberic_int64_int (env : ValueEnv) (v : ExprValue) (h : v.type.is_int = true) :
    v.get_numberic env CType.int64 = wrap 64 v.integer_value := by
  unfold ExprValue.get_numberic ExprValue.get_numberic_member ExprValue.integer_value
  cases ht : v.type <;> rw [ht] at h <;> first
    | (exfalso; revert h; decide)
    | rfl

theorem cast_to_other (env : ValueEnv) (v : ExprValue) (t : PrimitiveType)
    (h : v.type.is_int = true) (hne : v.type ≠ t) :
    (t = PrimitiveType.UINT64 →
      v.cast_to env t = { (v.set_member 64 (v.get_numberic env CType.uint64)) with type := t }) ∧
    (t = PrimitiveType.INT64 →
      v.cast_to env t = { (v.set_member 64 (v.get_numberic env CType.int64)) with type := t }) := by
  have hnull : v.is_null = false := by
    unfold ExprValue.is_null
    cases ht : v.type <;> rw [ht] at h <;> first
      | (exfalso; revert h; decide)
      | decide
  refine ⟨fun ht => ?_, fun ht => ?_⟩
  · subst ht
    unfold ExprValue.cast_to
    simp [hnull, hne]
  · subst ht
    unfold ExprValue.cast_to
    simp [hnull, hne]

theorem integer_value_range (v : ExprValue) (hs : v.type.is_uint = false) :
    -((2 ^ (64 - 1) : Nat) : Int) ≤ v.integer_value ∧
      v.integer_value < ((2 ^ (64 - 1) : Nat) : Int) := by
  have h8 := to_signed_range 8 v.u (by decide)
  have h16 := to_signed_range 16 v.u (by decide)
  have h32 := to_signed_range 32 v.u (by decide)
  have h64 := to_signed_range 64 v.u (by decide)
  unfold ExprValue.integer_value
  cases ht : v.type <;> rw [ht] at hs <;> first
    | (exfalso; revert hs; decide)
    | (simp only [ExprValue.int8_val]; norm_num at h8 ⊢; omega)
    | (simp only [ExprValue.int16_val]; norm_num at h16 ⊢; omega)
    | (simp only [ExprValue.int32_val]; norm_num at h32 ⊢; omega)
    | (simp only [ExprValue.int64_val]; norm_num at h64 ⊢; omega)
    | (norm_num)

theorem cast_to_uint64_int (env : ValueEnv) (v : ExprValue) (h : v.type.is_int = true) :
    (v.cast_to env PrimitiveType.UINT64).type = PrimitiveType.UINT64 ∧
      (v.cast_to env PrimitiveType.UINT64).uint64_val = wrap 64 v.integer_value := by
  by_cases ht : v.type = PrimitiveType.UINT64
  · have hc : v.cast_to env PrimitiveType.UINT64 = v := by
      unfold ExprValue.cast_to
      simp [ht]
    rw [hc]
    refine ⟨ht, ?_⟩
    unfold ExprValue.integer_value
    rw [ht]
    show v.uint64_val = wrap 64 ((v.uint64_val : Nat) : Int)
    rw [wrap_of_nat]
    unfold ExprValue.uint64_val
    rw [Nat.mod_mod]
  · rw [(cast_to_other env v _ h ht).1 rfl, get_numberic_uint64_int env v h]
    refine ⟨rfl, ?_⟩
    show set_low 64 v.u (wrap 64 v.integer_value) % 2 ^ 64 = wrap 64 v.integer_value
    rw [set_low_mod, Nat.mod_eq_of_lt (wrap_lt 64 _)]

theorem cast_to_int64_int (env : ValueEnv) (v : ExprValue) (h : v.type.is_int = true)
    (hs : v.type.is_uint = false) :
    (v.cast_to env PrimitiveType.INT64).type = PrimitiveType.INT64 ∧
      (v.cast_to env PrimitiveType.INT64).int64_val = v.integer_value := by
  by_cases ht : v.type = PrimitiveType.INT64
  · have hc : v.cast_to env PrimitiveType.INT64 = v := by
      unfold ExprValue.cast_to
      simp [ht]
    rw [hc]
    refine ⟨ht, ?_⟩
    unfold ExprValue.integer_value
    rw [ht]
  · rw [(cast_to_other env v _ h ht).2 rfl, get_numberic_int64_int env v h]
    refine ⟨rfl, ?_⟩
    obtain ⟨hlo, hhi⟩ := integer_value_range v hs
    have hr := to_signed_wrap 64 v.integer_value (by decide) hlo hhi
    show to_signed 64 (set_low 64 v.u (wrap 64 v.integer_value)) = v.integer_value
    unfold to_signed at hr ⊢
    rw [set_low_mod]
    exact hr

theorem common_type_int (a b : ExprValue) (ha : a.type.is_int = true)
    (hb : b.type.is_int = true) :
    a.common_type b
      = if a.type.is_uint || b.type.is_uint then PrimitiveType.UINT64
        else PrimitiveType.INT64 := by
  unfold ExprValue.common_type
  simp [ha, hb]

theorem compare_uint64 (env : ValueEnv) (a b : ExprValue)
    (h : a.type = PrimitiveType.UINT64) :
    a.compare env b = Int.sign ((a.uint64_val : Int) - (b.uint64_val : Int)) := by
  unfold ExprValue.compare
  rw [h]
  simp only []
  split_ifs with h1 h2
  · rw [Int.sign_eq_one_of_pos (by omega)]
  · rw [Int.sign_eq_neg_one_of_neg (by omega)]
  · have : (a.uint64_val : Int) - (b.uint64_val : Int) = 0 := by omega
    rw [this]; rfl

theorem compare_int64 (env : ValueEnv) (a b : ExprValue)
    (h : a.type = PrimitiveType.INT64) :
    a.compare env b = Int.sign (a.int64_val - b.int64_val) := by
  unfold ExprValue.compare
  rw [h]
  simp only []
  split_ifs with h1 h2
  · rw [Int.sign_eq_one_of_pos (by omega)]
  · rw [Int.sign_eq_neg_one_of_neg (by omega)]
  · have : a.int64_val - b.int64_val = 0 := by omega
    rw [this]; rfl

/-- C21: integer promotion in mixed-type comparison.  For two integer values of
different integer types, `compare_diff_type` casts both to UINT64, each value
reduced modulo `2^64`, when at least one operand is unsigned, and to INT64
otherwise; its result is the sign of the difference of the two converted
values, which for two signed operands is the sign of the difference of the
original values. -/
theorem integer_promotion_in_comparison (env : ValueEnv) (a b : ExprValue)
    (ha : a.type.is_int = true) (hb : b.type.is_int = true) (hne : a.type ≠ b.type) :
    ((a.type.is_uint = true ∨ b.type.is_uint = true) →
      (a.compare_diff_type env b).2.1.type = PrimitiveType.UINT64 ∧
      (a.compare_diff_type env b).2.2.type = PrimitiveType.UINT64 ∧
      (a.compare_diff_type env b).2.1.uint64_val = wrap 64 a.integer_value ∧
      (a.compare_diff_type env b).2.2.uint64_val = wrap 64 b.integer_value ∧
      (a.compare_diff_type env b).1
        = Int.sign ((wrap 64 a.integer_value : Int) - (wrap 64 b.integer_value : Int))) ∧
    ((a.type.is_uint = false ∧ b.type.is_uint = false) →
      (a.compare_diff_type env b).2.1.type = PrimitiveType.INT64 ∧
      (a.compare_diff_type env b).2.2.type = PrimitiveType.INT64 ∧
      (a.compare_diff_type env b).2.1.int64_val = a.integer_value ∧
      (a.compare_diff_type env b).2.2.int64_val = b.integer_value ∧
      (a.compare_diff_type env b).1 = Int.sign (a.integer_value - b.integer_value)) := by
  have hct := common_type_int a b ha hb
  refine ⟨fun hu => ?_, fun hs => ?_⟩
  · have hc : a.common_type b = PrimitiveType.UINT64 := by
      rw [hct, if_pos (by rcases hu with h | h <;> simp [h])]
    obtain ⟨ha1, ha2⟩ := cast_to_uint64_int env a ha
    obtain ⟨hb1, hb2⟩ := cast_to_uint64_int env b hb
    unfold ExprValue.compare_diff_type
    rw [if_neg hne]
    simp only [hc]
    refine ⟨ha1, hb1, ha2, hb2, ?_⟩
    rw [compare_uint64 env _ _ ha1, ha2, hb2]
  · have hc : a.common_type b = PrimitiveType.INT64 := by
      rw [hct, if_neg (by simp [hs.1, hs.2])]
    obtain ⟨ha1, ha2⟩ := cast_to_int64_int env a ha hs.1
    obtain ⟨hb1, hb2⟩ := cast_to_int64_int env b hb hs.2
    unfold ExprValue.compare_diff_type
    rw [if_neg hne]
    simp only [hc]
    refine ⟨ha1, hb1, ha2, hb2, ?_⟩
    rw [compare_int64 env _ _ ha1, ha2, hb2]

theorem integer_promotion_in_comparison_witness :
    ((Scenario.int32_value (-5)).compare_diff_type ValueEnv.simple
        { type := PrimitiveType.INT8, u := 3 }).2.1.type = PrimitiveType.INT64 ∧
      ((Scenario.int32_value (-5)).compare_diff_type ValueEnv.simple
        { type := PrimitiveType.INT8, u := 3 }).2.2.type = PrimitiveType.INT64 ∧
      ((Scenario.int32_value (-5)).compare_diff_type ValueEnv.simple
        { type := PrimitiveType.INT8, u := 3 }).2.1.int64_val
          = (Scenario.int32_value (-5)).integer_value ∧
      ((Scenario.int32_value (-5)).compare_diff_type ValueEnv.simple
        { type := PrimitiveType.INT8, u := 3 }).2.2.int64_val
          = ExprValue.integer_value { type := PrimitiveType.INT8, u := 3 } ∧
      ((Scenario.int32_value (-5)).compare_diff_type ValueEnv.simple
        { type := PrimitiveType.INT8, u := 3 }).1
          = Int.sign ((Scenario.int32_value (-5)).integer_value
              - ExprValue.integer_value { type := PrimitiveType.INT8, u := 3 }) :=
  (integer_promotion_in_comparison ValueEnv.simple (Scenario.int32_value (-5))
    { type := PrimitiveType.INT8, u := 3 } rfl rfl (by decide)).2 ⟨rfl, rfl⟩
theorem to_signed_set_low (w u x : Nat) : to_signed w (set_low w u x) = to_signed w x := by
  unfold to_signed
  rw [set_low_mod]

/-- C28 (amended): `ExprValue::add` accumulates into the receiver.  For every
receiver of an integer type (INT8 to INT64, UINT8 to UINT64) and every
argument, `a.add(v)` leaves `v`, the type and the string of `a` unchanged and
sets the stored value of `a` to the old value plus `v.get_numberic<T>()`, `T`
being the type of the member of `a`, reduced to the width of `T`; for a FLOAT
or DOUBLE receiver the stored value becomes the floating-point sum and `v` is
unchanged; for a NULL receiver `a` becomes a copy of `v`; for a STRING, date
or time, HLL or PLACE_HOLDER receiver neither `a` nor `v` changes. -/
theorem add_accumulates_into_receiver (env : ValueEnv) (a v : ExprValue) :
    (a.type.is_int = true →
      (a.add env v).2 = v ∧ (a.add env v).1.type = a.type ∧
      (a.add env v).1.str_val = a.str_val ∧
      (a.add env v).1.integer_value
        = a.type.ctype.value
            (wrap a.type.ctype.width
              (a.integer_value + a.type.ctype.value (v.get_numberic env a.type.ctype)))) ∧
    (a.type = PrimitiveType.FLOAT →
      (a.add env v).2 = v ∧
      (a.add env v).1
        = a.set_member 32 (env.float_add a.float_val (v.get_numberic env CType.float))) ∧
    (a.type = PrimitiveType.DOUBLE →
      (a.add env v).2 = v ∧
      (a.add env v).1
        = a.set_member 64 (env.double_add a.double_val (v.get_numberic env CType.double))) ∧
    (a.type = PrimitiveType.NULL_TYPE → a.add env v = (v, v)) ∧
    ((a.type = PrimitiveType.STRING ∨ a.type = PrimitiveType.DATETIME ∨
        a.type = PrimitiveType.TIMESTAMP ∨ a.type = PrimitiveType.DATE ∨
        a.type = PrimitiveType.TIME ∨ a.type = PrimitiveType.HLL ∨
        a.type = PrimitiveType.PLACE_HOLDER) → a.add env v = (a, v)) := by
  refine ⟨fun hint => ?_, fun h => ?_, fun h => ?_, fun h => ?_, fun h => ?_⟩
  · unfold ExprValue.add ExprValue.integer_value
    cases ht : a.type <;> rw [ht] at hint <;> first
      | (exfalso; revert hint; decide)
      | (simp only [ExprValue.set_member, ht, PrimitiveType.ctype, CType.value,
           CType.is_signed, CType.width, ExprValue.int8_val, ExprValue.int16_val,
           ExprValue.int32_val, ExprValue.int64_val, ExprValue.uint8_val,
           ExprValue.uint16_val, ExprValue.uint32_val, ExprValue.uint64_val,
           to_signed_set_low, set_low_mod]
         simp)
  · simp [ExprValue.add, h]
  · simp [ExprValue.add, h]
  · simp [ExprValue.add, h]
  · rcases h with h | h | h | h | h | h | h <;> simp [ExprValue.add, h]

/-- C28 (counterexample): a FLOAT receiver is not one of BOOL and the integer
types, yet `add` changes it: with a stand-in for the floating-point sum that
adds the bit patterns, the receiver with bits 1 holds bits 3 after adding the
value with bits 2. -/
theorem add_changes_float_receiver :
    (ExprValue.add ValueEnv.simple { type := PrimitiveType.FLOAT, u := 1 }
        { type := PrimitiveType.FLOAT, u := 2 }).1
      = { type := PrimitiveType.FLOAT, u := 3 } ∧
    (ExprValue.add ValueEnv.simple { type := PrimitiveType.FLOAT, u := 1 }
        { type := PrimitiveType.FLOAT, u := 2 }).1
      ≠ { type := PrimitiveType.FLOAT, u := 1 } := by
  decide

theorem add_accumulates_into_receiver_witness :
    (ExprValue.add ValueEnv.simple (Scenario.int32_value 5)
        { type := PrimitiveType.INT8, u := 3 }).2 = { type := PrimitiveType.INT8, u := 3 } ∧
      (ExprValue.add ValueEnv.simple (Scenario.int32_value 5)
        { type := PrimitiveType.INT8, u := 3 }).1.integer_value = 8 := by
  have h := (add_accumulates_into_receiver ValueEnv.simple (Scenario.int32_value 5)
    { type := PrimitiveType.INT8, u := 3 }).1 rfl
  exact ⟨h.1, by rw [h.2.2.2]; decide⟩

/-- With a BOOL receiver `add` writes the sum to the member of the argument
(`value._u.bool_val += ...`): the receiver `false` stays `false` when `true` is
added, and an INT32 argument 5 is left holding 1. -/
theorem add_bool_receiver_writes_argument :
    ExprValue.add ValueEnv.simple { type := PrimitiveType.BOOL, u := 0 }
        { type := PrimitiveType.BOOL, u := 1 }
      = ({ type := PrimitiveType.BOOL, u := 0 }, { type := PrimitiveType.BOOL, u := 1 }) ∧
    ExprValue.add ValueEnv.simple { type := PrimitiveType.BOOL, u := 0 } (Scenario.int32_value 5)
      = ({ type := PrimitiveType.BOOL, u := 0 }, Scenario.int32_value 1) := by
  decide
theorem lookup_set_table_pb (table_id : Int) (schema : SchemaInfo) (m : List (Int × SchemaInfo))
    (t : Int) :
    (set_table_pb table_id schema m).lookup t
      = if t = table_id then (m.lookup t).map (fun _ => schema) else m.lookup t := by
  induction m with
  | nil => simp [set_table_pb]
  | cons kv rest ih =>
    obtain ⟨k, x⟩ := kv
    unfold set_table_pb
    by_cases hk : k = table_id
    · simp only [if_pos hk]
      by_cases ht : t = table_id
      · have hb : (t == k) = true := by simp [ht, hk]
        simp [List.lookup_cons, ht, hb]
        subst ht hk
        simp
      · have hb : (t == k) = false := by simpa [hk] using ht
        simp [List.lookup_cons, ht, hb]
    · simp only [if_neg hk]
      by_cases ht : t = k
      · have hb : (t == k) = true := by simp [ht]
        have hne : ¬ t = table_id := by rw [ht]; exact hk
        simp [List.lookup_cons, hb, hne]
      · have hb : (t == k) = false := by simpa using ht
        simp [List.lookup_cons, hb, ih]

theorem find_update_index_list (w : DdlWorkInfo) (l : List PbIndexInfo) (s : IndexState)
    (h : (l.find? (fun index => decide (index.index_id = w.index_id))).map
      (fun index => index.state) = some s)
    (hdel : w.deleted ≠ some true) :
    ((update_index_list w l).find? (fun index => decide (index.index_id = w.index_id))).map
      (fun index => index.state) = some w.job_state := by
  induction l with
  | nil => simp at h
  | cons x rest ih =>
    unfold update_index_list
    by_cases hx : w.index_id = x.index_id
    · rw [if_pos hx, if_neg hdel]
      simp [List.find?_cons, hx]
    · rw [if_neg hx]
      have hx2 : ¬ x.index_id = w.index_id := fun hc => hx hc.symm
      rw [List.find?_cons] at h ⊢
      simp only [hx2, decide_False] at h ⊢
      exact ih h

theorem get_index_state_update (tm : TableManager) (w : DdlWorkInfo) (s : IndexState)
    (h : tm.get_index_state w.table_id w.index_id = some s) (hdel : w.deleted ≠ some true) :
    (tm.update_index_status true w).get_index_state w.table_id w.index_id
      = some w.job_state := by
  unfold TableManager.get_index_state at h
  unfold TableManager.update_index_status TableManager.get_index_state
  cases hl : tm.table_info_map.lookup w.table_id with
  | none => rw [hl] at h; cases h
  | some schema =>
    rw [hl] at h
    simp only [if_true, lookup_set_table_pb, hl, Option.map_some']
    exact find_update_index_list w schema.indexs s h hdel

theorem update_index_status_not_written (tm : TableManager) (w : DdlWorkInfo) :
    tm.update_index_status false w = tm := by
  unfold TableManager.update_index_status
  split <;> simp

theorem process_ddl_update_job_index_spec (ok : Bool) (fin : MetaOp → IndexState → Bool)
    (tm : TableManager) (work : DdlWorkMem) (expected state : IndexState)
    (response : List DdlWorkInfo) :
    (work.region_ddl_infos.all (fun r => decide (r.2.workstate = expected)) = true →
      (tm.process_ddl_update_job_index ok fin work expected state response).2.meta_work
        = work.set_job_state state ∧
      (tm.process_ddl_update_job_index ok fin work expected state response).2.tm
        = tm.update_index_status ok (work.set_job_state state).work_info ∧
      ((tm.process_ddl_update_job_index ok fin work expected state response).1 = true ↔
        (fin work.work_info.op_type state = true ∨
          ((tm.update_index_status ok (work.set_job_state state).work_info).get_index_state
            work.table_id work.work_info.index_id).isSome = true))) ∧
    (work.region_ddl_infos.all (fun r => decide (r.2.workstate = expected)) = false →
      (tm.process_ddl_update_job_index ok fin work expected state response).1 = false ∧
      (tm.process_ddl_update_job_index ok fin work expected state response).2.meta_work = work ∧
      (tm.process_ddl_update_job_index ok fin work expected state response).2.tm = tm) := by
  refine ⟨fun hall => ?_, fun hall => ?_⟩
  · unfold TableManager.process_ddl_update_job_index
    simp only [hall, if_true, Bool.and_true]
    by_cases hf : fin work.work_info.op_type state = true
    · simp [hf, DdlWorkMem.set_job_state]
    · simp only [hf, Bool.false_eq_true, if_false, false_or]
      cases hg : (tm.update_index_status ok
          { work.work_info with job_state := state }).get_index_state work.table_id
          work.work_info.index_id with
      | none => simp [DdlWorkMem.set_job_state, hg]
      | some cur => simp [DdlWorkMem.set_job_state, hg]
  · unfold TableManager.process_ddl_update_job_index
    simp only [hall, Bool.false_eq_true, if_false, Bool.and_false]
    split <;> simp

theorem get_index_state_after_update (ok : Bool) (tm : TableManager) (w : DdlWorkInfo)
    (s : IndexState) (h : tm.get_index_state w.table_id w.index_id = some s)
    (hdel : w.deleted ≠ some true) :
    (tm.update_index_status ok w).get_index_state w.table_id w.index_id
      = some (if ok then w.job_state else s) := by
  cases ok with
  | true => simpa using get_index_state_update tm w s h hdel
  | false => rw [update_index_status_not_written]; simpa using h

/-- C26: the meta service advances a DDL job only on convergence.  For a job on
an index whose state the schema holds when the call is made, which both
callers check before they call (table_manager.cpp 142, 184), that names its
table and is not marked deleted, `process_ddl_update_job_index` sets the job
state to the next state, writes it to the index and returns true if every
region tracked for the job reports the expected state; if at least one
tracked region reports another state it leaves the job and the schemas
unchanged and returns false.  So it returns true if and only if every tracked
region reports the expected state. -/
theorem ddl_job_advances_on_convergence (ok : Bool) (fin : MetaOp → IndexState → Bool)
    (tm : TableManager) (work : DdlWorkMem) (expected state : IndexState)
    (response : List DdlWorkInfo) (s : IndexState)
    (hs : tm.get_index_state work.table_id work.work_info.index_id = some s)
    (htab : work.work_info.table_id = work.table_id)
    (hdel : work.work_info.deleted ≠ some true) :
    (work.region_ddl_infos.all (fun r => decide (r.2.workstate = expected)) = true →
      (tm.process_ddl_update_job_index ok fin work expected state response).1 = true ∧
      (tm.process_ddl_update_job_index ok fin work expected state response).2.meta_work
        = work.set_job_state state ∧
      (tm.process_ddl_update_job_index ok fin work expected state
          response).2.meta_work.work_info.job_state = state ∧
      (tm.process_ddl_update_job_index ok fin work expected state response).2.tm
        = tm.update_index_status ok (work.set_job_state state).work_info) ∧
    (work.region_ddl_infos.all (fun r => decide (r.2.workstate = expected)) = false →
      (tm.process_ddl_update_job_index ok fin work expected state response).1 = false ∧
      (tm.process_ddl_update_job_index ok fin work expected state response).2.meta_work = work ∧
      (tm.process_ddl_update_job_index ok fin work expected state response).2.tm = tm) ∧
    ((tm.process_ddl_update_job_index ok fin work expected state response).1 = true ↔
      work.region_ddl_infos.all (fun r => decide (r.2.workstate = expected)) = true) := by
  obtain ⟨h1, h2⟩ := process_ddl_update_job_index_spec ok fin tm work expected state response
  have hall_true : work.region_ddl_infos.all (fun r => decide (r.2.workstate = expected)) = true →
      (tm.process_ddl_update_job_index ok fin work expected state response).1 = true := by
    intro hall
    obtain ⟨_, _, hc⟩ := h1 hall
    refine hc.mpr (Or.inr ?_)
    have hw : (work.set_job_state state).work_info.table_id = work.table_id := htab
    have := get_index_state_after_update ok tm (work.set_job_state state).work_info s
      (by rw [hw]; exact hs) hdel
    rw [hw] at this
    have hi : (work.set_job_state state).work_info.index_id = work.work_info.index_id := rfl
    rw [hi] at this
    rw [this]
    rfl
  refine ⟨fun hall => ?_, h2, ⟨fun hret => ?_, hall_true⟩⟩
  · obtain ⟨ha, hb, _⟩ := h1 hall
    refine ⟨hall_true hall, ha, ?_, hb⟩
    rw [ha]
    rfl
  · by_contra hall
    have hf : work.region_ddl_infos.all (fun r => decide (r.2.workstate = expected)) = false := by
      simpa using hall
    rw [(h2 hf).1] at hret
    cases hret

theorem ddl_job_advances_on_convergence_witness :
    ((Scenario.meta_with_index IndexState.IS_NONE).process_ddl_update_job_index true
        ddlwork_is_finish (Scenario.ddl_job MetaOp.OP_ADD_INDEX IndexState.IS_NONE)
        IndexState.IS_NONE IndexState.IS_DELETE_ONLY []).1 = true ∧
    ((Scenario.meta_with_index IndexState.IS_NONE).process_ddl_update_job_index true
        ddlwork_is_finish (Scenario.ddl_job MetaOp.OP_ADD_INDEX IndexState.IS_NONE)
        IndexState.IS_NONE IndexState.IS_DELETE_ONLY []).2.meta_work.work_info.job_state
      = IndexState.IS_DELETE_ONLY ∧
    ((Scenario.meta_with_index IndexState.IS_NONE).process_ddl_update_job_index true
        ddlwork_is_finish
        (Scenario.ddl_job_lagging MetaOp.OP_ADD_INDEX IndexState.IS_NONE IndexState.IS_PUBLIC)
        IndexState.IS_NONE IndexState.IS_DELETE_ONLY []).1 = false :=
  ⟨((ddl_job_advances_on_convergence true ddlwork_is_finish
      (Scenario.meta_with_index IndexState.IS_NONE)
      (Scenario.ddl_job MetaOp.OP_ADD_INDEX IndexState.IS_NONE)
      IndexState.IS_NONE IndexState.IS_DELETE_ONLY [] IndexState.IS_NONE
      (by decide) rfl (by decide)).1 (by decide)).1,
   ((ddl_job_advances_on_convergence true ddlwork_is_finish
      (Scenario.meta_with_index IndexState.IS_NONE)
      (Scenario.ddl_job MetaOp.OP_ADD_INDEX IndexState.IS_NONE)
      IndexState.IS_NONE IndexState.IS_DELETE_ONLY [] IndexState.IS_NONE
      (by decide) rfl (by decide)).1 (by decide)).2.2.1,
   ((ddl_job_advances_on_convergence true ddlwork_is_finish
      (Scenario.meta_with_index IndexState.IS_NONE)
      (Scenario.ddl_job_lagging MetaOp.OP_ADD_INDEX IndexState.IS_NONE IndexState.IS_PUBLIC)
      IndexState.IS_NONE IndexState.IS_DELETE_ONLY [] IndexState.IS_NONE
      (by decide) rfl (by decide)).2.1 (by decide)).1⟩

theorem update_job_index_state (ok : Bool) (fin : MetaOp → IndexState → Bool)
    (tm : TableManager) (work : DdlWorkMem) (expected state : IndexState)
    (response : List DdlWorkInfo) (s : IndexState)
    (hs : tm.get_index_state work.table_id work.work_info.index_id = some s)
    (htab : work.work_info.table_id = work.table_id)
    (hdel : work.work_info.deleted ≠ some true) :
    (tm.process_ddl_update_job_index ok fin work expected state response).2.tm.get_index_state
        work.table_id work.work_info.index_id
      = some (if ok && work.all_regions_report expected then state else s) := by
  obtain ⟨h1, h2⟩ := process_ddl_update_job_index_spec ok fin tm work expected state response
  cases hall : work.region_ddl_infos.all (fun r => decide (r.2.workstate = expected)) with
  | true =>
    rw [(h1 hall).2.1]
    have hw : (work.set_job_state state).work_info.table_id = work.table_id := htab
    have := get_index_state_after_update ok tm (work.set_job_state state).work_info s
      (by rw [hw]; exact hs) hdel
    rw [hw] at this
    have hi : (work.set_job_state state).work_info.index_id = work.work_info.index_id := rfl
    rw [hi] at this
    rw [this]
    have hj : (work.set_job_state state).work_info.job_state = state := rfl
    simp [DdlWorkMem.all_regions_report, hall, hj]
  | false =>
    rw [(h2 hall).2.2, hs]
    simp [DdlWorkMem.all_regions_report, hall]

theorem add_index_process_state (ok : Bool) (fin : MetaOp → IndexState → Bool)
    (tm : TableManager) (work : DdlWorkMem) (response : List DdlWorkInfo) (s n : IndexState)
    (hs : tm.get_index_state work.table_id work.work_info.index_id = some s)
    (htab : work.work_info.table_id = work.table_id)
    (hdel : work.work_info.deleted ≠ some true)
    (hn : s.add_successor = some n ∨ (s = IndexState.IS_DELETE_LOCAL ∧ n = IndexState.IS_WRITE_ONLY)) :
    (tm.process_ddl_add_index_process ok fin response work).tm.get_index_state
        work.table_id work.work_info.index_id
      = some (if ok && work.all_regions_report s.add_expected then n else s) := by
  unfold TableManager.process_ddl_add_index_process
  rw [hs]
  have key := fun e st => update_job_index_state ok fin tm (work.set_job_state s) e st response s
    hs htab hdel
  have hr : ∀ e, (work.set_job_state s).all_regions_report e = work.all_regions_report e :=
    fun _ => rfl
  cases s
  case IS_WRITE_LOCAL =>
    have hn2 : n = IndexState.IS_PUBLIC := by
      rcases hn with h | h
      · simpa [IndexState.add_successor] using h.symm
      · cases h.1
    subst hn2
    simp only []
    have k := key IndexState.IS_PUBLIC IndexState.IS_PUBLIC
    rw [hr] at k
    have e : ∀ (c : Bool) (o : DdlOut) (t i : Int),
        (if c = true then
            { o with tm := o.tm.update_ddlwork_info o.meta_work.work_info MetaOp.OP_DELETE_DDLWORK }
          else o).tm.get_index_state t i = o.tm.get_index_state t i := by
      intro c o t i
      split <;> rfl
    exact (e _ _ _ _).trans k
  case IS_PUBLIC =>
    rcases hn with h | h
    · simp [IndexState.add_successor] at h
    · cases h.1
  all_goals
    have hn2 := hn
    simp [IndexState.add_successor] at hn2
    subst hn2
    simp only [hr] at key
    exact key _ _

theorem del_index_process_state (ok : Bool) (fin : MetaOp → IndexState → Bool)
    (tm : TableManager) (work : DdlWorkMem) (response : List DdlWorkInfo) (s n : IndexState)
    (hs : tm.get_index_state work.table_id work.work_info.index_id = some s)
    (htab : work.work_info.table_id = work.table_id)
    (hdel : work.work_info.deleted ≠ some true)
    (hn : (s.del_successor = some n ∧ s ≠ IndexState.IS_DELETE_LOCAL) ∨
      (s = IndexState.IS_WRITE_LOCAL ∧ n = IndexState.IS_WRITE_ONLY)) :
    (tm.process_ddl_del_index_process ok fin response work).tm.get_index_state
        work.table_id work.work_info.index_id
      = some (if ok && work.all_regions_report s.del_expected then n else s) := by
  unfold TableManager.process_ddl_del_index_process
  rw [hs]
  have key := fun e st => update_job_index_state ok fin tm (work.set_job_state s) e st response s
    hs htab hdel
  have hr : ∀ e, (work.set_job_state s).all_regions_report e = work.all_regions_report e :=
    fun _ => rfl
  cases s
  case IS_DELETE_LOCAL =>
    rcases hn with h | h
    · exact absurd rfl h.2
    · cases h.1
  case IS_NONE =>
    rcases hn with h | h
    · simp [IndexState.del_successor] at h
    · cases h.1
  all_goals
    have hn2 := hn
    simp [IndexState.del_successor] at hn2
    subst hn2
    simp only [hr] at key
    exact key _ _

theorem update_index_list_ids (w : DdlWorkInfo) (hdel : w.deleted ≠ some true)
    (l : List PbIndexInfo) :
    (update_index_list w l).map (fun index => index.index_id)
      = l.map (fun index => index.index_id) := by
  induction l with
  | nil => rfl
  | cons x rest ih =>
    unfold update_index_list
    by_cases hx : w.index_id = x.index_id
    · rw [if_pos hx, if_neg hdel]
      rfl
    · rw [if_neg hx]
      simp [ih]

theorem find_update_index_list_deleted (w : DdlWorkInfo) (hd : w.deleted = some true)
    (l : List PbIndexInfo) (hnd : (l.map (fun index => index.index_id)).Nodup) :
    (update_index_list w l).find? (fun index => decide (index.index_id = w.index_id)) = none := by
  induction l with
  | nil => rfl
  | cons x rest ih =>
    rw [List.map_cons, List.nodup_cons] at hnd
    unfold update_index_list
    by_cases hx : w.index_id = x.index_id
    · rw [if_pos hx, if_pos hd, List.find?_eq_none]
      intro y hy hyw
      apply hnd.1
      rw [List.mem_map]
      exact ⟨y, hy, by rw [← hx]; simpa using hyw⟩
    · rw [if_neg hx]
      have hx2 : ¬ x.index_id = w.index_id := fun hc => hx hc.symm
      rw [List.find?_cons]
      simp only [hx2, decide_False]
      exact ih hnd.2

theorem get_index_state_erase (tm : TableManager) (w : DdlWorkInfo)
    (hd : w.deleted = some true)
    (hnd : ∀ schema, tm.table_info_map.lookup w.table_id = some schema →
      (schema.indexs.map (fun index => index.index_id)).Nodup) :
    (tm.update_index_status true w).get_index_state w.table_id w.index_id = none := by
  unfold TableManager.update_index_status TableManager.get_index_state
  cases hl : tm.table_info_map.lookup w.table_id with
  | none => simp [hl]
  | some schema =>
    simp only [if_true, lookup_set_table_pb, hl, Option.map_some']
    simp only [SchemaInfo.update_index_status]
    rw [find_update_index_list_deleted w hd schema.indexs (hnd schema hl)]
    rfl

theorem update_index_status_nodup (ok : Bool) (tm : TableManager) (w : DdlWorkInfo)
    (hdel : w.deleted ≠ some true) (t : Int)
    (hnd : ∀ schema, tm.table_info_map.lookup t = some schema →
      (schema.indexs.map (fun index => index.index_id)).Nodup) :
    ∀ schema, (tm.update_index_status ok w).table_info_map.lookup t = some schema →
      (schema.indexs.map (fun index => index.index_id)).Nodup := by
  intro schema
  unfold TableManager.update_index_status
  cases hl : tm.table_info_map.lookup w.table_id with
  | none => exact hnd schema
  | some old =>
    cases ok with
    | false => exact hnd schema
    | true =>
      simp only [if_true, lookup_set_table_pb]
      by_cases ht : t = w.table_id
      · subst ht
        simp only [if_true, hl, Option.map_some', Option.some.injEq]
        intro he
        subst he
        simp only [SchemaInfo.update_index_status]
        rw [update_index_list_ids w hdel]
        exact hnd old hl
      · rw [if_neg ht]
        exact hnd schema

open IndexState in
theorem del_index_process_last (ok : Bool) (fin : MetaOp → IndexState → Bool)
    (tm : TableManager) (work : DdlWorkMem) (response : List DdlWorkInfo)
    (hs : tm.get_index_state work.table_id work.work_info.index_id = some IS_DELETE_LOCAL)
    (htab : work.work_info.table_id = work.table_id)
    (hdel : work.work_info.deleted ≠ some true)
    (hnd : ∀ schema, tm.table_info_map.lookup work.table_id = some schema →
      (schema.indexs.map (fun index => index.index_id)).Nodup) :
    (tm.process_ddl_del_index_process ok fin response work).tm.get_index_state
        work.table_id work.work_info.index_id
      = (if ok && work.all_regions_report IS_NONE then none else some IS_DELETE_LOCAL) ∧
    (tm.process_ddl_del_index_process ok fin response work).meta_work.work_info.job_state
      = (if work.all_regions_report IS_NONE then IS_NONE else IS_DELETE_LOCAL) := by
  unfold TableManager.process_ddl_del_index_process
  rw [hs]
  simp only []
  obtain ⟨h1, h2⟩ := process_ddl_update_job_index_spec ok fin tm
    (work.set_job_state IS_DELETE_LOCAL) IS_NONE IS_NONE response
  have hr : (work.set_job_state IS_DELETE_LOCAL).region_ddl_infos.all
      (fun r => decide (r.2.workstate = IS_NONE)) = work.all_regions_report IS_NONE := rfl
  rw [hr] at h1 h2
  cases hall : work.all_regions_report IS_NONE with
  | false =>
    obtain ⟨ha, hb, hc⟩ := h2 hall
    rw [ha]
    simp only [Bool.false_eq_true, if_false, Bool.and_false]
    rw [hb, hc]
    exact ⟨hs, rfl⟩
  | true =>
    obtain ⟨ha, hb, hc⟩ := h1 hall
    have hw : ((work.set_job_state IS_DELETE_LOCAL).set_job_state IS_NONE).work_info.table_id
        = work.table_id := htab
    have hafter := get_index_state_after_update ok tm
      ((work.set_job_state IS_DELETE_LOCAL).set_job_state IS_NONE).work_info IS_DELETE_LOCAL
      (by rw [hw]; exact hs) hdel
    rw [hw] at hafter
    have hflag : (tm.process_ddl_update_job_index ok fin (work.set_job_state IS_DELETE_LOCAL)
        IS_NONE IS_NONE response).1 = true := by
      rw [hc]
      right
      have hi : ((work.set_job_state IS_DELETE_LOCAL).set_job_state IS_NONE).work_info.index_id
          = (work.set_job_state IS_DELETE_LOCAL).work_info.index_id := rfl
      rw [hi] at hafter
      have ht : (work.set_job_state IS_DELETE_LOCAL).table_id = work.table_id := rfl
      rw [ht, hafter]
      rfl
    rw [hflag]
    simp only [if_true, Bool.and_true]
    rw [ha, hb]
    refine ⟨?_, rfl⟩
    cases ok with
    | false =>
      simp only [update_index_status_not_written, Bool.false_eq_true, if_false]
      exact hs
    | true =>
      simp only [if_true]
      have hnd2 := update_index_status_nodup true tm
        ((work.set_job_state IS_DELETE_LOCAL).set_job_state IS_NONE).work_info hdel
        work.table_id hnd
      have := get_index_state_erase
        ((tm.update_index_status true
          ((work.set_job_state IS_DELETE_LOCAL).set_job_state IS_NONE).work_info).update_ddlwork_info
          (((work.set_job_state IS_DELETE_LOCAL).set_job_state IS_NONE).set_deleted).work_info
          MetaOp.OP_DELETE_DDLWORK)
        (((work.set_job_state IS_DELETE_LOCAL).set_job_state IS_NONE).set_deleted).work_info
        rfl (by
          intro schema hl
          apply hnd2 schema
          have ht2 : (((work.set_job_state IS_DELETE_LOCAL).set_job_state
            IS_NONE).set_deleted).work_info.table_id = work.table_id := htab
          rw [ht2] at hl
          exact hl)
      have ht2 : (((work.set_job_state IS_DELETE_LOCAL).set_job_state
        IS_NONE).set_deleted).work_info.table_id = work.table_id := htab
      rw [ht2] at this
      exact this

open IndexState in
/-- C22 (amended): online DDL state moves one step at a time.  For a job that
is not marked deleted, names its own table in its work info and works on an
index the schema knows in state `s` (index ids of the table pairwise
distinct), one call of `process_ddl_add_index_process` leaves the index at `s`
or moves it to the state after `s` in NONE, DELETE_ONLY, WRITE_ONLY,
WRITE_LOCAL, PUBLIC, and from the off-line state DELETE_LOCAL to WRITE_ONLY;
it moves exactly when the schema write succeeds and every tracked region
reports `s` (PUBLIC when `s` is WRITE_LOCAL).  One call of
`process_ddl_del_index_process` leaves the index at `s` or moves it to the
state after `s` in PUBLIC, WRITE_ONLY, DELETE_ONLY, DELETE_LOCAL, and from the
off-line state WRITE_LOCAL to WRITE_ONLY; at DELETE_LOCAL, when every region
reports NONE, the job state becomes NONE and the index is erased from the
schema.  An ADD job starting at NONE reaches PUBLIC after exactly four
advances, and a DROP job starting at PUBLIC reaches the job state NONE after
exactly four advances. -/
theorem ddl_state_moves_one_step (ok : Bool) (fin : MetaOp → IndexState → Bool)
    (tm : TableManager) (work : DdlWorkMem) (response : List DdlWorkInfo) (s : IndexState)
    (hs : tm.get_index_state work.table_id work.work_info.index_id = some s)
    (htab : work.work_info.table_id = work.table_id)
    (hdel : work.work_info.deleted ≠ some true)
    (hnd : ∀ schema, tm.table_info_map.lookup work.table_id = some schema →
      (schema.indexs.map (fun index => index.index_id)).Nodup) :
    (∀ n, s.add_successor = some n →
      (tm.process_ddl_add_index_process ok fin response work).tm.get_index_state
          work.table_id work.work_info.index_id
        = some (if ok && work.all_regions_report s.add_expected then n else s)) ∧
    (s = IS_DELETE_LOCAL →
      (tm.process_ddl_add_index_process ok fin response work).tm.get_index_state
          work.table_id work.work_info.index_id
        = some (if ok && work.all_regions_report IS_DELETE_LOCAL then IS_WRITE_ONLY
                else IS_DELETE_LOCAL)) ∧
    (s = IS_PUBLIC →
      (tm.process_ddl_add_index_process ok fin response work).tm.get_index_state
          work.table_id work.work_info.index_id = some IS_PUBLIC) ∧
    (∀ n, s.del_successor = some n → s ≠ IS_DELETE_LOCAL →
      (tm.process_ddl_del_index_process ok fin response work).tm.get_index_state
          work.table_id work.work_info.index_id
        = some (if ok && work.all_regions_report s.del_expected then n else s)) ∧
    (s = IS_WRITE_LOCAL →
      (tm.process_ddl_del_index_process ok fin response work).tm.get_index_state
          work.table_id work.work_info.index_id
        = some (if ok && work.all_regions_report IS_WRITE_LOCAL then IS_WRITE_ONLY
                else IS_WRITE_LOCAL)) ∧
    (s = IS_DELETE_LOCAL →
      (tm.process_ddl_del_index_process ok fin response work).tm.get_index_state
          work.table_id work.work_info.index_id
        = (if ok && work.all_regions_report IS_NONE then none else some IS_DELETE_LOCAL) ∧
      (tm.process_ddl_del_index_process ok fin response work).meta_work.work_info.job_state
        = (if work.all_regions_report IS_NONE then IS_NONE else IS_DELETE_LOCAL)) ∧
    (Scenario.add_run [] = some IS_NONE ∧
      Scenario.add_run [IS_NONE] = some IS_DELETE_ONLY ∧
      Scenario.add_run [IS_NONE, IS_DELETE_ONLY] = some IS_WRITE_ONLY ∧
      Scenario.add_run [IS_NONE, IS_DELETE_ONLY, IS_WRITE_ONLY] = some IS_WRITE_LOCAL ∧
      Scenario.add_run [IS_NONE, IS_DELETE_ONLY, IS_WRITE_ONLY, IS_PUBLIC] = some IS_PUBLIC) ∧
    (Scenario.del_run [IS_PUBLIC] = (IS_WRITE_ONLY, some IS_WRITE_ONLY) ∧
      Scenario.del_run [IS_PUBLIC, IS_WRITE_ONLY] = (IS_DELETE_ONLY, some IS_DELETE_ONLY) ∧
      Scenario.del_run [IS_PUBLIC, IS_WRITE_ONLY, IS_DELETE_ONLY]
        = (IS_DELETE_LOCAL, some IS_DELETE_LOCAL) ∧
      Scenario.del_run [IS_PUBLIC, IS_WRITE_ONLY, IS_DELETE_ONLY, IS_NONE] = (IS_NONE, none)) := by
  refine ⟨fun n hn => add_index_process_state ok fin tm work response s n hs htab hdel (Or.inl hn),
    fun h => ?_, fun h => ?_,
    fun n hn hne => del_index_process_state ok fin tm work response s n hs htab hdel
      (Or.inl ⟨hn, hne⟩),
    fun h => ?_, fun h => ?_, by decide, by decide⟩
  · subst h
    exact add_index_process_state ok fin tm work response _ _ hs htab hdel (Or.inr ⟨rfl, rfl⟩)
  · subst h
    unfold TableManager.process_ddl_add_index_process
    rw [hs]
    exact hs
  · subst h
    exact del_index_process_state ok fin tm work response _ _ hs htab hdel (Or.inr ⟨rfl, rfl⟩)
  · subst h
    exact del_index_process_last ok fin tm work response hs htab hdel hnd

theorem ddl_state_moves_one_step_witness :
    ((Scenario.meta_with_index IndexState.IS_NONE).process_ddl_add_index_process true
        ddlwork_is_finish [] (Scenario.ddl_job MetaOp.OP_ADD_INDEX IndexState.IS_NONE)).tm.get_index_state
        5 9 = some IndexState.IS_DELETE_ONLY :=
  (ddl_state_moves_one_step true ddlwork_is_finish (Scenario.meta_with_index IndexState.IS_NONE)
    (Scenario.ddl_job MetaOp.OP_ADD_INDEX IndexState.IS_NONE) [] IndexState.IS_NONE
    (by decide) rfl (by decide)
    (by
      intro schema h
      have h2 : schema =
          { table_id := 5, table_name := "t", version := 1,
            indexs := [{ index_name := "primary", index_type := IndexType.I_PRIMARY,
                         index_id := 5, state := IndexState.IS_PUBLIC },
                       { index_name := "k", index_type := IndexType.I_KEY,
                         index_id := 9, state := IndexState.IS_NONE }] } :=
        (Option.some.inj h).symm
      subst h2
      decide)).1 IndexState.IS_DELETE_ONLY rfl

open IndexState in
/-- C22 (counterexample): an ADD job on an index the schema holds in the state
DELETE_LOCAL, with both regions reporting DELETE_LOCAL, moves the index to
WRITE_ONLY, and a DROP job on an index in the state WRITE_LOCAL moves it to
WRITE_ONLY; neither start state has a successor on the line of its job. -/
theorem add_job_leaves_delete_local_for_write_only :
    (Scenario.meta_with_index IS_DELETE_LOCAL).get_index_state 5 9 = some IS_DELETE_LOCAL ∧
    ((Scenario.meta_with_index IS_DELETE_LOCAL).process_ddl_add_index_process true
        ddlwork_is_finish [] (Scenario.ddl_job MetaOp.OP_ADD_INDEX IS_DELETE_LOCAL)).tm.get_index_state
        5 9 = some IS_WRITE_ONLY ∧
    IS_DELETE_LOCAL.add_successor = none ∧
    (Scenario.meta_with_index IS_WRITE_LOCAL).get_index_state 5 9 = some IS_WRITE_LOCAL ∧
    ((Scenario.meta_with_index IS_WRITE_LOCAL).process_ddl_del_index_process true
        ddlwork_is_finish [] (Scenario.ddl_job MetaOp.OP_DROP_INDEX IS_WRITE_LOCAL)).tm.get_index_state
        5 9 = some IS_WRITE_ONLY ∧
    IS_WRITE_LOCAL.del_successor = none := by
  decide

theorem int_mul_in_range (w : Nat) (a b : Int) (hw : 0 < w)
    (hlo : -((2 ^ (w - 1) : Nat) : Int) ≤ a * b) (hhi : a * b < ((2 ^ (w - 1) : Nat) : Int)) :
    int_mul w a b = a * b :=
  to_signed_wrap w (a * b) hw hlo hhi

theorem int_sub_in_range (w : Nat) (a b : Int) (hw : 0 < w)
    (hlo : -((2 ^ (w - 1) : Nat) : Int) ≤ a - b) (hhi : a - b < ((2 ^ (w - 1) : Nat) : Int)) :
    int_sub w a b = a - b :=
  to_signed_wrap w (a - b) hw hlo hhi

theorem int_abs_in_range (w : Nat) (a : Int) (hw : 0 < w)
    (hlo : -((2 ^ (w - 1) : Nat) : Int) < a) (hhi : a < ((2 ^ (w - 1) : Nat) : Int)) :
    int_abs w a = |a| := by
  unfold int_abs
  rw [Int.natCast_natAbs]
  apply to_signed_wrap w _ hw
  · have := abs_nonneg a
    have hp : (0 : Int) ≤ ((2 ^ (w - 1) : Nat) : Int) := by positivity
    omega
  · rw [abs_lt]
    exact ⟨hlo, hhi⟩

theorem snapshot_triggered_iff (flags : SnapshotFlags) (r : Region) :
    r.snapshot_triggered flags = true ↔
      (r.shutdown = false ∧ r.status = RegionStatus.IDLE ∧
        Region.snapshot_interval_threshold flags ≤ r.snapshot_time_cost ∧
        r.need_snapshot flags = true) := by
  unfold Region.snapshot_triggered Region.snapshot
  by_cases h1 : r.shutdown = true
  · simp [h1]
  · by_cases h2 : r.status = RegionStatus.IDLE
    · by_cases h3 : r.snapshot_time_cost < Region.snapshot_interval_threshold flags
      · simp [h1, h2, h3]
      · by_cases h4 : r.need_snapshot flags = true
        · simp [h1, h2, h3, h4, Region.emit]
          exact not_lt.mp h3
        · simp [h1, h2, h3, h4]
    · simp [h1, h2]

/-- Snapshot cadence while no product or difference leaves its integer type:
for an interval flag between 0 and 2147 seconds, `Region::snapshot` triggers a
consensus snapshot if and only if the region is not shut down, its status is
IDLE, at least `snapshot_interval_s` seconds have elapsed and one of the three
thresholds is exceeded. -/
theorem snapshot_cadence_in_range (flags : SnapshotFlags) (r : Region)
    (hint : 0 ≤ flags.snapshot_interval_s ∧ flags.snapshot_interval_s ≤ 2147)
    (hlog : -(2 ^ 63 : Int) ≤ r.applied_index - r.snapshot_index ∧
      r.applied_index - r.snapshot_index < 2 ^ 63)
    (hlines : -(2 ^ 63 : Int) < r.snapshot_num_table_lines - r.num_table_lines ∧
      r.snapshot_num_table_lines - r.num_table_lines < 2 ^ 63)
    (hcost : -(2 ^ 63 : Int) ≤ (r.applied_index - r.snapshot_index) * r.average_cost ∧
      (r.applied_index - r.snapshot_index) * r.average_cost < 2 ^ 63)
    (hexec : 0 ≤ flags.snapshot_log_exec_time_s ∧
      flags.snapshot_log_exec_time_s * 1000000 < 2 ^ 63) :
    r.snapshot_triggered flags = true ↔
      (r.shutdown = false ∧ r.status = RegionStatus.IDLE ∧
        flags.snapshot_interval_s * 1000000 ≤ r.snapshot_time_cost ∧
        (r.applied_index - r.snapshot_index > flags.snapshot_diff_logs ∨
          |r.snapshot_num_table_lines - r.num_table_lines| > flags.snapshot_diff_lines ∨
          (r.applied_index - r.snapshot_index) * r.average_cost
            > flags.snapshot_log_exec_time_s * 1000000)) := by
  have e63 : (((2 ^ (64 - 1) : Nat)) : Int) = 2 ^ 63 := by norm_num
  have e31 : (((2 ^ (32 - 1) : Nat)) : Int) = 2147483648 := by norm_num
  have p63 : (2 : Int) ^ 63 = 9223372036854775808 := by norm_num
  rw [p63] at hlog hlines hcost hexec
  have t1 : int_mul 32 flags.snapshot_interval_s 1000 = flags.snapshot_interval_s * 1000 :=
    int_mul_in_range 32 _ _ (by norm_num) (by rw [e31]; omega) (by rw [e31]; omega)
  have t2 : Region.snapshot_interval_threshold flags = flags.snapshot_interval_s * 1000000 := by
    unfold Region.snapshot_interval_threshold
    rw [t1, int_mul_in_range 32 _ _ (by norm_num) (by rw [e31]; omega) (by rw [e31]; omega)]
    ring
  have s1 : int_sub 64 r.applied_index r.snapshot_index = r.applied_index - r.snapshot_index :=
    int_sub_in_range 64 _ _ (by norm_num) (by rw [e63, p63]; omega) (by rw [e63, p63]; omega)
  have s2 : int_sub 64 r.snapshot_num_table_lines r.num_table_lines
      = r.snapshot_num_table_lines - r.num_table_lines :=
    int_sub_in_range 64 _ _ (by norm_num) (by rw [e63, p63]; omega) (by rw [e63, p63]; omega)
  have s3 : int_abs 64 (r.snapshot_num_table_lines - r.num_table_lines)
      = |r.snapshot_num_table_lines - r.num_table_lines| :=
    int_abs_in_range 64 _ (by norm_num) (by rw [e63, p63]; omega) (by rw [e63, p63]; omega)
  have s4 : int_mul 64 (r.applied_index - r.snapshot_index) r.average_cost
      = (r.applied_index - r.snapshot_index) * r.average_cost :=
    int_mul_in_range 64 _ _ (by norm_num) (by rw [e63, p63]; omega) (by rw [e63, p63]; omega)
  have s5 : int_mul 64 flags.snapshot_log_exec_time_s 1000
      = flags.snapshot_log_exec_time_s * 1000 :=
    int_mul_in_range 64 _ _ (by norm_num) (by rw [e63, p63]; omega) (by rw [e63, p63]; omega)
  have s6 : int_mul 64 (flags.snapshot_log_exec_time_s * 1000) 1000
      = flags.snapshot_log_exec_time_s * 1000000 := by
    rw [int_mul_in_range 64 _ _ (by norm_num) (by rw [e63, p63]; omega) (by rw [e63, p63]; omega)]
    ring
  rw [snapshot_triggered_iff, t2]
  unfold Region.need_snapshot
  rw [s1, s2, s3, s4, s5, s6]
  constructor
  · rintro ⟨a, b, c, d⟩
    refine ⟨a, b, c, ?_⟩
    by_contra hne
    push_neg at hne
    obtain ⟨n1, n2, n3⟩ := hne
    rw [if_neg (not_lt.mpr n1), if_neg (not_lt.mpr n2), if_neg (not_lt.mpr n3)] at d
    cases d
  · rintro ⟨a, b, c, d⟩
    refine ⟨a, b, c, ?_⟩
    split_ifs with g1 g2 g3
    · rfl
    · rfl
    · rfl
    · rcases d with d | d | d
      · exact absurd d g1
      · exact absurd d g2
      · exact absurd d g3

theorem snapshot_cadence_in_range_witness :
    Scenario.due_snapshot_region.snapshot_triggered {} = true :=
  (snapshot_cadence_in_range {} Scenario.due_snapshot_region (by decide) (by decide) (by decide)
    (by decide) (by decide)).mpr (by decide)

/-- C23 (failing input): with `snapshot_interval_s` set to 3000 seconds the
threshold `FLAGS_snapshot_interval_s * 1000 * 1000`, computed in 32 bits, is
-1294967296, so the interval test lets every call pass: an idle region that is
5000 log entries ahead of its last snapshot triggers a consensus snapshot one
second after that snapshot, 2999 seconds before the interval has elapsed.
With the default interval of 600 seconds the same call triggers nothing. -/
theorem snapshot_before_long_interval_elapsed :
    Region.snapshot_interval_threshold Scenario.long_interval_flags = -1294967296 ∧
    Scenario.fresh_snapshot_region.snapshot_time_cost
      < Scenario.long_interval_flags.snapshot_interval_s * 1000000 ∧
    (Scenario.fresh_snapshot_region.snapshot Scenario.long_interval_flags).effects
      = [Effect.node_snapshot] ∧
    (Scenario.fresh_snapshot_region.snapshot {}).effects = [] := by
  decide

theorem get_log_entry_loop_data_run (r : Region) (expected_term : Int) (log : List RaftLogEntry) :
    ∀ (start_index : Int) (requests : List StoreReq),
      data_run expected_term start_index log = true →
      r.get_log_entry_loop expected_term log start_index requests
        = ⟨false, requests ++ (data_requests log).map r.split_log_request,
            start_index + log.length⟩ := by
  induction log with
  | nil =>
    intro start_index requests _
    simp [Region.get_log_entry_loop, data_requests]
  | cons entry rest ih =>
    intro start_index requests h
    unfold data_run at h
    simp only [Bool.and_eq_true, decide_eq_true_eq] at h
    obtain ⟨⟨⟨⟨hidx, hterm⟩, hdata⟩, hreq⟩, hrest⟩ := h
    unfold Region.get_log_entry_loop
    cases hs : entry.store_req with
    | none => rw [hs] at hreq; cases hreq
    | some store_req =>
      rw [hs] at hreq
      have hreq2 : store_req.op_type.is_split_log_op = true := hreq
      simp only [hreq2, hidx, hterm, hdata, hreq, ne_eq, not_true_eq_false, if_false, Bool.not_true,
        Bool.false_eq_true]
      rw [ih (start_index + 1) _ hrest]
      simp only [data_requests, List.filterMap_cons, hdata, hs, if_true, List.map_cons,
        List.append_assoc, List.singleton_append, List.length_cons, Nat.cast_add, Nat.cast_one]
      rw [add_assoc, add_comm (1 : Int)]

/-- Log catch-up over data entries: for every run of entries with consecutive
indexes from `split_start_index` on that all carry the expected term and are
data entries of an accepted operation type, `get_log_entry_for_split` returns
0, appends one rewritten request per entry in log order and sets
`split_end_index` to the index of the last entry of the run. -/
theorem get_log_entry_for_split_data_run (r : Region) (log : List RaftLogEntry)
    (split_start_index expected_term : Int) (requests : List StoreReq) (split_end_index : Int)
    (h : data_run expected_term split_start_index log = true) :
    r.get_log_entry_for_split log split_start_index expected_term requests split_end_index
      = (0, requests ++ (data_requests log).map r.split_log_request,
          split_start_index + log.length - 1) := by
  unfold Region.get_log_entry_for_split
  rw [get_log_entry_loop_data_run r expected_term log split_start_index requests h]
  simp

theorem get_log_entry_for_split_data_run_witness :
    Scenario.catch_up_parent.get_log_entry_for_split Scenario.log_of_data 10 3 [] 0
      = (0, [] ++ (data_requests Scenario.log_of_data).map
          Scenario.catch_up_parent.split_log_request,
          10 + (Scenario.log_of_data.length : Int) - 1) :=
  get_log_entry_for_split_data_run Scenario.catch_up_parent Scenario.log_of_data 10 3 [] 0
    (by decide)

/-- C29 (failing input): a log of term 3 from index 10 on that holds an INSERT
at 10, a configuration entry at 11 and a KV batch at 12.  The configuration
entry is passed over without advancing `start_index`, so the entry at 12 is
taken for a gap: the function returns -1 with the request of entry 10 only and
leaves `split_end_index` at its old value 0, where the claim has it return 0
with two requests and `split_end_index` 12.  Without the configuration entry
the same two data entries are returned with `split_end_index` 11. -/
theorem configuration_entry_breaks_log_catch_up :
    Scenario.catch_up_parent.get_log_entry_for_split Scenario.log_with_configuration 10 3 [] 0
      = (-1, [{ op_type := OpType.OP_INSERT, region_id := 2, region_version := 0 }], 0) ∧
    Scenario.catch_up_parent.get_log_entry_for_split
        (Scenario.log_with_configuration.take 2) 10 3 [] 0
      = (0, [{ op_type := OpType.OP_INSERT, region_id := 2, region_version := 0 }], 10) ∧
    Scenario.catch_up_parent.get_log_entry_for_split Scenario.log_of_data 10 3 [] 0
      = (0, [{ op_type := OpType.OP_INSERT, region_id := 2, region_version := 0 },
             { op_type := OpType.OP_KV_BATCH_SPLIT, region_id := 2, region_version := 0 }], 11) := by
  decide

theorem backfill_fail_is_success (st : BackfillState) (errcode : ErrCode) :
    (st.fail errcode).is_success = false := rfl

theorem backfill_emit_is_success (st : BackfillState) (e : DdlEffect) :
    (st.emit e).is_success = st.is_success := rfl

theorem backfill_switch_keeps_failure (index_type : IndexType) (row : BackfillRow)
    (st : BackfillState) (h : st.is_success = false) :
    (backfill_switch index_type row st).is_success = false := by
  unfold backfill_switch
  cases index_type <;> simp only [] <;> (try exact h) <;> split_ifs <;>
    first
      | exact h
      | rfl

/-- Once `is_success` is false no later row sets it back. -/
theorem backfill_loop_keeps_failure (index_type : IndexType) (rows : List BackfillRow) :
    ∀ st : BackfillState, st.is_success = false →
      (backfill_loop index_type rows st).is_success = false := by
  induction rows with
  | nil => intro st h; exact h
  | cons row rest ih =>
    intro st h
    unfold backfill_loop
    simp only []
    split_ifs
    · rfl
    · rfl
    · exact ih _ h
    · rfl
    · exact ih _ (backfill_switch_keeps_failure _ _ _ h)
    · rfl

/-- After a UNIQUE violation at a row whose transaction commits, the row loop
goes on with the rows that follow: the violation is reported, the transaction
of the row is committed and counted as a success, and `is_success` is false. -/
theorem backfill_goes_on_after_unique_violation (row : BackfillRow) (rest : List BackfillRow)
    (st : BackfillState) (hjob : st.ddl.job_replaced = false)
    (hv : row.unique_violation = true) (hc : row.commit_status = CommitStatus.ok) :
    backfill_loop IndexType.I_UNIQ (row :: rest) st
      = backfill_loop IndexType.I_UNIQ rest
          { ((({ st with all_num := st.all_num + 1 }.emit (DdlEffect.txn_begin row.pk)).fail
                ErrCode.DDL_UNIQUE_KEY_FAIL).emit (DdlEffect.txn_commit row.pk)) with
            success_num := st.success_num + 1 } := by
  unfold BackfillRow.unique_violation at hv
  simp only [Bool.and_eq_true, decide_eq_true_eq] at hv
  obtain ⟨⟨⟨h1, h2⟩, h3⟩, h4⟩ := hv
  conv_lhs => rw [backfill_loop]
  simp only [hjob, Bool.false_eq_true, if_false, h1, h2, ne_eq, not_true_eq_false, hc, if_true]
  have hneg : ¬ ((0 : Int) = -3 ∨ (0 : Int) = -2) := by decide
  rw [if_neg hneg]
  have hsw : backfill_switch IndexType.I_UNIQ row
      ({ st with all_num := st.all_num + 1 }.emit (DdlEffect.txn_begin row.pk))
      = ({ st with all_num := st.all_num + 1 }.emit (DdlEffect.txn_begin row.pk)).fail
          ErrCode.DDL_UNIQUE_KEY_FAIL := by
    unfold backfill_switch
    simp only [h3, true_and]
    rw [if_pos h4]
  rw [hsw]
  rfl

theorem backfill_goes_on_after_unique_violation_witness :
    backfill_loop IndexType.I_UNIQ Scenario.violating_rows { ddl := Scenario.backfill_ddl }
      = backfill_loop IndexType.I_UNIQ [{ pk := [3] }]
          { (((({ ddl := Scenario.backfill_ddl } : BackfillState).emit
               (DdlEffect.txn_begin [1])).fail ErrCode.DDL_UNIQUE_KEY_FAIL).emit
               (DdlEffect.txn_commit [1])) with
            success_num := 1, all_num := 1 } :=
  backfill_goes_on_after_unique_violation
    { pk := [1], get_update_secondary_ret := 0, exist_pk_val := [2] } [{ pk := [3] }]
    { ddl := Scenario.backfill_ddl }
    (by decide) (by decide) rfl

/-- C27 (failing input): the backfill of the UNIQUE index 9 over two rows, the
first of which has an entry of the index that points to another primary key.
The violation is reported as DDL_UNIQUE_KEY_FAIL and the job state is not set
to PUBLIC, but the `break` that follows the report leaves the `switch` only:
the transaction of the first row is committed and the second row is processed,
its index entry written and committed.  The claim has no later row processed;
the last line shows the backfill of two rows without a violation. -/
theorem unique_violation_does_not_stop_backfill :
    (Scenario.violating_rows.head?.map BackfillRow.unique_violation) = some true ∧
    (Scenario.applied_region.write_local_rocksdb_for_ddl Scenario.backfill_ddl IndexType.I_UNIQ
        true Scenario.violating_rows).2.journal
      = [DdlEffect.txn_begin [1], DdlEffect.ddlwork_rollback ErrCode.DDL_UNIQUE_KEY_FAIL,
         DdlEffect.txn_commit [1], DdlEffect.txn_begin [3], DdlEffect.put_secondary [3],
         DdlEffect.txn_commit [3]] ∧
    (Scenario.applied_region.write_local_rocksdb_for_ddl Scenario.backfill_ddl IndexType.I_UNIQ
        true Scenario.violating_rows).2.ddlwork_infos.map
        (fun info => (info.job_state, info.rollback, info.errcode))
      = [(IndexState.IS_WRITE_LOCAL, true, some ErrCode.DDL_UNIQUE_KEY_FAIL)] ∧
    (Scenario.applied_region.write_local_rocksdb_for_ddl Scenario.backfill_ddl IndexType.I_UNIQ
        true Scenario.clean_rows).2.ddlwork_infos.map
        (fun info => (info.job_state, info.rollback, info.errcode))
      = [(IndexState.IS_PUBLIC, false, none)] := by
  decide

theorem range_scan_fold (ranges : List PossibleRange) :
    ∀ st : RangeScan,
      (ranges.foldl range_scan_step st).is_eq
          = (st.is_eq && ranges.all PossibleRange.closed_equal) ∧
        (ranges.foldl range_scan_step st).left_field_cnts
          = st.left_field_cnts ++ ranges.map (fun range => range.left_field_cnt.getD 0) ∧
        RangeScan.like_prefix (ranges.foldl range_scan_step st)
          = (match ranges.getLast? with
             | some range => PossibleRange.like_prefix range
             | none => RangeScan.like_prefix st) := by
  induction ranges with
  | nil => intro st; simp
  | cons range rest ih =>
    intro st
    rw [List.foldl_cons]
    obtain ⟨h1, h2, h3⟩ := ih (range_scan_step st range)
    refine ⟨?_, ?_, ?_⟩
    · rw [h1, List.all_cons]
      have : (range_scan_step st range).is_eq = (st.is_eq && range.closed_equal) := by
        unfold range_scan_step PossibleRange.closed_equal
        by_cases ha : range.left_pb_record = range.right_pb_record <;>
          by_cases hb : range.left_field_cnt.getD 0 = range.right_field_cnt.getD 0 <;>
          cases range.left_open <;> cases range.right_open <;> cases st.is_eq <;>
          simp [ha, hb]
      rw [this, Bool.and_assoc]
    · rw [h2]
      simp [range_scan_step]
    · rw [h3]
      cases rest with
      | nil => simp [range_scan_step]
      | cons r2 rest2 =>
        rw [List.getLast?_cons_cons]
        cases hl : (r2 :: rest2).getLast? with
        | none => simp at hl
        | some last => rfl

/-- What `_use_get` being set tells about the ranges: the index is PRIMARY or
UNIQUE, every range has equal records, equal counts and no open bound, the
range at `_idx` constrains every field of the index, and the last range is not
a like-prefix. -/
theorem use_get_only_if (index_info : IndexInfo) (pos_index : PossibleIndex) (idx : Nat)
    (h : choose_index_use_get index_info pos_index idx = some true) :
    (index_info.type = IndexType.I_PRIMARY ∨ index_info.type = IndexType.I_UNIQ) ∧
      pos_index.ranges.all PossibleRange.closed_equal = true ∧
      (pos_index.ranges.get? idx).map (fun range => range.left_field_cnt.getD 0)
        = some (index_info.fields.length : Int) ∧
      pos_index.ranges.getLast?.map (fun range => PossibleRange.like_prefix range) = some false := by
  unfold choose_index_use_get at h
  obtain ⟨h1, h2, h3⟩ := range_scan_fold pos_index.ranges {}
  by_cases hlen : pos_index.ranges.length = 0
  · rw [if_pos hlen] at h
    cases h
  · rw [if_neg hlen] at h
    by_cases htype : index_info.type = IndexType.I_PRIMARY ∨ index_info.type = IndexType.I_UNIQ
    · simp only [htype, if_true] at h
      rw [h2] at h
      simp only [List.nil_append, List.get?_eq_getElem?, List.getElem?_map] at h
      cases hr : pos_index.ranges[idx]? with
      | none => rw [hr] at h; simp at h
      | some range =>
        rw [hr] at h
        simp only [Option.map_some'] at h
        by_cases hc : range.left_field_cnt.getD 0 = (index_info.fields.length : Int) ∧
            (pos_index.ranges.foldl range_scan_step {}).is_eq = true ∧
            RangeScan.like_prefix (pos_index.ranges.foldl range_scan_step {}) = false
        · obtain ⟨hc1, hc2, hc3⟩ := hc
          rw [h1] at hc2
          rw [h3] at hc3
          refine ⟨htype, by simpa using hc2, ?_, ?_⟩
          · simp [hr, hc1]
          · cases hl : pos_index.ranges.getLast? with
            | none =>
              rw [List.getLast?_eq_none_iff] at hl
              rw [hl] at hlen
              simp at hlen
            | some last =>
              rw [hl] at hc3
              simpa using hc3
        · rw [if_neg hc] at h
          cases h
    · rw [if_neg htype] at h
      cases h

theorem use_get_only_if_witness :
    (Scenario.two_field_primary.type = IndexType.I_PRIMARY ∨
        Scenario.two_field_primary.type = IndexType.I_UNIQ) ∧
      Scenario.single_full_key.ranges.all PossibleRange.closed_equal = true ∧
      (Scenario.single_full_key.ranges.get? 0).map (fun range => range.left_field_cnt.getD 0)
        = some (Scenario.two_field_primary.fields.length : Int) ∧
      Scenario.single_full_key.ranges.getLast?.map (fun range => PossibleRange.like_prefix range)
        = some false :=
  use_get_only_if Scenario.two_field_primary Scenario.single_full_key 0 (by decide)

/-- With one range and `_idx` at 0, `_use_get` is set exactly when the index is
PRIMARY or UNIQUE and the range is a single full-key match. -/
theorem use_get_single_range (index_info : IndexInfo) (index_id : Int) (range : PossibleRange)
    (has_sort_index : Bool) :
    choose_index_use_get index_info
        { index_id := index_id, ranges := [range], has_sort_index := has_sort_index } 0
      = some (decide (index_info.type = IndexType.I_PRIMARY ∨
            index_info.type = IndexType.I_UNIQ) &&
          range.full_key_match index_info.fields.length) := by
  unfold choose_index_use_get PossibleRange.full_key_match
  simp only [List.length_singleton, one_ne_zero, if_false, List.foldl_cons, List.foldl_nil]
  by_cases htype : index_info.type = IndexType.I_PRIMARY ∨ index_info.type = IndexType.I_UNIQ
  · simp only [htype, if_true, decide_True, Bool.true_and]
    simp only [range_scan_step, List.nil_append, List.get?_cons_zero]
    by_cases ha : range.left_pb_record = range.right_pb_record <;>
      by_cases hb : range.left_field_cnt.getD 0 = (index_info.fields.length : Int) <;>
      by_cases hc : range.right_field_cnt.getD 0 = (index_info.fields.length : Int) <;>
      cases hlo : range.left_open <;> cases hro : range.right_open <;>
      cases hlp : PossibleRange.like_prefix range <;>
      first
        | (simp [ha, hb, hc]; done)
        | (simp [ha, hb, hc]; exact fun he => hc he.symm)
  · simp [htype]

/-- C25 (failing input): a PRIMARY index over two fields with two ranges.  With
a full-key range followed by a range that constrains the first field only,
and with a like-prefix range followed by a full-key range, `choose_index`
sets `_use_get`: the field count is read for the range at `_idx` only and
`like_prefix` for the last range only.  In both cases one of the ranges is
not a single full-key match, where the claim has every range be one. -/
theorem use_get_set_with_partial_key_range :
    choose_index_use_get Scenario.two_field_primary Scenario.full_then_partial 0 = some true ∧
    Scenario.full_then_partial.ranges.map (fun range => range.full_key_match 2)
      = [true, false] ∧
    choose_index_use_get Scenario.two_field_primary Scenario.like_then_full 0 = some true ∧
    Scenario.like_then_full.ranges.map (fun range => range.full_key_match 2)
      = [false, true] ∧
    choose_index_use_get Scenario.two_field_primary Scenario.single_full_key 0 = some true := by
  decide

theorem alloc_index_loop_cons (table_info : SchemaInfo) (table_mem : TableMem)
    (index : PbIndexInfo) (rest : List PbIndexInfo) (st : AllocState) :
    (∃ st1, alloc_index_loop table_info table_mem (index :: rest) st
          = alloc_index_loop table_info table_mem rest st1 ∧
        alloc_step table_info table_mem index st st1) ∨
      (alloc_index_loop table_info table_mem (index :: rest) st = none ∧
        index.index_type = IndexType.I_PRIMARY ∧ index.field_names = [] ∧
        table_mem.whether_level_table = false ∧ table_info.partition_num ≠ 1) ∨
      (∃ out, alloc_index_loop table_info table_mem (index :: rest) st = some (-1, out)) := by
  rw [alloc_index_loop]
  simp only []
  by_cases hadd : (add_field_ids table_mem.field_id_map index.field_names index.field_ids).1 = true
  swap
  · right; right
    simp only [hadd, Bool.not_false, if_true, Bool.false_eq_true, AllocState.give_up]
    exact ⟨_, rfl⟩
  simp only [hadd, Bool.not_true, Bool.false_eq_true, if_false]
  by_cases hnone : index.index_type = IndexType.I_NONE
  · right; right
    simp only [hnone, if_true, AllocState.give_up]
    exact ⟨_, rfl⟩
  simp only [hnone, if_false]
  by_cases hprim : index.index_type = IndexType.I_PRIMARY
  swap
  · left
    rw [if_pos hprim]
    exact ⟨_, rfl, hadd, hnone, Or.inl ⟨hprim, rfl⟩⟩
  rw [if_neg (not_not.mpr hprim)]
  by_cases hhas : st.has_primary_key = true
  · right; right
    simp only [hhas, if_true, AllocState.give_up]
    exact ⟨_, rfl⟩
  have hhas2 : st.has_primary_key = false := by simpa using hhas
  simp only [hhas2, Bool.false_eq_true, if_false]
  by_cases hpart : (!table_mem.whether_level_table) = true ∧ table_info.partition_num ≠ 1
  swap
  · left
    rw [if_neg hpart]
    exact ⟨_, rfl, hadd, hnone, Or.inr ⟨hprim, hhas2, rfl⟩⟩
  rw [if_pos hpart]
  by_cases hlen : index.field_names.length > 1
  · right; right
    simp only [hlen, if_true, AllocState.give_up]
    exact ⟨_, rfl⟩
  simp only [hlen, if_false]
  cases hnames : index.field_names with
  | nil =>
    right; left
    exact ⟨rfl, hprim, rfl, by simpa using hpart.1, hpart.2⟩
  | cons primary_field others =>
    simp only []
    by_cases hauto : (table_info.fields.any
        (fun field => decide (field.field_name = primary_field) &&
          decide (field.auto_increment = false))) = true
    · right; right
      simp only [hauto, if_true, AllocState.give_up]
      exact ⟨_, rfl⟩
    · left
      simp only [hauto, if_false]
      refine ⟨_, rfl, hadd, hnone, Or.inr ⟨hprim, hhas2, ?_⟩⟩
      simp only [PbIndexInfo.allocated, hnames]

theorem alloc_index_loop_ret (table_info : SchemaInfo) (table_mem : TableMem)
    (rest : List PbIndexInfo) :
    ∀ (st : AllocState) (ret : Int) (out : AllocState),
      alloc_index_loop table_info table_mem rest st = some (ret, out) → ret = 0 ∨ ret = -1 := by
  induction rest with
  | nil =>
    intro st ret out h
    rw [alloc_index_loop] at h
    simp only [Option.some.injEq, Prod.mk.injEq] at h
    rw [← h.1]
    split_ifs
    · exact Or.inr rfl
    · exact Or.inl rfl
  | cons index rest ih =>
    intro st ret out h
    rcases alloc_index_loop_cons table_info table_mem index rest st with
      ⟨st1, he, _⟩ | ⟨he, _⟩ | ⟨o, he⟩
    · rw [he] at h
      exact ih st1 ret out h
    · rw [he] at h
      cases h
    · rw [he] at h
      simp only [Option.some.injEq, Prod.mk.injEq] at h
      exact Or.inr h.1.symm

theorem alloc_index_loop_total (table_info : SchemaInfo) (table_mem : TableMem)
    (rest : List PbIndexInfo) :
    ∀ (st : AllocState),
      (∀ index ∈ rest, index.index_type = IndexType.I_PRIMARY → index.field_names = [] →
        ¬ (table_mem.whether_level_table = false ∧ table_info.partition_num ≠ 1)) →
      ∃ out, alloc_index_loop table_info table_mem rest st = some out := by
  induction rest with
  | nil =>
    intro st _
    rw [alloc_index_loop]
    exact ⟨_, rfl⟩
  | cons index rest ih =>
    intro st hread
    rcases alloc_index_loop_cons table_info table_mem index rest st with
      ⟨st1, he, _⟩ | ⟨_, h1, h2, h3, h4⟩ | ⟨o, he⟩
    · rw [he]
      exact ih st1 (fun x hx => hread x (List.mem_cons_of_mem _ hx))
    · exact absurd ⟨h3, h4⟩ (hread index (List.mem_cons_self _ _) h1 h2)
    · exact ⟨_, he⟩

theorem allocated_index_type (index : PbIndexInfo) (m : List (String × Int)) (i : Int) :
    (index.allocated m i).index_type = index.index_type := rfl

theorem non_primary_cons_of_ne (x : PbIndexInfo) (l : List PbIndexInfo)
    (h : x.index_type ≠ IndexType.I_PRIMARY) : non_primary (x :: l) = x :: non_primary l := by
  simp [non_primary, List.filter_cons, h]

theorem non_primary_cons_of_eq (x : PbIndexInfo) (l : List PbIndexInfo)
    (h : x.index_type = IndexType.I_PRIMARY) : non_primary (x :: l) = non_primary l := by
  simp [non_primary, List.filter_cons, h]

theorem primary_cons_of_ne (x : PbIndexInfo) (l : List PbIndexInfo)
    (h : x.index_type ≠ IndexType.I_PRIMARY) : primary (x :: l) = primary l := by
  simp [primary, List.filter_cons, h]

theorem primary_cons_of_eq (x : PbIndexInfo) (l : List PbIndexInfo)
    (h : x.index_type = IndexType.I_PRIMARY) : primary (x :: l) = x :: primary l := by
  simp [primary, List.filter_cons, h]

/-- What a return of 0 tells about the indexes the loop went over. -/
theorem alloc_index_loop_ok (table_info : SchemaInfo) (table_mem : TableMem)
    (rest : List PbIndexInfo) :
    ∀ (st out : AllocState),
      alloc_index_loop table_info table_mem rest st = some (0, out) →
      ∃ new, out.indexs = st.indexs ++ new ∧
        new.map (fun index => index.index_type) = rest.map (fun index => index.index_type) ∧
        (non_primary new).map (fun index => index.index_id)
          = consecutive_ids (st.max_table_id_tmp + 1) (non_primary rest).length ∧
        (∀ x ∈ primary new, x.index_id = table_info.table_id) ∧
        (∀ x ∈ new, x.state = IndexState.IS_PUBLIC) ∧
        (primary rest).length + (if st.has_primary_key then 1 else 0) = 1 ∧
        out.max_table_id_tmp = st.max_table_id_tmp + ((non_primary rest).length : Int) ∧
        (∀ index ∈ rest, index.index_type ≠ IndexType.I_NONE ∧
          (add_field_ids table_mem.field_id_map index.field_names index.field_ids).1 = true) := by
  induction rest with
  | nil =>
    intro st out h
    rw [alloc_index_loop] at h
    simp only [Option.some.injEq, Prod.mk.injEq] at h
    obtain ⟨h1, h2⟩ := h
    subst h2
    refine ⟨[], by simp, rfl, ?_, ?_, ?_, ?_, ?_, ?_⟩
    · simp [non_primary, consecutive_ids]
    · simp [primary]
    · simp
    · cases hp : st.has_primary_key with
      | true => simp [primary]
      | false => rw [hp] at h1; simp at h1
    · simp [non_primary]
    · simp
  | cons index rest ih =>
    intro st out h
    rcases alloc_index_loop_cons table_info table_mem index rest st with
      ⟨st1, he, hadd, hnone, hstep⟩ | ⟨he, _⟩ | ⟨o, he⟩
    · rw [he] at h
      obtain ⟨new, e1, e2, e3, e4, e5, e6, e7, e8⟩ := ih st1 out h
      rcases hstep with ⟨hnp, hst⟩ | ⟨hp, hhas, hst⟩
      · subst hst
        simp only [] at e1 e3 e6 e7
        refine ⟨index.allocated table_mem.field_id_map (st.max_table_id_tmp + 1) :: new,
          ?_, ?_, ?_, ?_, ?_, ?_, ?_, ?_⟩
        · rw [e1]; simp
        · simp [e2, allocated_index_type]
        · rw [non_primary_cons_of_ne _ _ (by rw [allocated_index_type]; exact hnp),
            non_primary_cons_of_ne _ _ hnp, List.map_cons, e3, List.length_cons, consecutive_ids]
          rfl
        · rw [primary_cons_of_ne _ _ (by rw [allocated_index_type]; exact hnp)]
          exact e4
        · intro x hx
          rcases List.mem_cons.mp hx with hx | hx
          · rw [hx]; rfl
          · exact e5 x hx
        · rw [primary_cons_of_ne _ _ hnp]
          exact e6
        · rw [e7, non_primary_cons_of_ne _ _ hnp, List.length_cons]
          push_cast
          ring
        · intro x hx
          rcases List.mem_cons.mp hx with hx | hx
          · rw [hx]; exact ⟨hnone, hadd⟩
          · exact e8 x hx
      · subst hst
        simp only [] at e1 e3 e6 e7
        refine ⟨index.allocated table_mem.field_id_map table_info.table_id :: new,
          ?_, ?_, ?_, ?_, ?_, ?_, ?_, ?_⟩
        · rw [e1]; simp
        · simp [e2, allocated_index_type]
        · rw [non_primary_cons_of_eq _ _ (by rw [allocated_index_type]; exact hp),
            non_primary_cons_of_eq _ _ hp, e3]
        · rw [primary_cons_of_eq _ _ (by rw [allocated_index_type]; exact hp)]
          intro x hx
          rcases List.mem_cons.mp hx with hx | hx
          · rw [hx]; rfl
          · exact e4 x hx
        · intro x hx
          rcases List.mem_cons.mp hx with hx | hx
          · rw [hx]; rfl
          · exact e5 x hx
        · rw [primary_cons_of_eq _ _ hp, hhas, List.length_cons]
          simp only [if_true] at e6
          simp only [Bool.false_eq_true, if_false]
          omega
        · rw [e7, non_primary_cons_of_eq _ _ hp]
        · intro x hx
          rcases List.mem_cons.mp hx with hx | hx
          · rw [hx]; exact ⟨hnone, hadd⟩
          · exact e8 x hx
    · rw [he] at h
      cases h
    · rw [he] at h
      simp only [Option.some.injEq, Prod.mk.injEq] at h
      exact absurd h.1 (by decide)

theorem add_field_ids_found (m : List (String × Int)) (names : List String) :
    ∀ ids : List Int, (add_field_ids m names ids).1 = true →
      ∀ name ∈ names, m.lookup name ≠ none := by
  induction names with
  | nil => intro ids _ name hn; cases hn
  | cons first rest ih =>
    intro ids h name hn
    rw [add_field_ids] at h
    cases hl : m.lookup first with
    | none => rw [hl] at h; cases h
    | some field_id =>
      rw [hl] at h
      rcases List.mem_cons.mp hn with hn | hn
      · rw [hn, hl]; exact Option.some_ne_none _
      · exact ih _ h name hn

theorem consecutive_ids_ge (n : Nat) : ∀ (first x : Int), x ∈ consecutive_ids first n → first ≤ x := by
  induction n with
  | zero => intro first x hx; cases hx
  | succ n ih =>
    intro first x hx
    rw [consecutive_ids] at hx
    rcases List.mem_cons.mp hx with hx | hx
    · exact le_of_eq hx.symm
    · have := ih (first + 1) x hx
      omega

theorem consecutive_ids_nodup (n : Nat) : ∀ first : Int, (consecutive_ids first n).Nodup := by
  induction n with
  | zero => intro first; exact List.nodup_nil
  | succ n ih =>
    intro first
    rw [consecutive_ids, List.nodup_cons]
    refine ⟨fun hmem => ?_, ih (first + 1)⟩
    have := consecutive_ids_ge n (first + 1) first hmem
    omega

theorem primary_length_of_types (a b : List PbIndexInfo)
    (h : a.map (fun index => index.index_type) = b.map (fun index => index.index_type)) :
    (primary a).length = (primary b).length := by
  induction a generalizing b with
  | nil =>
    cases b with
    | nil => rfl
    | cons y b => simp at h
  | cons x a ih =>
    cases b with
    | nil => simp at h
    | cons y b =>
      simp only [List.map_cons, List.cons.injEq] at h
      obtain ⟨hxy, hab⟩ := h
      by_cases hx : x.index_type = IndexType.I_PRIMARY
      · rw [primary_cons_of_eq _ _ hx, primary_cons_of_eq _ _ (hxy ▸ hx), List.length_cons,
          List.length_cons, ih b hab]
      · rw [primary_cons_of_ne _ _ hx, primary_cons_of_ne _ _ (hxy ▸ hx), ih b hab]

theorem index_ids_perm (l : List PbIndexInfo) :
    ((primary l).map (fun index => index.index_id) ++
        (non_primary l).map (fun index => index.index_id)).Perm
      (l.map (fun index => index.index_id)) := by
  rw [← List.map_append]
  apply List.Perm.map
  have h := List.filter_append_perm
    (fun index : PbIndexInfo => decide (index.index_type = IndexType.I_PRIMARY)) l
  have e : (fun index : PbIndexInfo => !decide (index.index_type = IndexType.I_PRIMARY))
      = (fun index : PbIndexInfo => decide (index.index_type ≠ IndexType.I_PRIMARY)) := by
    funext index
    simp
  rw [e] at h
  exact h

theorem index_ids_nodup (l : List PbIndexInfo) (table_id max_table_id_tmp : Int) (n : Nat)
    (hone : (primary l).length = 1)
    (hprimary : ∀ x ∈ primary l, x.index_id = table_id)
    (hother : (non_primary l).map (fun index => index.index_id)
      = consecutive_ids (max_table_id_tmp + 1) n)
    (hle : table_id ≤ max_table_id_tmp) :
    (l.map (fun index => index.index_id)).Nodup := by
  rw [← (index_ids_perm l).nodup_iff, List.nodup_append]
  refine ⟨?_, ?_, ?_⟩
  · cases hp : primary l with
    | nil => simp
    | cons x rest =>
      rw [hp] at hone
      cases rest with
      | nil => simp
      | cons y rest2 => simp at hone
  · rw [hother]
    exact consecutive_ids_nodup n _
  · intro i hi1 hi2
    rw [List.mem_map] at hi1
    obtain ⟨x, hx, hxi⟩ := hi1
    rw [hother] at hi2
    have h1 := consecutive_ids_ge n _ i hi2
    have h2 := hprimary x hx
    rw [hxi] at h2
    omega

theorem alloc_index_id_new_table :
    (alloc_index_id Scenario.new_table Scenario.new_table_mem 7).map
        (fun out => (out.ret, out.table_info.indexs.map (fun index => index.index_id),
          out.max_table_id_tmp))
      = some (0, [8, 7, 9], 9) := by
  decide

/-- C30: index ids allocated at table creation.  When `alloc_index_id` returns 0
the index types are as declared, the table has exactly one PRIMARY index and
its id is the table id, the indexes that are not PRIMARY hold the ids
`max_table_id_tmp + 1`, `max_table_id_tmp + 2`, ... in declaration order,
every index state is IS_PUBLIC, `max_table_id_tmp` has grown by the number of
indexes that are not PRIMARY and, for a table id not above the incoming
`max_table_id_tmp`, the index ids are pairwise distinct.  The function returns
0 or -1, and it returns -1 when there is no PRIMARY index, more than one, an
index of type I_NONE, or an index field name that is not in the field map of
the table.  It returns on every table on which it does not read the first
field name of a PRIMARY index without field names. -/
theorem alloc_index_id_unique_ids (table_info : SchemaInfo) (table_mem : TableMem)
    (max_table_id_tmp : Int) :
    (reads_missing_field_name table_info table_mem = false →
      ∃ out, alloc_index_id table_info table_mem max_table_id_tmp = some out) ∧
    (∀ out, alloc_index_id table_info table_mem max_table_id_tmp = some out →
      (out.ret = 0 ∨ out.ret = -1) ∧
      (out.ret = 0 →
        out.table_info.indexs.map (fun index => index.index_type)
          = table_info.indexs.map (fun index => index.index_type) ∧
        (primary out.table_info.indexs).length = 1 ∧
        (∀ x ∈ primary out.table_info.indexs, x.index_id = table_info.table_id) ∧
        (non_primary out.table_info.indexs).map (fun index => index.index_id)
          = consecutive_ids (max_table_id_tmp + 1) (non_primary table_info.indexs).length ∧
        (∀ x ∈ out.table_info.indexs, x.state = IndexState.IS_PUBLIC) ∧
        out.max_table_id_tmp
          = max_table_id_tmp + ((non_primary table_info.indexs).length : Int) ∧
        (table_info.table_id ≤ max_table_id_tmp →
          (out.table_info.indexs.map (fun index => index.index_id)).Nodup)) ∧
      (((primary table_info.indexs).length = 0 ∨ 1 < (primary table_info.indexs).length ∨
          (∃ index ∈ table_info.indexs, index.index_type = IndexType.I_NONE) ∨
          (∃ index ∈ table_info.indexs, ∃ name ∈ index.field_names,
            table_mem.field_id_map.lookup name = none)) →
        out.ret = -1)) := by
  have hok : ∀ out, alloc_index_id table_info table_mem max_table_id_tmp = some out →
      out.ret = 0 →
      ∃ st, alloc_index_loop table_info table_mem table_info.indexs
          { index_id_map := table_mem.index_id_map, max_table_id_tmp := max_table_id_tmp }
            = some (0, st) ∧ out.table_info.indexs = st.indexs ∧
          out.max_table_id_tmp = st.max_table_id_tmp := by
    intro out h hret
    unfold alloc_index_id at h
    rw [Option.map_eq_some'] at h
    obtain ⟨⟨r, st⟩, hl, hout⟩ := h
    subst hout
    simp only [] at hret
    subst hret
    exact ⟨st, hl, rfl, rfl⟩
  refine ⟨fun hread => ?_, fun out h => ⟨?_, fun hret => ?_, fun hbad => ?_⟩⟩
  · obtain ⟨o, ho⟩ := alloc_index_loop_total table_info table_mem table_info.indexs
      { index_id_map := table_mem.index_id_map, max_table_id_tmp := max_table_id_tmp }
      (by
        intro index hmem hp hn hc
        unfold reads_missing_field_name at hread
        have hany : table_info.indexs.any
            (fun index => decide (index.index_type = IndexType.I_PRIMARY) &&
              decide (index.field_names = [])) = true := by
          rw [List.any_eq_true]
          exact ⟨index, hmem, by simp [hp, hn]⟩
        simp [hc.1, hc.2, hany] at hread)
    unfold alloc_index_id
    rw [ho]
    exact ⟨_, rfl⟩
  · unfold alloc_index_id at h
    rw [Option.map_eq_some'] at h
    obtain ⟨⟨r, st⟩, hl, hout⟩ := h
    subst hout
    exact alloc_index_loop_ret table_info table_mem table_info.indexs _ r st hl
  · obtain ⟨st, hl, hi, hm⟩ := hok out h hret
    obtain ⟨new, e1, e2, e3, e4, e5, e6, e7, _⟩ :=
      alloc_index_loop_ok table_info table_mem table_info.indexs _ st hl
    simp only [List.nil_append, Bool.false_eq_true, if_false, add_zero] at e1 e3 e6 e7
    rw [hi, hm, e1]
    have hone : (primary new).length = 1 := by
      rw [primary_length_of_types new table_info.indexs e2]
      exact e6
    exact ⟨e2, hone, e4, e3, e5, e7,
      fun hle => index_ids_nodup new table_info.table_id max_table_id_tmp _ hone e4 e3 hle⟩
  · unfold alloc_index_id at h
    rw [Option.map_eq_some'] at h
    obtain ⟨⟨r, st⟩, hl, hout⟩ := h
    subst hout
    simp only []
    rcases alloc_index_loop_ret table_info table_mem table_info.indexs _ r st hl with hz | hm
    · subst hz
      exfalso
      obtain ⟨new, _, _, _, _, _, e6, _, e8⟩ :=
        alloc_index_loop_ok table_info table_mem table_info.indexs _ st hl
      simp only [Bool.false_eq_true, if_false, add_zero] at e6
      rcases hbad with hb | hb | ⟨index, hmem, hnone⟩ | ⟨index, hmem, name, hname, hlook⟩
      · omega
      · omega
      · exact (e8 index hmem).1 hnone
      · exact add_field_ids_found table_mem.field_id_map index.field_names index.field_ids
          (e8 index hmem).2 name hname hlook
    · exact hm

theorem alloc_index_id_unique_ids_witness :
    ∃ out, alloc_index_id Scenario.new_table Scenario.new_table_mem 7 = some out ∧
      out.ret = 0 ∧ (primary out.table_info.indexs).length = 1 ∧
      (non_primary out.table_info.indexs).map (fun index => index.index_id)
        = consecutive_ids (7 + 1) (non_primary Scenario.new_table.indexs).length ∧
      out.max_table_id_tmp = 7 + ((non_primary Scenario.new_table.indexs).length : Int) ∧
      (out.table_info.indexs.map (fun index => index.index_id)).Nodup := by
  obtain ⟨out, h⟩ :=
    (alloc_index_id_unique_ids Scenario.new_table Scenario.new_table_mem 7).1 (by decide)
  have hret : out.ret = 0 := by
    have hp := alloc_index_id_new_table
    rw [h] at hp
    simp only [Option.map_some', Option.some.injEq, Prod.mk.injEq] at hp
    exact hp.1
  have hspec :=
    ((alloc_index_id_unique_ids Scenario.new_table Scenario.new_table_mem 7).2 out h).2.1 hret
  exact ⟨out, h, hret, hspec.2.1, hspec.2.2.2.1, hspec.2.2.2.2.2.1,
    hspec.2.2.2.2.2.2 (by decide)⟩

end BaikalDB
